import Mathlib

/-!
# Verification development for the legacy MongoDB C driver (`src/mongo.c`)

A shallow embedding of the parts of `mongo.c` that frame messages, parse
replies, validate namespaces, iterate cursors, write documents, run commands,
connect to servers and replica sets and authenticate, followed by theorems
about them.

Conventions of the embedding:

* a C string is the `List Char` of its characters before the terminating NUL;
  dereferencing the position at the end of the list reads the NUL;
* a pointer into a string is the suffix of the list that starts there;
* raw memory and wire data are `List Nat`, one entry per byte;
* C `int` results and error codes are `Int`; the difference `limit - seen` of
  `mongo_cursor_get_more` and the result of `atoi` are reduced to the 32 bits
  of an `int` (`int32_wrap`);
* `check_mongo_object` (a signature assertion from `mongo.h`) is taken to pass;
* the headers `mongo.h`, `bson.h`, `env.h` and the files `bson.c`, `env_*.c` are
  not under `src/`: what the modelled functions use of them is modelled from
  the specification and marked so;
* the socket is an oracle script of read and write outcomes with a trace of the
  calls made, so a statement about every script covers every behaviour of the
  peer; the network is a list of coming connection attempts by address, each
  with the script of the server reached;
* the digest primitive of `md5.c` is a parameter of the functions that use it.
-/

namespace Mongo

/-! ## Constants of `mongo.h` -/

/-- Modelled from the spec: `mongo.h` is not under `src/`; `MONGO_OK` is the
success result of every operation. -/
def MONGO_OK : Int := 0

/-- Modelled from the spec: `mongo.h` is not under `src/`; `MONGO_ERROR` is
the generic failure result of every operation. -/
def MONGO_ERROR : Int := -1

/-- Modelled from the spec: enumerator of `mongo_error_t` (connection-level
conditions), numbered by its position in that enumeration of `mongo.h`. -/
def MONGO_CONN_SUCCESS : Int := 0

/-- Modelled from the spec: connection-level condition "transport I/O error". -/
def MONGO_IO_ERROR : Int := 7

/-- Modelled from the spec: connection-level condition "declared reply length
is corrupt". -/
def MONGO_READ_SIZE_ERROR : Int := 9

/-- Modelled from the spec: connection-level condition "namespace invalid". -/
def MONGO_NS_INVALID : Int := 12

/-- Modelled from the spec: connection-level condition "document invalid". -/
def MONGO_BSON_INVALID : Int := 13

/-- Modelled from the spec: connection-level condition "document not finished". -/
def MONGO_BSON_NOT_FINISHED : Int := 14

/-- Modelled from the spec: connection-level condition "document too large". -/
def MONGO_BSON_TOO_LARGE : Int := 15

/-- Modelled from the spec: size of the `errstr` and `lasterrstr` buffers of a
connection (`MONGO_ERR_LEN` of `mongo.h`). -/
def MONGO_ERR_LEN : Nat := 128

/-- Modelled from the spec: default negotiated maximum document size, 4 MiB. -/
def MONGO_DEFAULT_MAX_BSON_SIZE : Int := 4 * 1024 * 1024

/-- The largest value of a 32-bit signed integer (`INT32_MAX` of `stdint.h`). -/
def INT32_MAX : Nat := 2147483647

/-! ## Raw memory -/

/-- The C string held in a character buffer: the characters before the first NUL. -/
def cstr (buf : List Char) : List Char :=
  buf.takeWhile (fun c => c != Char.ofNat 0)

/-- Store one character at index `i` of a buffer.  A store past the end of the
buffer is kept visible: the buffer is extended up to that index. -/
def poke (buf : List Char) (i : Nat) (c : Char) : List Char :=
  if i < buf.length then buf.set i c
  else buf ++ List.replicate (i - buf.length) (Char.ofNat 0) ++ [c]

/-- The call `memcpy( dst, src, n )` on character buffers, `src` holding at
least `n` characters. -/
def memcpy (dst src : List Char) (n : Nat) : List Char :=
  src.take n ++ dst.drop n

/-! ## The transport (`env.h`) -/

/-- One scripted outcome of `mongo_env_read_socket`: whether the call returns
`MONGO_OK`, and the bytes found in the caller's buffer after the call (the
received bytes on success; on failure whatever the partially filled or
uninitialised buffer holds). -/
structure sock_read where
  ok : Bool
  buf : List Nat
deriving DecidableEq, Repr

/-- A call made on the transport, recorded in call order. -/
inductive sock_event where
  | wrote (bytes : List Nat) (ok : Bool)
  | read (len : Nat) (ok : Bool)
  | connect (host : List Char) (port : Int) (ok : Bool)
  | close
deriving DecidableEq, Repr

/-- Modelled from the spec: the platform socket of `env.h` (not under `src/`),
"consumed as a blocking byte-stream capability" with read-exact and write-exact.
The peer is an oracle: `reads` and `writes` give the outcome of each coming call
in order (a call beyond the script fails), and `trace` records the calls made. -/
structure mongo_sock where
  reads : List sock_read
  writes : List Bool
  trace : List sock_event
deriving DecidableEq, Repr

/-- The `bson` object of `bson.h`, restricted to the fields `mongo.c` reads:
the encoded bytes, the `finished` flag and the `err` bit field. -/
structure bson where
  data : List Nat
  finished : Bool
  err : Nat
deriving DecidableEq, Repr

/-- The object `mongo_write_concern` of `mongo.h`: the number of
acknowledging nodes `w`, the wait timeout, the journal and fsync flags, the
mode string (`none` for the null pointer) and the compiled command (`none` for
the null pointer). -/
structure mongo_write_concern where
  w : Int
  wtimeout : Int
  j : Int
  fsync : Int
  mode : Option (List Char)
  cmd : Option bson
deriving DecidableEq, Repr

/-- The object `mongo_host_port` of `mongo.h`: a host string and a port.  The
`next` link is the position in the list that holds the record. -/
structure mongo_host_port where
  host : List Char
  port : Int
deriving DecidableEq, Repr

/-- The object `mongo_replica_set` of `mongo.h`: the seeds, the discovered
members (`hosts`), the expected set name and the primary-confirmed flag.  Each
singly linked list is the list of its records in link order. -/
structure mongo_replica_set where
  seeds : List mongo_host_port
  hosts : List mongo_host_port
  name : List Char
  primary_connected : Bool
deriving DecidableEq, Repr

/-- What a server does on one connection: the outcomes of the reads and writes
made on that connection, in order. -/
structure net_server where
  reads : List sock_read
  writes : List Bool
deriving DecidableEq, Repr

/-- One coming connection attempt as the network decides it: the address, and
the server reached (`none` when the connect fails). -/
structure net_node where
  host : List Char
  port : Int
  server : Option net_server
deriving DecidableEq, Repr

/-- The connection object `mongo` of `mongo.h`, restricted to the fields the
modelled functions use.  The default write concern the connection points to is
held by value (`none` for the null pointer), and so are the primary address and
the replica-set context.  `rand` is ghost state: the values that the coming
calls of the C library function `rand()` return (0 once the list is used up);
it is kept here because every caller of `mongo_message_create` holds a
connection.  `net` is ghost state too: the outcomes of the coming connection
attempts, looked up by address. -/
structure mongo where
  sock : mongo_sock
  rand : List Int
  err : Int
  errcode : Int
  errstr : List Char
  lasterrcode : Int
  lasterrstr : List Char
  max_bson_size : Int
  write_concern : Option mongo_write_concern
  primary : Option mongo_host_port
  replica_set : Option mongo_replica_set
  connected : Bool
  net : List net_node
deriving DecidableEq, Repr

/-! ## Error state (`mongo.c` lines 137-160) -/

/-- The function `__mongo_set_error` (lines 137-151); `str = none` is a null
pointer. -/
def __mongo_set_error (conn : mongo) (err : Int) (str : Option (List Char))
    (errcode : Int) : mongo :=
  let conn := { conn with err := err, errcode := errcode }
  match str with
  | none => conn
  | some s =>
    let str_size := s.length + 1
    let errstr_size := if str_size > MONGO_ERR_LEN then MONGO_ERR_LEN else str_size
    let copied := memcpy conn.errstr (s ++ [Char.ofNat 0]) errstr_size
    { conn with errstr := poke copied errstr_size (Char.ofNat 0) }

/-- The function `mongo_clear_errors` (lines 153-160). -/
def mongo_clear_errors (conn : mongo) : mongo :=
  { conn with
    err := MONGO_CONN_SUCCESS
    errcode := 0
    lasterrcode := 0
    errstr := List.replicate MONGO_ERR_LEN (Char.ofNat 0) ++ conn.errstr.drop MONGO_ERR_LEN
    lasterrstr := List.replicate MONGO_ERR_LEN (Char.ofNat 0) ++ conn.lasterrstr.drop MONGO_ERR_LEN }

/-- A freshly zeroed connection on a given socket, as `mongo_init` leaves its
error state (lines 497-503), with no default write concern installed. -/
def mongo_zeroed (sock : mongo_sock) : mongo :=
  { sock := sock, rand := [], err := 0, errcode := 0
    errstr := List.replicate MONGO_ERR_LEN (Char.ofNat 0)
    lasterrcode := 0
    lasterrstr := List.replicate MONGO_ERR_LEN (Char.ofNat 0)
    max_bson_size := MONGO_DEFAULT_MAX_BSON_SIZE
    write_concern := none
    primary := none, replica_set := none, connected := false, net := [] }

/-! ## Namespace validation (`mongo.c` lines 179-282) -/

/-- Lines 196-201: advance `current` to one past the first `'.'`, or to the
terminator when there is none. -/
def ns_find_division : List Char → List Char
  | [] => []
  | c :: rest => if c = '.' then rest else ns_find_division rest

/-- Lines 227-241: walk the database name up to the `'.'`, counting its
characters in `ns_len`; `none` when a forbidden character is met.  The loop is
only entered when the string holds a `'.'`, so the terminator is never reached;
that case stops the walk. -/
def ns_validate_db : List Char → Nat → Option Nat
  | [], ns_len => some ns_len
  | c :: rest, ns_len =>
    if c = '.' then some ns_len
    else if c = ' ' ∨ c = '$' ∨ c = '/' ∨ c = '\\' then none
    else ns_validate_db rest (ns_len + 1)

/-- Lines 247-265: walk the collection name to the terminator; `last` is the
previously visited character (`none` for the null pointer).  The result is the
error message of the failed check, or the final `ns_len`.  The counter is a C
`int`; it never exceeds the length of the string, and it is counted exactly
here (signed overflow, undefined in C, would need a namespace of 2^31
characters). -/
def ns_validate_collection : List Char → Option Char → Nat → Except (List Char) Nat
  | [], _, ns_len => .ok ns_len
  | c :: rest, last, ns_len =>
    if last = some '.' ∧ c = '.' then
      .error "Collection may not contain two consecutive '.'".toList
    else if c = '$' then
      .error "Collection may not contain '$'".toList
    else ns_validate_collection rest (some c) (ns_len + 1)

/-- The function `mongo_validate_ns` (lines 179-282): the result code and the
connection afterwards. -/
def mongo_validate_ns (conn : mongo) (ns : List Char) : Int × mongo :=
  if ns.head? = some '.' then
    (MONGO_ERROR, __mongo_set_error conn MONGO_NS_INVALID
      (some "ns cannot start with a '.'.".toList) 0)
  else
    let current := ns_find_division ns
    if current.head? = some '.' then
      (MONGO_ERROR, __mongo_set_error conn MONGO_NS_INVALID
        (some "ns cannot start with a '.'.".toList) 0)
    else if current = [] then
      (MONGO_ERROR, __mongo_set_error conn MONGO_NS_INVALID
        (some "Collection name missing.".toList) 0)
    else
      let collection_name := current
      if ns.length - collection_name.length = 1 then
        (MONGO_ERROR, __mongo_set_error conn MONGO_NS_INVALID
          (some "Database name missing.".toList) 0)
      else
        match ns_validate_db ns 0 with
        | none =>
          (MONGO_ERROR, __mongo_set_error conn MONGO_NS_INVALID
            (some "Database name may not contain ' ', '$', '/', or '\\'".toList) 0)
        | some ns_len =>
          match ns_validate_collection collection_name none (ns_len + 1) with
          | .error msg =>
            (MONGO_ERROR, __mongo_set_error conn MONGO_NS_INVALID (some msg) 0)
          | .ok ns_len =>
            if ns_len > 128 then
              (MONGO_ERROR, __mongo_set_error conn MONGO_NS_INVALID
                (some ("Namespace too long; has ".toList ++ (Nat.repr ns_len).toList
                  ++ " but must <= 128.".toList)) 0)
            else if ns.getLast? = some '.' then
              (MONGO_ERROR, __mongo_set_error conn MONGO_NS_INVALID
                (some "Collection may not end with '.'".toList) 0)
            else (MONGO_OK, conn)

/-! ## Byte codec (`bson_little_endian32` / `bson_little_endian64` of `bson.h`) -/

/-- Modelled from the spec: `bson_little_endian32( out, &v )` of `bson.h` (not
under `src/`) used to store: the four bytes, least significant first, of the
two's-complement image of a 32-bit integer. -/
def le32_bytes (v : Int) : List Nat :=
  let u := (v % 4294967296).toNat
  [u % 256, u / 256 % 256, u / 65536 % 256, u / 16777216 % 256]

/-- Modelled from the spec: `bson_little_endian64( out, &v )` of `bson.h` used
to store a 64-bit integer, least significant byte first. -/
def le64_bytes (v : Int) : List Nat :=
  let u := (v % 18446744073709551616).toNat
  [u % 256, u / 256 % 256, u / 65536 % 256, u / 16777216 % 256,
   u / 4294967296 % 256, u / 1099511627776 % 256, u / 281474976710656 % 256,
   u / 72057594037927936 % 256]

/-- Modelled from the spec: `bson_little_endian32( &v, in )` of `bson.h` used to
load an `unsigned int` from the four bytes at the start of `b`. -/
def le32_unsigned (b : List Nat) : Nat :=
  b.getD 0 0 % 256 + 256 * (b.getD 1 0 % 256) + 65536 * (b.getD 2 0 % 256)
    + 16777216 * (b.getD 3 0 % 256)

/-- The C `int` with the same 32 bits as an `unsigned int`. -/
def int32_of_unsigned (u : Nat) : Int :=
  if u % 4294967296 < 2147483648 then ((u % 4294967296 : Nat) : Int)
  else ((u % 4294967296 : Nat) : Int) - 4294967296

/-- The value a C `int` holds after an arithmetic result `v`: the reading of
the low 32 bits of `v` as a two's complement number.  Inside the range of
`int` this is `v`; outside it signed overflow is undefined in C, and the model
takes the wraparound that the usual targets compute. -/
def int32_wrap (v : Int) : Int :=
  int32_of_unsigned (v % 4294967296).toNat

/-- Modelled from the spec: `bson_little_endian32( &v, in )` of `bson.h` used to
load an `int` from the four bytes at the start of `b`. -/
def le32_int (b : List Nat) : Int :=
  int32_of_unsigned (le32_unsigned b)

/-- Modelled from the spec: `bson_little_endian64( &v, in )` of `bson.h` used to
load an `int64_t` from the eight bytes at the start of `b`. -/
def le64_int (b : List Nat) : Int :=
  let u := le32_unsigned b + 4294967296 * le32_unsigned (b.drop 4)
  if u < 9223372036854775808 then (u : Int) else (u : Int) - 18446744073709551616

/-! ## Message framing (`mongo.c` lines 315-443) -/

/-- The wire header `mongo_header` of `mongo.h`: four C `int`s. -/
structure mongo_header where
  len : Int
  id : Int
  responseTo : Int
  op : Int
deriving DecidableEq, Repr

/-- An outbound `mongo_message`: the header in native form and the bytes of the
body that starts at `&mm->data`. -/
structure mongo_message where
  head : mongo_header
  data : List Nat
deriving DecidableEq, Repr

/-- The reply-specific fields `mongo_reply_fields` of `mongo.h`. -/
structure mongo_reply_fields where
  flag : Int
  cursorID : Int
  start : Int
  num : Int
deriving DecidableEq, Repr

/-- An inbound `mongo_reply`: header, fields, and the document bytes that start
at `&reply->objs`. -/
structure mongo_reply where
  head : mongo_header
  fields : mongo_reply_fields
  objs : List Nat
deriving DecidableEq, Repr

/-- Modelled from the spec: `sizeof( mongo_header )`, "Wire header (16 bytes)". -/
def sizeof_mongo_header : Nat := 16

/-- Modelled from the spec: `sizeof( mongo_reply_fields )`, "Reply-specific
fields (20 bytes)"; the structures of `mongo.h` are packed. -/
def sizeof_mongo_reply_fields : Nat := 20

/-- The contents of a `len`-byte buffer given the bytes an outcome supplies:
cut to `len`, zero-filled when short. -/
def fit (len : Nat) (buf : List Nat) : List Nat :=
  (buf ++ List.replicate (len - buf.length) 0).take len

/-- Modelled from the spec: `mongo_env_write_socket` of `env.h` (write-exact).
The next scripted outcome decides success; "any transport read/write failure
propagates as a connection-level I/O error". -/
def mongo_env_write_socket (conn : mongo) (bytes : List Nat) : Int × mongo :=
  let ok := conn.sock.writes.headD false
  let sock : mongo_sock :=
    { conn.sock with
      writes := conn.sock.writes.tail
      trace := conn.sock.trace ++ [sock_event.wrote bytes ok] }
  if ok then (MONGO_OK, { conn with sock := sock })
  else (MONGO_ERROR, { conn with sock := sock, err := MONGO_IO_ERROR })

/-- Modelled from the spec: `mongo_env_read_socket` of `env.h` (read-exact) on a
buffer of `len` bytes: result code, contents of the buffer after the call, and
the connection afterwards.  The next scripted outcome decides success. -/
def mongo_env_read_socket (conn : mongo) (len : Nat) : Int × List Nat × mongo :=
  let r := conn.sock.reads.headD ⟨false, []⟩
  let sock : mongo_sock :=
    { conn.sock with
      reads := conn.sock.reads.tail
      trace := conn.sock.trace ++ [sock_event.read len r.ok] }
  if r.ok then (MONGO_OK, fit len r.buf, { conn with sock := sock })
  else (MONGO_ERROR, fit len r.buf, { conn with sock := sock, err := MONGO_IO_ERROR })

/-- The function `mongo_message_create` (lines 315-332); `rand` is the value a
call of `rand()` returns.  `none` is the null pointer.  The body of the
allocated buffer is not initialised; it is modelled as zero bytes. -/
def mongo_message_create (rand : Int) (len : Nat) (id responseTo op : Int) :
    Option mongo_message :=
  if len ≥ INT32_MAX then none
  else
    let id := if id = 0 then rand else id
    some { head := { len := int32_of_unsigned len, id := id, responseTo := responseTo, op := op }
           data := List.replicate (len - sizeof_mongo_header) 0 }

/-- The function `mongo_connection_message_create` (lines 335-344). -/
def mongo_connection_message_create (conn : mongo) (rand : Int) (len : Nat)
    (id responseTo op : Int) : Option mongo_message × mongo :=
  match mongo_message_create rand len id responseTo op with
  | none => (none, { conn with err := MONGO_BSON_TOO_LARGE })
  | some mm => (some mm, conn)

/-- The 16 bytes of the local `head` that `mongo_message_send` fills at lines
362-365. -/
def header_wire (h : mongo_header) : List Nat :=
  le32_bytes h.len ++ le32_bytes h.id ++ le32_bytes h.responseTo ++ le32_bytes h.op

/-- The function `mongo_message_send` (lines 358-381).  The second write takes
`mm->head.len - sizeof( head )` bytes, computed in `size_t`, from the body. -/
def mongo_message_send (conn : mongo) (mm : mongo_message) : Int × mongo :=
  let head := header_wire mm.head
  let r1 := mongo_env_write_socket conn head
  if r1.1 ≠ MONGO_OK then (r1.1, r1.2)
  else
    let count := ((mm.head.len - (sizeof_mongo_header : Int)) % 18446744073709551616).toNat
    let r2 := mongo_env_write_socket r1.2 (mm.data.take count)
    if r2.1 ≠ MONGO_OK then (r2.1, r2.2)
    else (MONGO_OK, r2.2)

/-- Lines 408-411 of `mongo_read_response`: the reply header in native form,
from the decoded length and the 16 bytes read from the network. -/
def reply_head_of_wire (len : Nat) (head : List Nat) : mongo_header :=
  { len := int32_of_unsigned len
    id := le32_int (head.drop 4)
    responseTo := le32_int (head.drop 8)
    op := le32_int (head.drop 12) }

/-- Lines 413-416 of `mongo_read_response`: the reply fields in native form,
from the 20 bytes read from the network. -/
def reply_fields_of_wire (fields : List Nat) : mongo_reply_fields :=
  { flag := le32_int fields
    cursorID := le64_int (fields.drop 4)
    start := le32_int (fields.drop 12)
    num := le32_int (fields.drop 16) }

/-- The function `mongo_read_response` (lines 383-427): result code, the reply
stored through `reply` (`none` when `*reply` is not written), and the
connection afterwards.  The results of the first two reads are not looked at,
as in the source. -/
def mongo_read_response (conn : mongo) : Int × Option mongo_reply × mongo :=
  let r1 := mongo_env_read_socket conn sizeof_mongo_header
  let head := r1.2.1
  let r2 := mongo_env_read_socket r1.2.2 sizeof_mongo_reply_fields
  let fields := r2.2.1
  let len := le32_unsigned head
  if len < sizeof_mongo_header + sizeof_mongo_reply_fields ∨ len > 64 * 1024 * 1024 then
    (MONGO_READ_SIZE_ERROR, none, r2.2.2)
  else
    let r3 := mongo_env_read_socket r2.2.2 (len - 16 - 20)
    if r3.1 ≠ MONGO_OK then (r3.1, none, r3.2.2)
    else
      (MONGO_OK,
       some { head := reply_head_of_wire len head
              fields := reply_fields_of_wire fields
              objs := r3.2.1 },
       r3.2.2)

/-! ## Documents (`bson.h`, `bson.c`) -/

/-- Modelled from the spec: validation flag "not valid UTF-8" of `bson.h`. -/
def BSON_NOT_UTF8 : Nat := 2

/-- Modelled from the spec: `bson_empty` of `bson.c`, the finished 5-byte empty
document. -/
def bson_empty : bson := { data := [5, 0, 0, 0, 0], finished := true, err := 0 }

/-- The byte at a signed offset of a buffer; outside the buffer the model
reads 0. -/
def byte_at (data : List Nat) (i : Int) : Nat :=
  if i < 0 then 0 else data.getD i.toNat 0

/-- The bytes of a buffer from a signed offset on. -/
def bytes_from (data : List Nat) (i : Int) : List Nat :=
  if i < 0 then [] else data.drop i.toNat

/-- Modelled from the spec: `bson_size` of `bson.c`, the little-endian `int` at
the start of the encoded bytes. -/
def bson_size (data : List Nat) : Int := le32_int data

/-- The length of the NUL-terminated byte string at the start of `b`
(`strlen`). -/
def strlen_bytes (b : List Nat) : Nat :=
  (b.takeWhile (fun x => x != 0)).length

/-- Modelled from the spec: the size `ds` that `bson_iterator_next` of `bson.c`
gives to the value of an element, by type tag; `v` holds the bytes of the
value.  `none` is an unknown tag, for which the walk ends in `bson_fatal_msg`. -/
def bson_value_size (tag : Nat) (v : List Nat) : Option Int :=
  if tag = 6 ∨ tag = 10 then some 0
  else if tag = 8 then some 1
  else if tag = 16 then some 4
  else if tag = 18 ∨ tag = 1 ∨ tag = 17 ∨ tag = 9 then some 8
  else if tag = 7 then some 12
  else if tag = 2 ∨ tag = 14 ∨ tag = 13 then some (4 + le32_int v)
  else if tag = 5 then some (5 + le32_int v)
  else if tag = 3 ∨ tag = 4 ∨ tag = 15 then some (le32_int v)
  else if tag = 12 then some (4 + 12 + le32_int v)
  else if tag = 11 then
    some ((strlen_bytes v + 1 + strlen_bytes (v.drop (strlen_bytes v + 1)) + 1 : Nat) : Int)
  else none

/-- Modelled from the spec: the loop of `bson_find` of `bson.c` (the "small
iterator capability"): starting at the element at offset `cur`, the offset of
the first element whose key is `name`, or `none` when the end-of-object tag, an
unknown tag or the end of the fuel is met first. -/
def bson_find_from (data : List Nat) (name : List Nat) : Nat → Int → Option Int
  | 0, _ => none
  | fuel + 1, cur =>
    let tag := byte_at data cur
    if tag = 0 then none
    else
      let key := (bytes_from data (cur + 1)).takeWhile (fun x => x != 0)
      if key = name then some cur
      else
        match bson_value_size tag (bytes_from data (cur + 1 + key.length + 1)) with
        | none => none
        | some ds => bson_find_from data name fuel (cur + 1 + key.length + 1 + ds)

/-- Modelled from the spec: `bson_find` of `bson.c`: the iterator position
(offset of the element) of the first top-level element named `name`, if any.
The walk starts after the 4-byte length; every step but the last moves on by
at least two bytes in a well-formed document, so the length of the data is
enough fuel. -/
def bson_find (data : List Nat) (name : List Char) : Option Int :=
  bson_find_from data (name.map Char.toNat) data.length 4

/-- Modelled from the spec: the type tag `bson_find` returns: that of the
element found, or 0 (`BSON_EOO`). -/
def bson_find_type (data : List Nat) (name : List Char) : Nat :=
  match bson_find data name with
  | none => 0
  | some cur => byte_at data cur

/-- Modelled from the spec: `bson_iterator_value` of `bson.c`: the bytes of the
value of the element at offset `cur`. -/
def bson_iterator_value (data : List Nat) (cur : Int) : List Nat :=
  let key := (bytes_from data (cur + 1)).takeWhile (fun x => x != 0)
  bytes_from data (cur + 1 + key.length + 1)

/-- Modelled from the spec: `bson_iterator_string` of `bson.c` for an iterator
on the element at offset `cur`: the bytes after the 4-byte length for a string
or symbol, the empty string otherwise. -/
def bson_iterator_string (data : List Nat) (cur : Int) : List Nat :=
  if byte_at data cur = 2 ∨ byte_at data cur = 14 then (bson_iterator_value data cur).drop 4
  else []

/-- Modelled from the spec: `bson_iterator_string_len` of `bson.c` for an
iterator on the element at offset `cur`: the raw `int` at the start of the
value. -/
def bson_iterator_string_len (data : List Nat) (cur : Int) : Int :=
  le32_int (bson_iterator_value data cur)

/-- Modelled from the spec: `bson_iterator_int` of `bson.c` for an iterator on
the element at offset `cur`: the raw value for a 32-bit integer, the low 32
bits for a 64-bit one, 0 for every other tag (the conversion of a double is not
modelled). -/
def bson_iterator_int (data : List Nat) (cur : Int) : Int :=
  if byte_at data cur = 16 ∨ byte_at data cur = 18 then le32_int (bson_iterator_value data cur)
  else 0

/-! ## Cursors (`mongo.c` lines 1320-1609) -/

/-- Modelled from the spec: opcode of a query message. -/
def MONGO_OP_QUERY : Int := 2004

/-- Modelled from the spec: opcode of a get-more message. -/
def MONGO_OP_GET_MORE : Int := 2005

/-- Modelled from the spec: cursor-level condition "exhausted", the first
enumerator of `mongo_cursor_error_t` in `mongo.h`. -/
def MONGO_CURSOR_EXHAUSTED : Int := 0

/-- Modelled from the spec: cursor-level condition "invalid use". -/
def MONGO_CURSOR_INVALID : Int := 1

/-- Modelled from the spec: cursor-level condition "pending". -/
def MONGO_CURSOR_PENDING : Int := 2

/-- Modelled from the spec: cursor-level condition "query failed". -/
def MONGO_CURSOR_QUERY_FAIL : Int := 3

/-- Modelled from the spec: cursor-level condition "malformed document". -/
def MONGO_CURSOR_BSON_ERROR : Int := 4

/-- Modelled from the spec: cursor-level condition "buffer overflow". -/
def MONGO_CURSOR_OVERFLOW : Int := 5

/-- Modelled from the spec: state flag "query-sent" of a cursor (`mongo.h`). -/
def MONGO_CURSOR_QUERY_SENT : Nat := 2

/-- The object `mongo_cursor` of `mongo.h`.  The pointed-to connection is held
by value and passed on by the cursor functions; `current` is `current.data` as
an offset from `&reply->objs` (`none` for the null pointer). -/
structure mongo_cursor where
  reply : Option mongo_reply
  conn : mongo
  ns : List Char
  flags : Nat
  seen : Int
  current : Option Int
  err : Int
  query : Option bson
  fields : Option bson
  options : Int
  limit : Int
  skip : Int
deriving DecidableEq, Repr

/-- The function `mongo_cursor_init` (lines 1505-1515). -/
def mongo_cursor_init (conn : mongo) (ns : List Char) : mongo_cursor :=
  { reply := none, conn := conn, ns := ns, flags := 0, seen := 0, current := none, err := 0
    query := none, fields := none, options := 0, limit := 0, skip := 0 }

/-- The function `mongo_set_last_error` (lines 284-293): `it` is the offset of
the element on which the preceding `bson_find` left the iterator, `obj` the
bytes of the document.  A `code` element that is not found leaves the iterator
on the end-of-object byte, for which `bson_iterator_int` gives 0. -/
def mongo_set_last_error (conn : mongo) (it : Int) (obj : List Nat) : mongo :=
  let result_len := bson_iterator_string_len obj it
  let result_string := bson_iterator_string obj it
  let len := if result_len < (MONGO_ERR_LEN : Int) then result_len else (MONGO_ERR_LEN : Int)
  let conn :=
    { conn with
      lasterrstr :=
        memcpy conn.lasterrstr ((fit len.toNat result_string).map Char.ofNat) len.toNat }
  if bson_find_type obj "code".toList ≠ 10 then
    { conn with
      lasterrcode :=
        match bson_find obj "code".toList with
        | none => 0
        | some cur => bson_iterator_int obj cur }
  else conn

/-- The function `mongo_cursor_bson_valid` (lines 890-906). -/
def mongo_cursor_bson_valid (cursor : mongo_cursor) (b : bson) : Int × mongo_cursor :=
  if ¬ b.finished then
    (MONGO_ERROR, { cursor with err := MONGO_CURSOR_BSON_ERROR
                                conn := { cursor.conn with err := MONGO_BSON_NOT_FINISHED } })
  else if b.err &&& BSON_NOT_UTF8 ≠ 0 then
    (MONGO_ERROR, { cursor with err := MONGO_CURSOR_BSON_ERROR
                                conn := { cursor.conn with err := MONGO_BSON_INVALID } })
  else (MONGO_OK, cursor)

/-- The function `mongo_cursor_message_create` (lines 346-355); the value of
`rand()` is drawn from the ghost list of the connection when the id is 0. -/
def mongo_cursor_message_create (cursor : mongo_cursor) (len : Nat)
    (id responseTo op : Int) : Option mongo_message × mongo_cursor :=
  match mongo_message_create (cursor.conn.rand.headD 0) len id responseTo op with
  | none => (none, { cursor with err := MONGO_CURSOR_OVERFLOW })
  | some mm =>
    (some mm,
     if id = 0 then { cursor with conn := { cursor.conn with rand := cursor.conn.rand.tail } }
     else cursor)

/-- The bytes of a C string with its terminating NUL. -/
def cstring_bytes (s : List Char) : List Nat :=
  s.map Char.toNat ++ [0]

/-- The body of a message after the bytes `written` have been appended from
`&mm->data` on: they replace the start of the allocated body. -/
def message_fill (mm : mongo_message) (written : List Nat) : mongo_message :=
  { mm with data := written ++ mm.data.drop written.length }

/-- Lines 1354-1361: the bytes appended to a query message. -/
def query_body (cursor : mongo_cursor) (query fields : bson) : List Nat :=
  le32_bytes cursor.options ++ cstring_bytes cursor.ns ++ le32_bytes cursor.skip
    ++ le32_bytes cursor.limit
    ++ fit (bson_size query.data % 18446744073709551616).toNat query.data
    ++ fit (bson_size fields.data % 18446744073709551616).toNat fields.data

/-- Lines 1425-1429: the bytes appended to a get-more message. -/
def get_more_body (cursor : mongo_cursor) (limit cursorID : Int) : List Nat :=
  le32_bytes 0 ++ cstring_bytes cursor.ns ++ le32_bytes limit ++ le64_bytes cursorID

/-- Lines 1343-1387 of `mongo_cursor_op_query`: build the query message, send
it, read the reply and look for `$err`.  The check of line 1363 compares the
write position with the declared length; where it fails the source ends the
program through `bson_fatal_msg`, which is modelled as a return of
`MONGO_ERROR` before anything is sent. -/
def mongo_cursor_op_query_exchange (cursor : mongo_cursor) : Int × mongo_cursor :=
  let query := cursor.query.getD bson_empty
  let fields := cursor.fields.getD bson_empty
  let len : Int := 16 + 4 + (cursor.ns.length : Int) + 1 + 4 + 4
    + bson_size query.data + bson_size fields.data
  let rm := mongo_cursor_message_create cursor (len % 18446744073709551616).toNat
    0 0 MONGO_OP_QUERY
  match rm.1 with
  | none => (MONGO_ERROR, rm.2)
  | some mm =>
    let cursor := rm.2
    let written := query_body cursor query fields
    let mm := message_fill mm written
    if ((16 + written.length : Nat) : Int) % 18446744073709551616
        ≠ mm.head.len % 18446744073709551616 then
      (MONGO_ERROR, cursor)
    else
      let rs := mongo_message_send cursor.conn mm
      let cursor := { cursor with conn := rs.2 }
      if rs.1 ≠ MONGO_OK then (MONGO_ERROR, cursor)
      else
        let rr := mongo_read_response cursor.conn
        let cursor : mongo_cursor :=
          { cursor with conn := rr.2.2
                        reply := match rr.2.1 with
                                 | none => cursor.reply
                                 | some out => some out }
        if rr.1 ≠ MONGO_OK then (MONGO_ERROR, cursor)
        else
          match cursor.reply with
          | none => (MONGO_ERROR, cursor)
          | some reply =>
            let found : Option Int :=
              if reply.fields.num = 1 then bson_find reply.objs "$err".toList else none
            match found with
            | some it =>
              (MONGO_ERROR,
               { cursor with
                 conn := mongo_set_last_error cursor.conn it reply.objs
                 err := MONGO_CURSOR_QUERY_FAIL })
            | none =>
              (MONGO_OK,
               { cursor with seen := cursor.seen + reply.fields.num
                             flags := cursor.flags ||| MONGO_CURSOR_QUERY_SENT })

/-- The function `mongo_cursor_op_query` (lines 1320-1387).  A null `query` or
`fields` is replaced by the empty document (lines 1330-1341), then the
exchange of lines 1343-1387 follows. -/
def mongo_cursor_op_query (cursor : mongo_cursor) : Int × mongo_cursor :=
  let cursor := { cursor with conn := mongo_clear_errors cursor.conn }
  let rq : Int × mongo_cursor :=
    match cursor.query with
    | none => (MONGO_OK, { cursor with query := some bson_empty })
    | some q => mongo_cursor_bson_valid cursor q
  if rq.1 ≠ MONGO_OK then (MONGO_ERROR, rq.2)
  else
    let cursor := rq.2
    let rf : Int × mongo_cursor :=
      match cursor.fields with
      | none => (MONGO_OK, { cursor with fields := some bson_empty })
      | some f => mongo_cursor_bson_valid cursor f
    if rf.1 ≠ MONGO_OK then (MONGO_ERROR, rf.2)
    else mongo_cursor_op_query_exchange rf.2

/-- The function `mongo_cursor_get_more` (lines 1389-1455). -/
def mongo_cursor_get_more (cursor : mongo_cursor) : Int × mongo_cursor :=
  if cursor.limit > 0 ∧ cursor.seen ≥ cursor.limit then
    (MONGO_ERROR, { cursor with err := MONGO_CURSOR_EXHAUSTED })
  else
    match cursor.reply with
    | none => (MONGO_ERROR, { cursor with err := MONGO_CURSOR_INVALID })
    | some reply =>
      if reply.fields.cursorID = 0 then
        (MONGO_ERROR, { cursor with err := MONGO_CURSOR_EXHAUSTED })
      else
        let sl := cursor.ns.length + 1
        let limit : Int :=
          if cursor.limit > 0 then int32_wrap (cursor.limit - cursor.seen) else 0
        let rm := mongo_cursor_message_create cursor (16 + 4 + sl + 4 + 8) 0 0 MONGO_OP_GET_MORE
        match rm.1 with
        | none => (MONGO_ERROR, rm.2)
        | some mm =>
          let cursor := rm.2
          let mm := message_fill mm (get_more_body cursor limit reply.fields.cursorID)
          let cursor := { cursor with reply := none }
          let rs := mongo_message_send cursor.conn mm
          let cursor := { cursor with conn := rs.2 }
          if rs.1 ≠ MONGO_OK then (MONGO_ERROR, cursor)
          else
            let rr := mongo_read_response cursor.conn
            let cursor := { cursor with conn := rr.2.2, reply := rr.2.1 }
            if rr.1 ≠ MONGO_OK then (MONGO_ERROR, cursor)
            else
              match cursor.reply with
              | none => (MONGO_ERROR, cursor)
              | some reply =>
                (MONGO_OK, { cursor with current := none
                                         seen := cursor.seen + reply.fields.num })

/-- Lines 1579-1608 of `mongo_cursor_next`: the part after the "no data" test.
`next_object` and `message_end` are offsets from `&reply->objs`, the reply
header and fields taking the 36 bytes before it. -/
def mongo_cursor_next_advance (cursor : mongo_cursor) (reply : mongo_reply) :
    Int × mongo_cursor :=
  match cursor.current with
  | none => (MONGO_OK, { cursor with current := some 0 })
  | some cur =>
    let next_object := cur + bson_size (bytes_from reply.objs cur)
    let message_end := reply.head.len - 36
    if next_object ≥ message_end then
      let rg := mongo_cursor_get_more cursor
      if rg.1 ≠ MONGO_OK then (MONGO_ERROR, rg.2)
      else
        let cursor := rg.2
        match cursor.reply with
        | none => (MONGO_ERROR, cursor)
        | some reply =>
          if reply.fields.num = 0 then
            if reply.fields.cursorID ≠ 0 then
              (MONGO_ERROR, { cursor with err := MONGO_CURSOR_PENDING })
            else (MONGO_ERROR, cursor)
          else (MONGO_OK, { cursor with current := some 0 })
    else (MONGO_OK, { cursor with current := some next_object })

/-- The function `mongo_cursor_next` (lines 1552-1609). -/
def mongo_cursor_next (cursor : mongo_cursor) : Int × mongo_cursor :=
  let rq : Int × mongo_cursor :=
    if cursor.flags &&& MONGO_CURSOR_QUERY_SENT = 0 then mongo_cursor_op_query cursor
    else (MONGO_OK, cursor)
  if rq.1 ≠ MONGO_OK then (MONGO_ERROR, rq.2)
  else
    let cursor := rq.2
    match cursor.reply with
    | none => (MONGO_ERROR, cursor)
    | some reply =>
      if reply.fields.num = 0 then
        if reply.fields.cursorID ≠ 0 then
          let rg := mongo_cursor_get_more cursor
          if rg.1 ≠ MONGO_OK then (MONGO_ERROR, rg.2)
          else
            match rg.2.reply with
            | none => (MONGO_ERROR, rg.2)
            | some reply2 =>
              if reply2.fields.num = 0 then (MONGO_ERROR, rg.2)
              else mongo_cursor_next_advance rg.2 reply2
        else (MONGO_ERROR, cursor)
      else mongo_cursor_next_advance cursor reply

/-- The function `mongo_cursor_bson` (lines 1547-1550) read as the bytes of the
current document: `bson_size` bytes from `current.data` on. -/
def mongo_cursor_bson (cursor : mongo_cursor) : Option (List Nat) :=
  match cursor.reply, cursor.current with
  | some reply, some cur =>
    some ((bytes_from reply.objs cur).take (bson_size (bytes_from reply.objs cur)).toNat)
  | _, _ => none

/-! ## Closing a cursor and one-shot queries (`mongo.c` lines 1457-1503, 1611-1653) -/

/-- Modelled from the spec: opcode of a kill-cursors message. -/
def MONGO_OP_KILL_CURSORS : Int := 2007

/-- Modelled from the spec: flag of a cursor that `mongo_find` allocated and
`mongo_cursor_destroy` must free (`mongo.h`). -/
def MONGO_CURSOR_MUST_FREE : Nat := 1

/-- The function `mongo_cursor_set_query` (lines 1517-1520). -/
def mongo_cursor_set_query (cursor : mongo_cursor) (query : Option bson) : mongo_cursor :=
  { cursor with query := query }

/-- The function `mongo_cursor_set_fields` (lines 1522-1525). -/
def mongo_cursor_set_fields (cursor : mongo_cursor) (fields : Option bson) : mongo_cursor :=
  { cursor with fields := fields }

/-- The function `mongo_cursor_set_limit` (lines 1532-1535). -/
def mongo_cursor_set_limit (cursor : mongo_cursor) (limit : Int) : mongo_cursor :=
  { cursor with limit := limit }

/-- What `mongo_cursor_destroy` leaves behind: the connection afterwards, the
cursor's `reply` and `ns` pointers (`none` once released and set to null), the
cursor error, and whether the cursor object itself was freed. -/
structure cursor_remains where
  conn : mongo
  reply : Option mongo_reply
  ns : Option (List Char)
  err : Int
  freed : Bool
deriving DecidableEq, Repr

/-- Lines 1630-1632: the bytes appended to a kill-cursors message. -/
def kill_cursors_body (cursorID : Int) : List Nat :=
  le32_bytes 0 ++ le32_bytes 1 ++ le64_bytes cursorID

/-- Lines 1637-1652 of `mongo_cursor_destroy`: release the reply and the
namespace copy, free the cursor when it was allocated by `mongo_find`, and
return `result`. -/
def mongo_cursor_release (cursor : mongo_cursor) (conn : mongo) (result : Int) :
    Int × cursor_remains :=
  (result,
   { conn := conn, reply := none, ns := none, err := cursor.err
     freed := decide (cursor.flags &&& MONGO_CURSOR_MUST_FREE ≠ 0) })

/-- Lines 1616-1652 of `mongo_cursor_destroy`, for a cursor that is not null. -/
def mongo_cursor_destroy_live (cursor : mongo_cursor) : Int × cursor_remains :=
  match cursor.reply with
  | none => mongo_cursor_release cursor cursor.conn MONGO_OK
  | some reply =>
    if reply.fields.cursorID ≠ 0 then
      let rm := mongo_cursor_message_create cursor (16 + 4 + 4 + 8) 0 0 MONGO_OP_KILL_CURSORS
      match rm.1 with
      | none =>
        (MONGO_ERROR,
         { conn := rm.2.conn, reply := rm.2.reply, ns := some rm.2.ns, err := rm.2.err
           freed := false })
      | some mm =>
        let mm := message_fill mm (kill_cursors_body reply.fields.cursorID)
        let rs := mongo_message_send rm.2.conn mm
        mongo_cursor_release rm.2 rs.2 rs.1
    else mongo_cursor_release cursor cursor.conn MONGO_OK

/-- The function `mongo_cursor_destroy` (lines 1611-1653); `none` is the null
cursor, for which nothing is left to describe. -/
def mongo_cursor_destroy (cursor : Option mongo_cursor) : Int × Option cursor_remains :=
  match cursor with
  | none => (MONGO_OK, none)
  | some c => ((mongo_cursor_destroy_live c).1, some (mongo_cursor_destroy_live c).2)

/-- The function `mongo_find_one` (lines 1479-1503) called with a non-null
`out`: result code, the document copied into `out` (`none` when nothing is
copied), and the connection afterwards. -/
def mongo_find_one (conn : mongo) (ns : List Char) (query fields : Option bson) :
    Int × Option bson × mongo :=
  let cursor := mongo_cursor_init conn ns
  let cursor := mongo_cursor_set_query cursor query
  let cursor := mongo_cursor_set_fields cursor fields
  let cursor := mongo_cursor_set_limit cursor 1
  let r := mongo_cursor_next cursor
  if r.1 = MONGO_OK then
    let out : bson := { data := (mongo_cursor_bson r.2).getD [], finished := true, err := 0 }
    (MONGO_OK, some out, (mongo_cursor_destroy_live r.2).2.conn)
  else (MONGO_ERROR, none, (mongo_cursor_destroy_live r.2).2.conn)

/-! ## Building documents (`bson.c`) -/

/-- Modelled from the spec: `bson_create` of `bson.c`, a freshly allocated
object (allocation is taken to succeed). -/
def bson_create : bson := { data := [], finished := false, err := 0 }

/-- Modelled from the spec: `bson_destroy` of `bson.c`, which releases the
encoded bytes of an object. -/
def bson_destroy (_b : bson) : bson := { data := [], finished := true, err := 0 }

/-- Modelled from the spec: `bson_init` of `bson.c`: an empty builder, the four
bytes of the length still to be written. -/
def bson_init (_b : bson) : bson := { data := [0, 0, 0, 0], finished := false, err := 0 }

/-- Modelled from the spec: `bson_append_int` of `bson.c`: the type tag 16, the
name with its NUL, and the 32-bit value, little-endian.  The names used by
`mongo.c` pass the field-name checks of `bson.c`. -/
def bson_append_int (b : bson) (name : List Char) (i : Int) : bson :=
  { b with data := b.data ++ [16] ++ cstring_bytes name ++ le32_bytes i }

/-- Modelled from the spec: `bson_append_string` of `bson.c`: the type tag 2,
the name with its NUL, the 32-bit length of the string with its NUL, and the
string with its NUL.  The string is taken to be valid UTF-8. -/
def bson_append_string (b : bson) (name : List Char) (value : List Char) : bson :=
  { b with
    data := b.data ++ [2] ++ cstring_bytes name ++ le32_bytes ((value.length + 1 : Nat) : Int)
      ++ cstring_bytes value }

/-- Modelled from the spec: `bson_finish` of `bson.c`: the end-of-object byte
is appended, the total length is written over the first four bytes and the
object is marked finished. -/
def bson_finish (b : bson) : bson :=
  { b with
    data := le32_bytes ((b.data.length + 1 : Nat) : Int) ++ b.data.drop 4 ++ [0]
    finished := true }

/-! ## Write concern (`mongo.c` lines 481-503, 908-983, 1173-1261) -/

/-- Modelled from the spec: connection-level condition "write error". -/
def MONGO_WRITE_ERROR : Int := 11

/-- Modelled from the spec: connection-level condition "write concern invalid". -/
def MONGO_WRITE_CONCERN_INVALID : Int := 16

/-- Modelled from the spec: opcode of an insert message. -/
def MONGO_OP_INSERT : Int := 2002

/-- Modelled from the spec: validation flag "field name with a dot" of `bson.h`. -/
def BSON_FIELD_HAS_DOT : Nat := 4

/-- Modelled from the spec: validation flag "field name starts with `$`" of
`bson.h`. -/
def BSON_FIELD_INIT_DOLLAR : Nat := 8

/-- The static array `WC1_data` (line 482). -/
def WC1_data : List Nat :=
  [23, 0, 0, 0, 16, 103, 101, 116, 108, 97, 115, 116, 101, 114, 114, 111, 114, 0,
   1, 0, 0, 0, 0, 0, 0, 0, 0, 0, 0, 0, 0, 0]

/-- The static object `WC1_cmd` (lines 490-492): the bytes of `WC1_data`,
finished, no error flag. -/
def WC1_cmd : bson := { data := WC1_data, finished := true, err := 0 }

/-- The static write concern `WC1` (line 493): `w = 1` with the command
`WC1_cmd`. -/
def WC1 : mongo_write_concern :=
  { w := 1, wtimeout := 0, j := 0, fsync := 0, mode := none, cmd := some WC1_cmd }

/-- The function `mongo_set_write_concern` (lines 1253-1261). -/
def mongo_set_write_concern (conn : mongo) (write_concern : Option mongo_write_concern) :
    mongo :=
  { conn with write_concern := write_concern }

/-- The function `mongo_init` (lines 497-503): every field zeroed, the default
maximum document size and the default write concern `WC1` installed.  The
transport oracle, the `rand()` ghost list and the network are not part of the
object's memory and stay. -/
def mongo_init (conn : mongo) : mongo :=
  mongo_set_write_concern
    { sock := conn.sock, rand := conn.rand, err := 0, errcode := 0
      errstr := List.replicate MONGO_ERR_LEN (Char.ofNat 0)
      lasterrcode := 0
      lasterrstr := List.replicate MONGO_ERR_LEN (Char.ofNat 0)
      max_bson_size := MONGO_DEFAULT_MAX_BSON_SIZE
      write_concern := none
      primary := none, replica_set := none, connected := false, net := conn.net }
    (some WC1)

/-- The function `mongo_write_concern_init` (lines 1185-1188). -/
def mongo_write_concern_init : mongo_write_concern :=
  { w := 0, wtimeout := 0, j := 0, fsync := 0, mode := none, cmd := none }

/-- The function `mongo_write_concern_set_w` (lines 1293-1296). -/
def mongo_write_concern_set_w (wc : mongo_write_concern) (w : Int) : mongo_write_concern :=
  { wc with w := w }

/-- The function `mongo_write_concern_set_wtimeout` (lines 1298-1302). -/
def mongo_write_concern_set_wtimeout (wc : mongo_write_concern) (wtimeout : Int) :
    mongo_write_concern :=
  { wc with wtimeout := wtimeout }

/-- The function `mongo_write_concern_set_j` (lines 1304-1307). -/
def mongo_write_concern_set_j (wc : mongo_write_concern) (j : Int) : mongo_write_concern :=
  { wc with j := j }

/-- The function `mongo_write_concern_set_fsync` (lines 1309-1313). -/
def mongo_write_concern_set_fsync (wc : mongo_write_concern) (fsync : Int) :
    mongo_write_concern :=
  { wc with fsync := fsync }

/-- The function `mongo_write_concern_set_mode` (lines 1315-1318). -/
def mongo_write_concern_set_mode (wc : mongo_write_concern) (mode : Option (List Char)) :
    mongo_write_concern :=
  { wc with mode := mode }

/-- The function `mongo_write_concern_finish` (lines 1190-1235): the result
code and the write concern afterwards.  Allocation by `bson_create` is taken to
succeed. -/
def mongo_write_concern_finish (write_concern : mongo_write_concern) :
    Int × mongo_write_concern :=
  let command : bson :=
    match write_concern.cmd with
    | some c => bson_destroy c
    | none => bson_create
  let command := bson_init command
  let command := bson_append_int command "getlasterror".toList 1
  let command :=
    match write_concern.mode with
    | some mode => bson_append_string command "w".toList mode
    | none =>
      if write_concern.w ≠ 0 ∧ write_concern.w > 1 then
        bson_append_int command "w".toList write_concern.w
      else command
  let command :=
    if write_concern.wtimeout ≠ 0 then
      bson_append_int command "wtimeout".toList write_concern.wtimeout
    else command
  let command :=
    if write_concern.j ≠ 0 then bson_append_int command "j".toList write_concern.j
    else command
  let command :=
    if write_concern.fsync ≠ 0 then bson_append_int command "fsync".toList write_concern.fsync
    else command
  let command := bson_finish command
  (MONGO_OK, { write_concern with cmd := some command })

/-- The function `mongo_choose_write_concern` (lines 941-966): `init` is the
value of `*write_concern` on entry; the result code, the value of
`*write_concern` on exit and the connection afterwards. -/
def mongo_choose_write_concern (conn : mongo) (custom_write_concern : Option mongo_write_concern)
    (init : Option mongo_write_concern) : Int × Option mongo_write_concern × mongo :=
  let wc : Option mongo_write_concern :=
    match custom_write_concern with
    | some c => some c
    | none =>
      match conn.write_concern with
      | some d => some d
      | none => init
  let wc : Option mongo_write_concern :=
    match wc with
    | some c => if c.w < 1 then none else some c
    | none => none
  match wc with
  | some c =>
    if c.cmd = none then
      (MONGO_ERROR, wc,
       __mongo_set_error conn MONGO_WRITE_CONCERN_INVALID
         (some "Must call mongo_write_concern_finish() before using *write_concern.".toList) 0)
    else (MONGO_OK, wc, conn)
  | none => (MONGO_OK, wc, conn)

/-- Lines 168-170 of `mongo_ns_to_cmd_db`: the number of characters before the
first `'.'`.  The loop has no test for the terminator; the function is only
called on namespaces that hold a `'.'`, and the walk stops at the end here. -/
def ns_db_length : List Char → Nat
  | [] => 0
  | c :: rest => if c = '.' then 0 else ns_db_length rest + 1

/-- The function `mongo_ns_to_cmd_db` (lines 163-177): the first `len`
characters of the namespace followed by `.$cmd`. -/
def mongo_ns_to_cmd_db (ns : List Char) : List Char :=
  ns.take (ns_db_length ns) ++ ".$cmd".toList

/-- The function `mongo_check_last_error` (lines 908-939) for a non-null
`write_concern`.  After the two lookups the iterator stands on `$err` when that
element is a string, else on `err`. -/
def mongo_check_last_error (conn : mongo) (ns : List Char)
    (write_concern : mongo_write_concern) : Int × mongo :=
  let cmd_ns := mongo_ns_to_cmd_db ns
  let r := mongo_find_one conn cmd_ns write_concern.cmd (some bson_empty)
  if r.1 ≠ MONGO_OK then (MONGO_ERROR, r.2.2)
  else
    let response := (r.2.1.getD bson_empty).data
    let it : Option Int :=
      if bson_find_type response "$err".toList = 2 then bson_find response "$err".toList
      else if bson_find_type response "err".toList = 2 then bson_find response "err".toList
      else none
    match it with
    | some cur =>
      (MONGO_ERROR,
       mongo_set_last_error
         (__mongo_set_error r.2.2 MONGO_WRITE_ERROR
           (some "See conn->lasterrstr for details.".toList) 0)
         cur response)
    | none => (MONGO_OK, r.2.2)

/-- The function `mongo_message_send_and_check_write_concern` (lines 972-983);
`write_concern = none` is the null pointer. -/
def mongo_message_send_and_check_write_concern (conn : mongo) (ns : List Char)
    (mm : mongo_message) (write_concern : Option mongo_write_concern) : Int × mongo :=
  match write_concern with
  | some wc =>
    let rs := mongo_message_send conn mm
    if rs.1 = MONGO_ERROR then (MONGO_ERROR, rs.2)
    else mongo_check_last_error rs.2 ns wc
  | none => mongo_message_send conn mm

/-- The function `mongo_bson_valid` (lines 852-887); `write` is the C flag. -/
def mongo_bson_valid (conn : mongo) (b : bson) (write : Bool) : Int × mongo :=
  if ¬ b.finished then (MONGO_ERROR, { conn with err := MONGO_BSON_NOT_FINISHED })
  else if bson_size b.data > conn.max_bson_size then
    (MONGO_ERROR, { conn with err := MONGO_BSON_TOO_LARGE })
  else if b.err &&& BSON_NOT_UTF8 ≠ 0 then
    (MONGO_ERROR, { conn with err := MONGO_BSON_INVALID })
  else if write ∧ (b.err &&& BSON_FIELD_HAS_DOT ≠ 0 ∨ b.err &&& BSON_FIELD_INIT_DOLLAR ≠ 0) then
    (MONGO_ERROR, { conn with err := MONGO_BSON_INVALID })
  else (MONGO_OK, { conn with err := MONGO_CONN_SUCCESS })

/-- Lines 1019-1021: the bytes appended to an insert message. -/
def insert_body (ns : List Char) (b : bson) : List Nat :=
  le32_bytes 0 ++ cstring_bytes ns
    ++ fit (bson_size b.data % 18446744073709551616).toNat b.data

/-- The function `mongo_insert` (lines 985-1024). -/
def mongo_insert (conn : mongo) (ns : List Char) (b : bson)
    (custom_write_concern : Option mongo_write_concern) : Int × mongo :=
  let rv := mongo_validate_ns conn ns
  if rv.1 ≠ MONGO_OK then (MONGO_ERROR, rv.2)
  else
    let rb := mongo_bson_valid rv.2 b true
    if rb.1 ≠ MONGO_OK then (MONGO_ERROR, rb.2)
    else
      let rc := mongo_choose_write_concern rb.2 custom_write_concern none
      if rc.1 = MONGO_ERROR then (MONGO_ERROR, rc.2.2)
      else
        let conn := rc.2.2
        let len : Int := 16 + 4 + (ns.length : Int) + 1 + bson_size b.data
        match mongo_message_create (conn.rand.headD 0) (len % 18446744073709551616).toNat
            0 0 MONGO_OP_INSERT with
        | none => (MONGO_ERROR, { conn with err := MONGO_BSON_TOO_LARGE })
        | some mm =>
          let conn := { conn with rand := conn.rand.tail }
          let mm := message_fill mm (insert_body ns b)
          mongo_message_send_and_check_write_concern conn ns mm rc.2.1

/-! ## A simulated server for cursor scenarios -/

/-- The 20 bytes a server sends for the reply fields. -/
def fields_wire (f : mongo_reply_fields) : List Nat :=
  le32_bytes f.flag ++ le64_bytes f.cursorID ++ le32_bytes f.start ++ le32_bytes f.num

/-- The three successful reads by which the transport delivers one reply: its
16 header bytes, its 20 field bytes, and its document bytes. -/
def reply_reads (h : mongo_header) (f : mongo_reply_fields) (objs : List Nat) :
    List sock_read :=
  [⟨true, header_wire h⟩, ⟨true, fields_wire f⟩, ⟨true, objs⟩]

/-- A well-formed encoded document as far as the cursor looks at it: at least
the 5 bytes of the empty document, and a declared size, the little-endian
`int` at its start, equal to its length. -/
def bson_well_formed (d : List Nat) : Prop :=
  5 ≤ d.length ∧ bson_size d = (d.length : Int)

/-- A header or field value that fits a C `int`. -/
def is_int32 (v : Int) : Prop := -2147483648 ≤ v ∧ v < 2147483648

/-- The conditions under which `mongo_cursor_op_query` builds its message: the
query and projection documents, when given, are finished and carry no
not-UTF-8 flag; their declared sizes are not negative; and the total length
16 + 4 + strlen(ns) + 1 + 4 + 4 + size(query) + size(fields) is below
`INT32_MAX`. -/
def query_buildable (c : mongo_cursor) : Prop :=
  (∀ q, c.query = some q → q.finished = true ∧ q.err &&& BSON_NOT_UTF8 = 0) ∧
  (∀ f, c.fields = some f → f.finished = true ∧ f.err &&& BSON_NOT_UTF8 = 0) ∧
  0 ≤ bson_size (c.query.getD bson_empty).data ∧
  0 ≤ bson_size (c.fields.getD bson_empty).data ∧
  16 + 4 + (c.ns.length : Int) + 1 + 4 + 4 + bson_size (c.query.getD bson_empty).data
    + bson_size (c.fields.getD bson_empty).data < 2147483647

/-- The header of the query message that a cursor sends: its total length, the
request id drawn from `rand()`, response-to 0 and the query opcode. -/
def query_header (c : mongo_cursor) : mongo_header :=
  { len := 16 + 4 + (c.ns.length : Int) + 1 + 4 + 4 + bson_size (c.query.getD bson_empty).data
      + bson_size (c.fields.getD bson_empty).data
    id := c.conn.rand.headD 0
    responseTo := 0
    op := MONGO_OP_QUERY }

/-- The transport calls of one successful query exchange: the two writes of the
query message and the three reads of a reply with `n` document bytes. -/
def query_exchange_trace (c : mongo_cursor) (n : Nat) : List sock_event :=
  [sock_event.wrote (header_wire (query_header c)) true,
   sock_event.wrote
     (query_body c (c.query.getD bson_empty) (c.fields.getD bson_empty)) true,
   sock_event.read 16 true, sock_event.read 20 true, sock_event.read n true]

/-- The cursor after a successful query exchange in which the reply
`⟨h, f, objs⟩` was read, `ws` and `rs` being what is left of the transport
scripts: errors cleared, null documents replaced by the empty one, the reply
installed, `seen` advanced and the query-sent flag set. -/
def cursor_after_query (c : mongo_cursor) (h : mongo_header) (f : mongo_reply_fields)
    (objs : List Nat) (ws : List Bool) (rs : List sock_read) : mongo_cursor :=
  { c with
    conn := { mongo_clear_errors c.conn with
      rand := c.conn.rand.tail
      sock := { reads := rs, writes := ws
                trace := c.conn.sock.trace ++ query_exchange_trace c objs.length } }
    query := some (c.query.getD bson_empty)
    fields := some (c.fields.getD bson_empty)
    reply := some ⟨h, f, objs⟩
    seen := c.seen + f.num
    flags := c.flags ||| MONGO_CURSOR_QUERY_SENT }

/-- The number a get-more asks for (lines 1409-1413): the `int` that
`limit - seen` leaves for a positive limit, 0 otherwise. -/
def get_more_limit (c : mongo_cursor) : Int :=
  if c.limit > 0 then int32_wrap (c.limit - c.seen) else 0

/-- The header of the get-more message that a cursor sends. -/
def get_more_header (c : mongo_cursor) : mongo_header :=
  { len := ((16 + 4 + (c.ns.length + 1) + 4 + 8 : Nat) : Int)
    id := c.conn.rand.headD 0
    responseTo := 0
    op := MONGO_OP_GET_MORE }

/-- The transport calls of one successful get-more exchange for the server
cursor `cursorID`: the two writes of the get-more message and the three reads
of a reply with `n` document bytes. -/
def get_more_exchange_trace (c : mongo_cursor) (cursorID : Int) (n : Nat) : List sock_event :=
  [sock_event.wrote (header_wire (get_more_header c)) true,
   sock_event.wrote (get_more_body c (get_more_limit c) cursorID) true,
   sock_event.read 16 true, sock_event.read 20 true, sock_event.read n true]

/-- The cursor after a successful get-more exchange for the server cursor
`cursorID` in which the reply `⟨h, f, objs⟩` was read: the reply replaced, the
current document reset and `seen` advanced. -/
def cursor_after_get_more (c : mongo_cursor) (cursorID : Int) (h : mongo_header)
    (f : mongo_reply_fields) (objs : List Nat) (ws : List Bool) (rs : List sock_read) :
    mongo_cursor :=
  { c with
    conn := { c.conn with
      rand := c.conn.rand.tail
      sock := { reads := rs, writes := ws
                trace := c.conn.sock.trace ++ get_more_exchange_trace c cursorID objs.length } }
    reply := some ⟨h, f, objs⟩
    current := none
    seen := c.seen + f.num }

/-- A server that answers the query with the documents `docs1` and the cursor
id `id1`, and the get-more that follows with the documents `docs2` and the
cursor id `id2`, every write succeeding. -/
def sock_two_replies (docs1 : List (List Nat)) (id1 : Int) (docs2 : List (List Nat))
    (id2 : Int) : mongo_sock :=
  { reads :=
      reply_reads ⟨36 + docs1.flatten.length, 1, 0, 1⟩ ⟨0, id1, 0, docs1.length⟩ docs1.flatten
      ++ reply_reads ⟨36 + docs2.flatten.length, 2, 0, 1⟩ ⟨0, id2, 0, docs2.length⟩
        docs2.flatten
    writes := [true, true, true, true]
    trace := [] }

/-- A reply as the server frames it and `mongo_read_response` accepts it: the
declared length is the 36 header and field bytes plus the document bytes, at
most 64 MiB, and every header and field value fits its wire width. -/
def reply_well_framed (h : mongo_header) (f : mongo_reply_fields) (objs : List Nat) : Prop :=
  h.len = 36 + (objs.length : Int) ∧ objs.length + 36 ≤ 67108864 ∧
  is_int32 h.id ∧ is_int32 h.responseTo ∧ is_int32 h.op ∧
  is_int32 f.flag ∧ (-9223372036854775808 ≤ f.cursorID ∧ f.cursorID < 9223372036854775808) ∧
  is_int32 f.start ∧ is_int32 f.num

/-- The results of `k` successive calls of `mongo_cursor_next`, each with the
document the cursor exposes after the call, and the cursor after the last. -/
def cursor_run : Nat → mongo_cursor → List (Int × Option (List Nat)) × mongo_cursor
  | 0, cursor => ([], cursor)
  | k + 1, cursor =>
    let r := mongo_cursor_next cursor
    let rest := cursor_run k r.2
    ((r.1, mongo_cursor_bson r.2) :: rest.1, rest.2)

/-- The document `{ "a" : 1 }` (12 bytes). -/
def doc_a1 : List Nat := [12, 0, 0, 0, 16, 97, 0, 1, 0, 0, 0, 0]

/-- The document `{ "b" : 2 }` (12 bytes). -/
def doc_b2 : List Nat := [12, 0, 0, 0, 16, 98, 0, 2, 0, 0, 0, 0]

/-- The document `{ "$err" : "x" }` (17 bytes). -/
def doc_err : List Nat := [17, 0, 0, 0, 2, 36, 101, 114, 114, 0, 2, 0, 0, 0, 120, 0, 0]

/-- A server that answers the query with one reply holding the given documents
and the given cursor id, every write succeeding. -/
def sock_one_reply (docs : List (List Nat)) (cursorID : Int) : mongo_sock :=
  { reads := reply_reads ⟨36 + docs.flatten.length, 1, 0, 1⟩ ⟨0, cursorID, 0, docs.length⟩ docs.flatten
    writes := [true, true, true, true]
    trace := [] }

/-! ## The namespace grammar as the specification words it -/

/-- The database segment: the characters before the first `'.'`. -/
def ns_db_segment (ns : List Char) : List Char :=
  ns.takeWhile (fun c => c != '.')

/-- The collection segment: the characters after the first `'.'`. -/
def ns_collection_segment (ns : List Char) : List Char :=
  (ns.dropWhile (fun c => c != '.')).drop 1

/-- Whether a string holds two consecutive dots. -/
def has_consecutive_dots : List Char → Bool
  | a :: b :: rest => (a == '.' && b == '.') || has_consecutive_dots (b :: rest)
  | _ => false

/-- The checks of `mongo_validate_ns`, in terms of the two segments. -/
def ns_checks (ns : List Char) : Prop :=
  ns.head? ≠ some '.' ∧
  (ns_collection_segment ns).head? ≠ some '.' ∧
  ns_collection_segment ns ≠ [] ∧
  (∀ c ∈ ns_db_segment ns, c ≠ ' ' ∧ c ≠ '$' ∧ c ≠ '/' ∧ c ≠ '\\') ∧
  '$' ∉ ns_collection_segment ns ∧
  has_consecutive_dots (ns_collection_segment ns) = false ∧
  ns.length ≤ 128 ∧
  ns.getLast? ≠ some '.'

/-- The namespace grammar as the specification states it: no leading `'.'`;
split at the first `'.'`, a non-empty database segment without `' '`, `'$'`,
`'/'`, `'\\'`; a non-empty collection segment without `'$'`, without two
consecutive dots and not ending with `'.'`; at most 128 characters. -/
def ns_grammar (ns : List Char) : Prop :=
  ns.head? ≠ some '.' ∧
  ns_db_segment ns ≠ [] ∧
  (∀ c ∈ ns_db_segment ns, c ≠ ' ' ∧ c ≠ '$' ∧ c ≠ '/' ∧ c ≠ '\\') ∧
  ns_collection_segment ns ≠ [] ∧
  '$' ∉ ns_collection_segment ns ∧
  ¬ (['.', '.'] <:+: ns_collection_segment ns) ∧
  (ns_collection_segment ns).getLast? ≠ some '.' ∧
  ns.length ≤ 128

/-- The rules of the namespace grammar other than the length rule, the
collection segment not starting with `'.'` included. -/
def ns_rules_but_length (ns : List Char) : Prop :=
  ns.head? ≠ some '.' ∧
  ns_db_segment ns ≠ [] ∧
  (∀ c ∈ ns_db_segment ns, c ≠ ' ' ∧ c ≠ '$' ∧ c ≠ '/' ∧ c ≠ '\\') ∧
  ns_collection_segment ns ≠ [] ∧
  (ns_collection_segment ns).head? ≠ some '.' ∧
  '$' ∉ ns_collection_segment ns ∧
  ¬ (['.', '.'] <:+: ns_collection_segment ns) ∧
  (ns_collection_segment ns).getLast? ≠ some '.'

/-- The namespaces the specification lists as invalid, each with the message
that `mongo_validate_ns` stores for it. -/
def ns_invalid_samples : List (List Char × List Char) :=
  [(".a.b".toList, "ns cannot start with a '.'.".toList),
   ("a.".toList, "Collection name missing.".toList),
   ("a..b".toList, "ns cannot start with a '.'.".toList),
   ("a.b$".toList, "Collection may not contain '$'".toList),
   ("a$.b".toList, "Database name may not contain ' ', '$', '/', or '\\'".toList),
   ("a/b.c".toList, "Database name may not contain ' ', '$', '/', or '\\'".toList),
   ("a.com".toList ++ List.replicate 130 '.',
      "Collection may not contain two consecutive '.'".toList)]

/-! ## Concrete connections and transports -/

/-- A connection with no transport script, used where a concrete one is needed. -/
def conn0 : mongo := mongo_zeroed ⟨[], [], []⟩

/-- A transport on which the peer closes after sending the four bytes
`36 0 0 0`: the 16-byte read fails on a partly filled buffer, the 20-byte read
fails, and a read of zero bytes succeeds at once. -/
def sock_closed_early : mongo_sock :=
  { reads := [⟨false, [36, 0, 0, 0]⟩, ⟨false, []⟩, ⟨true, []⟩], writes := [], trace := [] }

/-- A transport that delivers one well-formed reply of 36 bytes (no documents). -/
def sock_empty_reply : mongo_sock :=
  { reads := [⟨true, [36, 0, 0, 0, 7, 0, 0, 0, 1, 1, 0, 0, 1, 0, 0, 0]⟩,
              ⟨true, [8, 0, 0, 0, 5, 1, 0, 0, 0, 0, 0, 0, 0, 0, 0, 0, 0, 0, 0, 0]⟩,
              ⟨true, []⟩],
    writes := [], trace := [] }

/-! ## Scenarios for the cursor's refusal paths -/

/-- A transport on which every request succeeds and the peer answers the
requests in turn, each answer a reply with the given documents and cursor id. -/
def sock_replies : List (List (List Nat) × Int) → mongo_sock
  | [] => { reads := [], writes := [], trace := [] }
  | (docs, id) :: rest =>
    { reads := reply_reads ⟨36 + docs.flatten.length, 1, 0, 1⟩ ⟨0, id, 0, docs.length⟩
        docs.flatten ++ (sock_replies rest).reads
      writes := true :: true :: (sock_replies rest).writes
      trace := [] }

/-- The cursor after three calls of `mongo_cursor_next` against a server that
answers the query with `{a: 1}` and cursor id 7, the first get-more with no
document and cursor id 7, and the second get-more with no document and cursor
id 0. -/
def cursor_tail_dead : mongo_cursor :=
  (cursor_run 3 (mongo_cursor_init
    (mongo_zeroed (sock_replies [([doc_a1], 7), ([], 7), ([], 0)])) "db.c".toList)).2

/-- A cursor on namespace `ns` that holds an empty reply with cursor id 7, on a
connection whose next two writes succeed. -/
def cursor_live (ns : List Char) : mongo_cursor :=
  { mongo_cursor_init (mongo_zeroed ⟨[], [true, true], []⟩) ns with
    reply := some ⟨⟨36, 1, 0, 1⟩, ⟨0, 7, 0, 0⟩, []⟩ }

/-- The bytes of a 32-bit integer element: type tag 16, the name with its NUL,
and the value, little-endian. -/
def bson_int_element (name : List Char) (value : Int) : List Nat :=
  [16] ++ cstring_bytes name ++ le32_bytes value

/-- The bytes of a string element: type tag 2, the name with its NUL, the
32-bit length of the string with its NUL, and the string with its NUL. -/
def bson_string_element (name : List Char) (value : List Char) : List Nat :=
  [2] ++ cstring_bytes name ++ le32_bytes ((value.length + 1 : Nat) : Int)
    ++ cstring_bytes value

/-- The bytes of the finished document that holds the given elements in the
given order: total length, the elements, and the end-of-object byte. -/
def bson_document (elements : List (List Nat)) : List Nat :=
  le32_bytes ((4 + elements.flatten.length + 1 : Nat) : Int) ++ elements.flatten ++ [0]

/-- The fields of the acknowledgement command in their order: `getlasterror`
= 1; then `w`, the mode string when a mode is set and otherwise the integer w
when that is greater than 1; then `wtimeout`, `j` and `fsync`, each when its
value is non-zero. -/
def write_concern_fields (wc : mongo_write_concern) : List (List Nat) :=
  [bson_int_element "getlasterror".toList 1]
    ++ (match wc.mode with
        | some mode => [bson_string_element "w".toList mode]
        | none => if wc.w > 1 then [bson_int_element "w".toList wc.w] else [])
    ++ (if wc.wtimeout ≠ 0 then [bson_int_element "wtimeout".toList wc.wtimeout] else [])
    ++ (if wc.j ≠ 0 then [bson_int_element "j".toList wc.j] else [])
    ++ (if wc.fsync ≠ 0 then [bson_int_element "fsync".toList wc.fsync] else [])

/-- A document under construction after `bson_init` whose appended bytes are
`written`. -/
def bson_builder (written : List Nat) : bson :=
  { data := [0, 0, 0, 0] ++ written, finished := false, err := 0 }

/-! ## What the transport can change in a connection's error state -/

/-- Line 922 of `mongo_check_last_error`: the getlasterror round trip, a
`mongo_find_one` of the compiled command on the `$cmd` collection of the
namespace's database. -/
def getlasterror_round_trip (conn : mongo) (ns : List Char) (wc : mongo_write_concern) :
    Int × Option bson × mongo :=
  mongo_find_one conn (mongo_ns_to_cmd_db ns) wc.cmd (some bson_empty)

/-- The bytes of the response document of the getlasterror round trip (the
object `response` of `mongo_check_last_error`). -/
def getlasterror_response (conn : mongo) (ns : List Char) (wc : mongo_write_concern) :
    List Nat :=
  ((getlasterror_round_trip conn ns wc).2.1.getD bson_empty).data

/-- Modelled from the spec: connection-level condition "command failed". -/
def MONGO_COMMAND_FAILED : Int := 10

/-- Whether the IEEE double in the eight bytes at the start of `v` is not zero:
it is zero exactly when every bit but the sign bit is clear. -/
def bson_double_nonzero (v : List Nat) : Bool :=
  !((v.take 7).all (fun x => x % 256 == 0) && v.getD 7 0 % 128 == 0)

/-- Modelled from the spec: `bson_iterator_bool` of `bson.c` for an iterator on
the element at offset `cur`, read as a truth value ("a boolean/numeric field"):
a boolean is true when its byte is not 0, a 32-bit integer, a 64-bit integer
and a double when not zero, end-of-object and null are false, every other tag
is true. -/
def bson_iterator_bool (data : List Nat) (cur : Int) : Bool :=
  let tag := byte_at data cur
  let v := bson_iterator_value data cur
  if tag = 8 then v.headD 0 % 256 != 0
  else if tag = 16 then le32_int v != 0
  else if tag = 18 then le64_int v != 0
  else if tag = 1 then bson_double_nonzero v
  else if tag = 0 ∨ tag = 10 then false
  else true

/-- The C string that starts at the first byte of `b`: the characters before
the first NUL. -/
def cstring_at (b : List Nat) : List Char :=
  (b.takeWhile (fun x => x != 0)).map Char.ofNat

/-- The call `strncpy( dst, src, n )` of the C library, `src` being a C string:
at most `n` characters are copied and the rest of the `n` characters is filled
with NUL. -/
def strncpy (dst src : List Char) (n : Nat) : List Char :=
  src.take n ++ List.replicate (n - src.length) (Char.ofNat 0) ++ dst.drop n

/-- The bytes of an object that `mongo_find_one` or a command handed back; the
null `data` of an untouched object reads as the empty document. -/
def bson_data (out : Option bson) : List Nat :=
  (out.getD bson_empty).data

/-- The function `mongo_run_command` (lines 1922-1976) called with a non-null
`out`: the result code, the object `out` afterwards (`none` for a null `data`)
and the connection afterwards.  `out` on entry is what the caller's object
holds. -/
def mongo_run_command (conn : mongo) (db : List Char) (command : bson) (out : Option bson) :
    Int × Option bson × mongo :=
  let rv := mongo_bson_valid conn command false
  if rv.1 ≠ MONGO_OK then (MONGO_ERROR, out, rv.2)
  else
    let ns := db ++ ".$cmd".toList
    let r := mongo_find_one rv.2 ns (some command) (some bson_empty)
    if r.1 ≠ MONGO_OK then (MONGO_ERROR, none, r.2.2)
    else
      let response := bson_data r.2.1
      let success : Bool :=
        match bson_find response "ok".toList with
        | some cur => bson_iterator_bool response cur
        | none => false
      let conn : mongo :=
        match bson_find response "errmsg".toList with
        | some cur =>
          { r.2.2 with
            lasterrstr :=
              poke (strncpy r.2.2.lasterrstr (cstring_at (bson_iterator_string response cur))
                MONGO_ERR_LEN) (MONGO_ERR_LEN - 1) (Char.ofNat 0) }
        | none => r.2.2
      if ¬ success then (MONGO_ERROR, none, { conn with err := MONGO_COMMAND_FAILED })
      else (MONGO_OK, r.2.1, conn)

/-- The function `mongo_simple_int_command` (lines 1978-1999): the result code,
the object handed to `realout` and the connection afterwards.  The local `out`
starts as `INIT_BSON`, whose `data` is null. -/
def mongo_simple_int_command (conn : mongo) (db cmdstr : List Char) (arg : Int) :
    Int × Option bson × mongo :=
  let cmd := bson_finish (bson_append_int (bson_init bson_create) cmdstr arg)
  mongo_run_command conn db cmd none

/-- The position on which `bson_find` leaves the iterator when no element has
the name: the walk over the elements from offset `cur` on ends on the
end-of-object byte (or where the fuel or a known tag ends). -/
def bson_walk_end (data : List Nat) : Nat → Int → Int
  | 0, cur => cur
  | fuel + 1, cur =>
    let tag := byte_at data cur
    if tag = 0 then cur
    else
      let key := (bytes_from data (cur + 1)).takeWhile (fun x => x != 0)
      match bson_value_size tag (bytes_from data (cur + 1 + key.length + 1)) with
      | none => cur
      | some ds => bson_walk_end data fuel (cur + 1 + key.length + 1 + ds)

/-- The position of the iterator after `bson_find( &it, obj, name )`: the
element found, or the end of the walk. -/
def bson_find_position (data : List Nat) (name : List Char) : Int :=
  match bson_find data name with
  | some cur => cur
  | none => bson_walk_end data data.length 4

/-- The function `mongo_cmd_get_error_helper` (lines 2097-2124): the result
code, the object handed to `realout` and the connection afterwards. -/
def mongo_cmd_get_error_helper (conn : mongo) (db : List Char) (cmdtype : List Char) :
    Int × Option bson × mongo :=
  let conn := mongo_clear_errors conn
  let r := mongo_simple_int_command conn db cmdtype 1
  let haserror : Bool :=
    if r.1 = MONGO_OK then decide (bson_find_type (bson_data r.2.1) "err".toList ≠ 10)
    else false
  let conn : mongo :=
    if haserror then
      mongo_set_last_error r.2.2 (bson_find_position (bson_data r.2.1) "err".toList)
        (bson_data r.2.1)
    else r.2.2
  if haserror then (MONGO_ERROR, r.2.1, conn) else (MONGO_OK, r.2.1, conn)

/-- The function `mongo_cmd_get_prev_error` (lines 2126-2129). -/
def mongo_cmd_get_prev_error (conn : mongo) (db : List Char) : Int × Option bson × mongo :=
  mongo_cmd_get_error_helper conn db "getpreverror".toList

/-- The function `mongo_cmd_get_last_error` (lines 2131-2134). -/
def mongo_cmd_get_last_error (conn : mongo) (db : List Char) : Int × Option bson × mongo :=
  mongo_cmd_get_error_helper conn db "getlasterror".toList

/-! ## Batch insert, update and remove (`mongo.c` lines 1026-1166) -/

/-- Modelled from the spec: opcode of an update message. -/
def MONGO_OP_UPDATE : Int := 2001

/-- Modelled from the spec: opcode of a delete message. -/
def MONGO_OP_DELETE : Int := 2006

/-- Modelled from the spec: insert flag "continue on error" of `mongo.h`. -/
def MONGO_CONTINUE_ON_ERROR : Int := 1

/-- The conversion of a C `int` to `size_t` (64 bits). -/
def size_t_of_int (i : Int) : Nat := (i % 18446744073709551616).toNat

/-- The loop of lines 1044-1048 of `mongo_insert_batch`: every document's size
is added to `size` (a `size_t`) and the document is validated; the first
invalid document ends the function.  The result code, the connection and the
value of `size`. -/
def insert_batch_validate : List bson → mongo → Nat → Int × mongo × Nat
  | [], conn, size => (MONGO_OK, conn, size)
  | b :: rest, conn, size =>
    let size := (size + size_t_of_int (bson_size b.data)) % 18446744073709551616
    let rb := mongo_bson_valid conn b true
    if rb.1 ≠ MONGO_OK then (MONGO_ERROR, rb.2, size)
    else insert_batch_validate rest rb.2 size

/-- Lines 1066-1075: the bytes appended to a batch insert message. -/
def insert_batch_body (ns : List Char) (bsons : List bson) (flags : Int) : List Nat :=
  le32_bytes (if flags % 2 = 1 then 1 else 0) ++ cstring_bytes ns
    ++ (bsons.map (fun b => fit (size_t_of_int (bson_size b.data)) b.data)).flatten

/-- The function `mongo_insert_batch` (lines 1026-1078); `count` is the length
of the list of documents. -/
def mongo_insert_batch (conn : mongo) (ns : List Char) (bsons : List bson)
    (custom_write_concern : Option mongo_write_concern) (flags : Int) : Int × mongo :=
  let overhead : Nat := 16 + 4 + ns.length + 1
  let rv := mongo_validate_ns conn ns
  if rv.1 ≠ MONGO_OK then (MONGO_ERROR, rv.2)
  else
    let rl := insert_batch_validate bsons rv.2 overhead
    if rl.1 ≠ MONGO_OK then (MONGO_ERROR, rl.2.1)
    else
      let conn := rl.2.1
      let size := rl.2.2
      if (size + 18446744073709551616 - overhead) % 18446744073709551616
          > size_t_of_int conn.max_bson_size then
        (MONGO_ERROR, { conn with err := MONGO_BSON_TOO_LARGE })
      else
        let rc := mongo_choose_write_concern conn custom_write_concern none
        if rc.1 = MONGO_ERROR then (MONGO_ERROR, rc.2.2)
        else
          let conn := rc.2.2
          match mongo_message_create (conn.rand.headD 0) size 0 0 MONGO_OP_INSERT with
          | none => (MONGO_ERROR, { conn with err := MONGO_BSON_TOO_LARGE })
          | some mm =>
            let conn := { conn with rand := conn.rand.tail }
            let mm := message_fill mm (insert_batch_body ns bsons flags)
            mongo_message_send_and_check_write_concern conn ns mm rc.2.1

/-- Lines 1113-1120: the bytes appended to an update message. -/
def update_body (ns : List Char) (cond op : bson) (flags : Int) : List Nat :=
  le32_bytes 0 ++ cstring_bytes ns ++ le32_bytes flags
    ++ fit (size_t_of_int (bson_size cond.data)) cond.data
    ++ fit (size_t_of_int (bson_size op.data)) op.data

/-- The function `mongo_update` (lines 1080-1123). -/
def mongo_update (conn : mongo) (ns : List Char) (cond op : bson) (flags : Int)
    (custom_write_concern : Option mongo_write_concern) : Int × mongo :=
  let rb := mongo_bson_valid conn op false
  if rb.1 ≠ MONGO_OK then (MONGO_ERROR, rb.2)
  else
    let rc := mongo_choose_write_concern rb.2 custom_write_concern none
    if rc.1 = MONGO_ERROR then (MONGO_ERROR, rc.2.2)
    else
      let conn := rc.2.2
      let len : Int := 16 + 4 + (ns.length : Int) + 1 + 4 + bson_size cond.data
        + bson_size op.data
      match mongo_message_create (conn.rand.headD 0) (size_t_of_int len) 0 0 MONGO_OP_UPDATE with
      | none => (MONGO_ERROR, { conn with err := MONGO_BSON_TOO_LARGE })
      | some mm =>
        let conn := { conn with rand := conn.rand.tail }
        let mm := message_fill mm (update_body ns cond op flags)
        mongo_message_send_and_check_write_concern conn ns mm rc.2.1

/-- Lines 1158-1163: the bytes appended to a delete message. -/
def remove_body (ns : List Char) (cond : bson) : List Nat :=
  le32_bytes 0 ++ cstring_bytes ns ++ le32_bytes 0
    ++ fit (size_t_of_int (bson_size cond.data)) cond.data

/-- The function `mongo_remove` (lines 1125-1166). -/
def mongo_remove (conn : mongo) (ns : List Char) (cond : bson)
    (custom_write_concern : Option mongo_write_concern) : Int × mongo :=
  let rb := mongo_bson_valid conn cond false
  if rb.1 ≠ MONGO_OK then (MONGO_ERROR, rb.2)
  else
    let rc := mongo_choose_write_concern rb.2 custom_write_concern none
    if rc.1 = MONGO_ERROR then (MONGO_ERROR, rc.2.2)
    else
      let conn := rc.2.2
      let len : Int := 16 + 4 + (ns.length : Int) + 1 + 4 + bson_size cond.data
      match mongo_message_create (conn.rand.headD 0) (size_t_of_int len) 0 0 MONGO_OP_DELETE with
      | none => (MONGO_ERROR, { conn with err := MONGO_BSON_TOO_LARGE })
      | some mm =>
        let conn := { conn with rand := conn.rand.tail }
        let mm := message_fill mm (remove_body ns cond)
        mongo_message_send_and_check_write_concern conn ns mm rc.2.1

/-! ## Connecting (`env.h`; `mongo.c` lines 447-475, 497-521) -/

/-- Modelled from the spec: connection-level condition "connect failed". -/
def MONGO_CONN_FAIL : Int := 2

/-- Modelled from the spec: connection-level condition "connected but not
primary". -/
def MONGO_CONN_NOT_MASTER : Int := 4

/-- Modelled from the spec: connection-level condition "set name mismatch". -/
def MONGO_CONN_BAD_SET_NAME : Int := 5

/-- Modelled from the spec: connection-level condition "no primary found". -/
def MONGO_CONN_NO_PRIMARY : Int := 6

/-- Modelled from the spec: the port used when a host string names none. -/
def MONGO_DEFAULT_PORT : Int := 27017

/-- The first coming connection attempt for an address, taken out of the list:
the server reached, if any, and the attempts left.  An address the list does
not hold cannot be reached. -/
def net_take : List net_node → List Char → Int → Option net_server × List net_node
  | [], _, _ => (none, [])
  | n :: rest, host, port =>
    if n.host = host ∧ n.port = port then (n.server, rest)
    else ((net_take rest host port).1, n :: (net_take rest host port).2)

/-- Modelled from the spec: `mongo_env_socket_connect` of `env.h` ("connect" of
the platform socket abstraction).  The network decides the outcome: on success
the connection talks to the server reached and is marked connected; on failure
the socket is left unusable and the condition "connect failed" is set.  The
call is recorded in the trace. -/
def mongo_env_socket_connect (conn : mongo) (host : List Char) (port : Int) : Int × mongo :=
  match (net_take conn.net host port).1 with
  | some srv =>
    (MONGO_OK,
     { conn with
       sock := { reads := srv.reads, writes := srv.writes
                 trace := conn.sock.trace ++ [sock_event.connect host port true] }
       connected := true
       net := (net_take conn.net host port).2 })
  | none =>
    (MONGO_ERROR,
     { conn with
       sock := { reads := [], writes := []
                 trace := conn.sock.trace ++ [sock_event.connect host port false] }
       connected := false
       err := MONGO_CONN_FAIL
       net := (net_take conn.net host port).2 })

/-- Modelled from the spec: `mongo_env_close_socket` of `env.h` ("close"): the
call is recorded and every later call on the socket fails. -/
def mongo_env_close_socket (sock : mongo_sock) : mongo_sock :=
  { reads := [], writes := [], trace := sock.trace ++ [sock_event.close] }

/-- The assignment `conn->sock = 0`: no socket is held, every call on the
handle fails; nothing is recorded. -/
def sock_none (sock : mongo_sock) : mongo_sock :=
  { reads := [], writes := [], trace := sock.trace }

/-- The truth value of a field of a response as the probes read it: that of
`bson_iterator_bool` on the element when `bson_find` finds it, false otherwise. -/
def bson_find_bool (data : List Nat) (name : List Char) : Bool :=
  match bson_find data name with
  | some cur => bson_iterator_bool data cur
  | none => false

/-- Lines 457-460 and 674-676: the maximum document size a probe response
gives: the integer of `maxBsonObjectSize` when the field is found, the default
otherwise. -/
def probe_max_bson_size (data : List Nat) : Int :=
  match bson_find data "maxBsonObjectSize".toList with
  | some cur => bson_iterator_int data cur
  | none => MONGO_DEFAULT_MAX_BSON_SIZE

/-- The function `mongo_check_is_master` (lines 447-475). -/
def mongo_check_is_master (conn : mongo) : Int × mongo :=
  let r := mongo_simple_int_command conn "admin".toList "ismaster".toList 1
  if r.1 = MONGO_OK then
    let out := bson_data r.2.1
    let ismaster := bson_find_bool out "ismaster".toList
    let conn := { r.2.2 with max_bson_size := probe_max_bson_size out }
    if ismaster then (MONGO_OK, conn)
    else (MONGO_ERROR, { conn with err := MONGO_CONN_NOT_MASTER })
  else (MONGO_ERROR, r.2.2)

/-- The function `mongo_client` (lines 505-521). -/
def mongo_client (conn : mongo) (host : List Char) (port : Int) : Int × mongo :=
  let conn := mongo_init conn
  let conn := { conn with primary := some { host := host, port := port } }
  let rc := mongo_env_socket_connect conn host port
  if rc.1 ≠ MONGO_OK then (MONGO_ERROR, rc.2)
  else
    let rm := mongo_check_is_master rc.2
    if rm.1 ≠ MONGO_OK then (MONGO_ERROR, rm.2)
    else (MONGO_OK, rm.2)

/-! ## Replica sets (`mongo.c` lines 530-764) -/

/-- The replica-set context a connection points to.  The functions below
dereference `conn->replica_set` without a test and are called on connections
that `mongo_replica_set_init` prepared; for a null pointer the model reads an
empty context. -/
def conn_replica_set (conn : mongo) : mongo_replica_set :=
  conn.replica_set.getD { seeds := [], hosts := [], name := [], primary_connected := false }

/-- The function `mongo_replica_set_init` (lines 530-544). -/
def mongo_replica_set_init (conn : mongo) (name : List Char) : mongo :=
  { mongo_init conn with
    replica_set := some { seeds := [], hosts := [], name := name, primary_connected := false }
    primary := some { host := [], port := 0 } }

/-- The function `mongo_replica_set_add_node` (lines 551-565): a new record
with a copy of the host string is linked to the end of the list. -/
def mongo_replica_set_add_node (list : List mongo_host_port) (host : List Char) (port : Int) :
    List mongo_host_port :=
  list ++ [{ host := host, port := port }]

/-- The function `mongo_replica_set_add_seed` (lines 580-582). -/
def mongo_replica_set_add_seed (conn : mongo) (host : List Char) (port : Int) : mongo :=
  { conn with
    replica_set := conn.replica_set.map
      (fun rs => { rs with seeds := mongo_replica_set_add_node rs.seeds host port }) }

/-- The digits loop of the C library function `atoi`: the value of the leading
decimal digits, `acc` being the value read so far. -/
def atoi_digits : List Char → Int → Int
  | [], acc => acc
  | c :: rest, acc =>
    if 48 ≤ c.toNat ∧ c.toNat ≤ 57 then atoi_digits rest (acc * 10 + ((c.toNat - 48 : Nat) : Int))
    else acc

/-- The saturation of the C library function `strtol` on a 64-bit `long`: a
value above `LONG_MAX` or below `LONG_MIN` is replaced by that bound. -/
def strtol_clamp (v : Int) : Int :=
  if v > 9223372036854775807 then 9223372036854775807
  else if v < -9223372036854775808 then -9223372036854775808
  else v

/-- The C library function `atoi` on a C string, as the C library computes it,
`(int) strtol( s, NULL, 10 )`: white space is skipped, an optional sign is
read, then the leading decimal digits; the value saturates at the range of
`long` and the conversion to `int` keeps its low 32 bits.  For a value in the
range of `int` the result is that value. -/
def atoi (s : List Char) : Int :=
  int32_wrap (strtol_clamp
    (match s.dropWhile (fun c => c = ' ' ∨ (9 ≤ c.toNat ∧ c.toNat ≤ 13)) with
     | [] => 0
     | c :: rest =>
       if c = '-' then - atoi_digits rest 0
       else if c = '+' then atoi_digits rest 0
       else atoi_digits (c :: rest) 0))

/-- The loop of lines 594-602 of `mongo_parse_host`: the final value of `split`
after the characters from index `len` on have been read, `split` being its
value so far: the index of the last `':'` read. -/
def parse_host_split : List Char → Nat → Nat → Nat
  | [], _, split => split
  | c :: rest, len, split => parse_host_split rest (len + 1) (if c = ':' then len else split)

/-- The function `mongo_parse_host` (lines 589-614): the record written. -/
def mongo_parse_host (host_string : List Char) : mongo_host_port :=
  let len := host_string.length
  let split := parse_host_split host_string 0 0
  let idx := if split ≠ 0 then split else len
  { host := host_string.take idx
    port := if split ≠ 0 then atoi (host_string.drop (idx + 1)) else MONGO_DEFAULT_PORT }

/-- The function `mongo_parse_host` (lines 589-614) writing into a record whose
array `host` has `size` bytes (the array is declared in `mongo.h`, which is
not among the sources, so its size is a parameter): lines 608-609 copy `idx`
characters and a terminator into the array, so `idx + 1` bytes must fit;
`none` stands for a copy that runs past the end of the array. -/
def mongo_parse_host_bounded (size : Nat) (host_string : List Char) : Option mongo_host_port :=
  let len := host_string.length
  let split := parse_host_split host_string 0 0
  let idx := if split ≠ 0 then split else len
  if idx + 1 ≤ size then some (mongo_parse_host host_string) else none

/-- Modelled from the spec: the positions that `bson_iterator_next` of `bson.c`
visits from offset `cur` on until it returns end-of-object: the offsets of the
elements in order.  An element with an unknown tag is visited and ends the
walk. -/
def bson_elements_from (data : List Nat) : Nat → Int → List Int
  | 0, _ => []
  | fuel + 1, cur =>
    let tag := byte_at data cur
    if tag = 0 then []
    else
      let key := (bytes_from data (cur + 1)).takeWhile (fun x => x != 0)
      match bson_value_size tag (bytes_from data (cur + 1 + key.length + 1)) with
      | none => [cur]
      | some ds => cur :: bson_elements_from data fuel (cur + 1 + key.length + 1 + ds)

/-- Lines 630-649 of `mongo_replica_set_check_seed`: the host records made from
the `hosts` field of a probe response, in the order of the array; no record
when the field is not found. -/
def seed_hosts (out : List Nat) : List mongo_host_port :=
  match bson_find out "hosts".toList with
  | some cur =>
    let data := bson_iterator_value out cur
    (bson_elements_from data data.length 4).map
      (fun e => mongo_parse_host (cstring_at (bson_iterator_string data e)))
  | none => []

/-- The function `mongo_replica_set_check_seed` (lines 616-658). -/
def mongo_replica_set_check_seed (conn : mongo) : mongo :=
  let r := mongo_simple_int_command conn "admin".toList "ismaster".toList 1
  let conn : mongo :=
    if r.1 = MONGO_OK then
      { r.2.2 with
        replica_set := r.2.2.replica_set.map
          (fun rs => { rs with hosts := rs.hosts ++ seed_hosts (bson_data r.2.1) }) }
    else r.2.2
  { conn with sock := sock_none (mongo_env_close_socket conn.sock), connected := false }

/-- Lines 691-700 of `mongo_replica_set_check_host`: a primary is recorded, the
socket of any other node is closed. -/
def replica_set_check_host_finish (conn : mongo) (ismaster : Bool) : Int × mongo :=
  if ismaster then
    (MONGO_OK,
     { conn with
       replica_set := conn.replica_set.map (fun rs => { rs with primary_connected := true }) })
  else (MONGO_OK, { conn with sock := mongo_env_close_socket conn.sock })

/-- The function `mongo_replica_set_check_host` (lines 663-701). -/
def mongo_replica_set_check_host (conn : mongo) : Int × mongo :=
  let r := mongo_simple_int_command conn "admin".toList "ismaster".toList 1
  if r.1 = MONGO_OK then
    let out := bson_data r.2.1
    let ismaster := bson_find_bool out "ismaster".toList
    let conn := { r.2.2 with max_bson_size := probe_max_bson_size out }
    match bson_find out "setName".toList with
    | some cur =>
      if cstring_at (bson_iterator_string out cur) ≠ (conn_replica_set conn).name then
        (MONGO_ERROR, { conn with err := MONGO_CONN_BAD_SET_NAME })
      else replica_set_check_host_finish conn ismaster
    | none => replica_set_check_host_finish conn ismaster
  else replica_set_check_host_finish r.2.2 false

/-- The loop of lines 715-724 of `mongo_replica_set_client` from the seed
`node` on: the seeds that are left, in order. -/
def replica_set_scan_seeds : List mongo_host_port → mongo → mongo
  | [], conn => conn
  | node :: rest, conn =>
    let rc := mongo_env_socket_connect conn node.host node.port
    if rc.1 = MONGO_OK then
      let conn := mongo_replica_set_check_seed rc.2
      if (conn_replica_set conn).hosts ≠ [] then conn
      else replica_set_scan_seeds rest conn
    else replica_set_scan_seeds rest rc.2

/-- The loop of lines 734-758 of `mongo_replica_set_client` from the member
`node` on, with lines 762-763 that follow it. -/
def replica_set_probe_hosts : List mongo_host_port → mongo → Int × mongo
  | [], conn => (MONGO_ERROR, { conn with err := MONGO_CONN_NO_PRIMARY })
  | node :: rest, conn =>
    let rc := mongo_env_socket_connect conn node.host node.port
    if rc.1 = MONGO_OK then
      let rh := mongo_replica_set_check_host rc.2
      if rh.1 ≠ MONGO_OK then (MONGO_ERROR, rh.2)
      else if (conn_replica_set rh.2).primary_connected then
        (MONGO_OK, { rh.2 with primary := some { host := node.host, port := node.port } })
      else
        replica_set_probe_hosts rest
          { rh.2 with sock := sock_none (mongo_env_close_socket rh.2.sock), connected := false }
    else replica_set_probe_hosts rest rc.2

/-- The function `mongo_replica_set_client` (lines 703-764). -/
def mongo_replica_set_client (conn : mongo) : Int × mongo :=
  let conn := { conn with sock := sock_none conn.sock, connected := false }
  let conn := replica_set_scan_seeds (conn_replica_set conn).seeds conn
  if (conn_replica_set conn).hosts = [] then
    (MONGO_ERROR, { conn with err := MONGO_CONN_NO_PRIMARY })
  else replica_set_probe_hosts (conn_replica_set conn).hosts conn

/-! ## What a command round trip can change in a connection -/

/-- Whether a recorded transport call is a read or a write. -/
def sock_event_is_io : sock_event → Bool
  | sock_event.wrote _ _ => true
  | sock_event.read _ _ => true
  | sock_event.connect _ _ _ => false
  | sock_event.close => false

/-- The connection-level conditions that validation, the transport and the
command layer store. -/
def session_errors : List Int :=
  [MONGO_CONN_SUCCESS, MONGO_IO_ERROR, MONGO_COMMAND_FAILED, MONGO_BSON_INVALID,
   MONGO_BSON_NOT_FINISHED, MONGO_BSON_TOO_LARGE]

/-- The relation between a connection before and after calls that validate
documents, talk on the open socket and read replies: the trace grows by reads
and writes only; the maximum document size, the default write concern, the
primary address, the replica-set context, the connected flag and the network
are what they were; and the error is what it was or one of `session_errors`. -/
def session_frame (a b : mongo) : Prop :=
  (∃ evs, b.sock.trace = a.sock.trace ++ evs ∧ ∀ e ∈ evs, sock_event_is_io e = true) ∧
  b.max_bson_size = a.max_bson_size ∧ b.write_concern = a.write_concern ∧
  b.primary = a.primary ∧ b.replica_set = a.replica_set ∧ b.connected = a.connected ∧
  b.net = a.net ∧ (b.err = a.err ∨ b.err ∈ session_errors)

/-- The calls recorded in `trace` after those of the socket `s` start with the
write of `hdr`, and when that write succeeds the next call is the write of
`body`: a message with this header and body is what is sent next on `s`. -/
def sends_first (s : mongo_sock) (trace : List sock_event) (hdr body : List Nat) : Prop :=
  ∃ rest, trace = s.trace ++ sock_event.wrote hdr (s.writes.headD false) :: rest ∧
    (s.writes.headD false = true →
      ∃ rest2, rest = sock_event.wrote body (s.writes.tail.headD false) :: rest2)

/-- The document `{ "ok" : 0, "errmsg" : "no" }` (28 bytes). -/
def doc_not_ok : List Nat :=
  [28, 0, 0, 0, 16, 111, 107, 0, 0, 0, 0, 0,
   2, 101, 114, 114, 109, 115, 103, 0, 3, 0, 0, 0, 110, 111, 0, 0]

/-- A connection on which every write succeeds and whose negotiated maximum
document size is the largest `int`. -/
def conn_max_int : mongo :=
  { mongo_zeroed ⟨[], [true, true], []⟩ with max_bson_size := 2147483647 }

/-- A finished document whose declared size is 2147483623 bytes; only the four
bytes of the size are held. -/
def doc_huge : bson := { data := [231, 255, 255, 127], finished := true, err := 0 }

/-- The header of the insert message of `mongo_insert` (lines 1008-1012). -/
def insert_header (conn : mongo) (ns : List Char) (b : bson) : mongo_header :=
  { len := 16 + 4 + (ns.length : Int) + 1 + bson_size b.data
    id := conn.rand.headD 0, responseTo := 0, op := MONGO_OP_INSERT }

/-- The sum of the declared sizes of the documents of a batch. -/
def batch_size (bsons : List bson) : Int := (bsons.map (fun b => bson_size b.data)).sum

/-- The connection after the loop of lines 1044-1048 of `mongo_insert_batch`
when every document passed `mongo_bson_valid`: each pass stores
`MONGO_CONN_SUCCESS`, and an empty batch leaves the connection as it was. -/
def insert_batch_validated (conn : mongo) : List bson → mongo
  | [] => conn
  | _ :: _ => { conn with err := MONGO_CONN_SUCCESS }

/-- The header of the insert message of `mongo_insert_batch` (line 1060). -/
def insert_batch_header (conn : mongo) (ns : List Char) (bsons : List bson) : mongo_header :=
  { len := 16 + 4 + (ns.length : Int) + 1 + batch_size bsons
    id := conn.rand.headD 0, responseTo := 0, op := MONGO_OP_INSERT }

/-- A connection on which every write succeeds and whose maximum document size
is 20 bytes. -/
def conn_max_20 : mongo :=
  { mongo_zeroed ⟨[], [true, true], []⟩ with max_bson_size := 20 }

/-- Lines 507-514 of `mongo_client`: the transport connect, made on the
initialised connection that records the address as its primary. -/
def client_connect (conn : mongo) (host : List Char) (port : Int) : Int × mongo :=
  mongo_env_socket_connect
    { mongo_init conn with primary := some { host := host, port := port } } host port

/-- Line 456 of `mongo_check_is_master` as `mongo_client` reaches it: the
is-primary probe command on the connection the connect left. -/
def client_probe (conn : mongo) (host : List Char) (port : Int) : Int × Option bson × mongo :=
  mongo_simple_int_command (client_connect conn host port).2 "admin".toList "ismaster".toList 1

/-- A server that answers one query with the given document. -/
def server_one_reply (doc : List Nat) : net_server :=
  { reads := (sock_one_reply [doc] 0).reads, writes := [true, true] }

/-- The probe response `{ ismaster : 1, maxBsonObjectSize : 16777216, ok : 1 }`. -/
def doc_master : List Nat :=
  (bson_finish (bson_append_int (bson_append_int (bson_append_int (bson_init bson_create)
    "ismaster".toList 1) "maxBsonObjectSize".toList 16777216) "ok".toList 1)).data

/-- A connection whose network holds one server at `h:27017` that answers with
`doc_master`. -/
def conn_one_master : mongo :=
  { mongo_zeroed ⟨[], [], []⟩ with
    net := [{ host := "h".toList, port := 27017, server := some (server_one_reply doc_master) }] }

/-! ## Replica-set discovery as the specification words it -/

/-- The connect attempts recorded in a list of transport calls, in call order:
the address of each. -/
def connects_of : List sock_event → List mongo_host_port
  | [] => []
  | sock_event.connect host port _ :: rest => { host := host, port := port } :: connects_of rest
  | sock_event.wrote _ _ :: rest => connects_of rest
  | sock_event.read _ _ :: rest => connects_of rest
  | sock_event.close :: rest => connects_of rest

/-- Lines 706-707 of `mongo_replica_set_client`: the connection with the socket
handle and the connected flag cleared. -/
def replica_set_client_start (conn : mongo) : mongo :=
  { conn with sock := sock_none conn.sock, connected := false }

/-- Lines 712-724 of `mongo_replica_set_client`: the connection after the seed
scan. -/
def replica_set_after_seeds (conn : mongo) : mongo :=
  replica_set_scan_seeds (conn_replica_set (replica_set_client_start conn)).seeds
    (replica_set_client_start conn)

/-- The is-primary probe of a node: the command `{ ismaster : 1 }` on the
`admin` database, sent on the connection that the connect to the node's
address leaves. -/
def node_probe (conn : mongo) (node : mongo_host_port) : Int × Option bson × mongo :=
  mongo_simple_int_command (mongo_env_socket_connect conn node.host node.port).2
    "admin".toList "ismaster".toList 1

/-- The node connects and its is-primary probe succeeds: there is a response. -/
def node_answers (conn : mongo) (node : mongo_host_port) : Bool :=
  decide ((mongo_env_socket_connect conn node.host node.port).1 = MONGO_OK) &&
    decide ((node_probe conn node).1 = MONGO_OK)

/-- The set name a probe response reports: the string of its `setName` field,
`none` when the response has no such field. -/
def probe_set_name (out : List Nat) : Option (List Char) :=
  match bson_find out "setName".toList with
  | some cur => some (cstring_at (bson_iterator_string out cur))
  | none => none

/-- The member connects and its probe response reports a set name that differs
from the expected name of the replica set. -/
def member_reports_bad_name (conn : mongo) (node : mongo_host_port) : Bool :=
  node_answers conn node &&
    match probe_set_name (bson_data (node_probe conn node).2.1) with
    | some name => decide (name ≠ (conn_replica_set conn).name)
    | none => false

/-- Lines 735-757 of `mongo_replica_set_client` for a member that is passed
over: the connection with which the scan goes on to the next member. -/
def member_skip (conn : mongo) (node : mongo_host_port) : mongo :=
  let rc := mongo_env_socket_connect conn node.host node.port
  if rc.1 = MONGO_OK then
    let rh := mongo_replica_set_check_host rc.2
    { rh.2 with sock := sock_none (mongo_env_close_socket rh.2.sock), connected := false }
  else rc.2

/-- The connection after the members of a list have been passed over in order. -/
def members_skip : List mongo_host_port → mongo → mongo
  | [], conn => conn
  | node :: rest, conn => members_skip rest (member_skip conn node)

/-- The host records a seed yields: those of the `hosts` array of its probe
response when it connects and answers, none otherwise. -/
def seed_yields (conn : mongo) (node : mongo_host_port) : List mongo_host_port :=
  if node_answers conn node then seed_hosts (bson_data (node_probe conn node).2.1) else []

/-- Lines 716-723 of `mongo_replica_set_client` for one seed: the connection
after the connect attempt and, when it succeeded, `mongo_replica_set_check_seed`. -/
def seed_skip (conn : mongo) (node : mongo_host_port) : mongo :=
  let rc := mongo_env_socket_connect conn node.host node.port
  if rc.1 = MONGO_OK then mongo_replica_set_check_seed rc.2 else rc.2

/-- The probe response `{ ismaster : ismaster, setName : name, ok : 1 }`. -/
def doc_probe (ismaster : Int) (name : List Char) : List Nat :=
  (bson_finish (bson_append_int (bson_append_string (bson_append_int (bson_init bson_create)
    "ismaster".toList ismaster) "setName".toList name) "ok".toList 1)).data

/-- The elements of a BSON array of strings whose first index is `i` (below 10). -/
def bson_string_array_elements : List (List Char) → Nat → List Nat
  | [], _ => []
  | s :: rest, i =>
    [2, 48 + i, 0] ++ le32_bytes ((s.length : Int) + 1) ++ cstring_bytes s
      ++ bson_string_array_elements rest (i + 1)

/-- The probe response `{ hosts : [ ... ], setName : name, ok : 1 }`. -/
def doc_seed_reply (hosts : List (List Char)) (name : List Char) : List Nat :=
  let arr := bson_string_array_elements hosts 0
  let body := [4] ++ cstring_bytes "hosts".toList ++ le32_bytes ((arr.length : Int) + 5) ++ arr
    ++ [0] ++ [2] ++ cstring_bytes "setName".toList ++ le32_bytes ((name.length : Int) + 1)
    ++ cstring_bytes name ++ [16] ++ cstring_bytes "ok".toList ++ le32_bytes 1 ++ [0]
  le32_bytes ((body.length : Int) + 4) ++ body

/-- A connection prepared by `mongo_replica_set_init` for the set `rs` with the
given seeds, on the given network. -/
def conn_replica (net : List net_node) (seeds : List mongo_host_port) : mongo :=
  seeds.foldl (fun c s => mongo_replica_set_add_seed c s.host s.port)
    (mongo_replica_set_init { mongo_zeroed ⟨[], [], []⟩ with net := net } "rs".toList)

/-- The network of `conn_first_primary` with a member `b:2` that reports itself
primary of a set named `other`. -/
def conn_bad_member : mongo :=
  conn_replica
    [{ host := "s".toList, port := 1, server := some (server_one_reply
        (doc_seed_reply ["a:1".toList, "b:2".toList, "c:3".toList] "rs".toList)) },
     { host := "b".toList, port := 2, server := some (server_one_reply
        (doc_probe 1 "other".toList)) },
     { host := "c".toList, port := 3, server := some (server_one_reply
        (doc_probe 1 "rs".toList)) }]
    [{ host := "s".toList, port := 1 }]

/-- One seed that connects and reports the set name `other` with the member
`h:1`, which does not connect. -/
def conn_seed_other_name : mongo :=
  conn_replica
    [{ host := "s".toList, port := 1, server := some (server_one_reply
        (doc_seed_reply ["h:1".toList] "other".toList)) }]
    [{ host := "s".toList, port := 1 }]

/-- One seed that connects and reports the set name `other` with the member
`h:1`, which answers as the primary of the set `rs`. -/
def conn_seed_other_name_primary : mongo :=
  conn_replica
    [{ host := "s".toList, port := 1, server := some (server_one_reply
        (doc_seed_reply ["h:1".toList] "other".toList)) },
     { host := "h".toList, port := 1, server := some (server_one_reply
        (doc_probe 1 "rs".toList)) }]
    [{ host := "s".toList, port := 1 }]

/-! ## Capped collections (`mongo.c` lines 1873-1893) -/

/-- Modelled from the spec: `bson_append_bool` of `bson.c`: the type tag 8, the
name with its NUL, and one byte, 1 for a non-zero value and 0 otherwise. -/
def bson_append_bool (b : bson) (name : List Char) (v : Int) : bson :=
  { b with data := b.data ++ [8] ++ cstring_bytes name ++ [if v ≠ 0 then 1 else 0] }

/-- Lines 1880-1885 of `mongo_create_capped_collection`: the command document. -/
def capped_collection_command (collection : List Char) (size max : Int) : bson :=
  let b := bson_init bson_create
  let b := bson_append_string b "create".toList collection
  let b := bson_append_bool b "capped".toList 1
  let b := bson_append_int b "size".toList size
  let b := if max > 0 then bson_append_int b "max".toList size else b
  bson_finish b

/-- The function `mongo_create_capped_collection` (lines 1873-1893). -/
def mongo_create_capped_collection (conn : mongo) (db collection : List Char)
    (size max : Int) (out : Option bson) : Int × Option bson × mongo :=
  mongo_run_command conn db (capped_collection_command collection size max) out

/-! ## The text form of an address (`mongo.c` lines 61-65) -/

/-- The character of a decimal digit. -/
def digit_char (d : Nat) : Char :=
  "0123456789".toList.getD d '0'

/-- The decimal digits of `n` put in front of `acc`; `fuel` bounds the number
of digits. -/
def decimal_digits : Nat → Nat → List Char → List Char
  | 0, _, acc => acc
  | fuel + 1, n, acc =>
    if n < 10 then digit_char n :: acc
    else decimal_digits fuel (n / 10) (digit_char (n % 10) :: acc)

/-- Modelled from the spec: the conversion `%d` of the C library function
`sprintf`: the decimal digits of the value, after a minus sign when it is
negative. -/
def sprintf_d (v : Int) : List Char :=
  if v < 0 then '-' :: decimal_digits ((-v).toNat + 1) (-v).toNat []
  else decimal_digits (v.toNat + 1) v.toNat []

/-- The function `_get_host_port` (lines 61-65): the text `host:port`. -/
def _get_host_port (hp : mongo_host_port) : List Char :=
  hp.host ++ ":".toList ++ sprintf_d hp.port

/-! ## Authentication (`mongo.c` lines 2147-2268) -/

/-- Modelled from the spec: `mongo_md5_init` of `md5.h`: the state of a digest
computation is the message appended so far, empty at the start. -/
def mongo_md5_init : List Nat := []

/-- Modelled from the spec: `mongo_md5_append` of `md5.h`: the first `nbytes`
bytes of `data` are added to the message. -/
def mongo_md5_append (st : List Nat) (data : List Nat) (nbytes : Int) : List Nat :=
  st ++ fit nbytes.toNat data

/-- Modelled from the spec: `mongo_md5_finish` of `md5.h`: the 16 bytes of the
digest of the message.  The digest primitive itself is the parameter `md5`
("the keyed-digest primitive"); whatever it computes, 16 bytes are stored. -/
def mongo_md5_finish (md5 : List Nat → List Nat) (st : List Nat) : List Nat :=
  (fit 16 (md5 st)).map (fun b => b % 256)

/-- The table `hex` of `digest2hex` (line 2148). -/
def hex_chars : List Char := "0123456789abcdef".toList

/-- The function `digest2hex` (lines 2147-2155): the 33 characters written to
`hex_digest`. -/
def digest2hex (digest : List Nat) : List Char :=
  ((List.range 16).map (fun i =>
    [hex_chars.getD ((digest.getD i 0 &&& 240) >>> 4) '0',
     hex_chars.getD (digest.getD i 0 &&& 15) '0'])).flatten ++ [Char.ofNat 0]

/-- The function `mongo_pass_digest` (lines 2157-2172): the result code, the
buffer `hex_digest` afterwards and the connection. -/
def mongo_pass_digest (md5 : List Nat → List Nat) (conn : mongo) (user pass : List Char)
    (hex_digest : List Char) : Int × List Char × mongo :=
  if user.length ≥ INT32_MAX ∨ pass.length ≥ INT32_MAX then
    (MONGO_ERROR, hex_digest, { conn with err := MONGO_BSON_TOO_LARGE })
  else
    let st := mongo_md5_init
    let st := mongo_md5_append st (user.map Char.toNat) (user.length : Int)
    let st := mongo_md5_append st (":mongo:".toList.map Char.toNat) 7
    let st := mongo_md5_append st (pass.map Char.toNat) (pass.length : Int)
    let digest := mongo_md5_finish md5 st
    (MONGO_OK, digest2hex digest, conn)

/-- Lines 2254-2259 of `mongo_cmd_authenticate`: the command document. -/
def authenticate_command (user nonce key : List Char) : bson :=
  let cmd := bson_init bson_create
  let cmd := bson_append_int cmd "authenticate".toList 1
  let cmd := bson_append_string cmd "user".toList user
  let cmd := bson_append_string cmd "nonce".toList nonce
  let cmd := bson_append_string cmd "key".toList key
  bson_finish cmd

/-- The function `mongo_cmd_authenticate` (lines 2218-2268): the result code
and the connection afterwards.  The local buffer `hex_digest` is not
initialised; it is modelled as 33 NUL characters. -/
def mongo_cmd_authenticate (md5 : List Nat → List Nat) (conn : mongo)
    (db user pass : List Char) : Int × mongo :=
  let r := mongo_simple_int_command conn db "getnonce".toList 1
  if r.1 = MONGO_OK then
    let from_db := bson_data r.2.1
    let nonce := cstring_at (bson_iterator_string from_db
      (bson_find_position from_db "nonce".toList))
    let rp := mongo_pass_digest md5 r.2.2 user pass (List.replicate 33 (Char.ofNat 0))
    if rp.1 ≠ MONGO_OK then (rp.1, rp.2.2)
    else
      let conn := rp.2.2
      if nonce.length ≥ INT32_MAX ∨ user.length ≥ INT32_MAX then
        (MONGO_ERROR, { conn with err := MONGO_BSON_TOO_LARGE })
      else
        let st := mongo_md5_init
        let st := mongo_md5_append st (nonce.map Char.toNat) (nonce.length : Int)
        let st := mongo_md5_append st (user.map Char.toNat) (user.length : Int)
        let st := mongo_md5_append st (rp.2.1.map Char.toNat) 32
        let digest := mongo_md5_finish md5 st
        let hex_digest := digest2hex digest
        let cmd := authenticate_command user nonce (cstr hex_digest)
        let rr := mongo_run_command conn db cmd none
        (rr.1, rr.2.2)
  else (MONGO_ERROR, r.2.2)

/-! ## The authentication digests as the specification words them -/

/-- The lowercase hexadecimal encoding of a list of bytes: two characters for
each byte, the high half first. -/
def hex_lower (bytes : List Nat) : List Char :=
  (bytes.map (fun b => [hex_chars.getD (b / 16 % 16) '0', hex_chars.getD (b % 16) '0'])).flatten

/-- The bytes of a C string (without terminator). -/
def string_bytes (s : List Char) : List Nat := s.map Char.toNat

/-- The password digest: the digest of `user ++ ":mongo:" ++ pass`. -/
def password_digest (md5 : List Nat → List Nat) (user pass : List Char) : List Nat :=
  mongo_md5_finish md5 (string_bytes user ++ string_bytes ":mongo:".toList ++ string_bytes pass)

/-- The response key: the hexadecimal text of the digest of
`nonce ++ user ++ hex(password digest)`. -/
def authenticate_key (md5 : List Nat → List Nat) (nonce user pass : List Char) : List Char :=
  hex_lower (mongo_md5_finish md5
    (string_bytes nonce ++ string_bytes user
      ++ string_bytes (hex_lower (password_digest md5 user pass))))

/-- The nonce that a getnonce response holds: the string of its `nonce` field. -/
def getnonce_nonce (conn : mongo) (db : List Char) : List Char :=
  cstring_at (bson_iterator_string
    (bson_data (mongo_simple_int_command conn db "getnonce".toList 1).2.1)
    (bson_find_position
      (bson_data (mongo_simple_int_command conn db "getnonce".toList 1).2.1) "nonce".toList))

/-- A digest primitive for examples: 16 bytes derived from the length and the
first bytes of the message. -/
def md5_example (m : List Nat) : List Nat :=
  (List.range 16).map (fun i => (m.length + 7 * i + m.getD i 0) % 256)

/-- The getnonce response `{ nonce : "abc", ok : 1 }`. -/
def doc_nonce : List Nat :=
  (bson_finish (bson_append_int (bson_append_string (bson_init bson_create)
    "nonce".toList "abc".toList) "ok".toList 1)).data

/-- The document `{ "a" : 1 }` in a buffer of 16 bytes: the 12 bytes it
declares and four more that are not part of it. -/
def doc_a1_slack : bson := { data := doc_a1 ++ [9, 9, 9, 9], finished := true, err := 0 }

theorem ns_find_division_eq (ns : List Char) :
    ns_find_division ns = ns_collection_segment ns := by
  induction ns with
  | nil => rfl
  | cons c rest ih =>
    by_cases h : c = '.'
    · simp [ns_find_division, ns_collection_segment, h, List.dropWhile]
    · simp only [ns_find_division, ns_collection_segment, h, if_false] at ih ⊢
      rw [List.dropWhile_cons_of_pos (by simpa using h)]
      exact ih

theorem has_consecutive_dots_iff (l : List Char) :
    has_consecutive_dots l = true ↔ ['.', '.'] <:+: l := by
  induction l with
  | nil => simp [has_consecutive_dots]
  | cons a t ih =>
    cases t with
    | nil =>
      simp only [has_consecutive_dots, Bool.false_eq_true, false_iff]
      intro h
      have := h.length_le
      simp at this
    | cons b rest =>
      simp only [has_consecutive_dots, Bool.or_eq_true, Bool.and_eq_true, beq_iff_eq, ih]
      constructor
      · rintro (⟨rfl, rfl⟩ | h)
        · exact ⟨[], rest, rfl⟩
        · exact h.trans (List.suffix_cons a _).isInfix
      · intro h
        rcases List.infix_cons_iff.mp h with h | h
        · left
          obtain ⟨r, hr⟩ := h
          simp at hr
          exact ⟨hr.1.symm, hr.2.1.symm⟩
        · exact Or.inr h

theorem ns_validate_db_some (ns : List Char) (k n : Nat)
    (h : ns_validate_db ns k = some n) :
    n = k + (ns_db_segment ns).length ∧
      ∀ c ∈ ns_db_segment ns, c ≠ ' ' ∧ c ≠ '$' ∧ c ≠ '/' ∧ c ≠ '\\' := by
  induction ns generalizing k with
  | nil => simp [ns_validate_db] at h; simp [ns_db_segment, h]
  | cons c rest ih =>
    unfold ns_validate_db at h
    by_cases hc : c = '.'
    · simp [hc] at h
      simp [ns_db_segment, hc, h]
    · simp only [hc, if_false] at h
      by_cases hb : c = ' ' ∨ c = '$' ∨ c = '/' ∨ c = '\\'
      · simp [hb] at h
      · simp only [hb, if_false] at h
        obtain ⟨h1, h2⟩ := ih (k + 1) h
        have hseg : ns_db_segment (c :: rest) = c :: ns_db_segment rest := by
          unfold ns_db_segment
          exact List.takeWhile_cons_of_pos (by simpa using hc)
        rw [hseg]
        refine ⟨by simp; omega, ?_⟩
        intro x hx
        rcases List.mem_cons.mp hx with rfl | hx
        · push_neg at hb; exact hb
        · exact h2 x hx

theorem ns_validate_collection_ok (coll : List Char) (last : Option Char) (k n : Nat)
    (h : ns_validate_collection coll last k = .ok n) :
    n = k + coll.length ∧ '$' ∉ coll ∧ has_consecutive_dots coll = false ∧
      (last = some '.' → coll.head? ≠ some '.') := by
  induction coll generalizing last k with
  | nil =>
    simp only [ns_validate_collection, Except.ok.injEq] at h
    simp [has_consecutive_dots, h]
  | cons c rest ih =>
    unfold ns_validate_collection at h
    split at h
    · cases h
    · rename_i h1
      split at h
      · cases h
      · rename_i h2
        obtain ⟨e1, e2, e3, e4⟩ := ih (some c) (k + 1) h
        refine ⟨by simp; omega, ?_, ?_, ?_⟩
        · simp only [List.mem_cons, not_or]
          exact ⟨fun e => h2 e.symm, e2⟩
        · cases rest with
          | nil => simp [has_consecutive_dots]
          | cons b rest2 =>
            simp only [has_consecutive_dots, Bool.or_eq_false_iff, Bool.and_eq_false_imp,
              beq_iff_eq]
            refine ⟨?_, e3⟩
            intro hc
            have := e4 (by rw [hc])
            simpa using this
        · intro hl hh
          simp only [List.head?_cons, Option.some.injEq] at hh
          exact h1 ⟨hl, hh⟩

theorem ns_validate_collection_complete (coll : List Char) (last : Option Char) (k : Nat)
    (h1 : '$' ∉ coll) (h2 : has_consecutive_dots coll = false)
    (h3 : last = some '.' → coll.head? ≠ some '.') :
    ns_validate_collection coll last k = .ok (k + coll.length) := by
  induction coll generalizing last k with
  | nil => simp [ns_validate_collection]
  | cons c rest ih =>
    unfold ns_validate_collection
    have hA : ¬ (last = some '.' ∧ c = '.') := by
      rintro ⟨hl, hc⟩
      exact h3 hl (by simp [hc])
    have hB : ¬ c = '$' := by
      intro hc
      exact h1 (by simp [hc])
    rw [if_neg hA, if_neg hB]
    have h1r : '$' ∉ rest := fun hm => h1 (List.mem_cons_of_mem _ hm)
    have h2r : has_consecutive_dots rest = false := by
      cases rest with
      | nil => rfl
      | cons b rest2 =>
        simp only [has_consecutive_dots, Bool.or_eq_false_iff] at h2
        exact h2.2
    have h3r : some c = some '.' → rest.head? ≠ some '.' := by
      intro hc hh
      cases rest with
      | nil => simp at hh
      | cons b rest2 =>
        simp only [List.head?_cons, Option.some.injEq] at hh hc
        simp [has_consecutive_dots, hh, hc] at h2
    rw [ih (some c) (k + 1) h1r h2r h3r]
    simp only [List.length_cons]
    congr 1
    omega

theorem ns_validate_db_complete (ns : List Char) (k : Nat)
    (h : ∀ c ∈ ns_db_segment ns, c ≠ ' ' ∧ c ≠ '$' ∧ c ≠ '/' ∧ c ≠ '\\') :
    ns_validate_db ns k = some (k + (ns_db_segment ns).length) := by
  induction ns generalizing k with
  | nil => simp [ns_validate_db, ns_db_segment]
  | cons c rest ih =>
    unfold ns_validate_db
    by_cases hc : c = '.'
    · simp [hc, ns_db_segment]
    · have hseg : ns_db_segment (c :: rest) = c :: ns_db_segment rest := by
        unfold ns_db_segment
        exact List.takeWhile_cons_of_pos (by simpa using hc)
      rw [hseg] at h ⊢
      have hcok := h c (List.mem_cons_self _ _)
      have hb : ¬ (c = ' ' ∨ c = '$' ∨ c = '/' ∨ c = '\\') := by
        push_neg
        exact hcok
      rw [if_neg hc, if_neg hb, ih (k + 1) (fun x hx => h x (List.mem_cons_of_mem _ hx))]
      simp only [List.length_cons]
      congr 1
      omega

theorem ns_segments_length (ns : List Char) (h : ns_collection_segment ns ≠ []) :
    ns.length = (ns_db_segment ns).length + 1 + (ns_collection_segment ns).length := by
  induction ns with
  | nil => simp [ns_collection_segment] at h
  | cons c rest ih =>
    by_cases hc : c = '.'
    · simp [ns_db_segment, ns_collection_segment, hc]
      omega
    · have hd : ns_db_segment (c :: rest) = c :: ns_db_segment rest := by
        unfold ns_db_segment
        exact List.takeWhile_cons_of_pos (by simpa using hc)
      have hcoll : ns_collection_segment (c :: rest) = ns_collection_segment rest := by
        unfold ns_collection_segment
        rw [List.dropWhile_cons_of_pos (by simpa using hc)]
      rw [hcoll] at h
      rw [hd, hcoll]
      simp only [List.length_cons]
      have := ih h
      omega

theorem ns_collection_getLast (ns : List Char) (h : ns_collection_segment ns ≠ []) :
    (ns_collection_segment ns).getLast? = ns.getLast? := by
  have hsuf : ns_collection_segment ns <:+ ns := by
    unfold ns_collection_segment
    exact (List.drop_suffix _ _).trans (List.dropWhile_suffix _)
  obtain ⟨pre, hpre⟩ := hsuf
  conv_rhs => rw [← hpre]
  rw [List.getLast?_append_of_ne_nil _ h]

theorem ns_dot_mem_of_collection (ns : List Char) (h : ns_collection_segment ns ≠ []) :
    '.' ∈ ns := by
  induction ns with
  | nil => simp [ns_collection_segment] at h
  | cons c rest ih =>
    by_cases hc : c = '.'
    · simp [hc]
    · have hcoll : ns_collection_segment (c :: rest) = ns_collection_segment rest := by
        unfold ns_collection_segment
        rw [List.dropWhile_cons_of_pos (by simpa using hc)]
      rw [hcoll] at h
      exact List.mem_cons_of_mem _ (ih h)

theorem ns_db_segment_eq_nil (ns : List Char) :
    ns_db_segment ns = [] ↔ ns = [] ∨ ns.head? = some '.' := by
  cases ns with
  | nil => simp [ns_db_segment]
  | cons c rest =>
    by_cases hc : c = '.'
    · simp [ns_db_segment, hc]
    · have hd : ns_db_segment (c :: rest) = c :: ns_db_segment rest := by
        unfold ns_db_segment
        exact List.takeWhile_cons_of_pos (by simpa using hc)
      simp [hd, hc]

theorem MONGO_ERROR_ne_OK : MONGO_ERROR ≠ MONGO_OK := by decide

theorem mongo_validate_ns_ok_of_checks (conn : mongo) (ns : List Char) (h : ns_checks ns) :
    mongo_validate_ns conn ns = (MONGO_OK, conn) := by
  obtain ⟨h1, h2, h3, h4, h5, h6, h7, h8⟩ := h
  have hlen := ns_segments_length ns h3
  have hdb : ns_db_segment ns ≠ [] := by
    intro hd
    rcases (ns_db_segment_eq_nil ns).mp hd with hn | hn
    · subst hn
      simp [ns_collection_segment] at h3
    · exact h1 hn
  have hdbl : 0 < (ns_db_segment ns).length := List.length_pos.mpr hdb
  unfold mongo_validate_ns
  simp only [ns_find_division_eq]
  rw [if_neg h1, if_neg h2, if_neg h3, if_neg (by omega),
    ns_validate_db_complete ns 0 h4]
  simp only
  rw [ns_validate_collection_complete _ none _ h5 h6 (by simp)]
  simp only
  rw [if_neg (by omega), if_neg h8]

theorem mongo_validate_ns_checks_of_ok (conn : mongo) (ns : List Char)
    (h : (mongo_validate_ns conn ns).1 = MONGO_OK) : ns_checks ns := by
  unfold mongo_validate_ns at h
  simp only [ns_find_division_eq] at h
  by_cases h1 : ns.head? = some '.'
  · rw [if_pos h1] at h
    exact absurd h MONGO_ERROR_ne_OK
  rw [if_neg h1] at h
  by_cases h2 : (ns_collection_segment ns).head? = some '.'
  · rw [if_pos h2] at h
    exact absurd h MONGO_ERROR_ne_OK
  rw [if_neg h2] at h
  by_cases h3 : ns_collection_segment ns = []
  · rw [if_pos h3] at h
    exact absurd h MONGO_ERROR_ne_OK
  rw [if_neg h3] at h
  by_cases h4 : ns.length - (ns_collection_segment ns).length = 1
  · rw [if_pos h4] at h
    exact absurd h MONGO_ERROR_ne_OK
  rw [if_neg h4] at h
  have hlen := ns_segments_length ns h3
  cases hdb : ns_validate_db ns 0 with
  | none =>
    rw [hdb] at h
    exact absurd h MONGO_ERROR_ne_OK
  | some n =>
    rw [hdb] at h
    simp only at h
    obtain ⟨hn, hchars⟩ := ns_validate_db_some ns 0 n hdb
    cases hcoll : ns_validate_collection (ns_collection_segment ns) none (n + 1) with
    | error msg =>
      rw [hcoll] at h
      exact absurd h MONGO_ERROR_ne_OK
    | ok m =>
      rw [hcoll] at h
      simp only at h
      obtain ⟨hm, hd, hdots, _⟩ := ns_validate_collection_ok _ _ _ _ hcoll
      by_cases h5 : m > 128
      · rw [if_pos h5] at h
        exact absurd h MONGO_ERROR_ne_OK
      rw [if_neg h5] at h
      by_cases h6 : ns.getLast? = some '.'
      · rw [if_pos h6] at h
        exact absurd h MONGO_ERROR_ne_OK
      exact ⟨h1, h2, h3, hchars, hd, hdots, by omega, h6⟩

theorem mongo_validate_ns_cases (conn : mongo) (ns : List Char) :
    mongo_validate_ns conn ns = (MONGO_OK, conn) ∨
      ∃ msg, mongo_validate_ns conn ns =
        (MONGO_ERROR, __mongo_set_error conn MONGO_NS_INVALID (some msg) 0) := by
  unfold mongo_validate_ns
  dsimp only
  by_cases h1 : ns.head? = some '.'
  · rw [if_pos h1]
    exact Or.inr ⟨_, rfl⟩
  rw [if_neg h1]
  by_cases h2 : (ns_find_division ns).head? = some '.'
  · rw [if_pos h2]
    exact Or.inr ⟨_, rfl⟩
  rw [if_neg h2]
  by_cases h3 : ns_find_division ns = []
  · rw [if_pos h3]
    exact Or.inr ⟨_, rfl⟩
  rw [if_neg h3]
  by_cases h4 : ns.length - (ns_find_division ns).length = 1
  · rw [if_pos h4]
    exact Or.inr ⟨_, rfl⟩
  rw [if_neg h4]
  cases ns_validate_db ns 0 with
  | none => exact Or.inr ⟨_, rfl⟩
  | some n =>
    dsimp only
    cases ns_validate_collection (ns_find_division ns) none (n + 1) with
    | error msg => exact Or.inr ⟨_, rfl⟩
    | ok m =>
      dsimp only
      by_cases h5 : m > 128
      · rw [if_pos h5]
        exact Or.inr ⟨_, rfl⟩
      rw [if_neg h5]
      by_cases h6 : ns.getLast? = some '.'
      · rw [if_pos h6]
        exact Or.inr ⟨_, rfl⟩
      rw [if_neg h6]
      exact Or.inl rfl

theorem mongo_validate_ns_error (conn : mongo) (ns : List Char)
    (h : (mongo_validate_ns conn ns).1 ≠ MONGO_OK) :
    (mongo_validate_ns conn ns).1 = MONGO_ERROR ∧
      (mongo_validate_ns conn ns).2.err = MONGO_NS_INVALID := by
  rcases mongo_validate_ns_cases conn ns with h1 | ⟨msg, h1⟩
  · rw [h1] at h
    exact absurd rfl h
  · rw [h1]
    exact ⟨rfl, rfl⟩

theorem cstr_append_nul (s t : List Char) (hs : ∀ c ∈ s, c ≠ Char.ofNat 0) :
    cstr (s ++ Char.ofNat 0 :: t) = s := by
  unfold cstr
  induction s with
  | nil => simp
  | cons a r ih =>
    have ha : a ≠ Char.ofNat 0 := hs a (List.mem_cons_self _ _)
    rw [List.cons_append, List.takeWhile_cons_of_pos (by simpa using ha),
      ih (fun c hc => hs c (List.mem_cons_of_mem _ hc))]

theorem cstr_set_error (conn : mongo) (e code : Int) (s : List Char)
    (hs : ∀ c ∈ s, c ≠ Char.ofNat 0) (hl : s.length < MONGO_ERR_LEN) :
    cstr (__mongo_set_error conn e (some s) code).errstr = s := by
  unfold __mongo_set_error
  have hsz : ¬ (s.length + 1 > MONGO_ERR_LEN) := by omega
  simp only [if_neg hsz, memcpy]
  have htake : List.take (s.length + 1) (s ++ [Char.ofNat 0]) = s ++ [Char.ofNat 0] :=
    List.take_of_length_le (by simp)
  rw [htake]
  cases hrest : List.drop (s.length + 1) conn.errstr with
  | nil =>
    have : poke (s ++ [Char.ofNat 0] ++ []) (s.length + 1) (Char.ofNat 0)
        = s ++ Char.ofNat 0 :: [Char.ofNat 0] := by
      simp [poke]
    rw [this]
    exact cstr_append_nul s _ hs
  | cons r rs =>
    have : poke (s ++ [Char.ofNat 0] ++ r :: rs) (s.length + 1) (Char.ofNat 0)
        = s ++ Char.ofNat 0 :: Char.ofNat 0 :: rs := by
      unfold poke
      rw [if_pos (by simp)]
      rw [List.append_assoc, List.set_append_right _ _ (by omega)]
      simp
    rw [this]
    exact cstr_append_nul s _ hs

/-- C1: whenever `mongo_validate_ns` returns `MONGO_OK`, the namespace holds a
`'.'`; split at its first `'.'`, the database segment is non-empty and free of
`' '`, `'$'`, `'/'`, `'\\'`; the collection segment is non-empty, does not start
with `'.'`, holds no `'$'`, holds no two consecutive dots and does not end with
`'.'`; and the namespace has at most 128 characters. -/
theorem mongo_validate_ns_sound (conn : mongo) (ns : List Char)
    (h : (mongo_validate_ns conn ns).1 = MONGO_OK) :
    '.' ∈ ns ∧
    ns_db_segment ns ≠ [] ∧
    (∀ c ∈ ns_db_segment ns, c ≠ ' ' ∧ c ≠ '$' ∧ c ≠ '/' ∧ c ≠ '\\') ∧
    ns_collection_segment ns ≠ [] ∧
    (ns_collection_segment ns).head? ≠ some '.' ∧
    '$' ∉ ns_collection_segment ns ∧
    ¬ (['.', '.'] <:+: ns_collection_segment ns) ∧
    (ns_collection_segment ns).getLast? ≠ some '.' ∧
    ns.length ≤ 128 := by
  obtain ⟨h1, h2, h3, h4, h5, h6, h7, h8⟩ := mongo_validate_ns_checks_of_ok conn ns h
  refine ⟨ns_dot_mem_of_collection ns h3, ?_, h4, h3, h2, h5, ?_, ?_, h7⟩
  · intro hd
    rcases (ns_db_segment_eq_nil ns).mp hd with hn | hn
    · subst hn
      simp [ns_collection_segment] at h3
    · exact h1 hn
  · intro hinf
    have := (has_consecutive_dots_iff _).mpr hinf
    rw [h6] at this
    exact Bool.false_ne_true this
  · rw [ns_collection_getLast ns h3]
    exact h8

/-- Witness of C1 at the namespace `a.b`. -/
theorem mongo_validate_ns_sound_witness :
    (mongo_validate_ns conn0 "a.b".toList).1 = MONGO_OK ∧
      '.' ∈ "a.b".toList ∧ "a.b".toList.length ≤ 128 :=
  ⟨by decide,
   (mongo_validate_ns_sound conn0 "a.b".toList (by decide)).1,
   (mongo_validate_ns_sound conn0 "a.b".toList (by decide)).2.2.2.2.2.2.2.2⟩

theorem ns_checks_of_rules (ns : List Char) (h : ns_rules_but_length ns)
    (hl : ns.length ≤ 128) : ns_checks ns := by
  obtain ⟨h1, _, h3, h4, h5, h6, h7, h8⟩ := h
  refine ⟨h1, h5, h4, h3, h6, ?_, hl, ?_⟩
  · cases hc : has_consecutive_dots (ns_collection_segment ns) with
    | false => rfl
    | true => exact absurd ((has_consecutive_dots_iff _).mp hc) h7
  · rw [← ns_collection_getLast ns h4]
    exact h8

/-- C2 (as the claim states it) fails: `a..b` satisfies the stated grammar, its
collection segment `.b` holding a single dot, yet `mongo_validate_ns` rejects
it because the collection part starts with a dot. -/
theorem mongo_validate_ns_grammar_counterexample :
    ns_grammar "a..b".toList ∧
      (mongo_validate_ns conn0 "a..b".toList).1 = MONGO_ERROR := by
  refine ⟨?_, by decide⟩
  unfold ns_grammar
  decide

/-- C2 (amended): every namespace that satisfies the stated grammar and whose
collection segment does not start with `'.'` is accepted by
`mongo_validate_ns`, which leaves the connection untouched. -/
theorem mongo_validate_ns_complete (conn : mongo) (ns : List Char)
    (h : ns_grammar ns) (hstart : (ns_collection_segment ns).head? ≠ some '.') :
    mongo_validate_ns conn ns = (MONGO_OK, conn) := by
  obtain ⟨h1, h2, h3, h4, h5, h6, h7, h8⟩ := h
  exact mongo_validate_ns_ok_of_checks conn ns
    (ns_checks_of_rules ns ⟨h1, h2, h3, h4, hstart, h5, h6, h7⟩ h8)

/-- Witness of the amended C2 at the namespace `a.b`. -/
theorem mongo_validate_ns_complete_witness :
    ns_grammar "a.b".toList ∧ mongo_validate_ns conn0 "a.b".toList = (MONGO_OK, conn0) :=
  ⟨by unfold ns_grammar; decide,
   mongo_validate_ns_complete conn0 "a.b".toList (by unfold ns_grammar; decide) (by decide)⟩

set_option maxRecDepth 100000 in
theorem mongo_validate_ns_sample (conn : mongo) (p : List Char × List Char)
    (hp : p ∈ ns_invalid_samples) :
    mongo_validate_ns conn p.1 =
      (MONGO_ERROR, __mongo_set_error conn MONGO_NS_INVALID (some p.2) 0) ∧
    (∀ c ∈ p.2, c ≠ Char.ofNat 0) ∧ p.2.length < MONGO_ERR_LEN := by
  simp only [ns_invalid_samples, List.mem_cons, List.mem_singleton, List.not_mem_nil,
    or_false] at hp
  rcases hp with rfl | rfl | rfl | rfl | rfl | rfl | rfl
  all_goals exact ⟨rfl, by decide, by decide⟩

/-- C3: `mongo_validate_ns` accepts `a.b`; it rejects each of `.a.b`, `a.`,
`a..b`, `a.b$`, `a$.b`, `a/b.c` and `a.com` followed by 130 dots with
`MONGO_ERROR`, connection error `MONGO_NS_INVALID` and a stored message fixed by
the namespace alone, whatever the connection; and a namespace that satisfies all
the rules other than the length rule is accepted when it has exactly 128
characters and rejected with `MONGO_NS_INVALID` when it has exactly 129. -/
theorem mongo_validate_ns_examples :
    (∀ conn : mongo, (mongo_validate_ns conn "a.b".toList).1 = MONGO_OK) ∧
    (∀ p ∈ ns_invalid_samples, ∀ conn : mongo,
      (mongo_validate_ns conn p.1).1 = MONGO_ERROR ∧
      (mongo_validate_ns conn p.1).2.err = MONGO_NS_INVALID ∧
      cstr (mongo_validate_ns conn p.1).2.errstr = p.2) ∧
    (∀ (conn : mongo) (ns : List Char), ns_rules_but_length ns → ns.length = 128 →
      (mongo_validate_ns conn ns).1 = MONGO_OK) ∧
    (∀ (conn : mongo) (ns : List Char), ns_rules_but_length ns → ns.length = 129 →
      (mongo_validate_ns conn ns).1 = MONGO_ERROR ∧
      (mongo_validate_ns conn ns).2.err = MONGO_NS_INVALID) := by
  refine ⟨fun conn => rfl, ?_, ?_, ?_⟩
  · intro p hp conn
    obtain ⟨heq, hnul, hlen⟩ := mongo_validate_ns_sample conn p hp
    rw [heq]
    exact ⟨rfl, rfl, cstr_set_error conn _ _ p.2 hnul hlen⟩
  · intro conn ns hr hl
    rw [mongo_validate_ns_ok_of_checks conn ns (ns_checks_of_rules ns hr (by omega))]
  · intro conn ns hr hl
    apply mongo_validate_ns_error
    intro hok
    have := (mongo_validate_ns_checks_of_ok conn ns hok).2.2.2.2.2.2.1
    omega

set_option maxRecDepth 100000 in
/-- Witness of C3: the namespace `a.` followed by 126 letters `b` has 128
characters and is accepted; with 127 letters it has 129 and is rejected. -/
theorem mongo_validate_ns_examples_witness :
    ns_rules_but_length ("a.".toList ++ List.replicate 126 'b') ∧
    (mongo_validate_ns conn0 ("a.".toList ++ List.replicate 126 'b')).1 = MONGO_OK ∧
    ns_rules_but_length ("a.".toList ++ List.replicate 127 'b') ∧
    (mongo_validate_ns conn0 ("a.".toList ++ List.replicate 127 'b')).1 = MONGO_ERROR :=
  ⟨by unfold ns_rules_but_length; decide,
   mongo_validate_ns_examples.2.2.1 conn0 _ (by unfold ns_rules_but_length; decide) (by decide),
   by unfold ns_rules_but_length; decide,
   (mongo_validate_ns_examples.2.2.2 conn0 _ (by unfold ns_rules_but_length; decide)
     (by decide)).1⟩

/-! ## Byte codec and framing -/

theorem le32_unsigned_bytes (v : Int) :
    le32_unsigned (le32_bytes v) = (v % 4294967296).toNat := by
  simp only [le32_unsigned, le32_bytes, List.getD_cons_zero, List.getD_cons_succ]
  omega

theorem le32_int_bytes (v : Int) (h : -2147483648 ≤ v ∧ v < 2147483648) :
    le32_int (le32_bytes v) = v := by
  unfold le32_int
  rw [le32_unsigned_bytes]
  unfold int32_of_unsigned
  split <;> omega

theorem le32_unsigned_lt (b : List Nat) : le32_unsigned b < 4294967296 := by
  unfold le32_unsigned
  omega

theorem le32_bytes_length (v : Int) : (le32_bytes v).length = 4 := rfl

theorem le32_bytes_lt (v : Int) : ∀ b ∈ le32_bytes v, b < 256 := by
  intro b hb
  simp only [le32_bytes, List.mem_cons, List.mem_singleton, List.not_mem_nil, or_false] at hb
  rcases hb with rfl | rfl | rfl | rfl <;> omega

theorem le32_unsigned_append (a b : List Nat) (h : a.length = 4) :
    le32_unsigned (a ++ b) = le32_unsigned a := by
  match a, h with
  | [a0, a1, a2, a3], _ => rfl

theorem header_wire_drop (h : mongo_header) :
    (header_wire h).drop 4 = le32_bytes h.id ++ le32_bytes h.responseTo ++ le32_bytes h.op ∧
    (header_wire h).drop 8 = le32_bytes h.responseTo ++ le32_bytes h.op ∧
    (header_wire h).drop 12 = le32_bytes h.op := by
  refine ⟨rfl, rfl, rfl⟩

theorem le32_int_append (a b : List Nat) (h : a.length = 4) :
    le32_int (a ++ b) = le32_int a := by
  unfold le32_int
  rw [le32_unsigned_append a b h]

theorem le32_unsigned_header_wire (h : mongo_header) :
    le32_unsigned (header_wire h) = (h.len % 4294967296).toNat := by
  unfold header_wire
  rw [List.append_assoc, List.append_assoc,
    le32_unsigned_append _ _ (le32_bytes_length h.len), le32_unsigned_bytes]

theorem reply_head_of_header_wire (h : mongo_header)
    (hlen : -2147483648 ≤ h.len ∧ h.len < 2147483648)
    (hid : -2147483648 ≤ h.id ∧ h.id < 2147483648)
    (hrt : -2147483648 ≤ h.responseTo ∧ h.responseTo < 2147483648)
    (hop : -2147483648 ≤ h.op ∧ h.op < 2147483648) :
    reply_head_of_wire (le32_unsigned (header_wire h)) (header_wire h) = h := by
  obtain ⟨d4, d8, d12⟩ := header_wire_drop h
  unfold reply_head_of_wire
  rw [d4, d8, d12]
  have e1 : le32_unsigned (header_wire h) = le32_unsigned (le32_bytes h.len) := by
    rw [le32_unsigned_header_wire, le32_unsigned_bytes]
  have e2 : le32_int (le32_bytes h.id ++ le32_bytes h.responseTo ++ le32_bytes h.op)
      = h.id := by
    rw [List.append_assoc, le32_int_append _ _ (le32_bytes_length h.id)]
    exact le32_int_bytes h.id hid
  have e3 : le32_int (le32_bytes h.responseTo ++ le32_bytes h.op) = h.responseTo := by
    rw [le32_int_append _ _ (le32_bytes_length h.responseTo)]
    exact le32_int_bytes h.responseTo hrt
  rw [e1, e2, e3, le32_int_bytes h.op hop]
  have e0 : int32_of_unsigned (le32_unsigned (le32_bytes h.len)) = h.len :=
    le32_int_bytes h.len hlen
  rw [e0]

theorem mongo_env_write_socket_trace (conn : mongo) (bytes : List Nat) :
    (mongo_env_write_socket conn bytes).2.sock.trace =
      conn.sock.trace ++ [sock_event.wrote bytes (conn.sock.writes.headD false)] := by
  unfold mongo_env_write_socket
  dsimp only
  split <;> rfl

/-- C4: for every header of 32-bit integers, the first transport call of
`mongo_message_send` writes 16 bytes that are the four fields in little-endian
order (each field's four bytes are below 256 and weigh 1, 256, 65536, 16777216
in its two's-complement image), and decoding those bytes field by field as
`mongo_read_response` does gives back the header unchanged. -/
theorem header_round_trip (conn : mongo) (h : mongo_header) (data : List Nat)
    (hlen : -2147483648 ≤ h.len ∧ h.len < 2147483648)
    (hid : -2147483648 ≤ h.id ∧ h.id < 2147483648)
    (hrt : -2147483648 ≤ h.responseTo ∧ h.responseTo < 2147483648)
    (hop : -2147483648 ≤ h.op ∧ h.op < 2147483648) :
    (∃ rest, (mongo_message_send conn ⟨h, data⟩).2.sock.trace =
      conn.sock.trace ++
        sock_event.wrote (header_wire h) (conn.sock.writes.headD false) :: rest) ∧
    header_wire h =
      le32_bytes h.len ++ le32_bytes h.id ++ le32_bytes h.responseTo ++ le32_bytes h.op ∧
    (header_wire h).length = 16 ∧
    (∀ v : Int, (∀ b ∈ le32_bytes v, b < 256) ∧
      (le32_bytes v).getD 0 0 + 256 * (le32_bytes v).getD 1 0 +
        65536 * (le32_bytes v).getD 2 0 + 16777216 * (le32_bytes v).getD 3 0 =
          (v % 4294967296).toNat) ∧
    reply_head_of_wire (le32_unsigned (header_wire h)) (header_wire h) = h := by
  refine ⟨?_, rfl, rfl, ?_, ?_⟩
  · unfold mongo_message_send
    dsimp only
    split
    · exact ⟨[], mongo_env_write_socket_trace conn _⟩
    · split
      · exact ⟨[sock_event.wrote
            (List.take ((h.len - ↑sizeof_mongo_header) % 18446744073709551616).toNat data)
            ((mongo_env_write_socket conn (header_wire h)).2.sock.writes.headD false)], by
          rw [mongo_env_write_socket_trace, mongo_env_write_socket_trace, List.append_assoc]
          rfl⟩
      · exact ⟨[sock_event.wrote
            (List.take ((h.len - ↑sizeof_mongo_header) % 18446744073709551616).toNat data)
            ((mongo_env_write_socket conn (header_wire h)).2.sock.writes.headD false)], by
          rw [mongo_env_write_socket_trace, mongo_env_write_socket_trace, List.append_assoc]
          rfl⟩
  · intro v
    refine ⟨le32_bytes_lt v, ?_⟩
    simp only [le32_bytes, List.getD_cons_zero, List.getD_cons_succ]
    omega
  · exact reply_head_of_header_wire h hlen hid hrt hop

/-- Witness of C4 at a header whose four fields all exceed 255. -/
theorem header_round_trip_witness :
    reply_head_of_wire (le32_unsigned (header_wire ⟨300, 70000, 16777217, 2004⟩))
      (header_wire ⟨300, 70000, 16777217, 2004⟩) = ⟨300, 70000, 16777217, 2004⟩ :=
  (header_round_trip conn0 ⟨300, 70000, 16777217, 2004⟩ [] (by decide) (by decide)
    (by decide) (by decide)).2.2.2.2

theorem mongo_env_read_socket_trace (conn : mongo) (len : Nat) :
    (mongo_env_read_socket conn len).2.2.sock.trace =
      conn.sock.trace ++
        [sock_event.read len (conn.sock.reads.headD ⟨false, []⟩).ok] := by
  unfold mongo_env_read_socket
  dsimp only
  split <;> rfl

theorem mongo_env_read_socket_length (conn : mongo) (len : Nat) :
    (mongo_env_read_socket conn len).2.1.length = len := by
  unfold mongo_env_read_socket
  dsimp only
  split <;> simp [fit] <;> omega

theorem MONGO_READ_SIZE_ERROR_ne : MONGO_READ_SIZE_ERROR ≠ MONGO_OK ∧
    MONGO_READ_SIZE_ERROR ≠ MONGO_ERROR := by decide

theorem mongo_env_read_socket_res (conn : mongo) (len : Nat) :
    (mongo_env_read_socket conn len).1 = MONGO_OK ∨
      (mongo_env_read_socket conn len).1 = MONGO_ERROR := by
  unfold mongo_env_read_socket
  dsimp only
  split
  · exact Or.inl rfl
  · exact Or.inr rfl

/-- C5: with `L` the declared total length, decoded little-endian from the 16
header bytes, `mongo_read_response` returns `MONGO_READ_SIZE_ERROR` and stores
no reply exactly when `L < 36` or `L > 67108864` (the same set whether the four
bytes are read as unsigned or as signed); for every other `L` its transport
calls are the reads of 16, 20 and `L - 36` bytes, and when the last one
succeeds it returns `MONGO_OK` with a reply whose `head.len` is `L`, whose
flag, cursor id, start and num are the little-endian decodings of the 20
received bytes, and whose documents are the `L - 36` bytes read. -/
theorem mongo_read_response_size (conn : mongo) :
    let head := (mongo_env_read_socket conn 16).2.1
    let conn1 := (mongo_env_read_socket conn 16).2.2
    let fields := (mongo_env_read_socket conn1 20).2.1
    let conn2 := (mongo_env_read_socket conn1 20).2.2
    let L := le32_unsigned head
    let r := mongo_read_response conn
    ((r.1 = MONGO_READ_SIZE_ERROR ∧ r.2.1 = none) ↔ (L < 36 ∨ L > 67108864)) ∧
    ((le32_int head < 36 ∨ le32_int head > 67108864) ↔ (L < 36 ∨ L > 67108864)) ∧
    (¬ (L < 36 ∨ L > 67108864) →
      (∃ ok1 ok2 ok3, r.2.2.sock.trace = conn.sock.trace ++
        [sock_event.read 16 ok1, sock_event.read 20 ok2, sock_event.read (L - 36) ok3]) ∧
      ((mongo_env_read_socket conn2 (L - 36)).1 = MONGO_OK →
        r.1 = MONGO_OK ∧
        ∃ out, r.2.1 = some out ∧ out.head.len = (L : Int) ∧
          out.fields.flag = le32_int fields ∧
          out.fields.cursorID = le64_int (fields.drop 4) ∧
          out.fields.start = le32_int (fields.drop 12) ∧
          out.fields.num = le32_int (fields.drop 16) ∧
          out.objs = (mongo_env_read_socket conn2 (L - 36)).2.1 ∧
          out.objs.length = L - 36)) := by
  intro head conn1 fields conn2 L r
  have hLlt : L < 4294967296 := le32_unsigned_lt _
  have hr : r =
      if L < 16 + 20 ∨ L > 64 * 1024 * 1024 then (MONGO_READ_SIZE_ERROR, none, conn2)
      else
        if (mongo_env_read_socket conn2 (L - 16 - 20)).1 ≠ MONGO_OK then
          ((mongo_env_read_socket conn2 (L - 16 - 20)).1, none,
            (mongo_env_read_socket conn2 (L - 16 - 20)).2.2)
        else
          (MONGO_OK,
           some { head := reply_head_of_wire L head
                  fields := reply_fields_of_wire fields
                  objs := (mongo_env_read_socket conn2 (L - 16 - 20)).2.1 },
           (mongo_env_read_socket conn2 (L - 16 - 20)).2.2) := rfl
  have htr : conn2.sock.trace = conn.sock.trace ++
      [sock_event.read 16 (conn.sock.reads.headD ⟨false, []⟩).ok,
       sock_event.read 20 (conn1.sock.reads.headD ⟨false, []⟩).ok] := by
    show (mongo_env_read_socket conn1 20).2.2.sock.trace = _
    rw [mongo_env_read_socket_trace]
    show (mongo_env_read_socket conn 16).2.2.sock.trace ++ _ = _
    rw [mongo_env_read_socket_trace, List.append_assoc]
    rfl
  have hint : le32_int head = int32_of_unsigned L := rfl
  clear_value r L conn2
  have hsub : L - 16 - 20 = L - 36 := by omega
  rw [hsub] at hr
  have h32 : int32_of_unsigned L = (L : Int) ∨ int32_of_unsigned L < 0 := by
    unfold int32_of_unsigned
    split
    · left
      congr 1
      omega
    · right
      omega
  by_cases hL : L < 36 ∨ L > 67108864
  · rw [if_pos (by omega)] at hr
    refine ⟨?_, ?_, fun h => absurd hL h⟩
    · rw [hr]
      exact ⟨fun _ => hL, fun _ => ⟨rfl, rfl⟩⟩
    · refine ⟨fun _ => hL, fun _ => ?_⟩
      rw [hint]
      rcases h32 with e | e
      · rw [e]
        omega
      · left
        omega
  · rw [if_neg (by omega)] at hr
    have hL32 : int32_of_unsigned L = (L : Int) := by
      unfold int32_of_unsigned
      rw [if_pos (by omega)]
      congr 1
      omega
    refine ⟨?_, ?_, fun _ => ⟨?_, ?_⟩⟩
    · refine ⟨fun h => ?_, fun h => absurd h hL⟩
      exfalso
      rw [hr] at h
      by_cases h3 : (mongo_env_read_socket conn2 (L - 36)).1 ≠ MONGO_OK
      · rw [if_pos h3] at h
        rcases mongo_env_read_socket_res conn2 (L - 36) with e | e
        · exact h3 e
        · rw [e] at h
          exact MONGO_READ_SIZE_ERROR_ne.2 h.1.symm
      · rw [if_neg h3] at h
        exact MONGO_READ_SIZE_ERROR_ne.1 h.1.symm
    · refine ⟨fun h => ?_, fun h => absurd h hL⟩
      exfalso
      rw [hint, hL32] at h
      omega
    · refine ⟨(conn.sock.reads.headD ⟨false, []⟩).ok,
        (conn1.sock.reads.headD ⟨false, []⟩).ok,
        (conn2.sock.reads.headD ⟨false, []⟩).ok, ?_⟩
      have h3t : (mongo_env_read_socket conn2 (L - 36)).2.2.sock.trace = conn.sock.trace ++
          [sock_event.read 16 (conn.sock.reads.headD ⟨false, []⟩).ok,
           sock_event.read 20 (conn1.sock.reads.headD ⟨false, []⟩).ok,
           sock_event.read (L - 36) (conn2.sock.reads.headD ⟨false, []⟩).ok] := by
        rw [mongo_env_read_socket_trace, htr, List.append_assoc]
        rfl
      rw [hr]
      by_cases h3 : (mongo_env_read_socket conn2 (L - 36)).1 ≠ MONGO_OK
      · rw [if_pos h3]
        exact h3t
      · rw [if_neg h3]
        exact h3t
    · intro hok
      rw [hr, if_neg (by simpa using hok)]
      exact ⟨rfl, _, rfl, hL32, rfl, rfl, rfl, rfl, rfl,
        mongo_env_read_socket_length conn2 (L - 36)⟩

/-- Witness of C5 on a transport that delivers a 36-byte reply: the declared
length is in range, the last read succeeds, and the call returns `MONGO_OK`. -/
theorem mongo_read_response_size_witness :
    ¬ (le32_unsigned (mongo_env_read_socket (mongo_zeroed sock_empty_reply) 16).2.1 < 36 ∨
       le32_unsigned (mongo_env_read_socket (mongo_zeroed sock_empty_reply) 16).2.1 > 67108864) ∧
    (mongo_read_response (mongo_zeroed sock_empty_reply)).1 = MONGO_OK :=
  ⟨by decide,
   (((mongo_read_response_size (mongo_zeroed sock_empty_reply)).2.2 (by decide)).2
      (by decide)).1⟩

/-- C6 (as the claim states it) fails: the length `INT32_MAX` itself fits a
32-bit signed integer, yet `mongo_message_create` returns no message for it. -/
theorem mongo_message_create_counterexample :
    INT32_MAX ≤ INT32_MAX ∧ mongo_message_create 0 INT32_MAX 1 0 2004 = none := by
  decide

/-- C6 (amended): `mongo_message_create` returns a message for every requested
total length below `INT32_MAX` and returns no message exactly when
`len >= INT32_MAX`; a returned message's header holds `len`, the given
`responseTo` and `op`, and the given `id` whenever that id is non-zero (the
value drawn from `rand()` otherwise). -/
theorem mongo_message_create_bound (rand : Int) (len : Nat) (id responseTo op : Int) :
    (mongo_message_create rand len id responseTo op = none ↔ len ≥ INT32_MAX) ∧
    (len < INT32_MAX →
      ∃ mm, mongo_message_create rand len id responseTo op = some mm ∧
        mm.head.len = (len : Int) ∧ mm.head.responseTo = responseTo ∧ mm.head.op = op ∧
        (id ≠ 0 → mm.head.id = id) ∧ (id = 0 → mm.head.id = rand)) := by
  unfold mongo_message_create
  by_cases h : len ≥ INT32_MAX
  · rw [if_pos h]
    exact ⟨⟨fun _ => h, fun _ => rfl⟩, fun h2 => absurd h (by omega)⟩
  · rw [if_neg h]
    refine ⟨⟨fun h2 => (by cases h2), fun h2 => absurd h2 h⟩,
      fun _ => ⟨_, rfl, ?_, rfl, rfl, ?_, ?_⟩⟩
    · show int32_of_unsigned len = (len : Int)
      unfold INT32_MAX at h
      unfold int32_of_unsigned
      rw [if_pos (by omega)]
      congr 1
      omega
    · intro hid
      show (if id = 0 then rand else id) = id
      rw [if_neg hid]
    · intro hid
      show (if id = 0 then rand else id) = rand
      rw [if_pos hid]

/-- Witness of the amended C6 at a 36-byte message. -/
theorem mongo_message_create_bound_witness :
    36 < INT32_MAX ∧
    ∃ mm, mongo_message_create 5 36 0 0 2004 = some mm ∧ mm.head.len = 36 :=
  ⟨by decide,
   ((mongo_message_create_bound 5 36 0 0 2004).2 (by decide)).imp
     (fun _ hmm => ⟨hmm.1, hmm.2.1⟩)⟩

/-- C7 (the code at the failing input): on a transport whose peer closes after
four bytes, the 16-byte header read and the 20-byte fields read both fail, yet
`mongo_read_response` returns `MONGO_OK` and stores a reply. -/
theorem mongo_read_response_ignores_failed_reads :
    (mongo_env_read_socket (mongo_zeroed sock_closed_early) 16).1 = MONGO_ERROR ∧
    (mongo_env_read_socket
      (mongo_env_read_socket (mongo_zeroed sock_closed_early) 16).2.2 20).1 = MONGO_ERROR ∧
    (mongo_read_response (mongo_zeroed sock_closed_early)).1 = MONGO_OK ∧
    (mongo_read_response (mongo_zeroed sock_closed_early)).2.1 =
      some { head := { len := 36, id := 0, responseTo := 0, op := 0 }
             fields := { flag := 0, cursorID := 0, start := 0, num := 0 }
             objs := [] } := by
  decide


/-! ## Cursor iteration -/

theorem fit_eq (n : Nat) (b : List Nat) (h : b.length = n) : fit n b = b := by
  unfold fit
  rw [h, Nat.sub_self]
  simp only [List.replicate_zero, List.append_nil]
  exact List.take_of_length_le (by omega)

theorem le64_int_bytes_append (v : Int) (rest : List Nat)
    (h : -9223372036854775808 ≤ v ∧ v < 9223372036854775808) :
    le64_int (le64_bytes v ++ rest) = v := by
  simp only [le64_int, le64_bytes, le32_unsigned, List.cons_append, List.getD_cons_zero,
    List.getD_cons_succ, List.drop_succ_cons, List.drop_zero]
  split <;> omega

theorem reply_fields_of_fields_wire (f : mongo_reply_fields)
    (h1 : is_int32 f.flag) (h2 : -9223372036854775808 ≤ f.cursorID ∧ f.cursorID < 9223372036854775808)
    (h3 : is_int32 f.start) (h4 : is_int32 f.num) :
    reply_fields_of_wire (fields_wire f) = f := by
  have d4 : (fields_wire f).drop 4 =
      le64_bytes f.cursorID ++ (le32_bytes f.start ++ le32_bytes f.num) := rfl
  have d12 : (fields_wire f).drop 12 = le32_bytes f.start ++ le32_bytes f.num := rfl
  have d16 : (fields_wire f).drop 16 = le32_bytes f.num := rfl
  have d0 : fields_wire f =
      le32_bytes f.flag ++ (le64_bytes f.cursorID ++ le32_bytes f.start ++ le32_bytes f.num) := by
    unfold fields_wire
    simp only [List.append_assoc]
  unfold reply_fields_of_wire
  rw [d4, d12, d16, le64_int_bytes_append _ _ h2,
    le32_int_append _ _ (le32_bytes_length f.start), le32_int_bytes _ h3, le32_int_bytes _ h4]
  conv_lhs => rw [d0, le32_int_append _ _ (le32_bytes_length f.flag), le32_int_bytes _ h1]

theorem mongo_env_read_socket_ok (conn : mongo) (n : Nat) (b : List Nat) (rs : List sock_read)
    (h : conn.sock.reads = ⟨true, b⟩ :: rs) :
    mongo_env_read_socket conn n =
      (MONGO_OK, fit n b,
        { conn with sock := { conn.sock with
                              reads := rs
                              trace := conn.sock.trace ++ [sock_event.read n true] } }) := by
  unfold mongo_env_read_socket
  simp [h]

theorem mongo_env_write_socket_ok (conn : mongo) (b : List Nat) (ws : List Bool)
    (h : conn.sock.writes = true :: ws) :
    mongo_env_write_socket conn b =
      (MONGO_OK,
        { conn with sock := { conn.sock with
                              writes := ws
                              trace := conn.sock.trace ++ [sock_event.wrote b true] } }) := by
  unfold mongo_env_write_socket
  simp [h]

theorem mongo_message_send_ok (conn : mongo) (mm : mongo_message) (ws : List Bool)
    (h : conn.sock.writes = true :: true :: ws) :
    mongo_message_send conn mm =
      (MONGO_OK,
        { conn with sock := { conn.sock with
            writes := ws
            trace := conn.sock.trace ++
              [sock_event.wrote (header_wire mm.head) true,
               sock_event.wrote (mm.data.take
                 ((mm.head.len - (sizeof_mongo_header : Int)) % 18446744073709551616).toNat)
                 true] } }) := by
  unfold mongo_message_send
  dsimp only
  rw [mongo_env_write_socket_ok conn _ (true :: ws) h]
  dsimp only
  rw [if_neg (by simp)]
  rw [mongo_env_write_socket_ok { conn with sock := { conn.sock with
        writes := true :: ws
        trace := conn.sock.trace ++ [sock_event.wrote (header_wire mm.head) true] } } _ ws rfl]
  dsimp only
  rw [if_neg (by simp)]
  simp

theorem mongo_read_response_ok (conn : mongo) (h : mongo_header) (f : mongo_reply_fields)
    (objs : List Nat) (rs : List sock_read)
    (hr : conn.sock.reads = reply_reads h f objs ++ rs)
    (hlen : h.len = 36 + (objs.length : Int)) (hmax : objs.length + 36 ≤ 67108864)
    (hid : is_int32 h.id) (hrt : is_int32 h.responseTo) (hop : is_int32 h.op)
    (h1 : is_int32 f.flag)
    (h2 : -9223372036854775808 ≤ f.cursorID ∧ f.cursorID < 9223372036854775808)
    (h3 : is_int32 f.start) (h4 : is_int32 f.num) :
    mongo_read_response conn =
      (MONGO_OK, some ⟨h, f, objs⟩,
        { conn with sock := { conn.sock with
            reads := rs
            trace := conn.sock.trace ++
              [sock_event.read 16 true, sock_event.read 20 true,
               sock_event.read objs.length true] } }) := by
  have hL : le32_unsigned (header_wire h) = objs.length + 36 := by
    rw [le32_unsigned_header_wire, hlen]
    omega
  have hhead : reply_head_of_wire (objs.length + 36) (header_wire h) = h := by
    rw [← hL]
    exact reply_head_of_header_wire h ⟨by omega, by omega⟩ hid hrt hop
  unfold mongo_read_response
  simp only [sizeof_mongo_header, sizeof_mongo_reply_fields]
  rw [mongo_env_read_socket_ok conn 16 (header_wire h) _ (by rw [hr]; rfl)]
  simp only
  rw [mongo_env_read_socket_ok _ 20 (fields_wire f) _ rfl]
  simp only
  rw [fit_eq 16 (header_wire h) rfl, fit_eq 20 (fields_wire f) rfl, hL]
  rw [if_neg (by omega)]
  have hsub : objs.length + 36 - 16 - 20 = objs.length := by omega
  rw [hsub, mongo_env_read_socket_ok _ objs.length objs rs rfl]
  simp only [fit_eq objs.length objs rfl, hhead,
    reply_fields_of_fields_wire f h1 h2 h3 h4]
  simp

theorem fit_length (n : Nat) (b : List Nat) : (fit n b).length = n := by
  unfold fit
  simp
  omega

theorem query_body_length (c : mongo_cursor) (q f : bson) :
    (query_body c q f).length =
      4 + (c.ns.length + 1) + 4 + 4 + (bson_size q.data % 18446744073709551616).toNat
        + (bson_size f.data % 18446744073709551616).toNat := by
  unfold query_body cstring_bytes
  simp only [List.length_append, le32_bytes_length, List.length_map, List.length_singleton,
    fit_length]

theorem mongo_message_create_some (rand : Int) (len : Nat) (id responseTo op : Int)
    (h : len < 2147483647) :
    mongo_message_create rand len id responseTo op =
      some { head := { len := (len : Int), id := if id = 0 then rand else id
                       responseTo := responseTo, op := op }
             data := List.replicate (len - 16) 0 } := by
  unfold mongo_message_create
  rw [if_neg (by unfold INT32_MAX; omega)]
  have : int32_of_unsigned len = (len : Int) := by
    unfold int32_of_unsigned
    rw [if_pos (by omega)]
    congr 1
    omega
  simp only [this, sizeof_mongo_header]

theorem op_query_exchange_ok (c : mongo_cursor) (h : mongo_header) (f : mongo_reply_fields)
    (objs : List Nat) (ws : List Bool) (rs : List sock_read)
    (hq : 0 ≤ bson_size (c.query.getD bson_empty).data)
    (hf : 0 ≤ bson_size (c.fields.getD bson_empty).data)
    (hlen : 16 + 4 + (c.ns.length : Int) + 1 + 4 + 4 + bson_size (c.query.getD bson_empty).data
      + bson_size (c.fields.getD bson_empty).data < 2147483647)
    (hw : c.conn.sock.writes = true :: true :: ws)
    (hr : c.conn.sock.reads = reply_reads h f objs ++ rs)
    (hhl : h.len = 36 + (objs.length : Int)) (hmax : objs.length + 36 ≤ 67108864)
    (hid : is_int32 h.id) (hrt : is_int32 h.responseTo) (hop : is_int32 h.op)
    (h1 : is_int32 f.flag)
    (h2 : -9223372036854775808 ≤ f.cursorID ∧ f.cursorID < 9223372036854775808)
    (h3 : is_int32 f.start) (h4 : is_int32 f.num)
    (herr : f.num = 1 → bson_find objs "$err".toList = none) :
    mongo_cursor_op_query_exchange c =
      (MONGO_OK,
        { c with
          conn := { c.conn with
            rand := c.conn.rand.tail
            sock := { reads := rs, writes := ws
                      trace := c.conn.sock.trace ++ query_exchange_trace c objs.length } }
          reply := some ⟨h, f, objs⟩
          seen := c.seen + f.num
          flags := c.flags ||| MONGO_CURSOR_QUERY_SENT }) := by
  obtain ⟨n, hn⟩ : ∃ n : Nat, (n : Int) = 16 + 4 + (c.ns.length : Int) + 1 + 4 + 4
      + bson_size (c.query.getD bson_empty).data
      + bson_size (c.fields.getD bson_empty).data :=
    ⟨(16 + 4 + (c.ns.length : Int) + 1 + 4 + 4 + bson_size (c.query.getD bson_empty).data
      + bson_size (c.fields.getD bson_empty).data).toNat, by omega⟩
  have hnlt : n < 2147483647 := by omega
  have hwl : (query_body c (c.query.getD bson_empty) (c.fields.getD bson_empty)).length
      = n - 16 := by
    rw [query_body_length]
    omega
  have hn16 : 16 ≤ n := by omega
  unfold mongo_cursor_op_query_exchange
  simp only [← hn]
  have hmod : ((n : Int) % 18446744073709551616).toNat = n := by omega
  rw [hmod]
  unfold mongo_cursor_message_create
  rw [mongo_message_create_some _ n 0 0 MONGO_OP_QUERY hnlt]
  simp only [if_true]
  have hqb : query_body
      { c with conn := { c.conn with rand := c.conn.rand.tail } }
      (c.query.getD bson_empty) (c.fields.getD bson_empty)
      = query_body c (c.query.getD bson_empty) (c.fields.getD bson_empty) := rfl
  simp only [hqb, message_fill, hwl]
  rw [if_neg (by
    simp only [ne_eq, not_not]
    congr 1
    omega)]
  rw [mongo_message_send_ok { c.conn with rand := c.conn.rand.tail } _ ws hw]
  simp only [ne_eq, not_true_eq_false, if_false]
  have hrr := fun (tr : List sock_event) =>
    mongo_read_response_ok
      { sock := { reads := c.conn.sock.reads, writes := ws, trace := tr }
        rand := c.conn.rand.tail, err := c.conn.err, errcode := c.conn.errcode
        errstr := c.conn.errstr, lasterrcode := c.conn.lasterrcode
        lasterrstr := c.conn.lasterrstr, max_bson_size := c.conn.max_bson_size
        write_concern := c.conn.write_concern, primary := c.conn.primary
        replica_set := c.conn.replica_set, connected := c.conn.connected
        net := c.conn.net }
      h f objs rs hr hhl hmax hid hrt hop h1 h2 h3 h4
  simp only [hrr, ne_eq, not_true_eq_false, if_false]
  have hfound : (if f.num = 1 then bson_find objs "$err".toList else none) = none := by
    split
    · exact herr ‹_›
    · rfl
  simp only [hfound]
  have htake : List.take (((n : Int) - (sizeof_mongo_header : Int)) % 18446744073709551616).toNat
      (query_body c (c.query.getD bson_empty) (c.fields.getD bson_empty) ++
        List.drop (n - 16) (List.replicate (n - 16) 0))
      = query_body c (c.query.getD bson_empty) (c.fields.getD bson_empty) := by
    have e : (((n : Int) - (sizeof_mongo_header : Int)) % 18446744073709551616).toNat = n - 16 := by
      unfold sizeof_mongo_header
      omega
    rw [e, List.take_append_of_le_length (by omega), List.take_of_length_le (by omega)]
  simp only [htake, query_exchange_trace, query_header, ← hn, List.append_assoc]
  rfl

theorem mongo_cursor_bson_valid_ok (cursor : mongo_cursor) (b : bson)
    (h1 : b.finished = true) (h2 : b.err &&& BSON_NOT_UTF8 = 0) :
    mongo_cursor_bson_valid cursor b = (MONGO_OK, cursor) := by
  unfold mongo_cursor_bson_valid
  simp [h1, h2]

theorem mongo_cursor_op_query_ok (c : mongo_cursor) (h : mongo_header) (f : mongo_reply_fields)
    (objs : List Nat) (ws : List Bool) (rs : List sock_read)
    (hb : query_buildable c)
    (hw : c.conn.sock.writes = true :: true :: ws)
    (hr : c.conn.sock.reads = reply_reads h f objs ++ rs)
    (hhl : h.len = 36 + (objs.length : Int)) (hmax : objs.length + 36 ≤ 67108864)
    (hid : is_int32 h.id) (hrt : is_int32 h.responseTo) (hop : is_int32 h.op)
    (h1 : is_int32 f.flag)
    (h2 : -9223372036854775808 ≤ f.cursorID ∧ f.cursorID < 9223372036854775808)
    (h3 : is_int32 f.start) (h4 : is_int32 f.num)
    (herr : f.num = 1 → bson_find objs "$err".toList = none) :
    mongo_cursor_op_query c = (MONGO_OK, cursor_after_query c h f objs ws rs) := by
  obtain ⟨hq1, hf1, hq2, hf2, hlen⟩ := hb
  unfold cursor_after_query
  have hex := op_query_exchange_ok
    { c with conn := mongo_clear_errors c.conn
             query := some (c.query.getD bson_empty)
             fields := some (c.fields.getD bson_empty) }
    h f objs ws rs hq2 hf2 hlen hw hr hhl hmax hid hrt hop h1 h2 h3 h4 herr
  have htr : query_exchange_trace
      { c with conn := mongo_clear_errors c.conn
               query := some (c.query.getD bson_empty)
               fields := some (c.fields.getD bson_empty) } objs.length
      = query_exchange_trace c objs.length := rfl
  have hsock : (mongo_clear_errors c.conn).sock.trace = c.conn.sock.trace := rfl
  have hrand : (mongo_clear_errors c.conn).rand = c.conn.rand := rfl
  rw [htr] at hex
  simp only [hsock, hrand] at hex
  unfold mongo_cursor_op_query
  cases hq : c.query with
  | none =>
    cases hf : c.fields with
    | none =>
      simp only [hq, hf, Option.getD_none] at hex ⊢
      simp only [ne_eq, not_true_eq_false, if_false]
      rw [hex]
    | some fd =>
      obtain ⟨a1, a2⟩ := hf1 fd hf
      simp only [hq, hf, Option.getD_none, Option.getD_some] at hex ⊢
      simp only [ne_eq, not_true_eq_false, if_false]
      rw [mongo_cursor_bson_valid_ok _ fd a1 a2]
      simp only [ne_eq, not_true_eq_false, if_false]
      rw [hex]
  | some qd =>
    obtain ⟨b1, b2⟩ := hq1 qd hq
    cases hf : c.fields with
    | none =>
      simp only [hq, hf, Option.getD_none, Option.getD_some] at hex ⊢
      rw [mongo_cursor_bson_valid_ok _ qd b1 b2]
      simp only [ne_eq, not_true_eq_false, if_false, hf]
      rw [hex]
    | some fd =>
      obtain ⟨a1, a2⟩ := hf1 fd hf
      simp only [hq, hf, Option.getD_none, Option.getD_some] at hex ⊢
      rw [mongo_cursor_bson_valid_ok _ qd b1 b2]
      simp only [ne_eq, not_true_eq_false, if_false, hf]
      rw [mongo_cursor_bson_valid_ok _ fd a1 a2]
      simp only [ne_eq, not_true_eq_false, if_false]
      rw [hex]

theorem flags_sent (n : Nat) :
    (n ||| MONGO_CURSOR_QUERY_SENT) &&& MONGO_CURSOR_QUERY_SENT ≠ 0 := by
  intro h
  have h2 : Nat.testBit 2 1 = true := by decide
  have h1 : ((n ||| MONGO_CURSOR_QUERY_SENT) &&& MONGO_CURSOR_QUERY_SENT).testBit 1 = true := by
    simp [MONGO_CURSOR_QUERY_SENT, Nat.testBit_land, Nat.testBit_lor, h2]
  rw [h] at h1
  simp at h1

theorem bytes_from_natCast (l : List Nat) (n : Nat) : bytes_from l (n : Int) = l.drop n := by
  unfold bytes_from
  rw [if_neg (by omega)]
  simp

theorem le32_unsigned_append_of_le (a b : List Nat) (h : 4 ≤ a.length) :
    le32_unsigned (a ++ b) = le32_unsigned a := by
  match a, h with
  | a0 :: a1 :: a2 :: a3 :: t, _ => rfl

theorem bson_size_append (d rest : List Nat) (h : bson_well_formed d) :
    bson_size (d ++ rest) = (d.length : Int) := by
  obtain ⟨h5, hs⟩ := h
  rw [← hs]
  unfold bson_size le32_int
  rw [le32_unsigned_append_of_le d rest (by omega)]

theorem mongo_cursor_bson_at (c : mongo_cursor) (R : mongo_reply) (pre d post : List Nat)
    (hR : c.reply = some R) (hc : c.current = some (pre.length : Int))
    (hobjs : R.objs = pre ++ d ++ post) (hd : bson_well_formed d) :
    mongo_cursor_bson c = some d := by
  unfold mongo_cursor_bson
  rw [hR, hc]
  simp only [bytes_from_natCast, hobjs, List.append_assoc, List.drop_left,
    bson_size_append d post hd, Int.toNat_ofNat, List.take_left]

theorem mongo_cursor_next_sent (c : mongo_cursor) (R : mongo_reply)
    (hflags : c.flags &&& MONGO_CURSOR_QUERY_SENT ≠ 0) (hR : c.reply = some R)
    (hnum : R.fields.num ≠ 0) :
    mongo_cursor_next c = mongo_cursor_next_advance c R := by
  unfold mongo_cursor_next
  simp only [if_neg hflags, ne_eq, not_true_eq_false, if_false, hR, if_neg hnum]

theorem advance_in_batch (c : mongo_cursor) (R : mongo_reply) (pre d post : List Nat)
    (hc : c.current = some (pre.length : Int))
    (hobjs : R.objs = pre ++ d ++ post) (hd : bson_well_formed d) (hpost : post ≠ [])
    (hlen : R.head.len = 36 + (R.objs.length : Int)) :
    mongo_cursor_next_advance c R =
      (MONGO_OK, { c with current := some ((pre ++ d).length : Int) }) := by
  unfold mongo_cursor_next_advance
  have hp : 0 < post.length := List.length_pos.mpr hpost
  rw [hc]
  simp only [bytes_from_natCast, hobjs, List.append_assoc, List.drop_left,
    bson_size_append d post hd, hlen, List.length_append]
  rw [if_neg (by omega)]
  simp only [Nat.cast_add]

theorem advance_at_end (c : mongo_cursor) (R : mongo_reply) (pre d : List Nat)
    (hc : c.current = some (pre.length : Int))
    (hobjs : R.objs = pre ++ d) (hd : bson_well_formed d)
    (hlen : R.head.len = 36 + (R.objs.length : Int)) :
    mongo_cursor_next_advance c R =
      (if (mongo_cursor_get_more c).1 ≠ MONGO_OK then (MONGO_ERROR, (mongo_cursor_get_more c).2)
       else
        match (mongo_cursor_get_more c).2.reply with
        | none => (MONGO_ERROR, (mongo_cursor_get_more c).2)
        | some reply =>
          if reply.fields.num = 0 then
            if reply.fields.cursorID ≠ 0 then
              (MONGO_ERROR, { (mongo_cursor_get_more c).2 with err := MONGO_CURSOR_PENDING })
            else (MONGO_ERROR, (mongo_cursor_get_more c).2)
          else (MONGO_OK, { (mongo_cursor_get_more c).2 with current := some 0 })) := by
  unfold mongo_cursor_next_advance
  rw [hc]
  have hb : bson_size (bytes_from R.objs (pre.length : Int)) = (d.length : Int) := by
    rw [bytes_from_natCast, hobjs, List.drop_left]
    have := bson_size_append d [] hd
    rwa [List.append_nil] at this
  simp only [hb]
  rw [if_pos (by rw [hlen, hobjs, List.length_append]; omega)]

theorem get_more_exhausted (c : mongo_cursor) (R : mongo_reply)
    (hR : c.reply = some R) (hid : R.fields.cursorID = 0) :
    mongo_cursor_get_more c = (MONGO_ERROR, { c with err := MONGO_CURSOR_EXHAUSTED }) := by
  unfold mongo_cursor_get_more
  split
  · rfl
  · simp only [hR, hid, if_true]


theorem bson_well_formed_ne_nil (d : List Nat) (h : bson_well_formed d) : d ≠ [] := by
  intro e
  have := h.1
  rw [e] at this
  simp at this

theorem cursor_run_batch (post : List (List Nat)) :
    ∀ (c : mongo_cursor) (R : mongo_reply) (pre d : List Nat),
      c.flags &&& MONGO_CURSOR_QUERY_SENT ≠ 0 → c.reply = some R → R.fields.num ≠ 0 →
      c.current = some (pre.length : Int) → R.objs = pre ++ d ++ post.flatten →
      bson_well_formed d → (∀ x ∈ post, bson_well_formed x) →
      R.head.len = 36 + (R.objs.length : Int) →
      ∃ pre' d', R.objs = pre' ++ d' ∧ bson_well_formed d' ∧
        cursor_run post.length c =
          (post.map (fun x => (MONGO_OK, some x)),
           { c with current := some (pre'.length : Int) }) := by
  induction post with
  | nil =>
    intro c R pre d _ _ _ hc hobjs hd _ _
    refine ⟨pre, d, by simpa using hobjs, hd, ?_⟩
    simp only [List.length_nil, cursor_run, List.map_nil, ← hc]
  | cons x xs ih =>
    intro c R pre d hflags hR hnum hc hobjs hd hpost hlen
    have hx : bson_well_formed x := hpost x (List.mem_cons_self _ _)
    have hxs : ∀ y ∈ xs, bson_well_formed y := fun y hy => hpost y (List.mem_cons_of_mem _ hy)
    have hobjs2 : R.objs = (pre ++ d) ++ x ++ xs.flatten := by
      rw [hobjs]
      simp only [List.flatten_cons, List.append_assoc]
    have hne : (x :: xs).flatten ≠ [] := by
      simp only [List.flatten_cons]
      intro e
      exact bson_well_formed_ne_nil x hx (List.append_eq_nil.mp e).1
    have hstep : mongo_cursor_next c =
        (MONGO_OK, { c with current := some ((pre ++ d).length : Int) }) := by
      rw [mongo_cursor_next_sent c R hflags hR hnum]
      exact advance_in_batch c R pre d _ hc hobjs hd hne hlen
    obtain ⟨pre', d', h1, h2, h3⟩ :=
      ih { c with current := some ((pre ++ d).length : Int) } R (pre ++ d) x
        hflags hR hnum rfl hobjs2 hx hxs hlen
    refine ⟨pre', d', h1, h2, ?_⟩
    have hbson : mongo_cursor_bson { c with current := some ((pre ++ d).length : Int) }
        = some x :=
      mongo_cursor_bson_at _ R (pre ++ d) x xs.flatten hR rfl hobjs2 hx
    simp only [List.length_cons, cursor_run, hstep, h3, hbson, List.map_cons]

theorem cursor_run_single_batch (c : mongo_cursor) (d1 : List Nat) (rest : List (List Nat))
    (h : mongo_header) (f : mongo_reply_fields) (ws : List Bool) (rs : List sock_read)
    (hfresh : c.flags &&& MONGO_CURSOR_QUERY_SENT = 0) (hcur : c.current = none)
    (hb : query_buildable c)
    (hdocs : ∀ d ∈ d1 :: rest, bson_well_formed d)
    (herr : f.num = 1 → bson_find (d1 :: rest).flatten "$err".toList = none)
    (hw : c.conn.sock.writes = true :: true :: ws)
    (hr : c.conn.sock.reads = reply_reads h f (d1 :: rest).flatten ++ rs)
    (hhl : h.len = 36 + ((d1 :: rest).flatten.length : Int))
    (hmax : (d1 :: rest).flatten.length + 36 ≤ 67108864)
    (hid : is_int32 h.id) (hrt : is_int32 h.responseTo) (hop : is_int32 h.op)
    (h1 : is_int32 f.flag)
    (h2 : -9223372036854775808 ≤ f.cursorID ∧ f.cursorID < 9223372036854775808)
    (h3 : is_int32 f.start) (h4 : is_int32 f.num) (hnum : f.num ≠ 0) :
    ∃ pre' d', (d1 :: rest).flatten = pre' ++ d' ∧ bson_well_formed d' ∧
      cursor_run (rest.length + 1) c =
        ((d1 :: rest).map (fun x => (MONGO_OK, some x)),
         { cursor_after_query c h f (d1 :: rest).flatten ws rs with
           current := some (pre'.length : Int) }) := by
  have hq := mongo_cursor_op_query_ok c h f (d1 :: rest).flatten ws rs hb hw hr hhl hmax
    hid hrt hop h1 h2 h3 h4 herr
  have hd1 : bson_well_formed d1 := hdocs d1 (List.mem_cons_self _ _)
  have hrest : ∀ y ∈ rest, bson_well_formed y := fun y hy => hdocs y (List.mem_cons_of_mem _ hy)
  have hfirst : mongo_cursor_next c =
      (MONGO_OK, { cursor_after_query c h f (d1 :: rest).flatten ws rs with
                   current := some ((([] : List Nat).length : Nat) : Int) }) := by
    unfold mongo_cursor_next
    simp only [hfresh, if_true, hq, ne_eq, not_true_eq_false, if_false]
    simp only [cursor_after_query, if_neg hnum, mongo_cursor_next_advance, hcur]
    rfl
  have hobjs : (⟨h, f, (d1 :: rest).flatten⟩ : mongo_reply).objs = [] ++ d1 ++ rest.flatten := by
    simp
  obtain ⟨pre', d', e1, e2, e3⟩ := cursor_run_batch rest
    { cursor_after_query c h f (d1 :: rest).flatten ws rs with
      current := some ((([] : List Nat).length : Nat) : Int) }
    ⟨h, f, (d1 :: rest).flatten⟩ [] d1 (flags_sent c.flags) rfl hnum rfl hobjs hd1 hrest hhl
  refine ⟨pre', d', e1, e2, ?_⟩
  have hbson : mongo_cursor_bson
      { cursor_after_query c h f (d1 :: rest).flatten ws rs with
        current := some ((([] : List Nat).length : Nat) : Int) } = some d1 :=
    mongo_cursor_bson_at _ ⟨h, f, (d1 :: rest).flatten⟩ [] d1 rest.flatten rfl rfl hobjs hd1
  simp only [cursor_run, hfirst, hbson, e3, List.map_cons]

theorem length_le_flatten (docs : List (List Nat)) (h : ∀ d ∈ docs, bson_well_formed d) :
    docs.length ≤ docs.flatten.length := by
  induction docs with
  | nil => simp
  | cons d ds ih =>
    have h5 := (h d (List.mem_cons_self _ _)).1
    have := ih (fun x hx => h x (List.mem_cons_of_mem _ hx))
    simp only [List.length_cons, List.flatten_cons, List.length_append]
    omega

theorem query_header_opcode (c : mongo_cursor) :
    le32_int ((header_wire (query_header c)).drop 12) = MONGO_OP_QUERY := by
  rw [(header_wire_drop (query_header c)).2.2]
  exact le32_int_bytes MONGO_OP_QUERY (by decide)

/-- C8: let a cursor whose query has not been sent (whatever its limit, so in
particular with no positive limit below `n`) meet a server that answers the
initial query with one reply holding `n >= 1` well-formed documents (without a
top-level `$err` when `n = 1`) and cursor id 0.  Then the first `n` calls of
`mongo_cursor_next` return `MONGO_OK` and expose those documents in reply
order, the next call returns `MONGO_ERROR` with cursor error
`MONGO_CURSOR_EXHAUSTED`, and the transport calls of the whole iteration are
the two writes of one message, whose opcode is that of a query, and the three
reads of the reply: no get-more is sent. -/
theorem cursor_single_batch (c : mongo_cursor) (docs : List (List Nat))
    (h : mongo_header) (f : mongo_reply_fields) (ws : List Bool) (rs : List sock_read)
    (hn : 1 ≤ docs.length)
    (hfresh : c.flags &&& MONGO_CURSOR_QUERY_SENT = 0) (hcur : c.current = none)
    (hb : query_buildable c)
    (hdocs : ∀ d ∈ docs, bson_well_formed d)
    (herr : docs.length = 1 → bson_find docs.flatten "$err".toList = none)
    (hw : c.conn.sock.writes = true :: true :: ws)
    (hr : c.conn.sock.reads = reply_reads h f docs.flatten ++ rs)
    (hhl : h.len = 36 + (docs.flatten.length : Int))
    (hmax : docs.flatten.length + 36 ≤ 67108864)
    (hid : is_int32 h.id) (hrt : is_int32 h.responseTo) (hop : is_int32 h.op)
    (h1 : is_int32 f.flag) (h3 : is_int32 f.start)
    (hcid : f.cursorID = 0) (hnum : f.num = (docs.length : Int)) :
    (cursor_run docs.length c).1 = docs.map (fun d => (MONGO_OK, some d)) ∧
    (mongo_cursor_next (cursor_run docs.length c).2).1 = MONGO_ERROR ∧
    (mongo_cursor_next (cursor_run docs.length c).2).2.err = MONGO_CURSOR_EXHAUSTED ∧
    (mongo_cursor_next (cursor_run docs.length c).2).2.conn.sock.trace =
      c.conn.sock.trace ++ query_exchange_trace c docs.flatten.length ∧
    le32_int ((header_wire (query_header c)).drop 12) = MONGO_OP_QUERY := by
  match docs, hn with
  | d1 :: rest, _ =>
    have hle := length_le_flatten (d1 :: rest) hdocs
    have h4 : is_int32 f.num := by
      unfold is_int32
      omega
    have hnum0 : f.num ≠ 0 := by
      rw [hnum]
      simp only [List.length_cons, Nat.cast_add, Nat.cast_one]
      omega
    have herr2 : f.num = 1 → bson_find (d1 :: rest).flatten "$err".toList = none := by
      intro e1
      apply herr
      rw [hnum] at e1
      exact_mod_cast e1
    obtain ⟨pre', d', e1, e2, e3⟩ := cursor_run_single_batch c d1 rest h f ws rs hfresh hcur hb
      hdocs herr2 hw hr hhl hmax hid hrt hop h1 (by rw [hcid]; decide) h3 h4 hnum0
    have hfin : mongo_cursor_next
        { cursor_after_query c h f (d1 :: rest).flatten ws rs with
          current := some (pre'.length : Int) } =
        (MONGO_ERROR,
          { cursor_after_query c h f (d1 :: rest).flatten ws rs with
            current := some (pre'.length : Int), err := MONGO_CURSOR_EXHAUSTED }) := by
      rw [mongo_cursor_next_sent _ ⟨h, f, (d1 :: rest).flatten⟩ (flags_sent c.flags) rfl hnum0,
        advance_at_end _ ⟨h, f, (d1 :: rest).flatten⟩ pre' d' rfl e1 e2 hhl,
        get_more_exhausted _ ⟨h, f, (d1 :: rest).flatten⟩ rfl hcid]
      rw [if_pos MONGO_ERROR_ne_OK]
    rw [show (d1 :: rest).length = rest.length + 1 from rfl, e3, hfin]
    exact ⟨rfl, rfl, rfl, rfl, query_header_opcode c⟩


/-- Witness of C8: a server answering with the two documents `{a: 1}` and
`{b: 2}` and cursor id 0. -/
theorem cursor_single_batch_witness :
    (cursor_run 2 (mongo_cursor_init (mongo_zeroed (sock_one_reply [doc_a1, doc_b2] 0))
      "db.c".toList)).1 = [(MONGO_OK, some doc_a1), (MONGO_OK, some doc_b2)] ∧
    (mongo_cursor_next (cursor_run 2 (mongo_cursor_init
      (mongo_zeroed (sock_one_reply [doc_a1, doc_b2] 0)) "db.c".toList)).2).2.err
        = MONGO_CURSOR_EXHAUSTED :=
  have t := cursor_single_batch
    (mongo_cursor_init (mongo_zeroed (sock_one_reply [doc_a1, doc_b2] 0)) "db.c".toList)
    [doc_a1, doc_b2] ⟨60, 1, 0, 1⟩ ⟨0, 0, 0, 2⟩ [true, true] []
    (by decide) (by decide) rfl
    ⟨fun q hq => (by cases hq), fun f hf => (by cases hf), by decide, by decide, by decide⟩
    (by
      intro d hd
      simp only [List.mem_cons, List.mem_singleton, List.not_mem_nil, or_false] at hd
      rcases hd with rfl | rfl <;> exact ⟨by decide, by decide⟩)
    (by intro h; exact absurd h (by decide))
    rfl (by decide) (by decide) (by decide) ⟨by decide, by decide⟩ ⟨by decide, by decide⟩
    ⟨by decide, by decide⟩ ⟨by decide, by decide⟩ ⟨by decide, by decide⟩ rfl rfl
  ⟨t.1, t.2.2.1⟩

theorem le64_bytes_length (v : Int) : (le64_bytes v).length = 8 := rfl

theorem get_more_body_length (c : mongo_cursor) (limit cursorID : Int) :
    (get_more_body c limit cursorID).length = 4 + (c.ns.length + 1) + 4 + 8 := by
  unfold get_more_body cstring_bytes
  simp only [List.length_append, le32_bytes_length, le64_bytes_length, List.length_map,
    List.length_singleton]

theorem get_more_ok (c : mongo_cursor) (R : mongo_reply) (h : mongo_header)
    (f : mongo_reply_fields) (objs : List Nat) (ws : List Bool) (rs : List sock_read)
    (hlim : ¬ (c.limit > 0 ∧ c.seen ≥ c.limit)) (hR : c.reply = some R)
    (hcid : R.fields.cursorID ≠ 0)
    (hns : c.ns.length + 33 < 2147483647)
    (hw : c.conn.sock.writes = true :: true :: ws)
    (hr : c.conn.sock.reads = reply_reads h f objs ++ rs)
    (hhl : h.len = 36 + (objs.length : Int)) (hmax : objs.length + 36 ≤ 67108864)
    (hid : is_int32 h.id) (hrt : is_int32 h.responseTo) (hop : is_int32 h.op)
    (h1 : is_int32 f.flag)
    (h2 : -9223372036854775808 ≤ f.cursorID ∧ f.cursorID < 9223372036854775808)
    (h3 : is_int32 f.start) (h4 : is_int32 f.num) :
    mongo_cursor_get_more c =
      (MONGO_OK, cursor_after_get_more c R.fields.cursorID h f objs ws rs) := by
  unfold mongo_cursor_get_more
  rw [if_neg hlim]
  simp only [hR, if_neg hcid]
  unfold mongo_cursor_message_create
  rw [mongo_message_create_some _ _ 0 0 MONGO_OP_GET_MORE (by omega)]
  simp only [if_true]
  have hgb : ∀ l, get_more_body
      { c with conn := { c.conn with rand := c.conn.rand.tail } } l R.fields.cursorID
      = get_more_body c l R.fields.cursorID := fun _ => rfl
  simp only [hgb, message_fill, get_more_body_length]
  have hws := fun (mm : mongo_message) =>
    mongo_message_send_ok { c.conn with rand := c.conn.rand.tail } mm ws hw
  simp only [hws, ne_eq, not_true_eq_false, if_false]
  have hrr := fun (tr : List sock_event) =>
    mongo_read_response_ok
      { sock := { reads := c.conn.sock.reads, writes := ws, trace := tr }
        rand := c.conn.rand.tail, err := c.conn.err, errcode := c.conn.errcode
        errstr := c.conn.errstr, lasterrcode := c.conn.lasterrcode
        lasterrstr := c.conn.lasterrstr, max_bson_size := c.conn.max_bson_size
        write_concern := c.conn.write_concern, primary := c.conn.primary
        replica_set := c.conn.replica_set, connected := c.conn.connected
        net := c.conn.net }
      h f objs rs hr hhl hmax hid hrt hop h1 h2 h3 h4
  simp only [hrr, ne_eq, not_true_eq_false, if_false]
  have htake : ∀ l, List.take
      ((((16 + 4 + (c.ns.length + 1) + 4 + 8 : Nat) : Int) - (sizeof_mongo_header : Int))
        % 18446744073709551616).toNat
      (get_more_body c l R.fields.cursorID ++
        List.drop (4 + (c.ns.length + 1) + 4 + 8)
          (List.replicate (16 + 4 + (c.ns.length + 1) + 4 + 8 - 16) 0))
      = get_more_body c l R.fields.cursorID := by
    intro l
    have e : ((((16 + 4 + (c.ns.length + 1) + 4 + 8 : Nat) : Int) - (sizeof_mongo_header : Int))
        % 18446744073709551616).toNat = 4 + (c.ns.length + 1) + 4 + 8 := by
      unfold sizeof_mongo_header
      omega
    rw [e, List.take_append_of_le_length (by rw [get_more_body_length]),
      List.take_of_length_le (by rw [get_more_body_length])]
  simp only [htake, cursor_after_get_more, get_more_exchange_trace, get_more_header,
    get_more_limit, List.append_assoc]
  rfl

theorem get_more_header_opcode (c : mongo_cursor) :
    le32_int ((header_wire (get_more_header c)).drop 12) = MONGO_OP_GET_MORE := by
  rw [(header_wire_drop (get_more_header c)).2.2]
  exact le32_int_bytes MONGO_OP_GET_MORE (by decide)

/-- C9 (amended): let an unlimited cursor whose query has not been sent meet a
server that answers the query with 1 well-formed document that carries no
top-level `$err`, and a non-zero cursor id, and answers the following get-more
with 1 well-formed document and cursor id 0.  Then `mongo_cursor_next` returns
`MONGO_OK` twice, exposing first the query reply's document and then the
get-more reply's document, its third call returns `MONGO_ERROR` with cursor
error `MONGO_CURSOR_EXHAUSTED`, and the transport calls of the whole iteration
are those of two requests: the query exchange and one get-more exchange whose
message carries the first reply's cursor id. -/
theorem cursor_continuation (c : mongo_cursor) (d1 d2 : List Nat)
    (h1 h2 : mongo_header) (f1 f2 : mongo_reply_fields) (ws : List Bool) (rs : List sock_read)
    (hfresh : c.flags &&& MONGO_CURSOR_QUERY_SENT = 0) (hcur : c.current = none)
    (hb : query_buildable c) (hns : c.ns.length + 33 < 2147483647) (hlimit : c.limit = 0)
    (hd1 : bson_well_formed d1) (hd2 : bson_well_formed d2)
    (herr : bson_find d1 "$err".toList = none)
    (hw : c.conn.sock.writes = true :: true :: true :: true :: ws)
    (hr : c.conn.sock.reads = reply_reads h1 f1 d1 ++ (reply_reads h2 f2 d2 ++ rs))
    (hr1 : reply_well_framed h1 f1 d1) (hn1 : f1.num = 1) (hc1 : f1.cursorID ≠ 0)
    (hr2 : reply_well_framed h2 f2 d2) (hn2 : f2.num = 1) (hc2 : f2.cursorID = 0) :
    (cursor_run 2 c).1 = [(MONGO_OK, some d1), (MONGO_OK, some d2)] ∧
    (mongo_cursor_next (cursor_run 2 c).2).1 = MONGO_ERROR ∧
    (mongo_cursor_next (cursor_run 2 c).2).2.err = MONGO_CURSOR_EXHAUSTED ∧
    (∃ hdr, (mongo_cursor_next (cursor_run 2 c).2).2.conn.sock.trace =
      c.conn.sock.trace ++ query_exchange_trace c d1.length ++
        [sock_event.wrote hdr true,
         sock_event.wrote (get_more_body c 0 f1.cursorID) true,
         sock_event.read 16 true, sock_event.read 20 true, sock_event.read d2.length true] ∧
      le32_int (hdr.drop 12) = MONGO_OP_GET_MORE) ∧
    le32_int ((header_wire (query_header c)).drop 12) = MONGO_OP_QUERY := by
  obtain ⟨a1, a2, a3, a4, a5, a6, a7, a8, a9⟩ := hr1
  obtain ⟨b1, b2, b3, b4, b5, b6, b7, b8, b9⟩ := hr2
  have hf1 : f1.num ≠ 0 := by rw [hn1]; decide
  have hf2 : f2.num ≠ 0 := by rw [hn2]; decide
  have hfl1 : [d1].flatten = d1 := by simp
  -- first call: the query exchange
  obtain ⟨pre', d', e1, e2, e3⟩ := cursor_run_single_batch c d1 [] h1 f1
    (true :: true :: ws) (reply_reads h2 f2 d2 ++ rs) hfresh hcur hb
    (by intro d hd; simp only [List.mem_singleton] at hd; rw [hd]; exact hd1)
    (by rw [hfl1]; exact fun _ => herr)
    hw (by rw [hfl1]; exact hr) (by rw [hfl1]; exact a1) (by rw [hfl1]; exact a2)
    a3 a4 a5 a6 a7 a8 a9 hf1
  rw [hfl1] at e1 e3
  simp only [List.length_nil, Nat.zero_add, List.map_cons, List.map_nil] at e3
  -- second call: the get-more exchange
  have hgm := get_more_ok
    { cursor_after_query c h1 f1 d1 (true :: true :: ws) (reply_reads h2 f2 d2 ++ rs) with
      current := some (pre'.length : Int) }
    ⟨h1, f1, d1⟩ h2 f2 d2 ws rs
    (by
      show ¬ (c.limit > 0 ∧ _)
      rw [hlimit]
      exact fun hh => absurd hh.1 (by decide))
    rfl hc1 hns rfl rfl b1 b2 b3 b4 b5 b6 b7 b8 b9
  have hsecond : mongo_cursor_next
      { cursor_after_query c h1 f1 d1 (true :: true :: ws) (reply_reads h2 f2 d2 ++ rs) with
        current := some (pre'.length : Int) } =
      (MONGO_OK,
        { cursor_after_get_more
            { cursor_after_query c h1 f1 d1 (true :: true :: ws) (reply_reads h2 f2 d2 ++ rs)
              with current := some (pre'.length : Int) }
            f1.cursorID h2 f2 d2 ws rs with
          current := some ((([] : List Nat).length : Nat) : Int) }) := by
    rw [mongo_cursor_next_sent _ ⟨h1, f1, d1⟩ (flags_sent c.flags) rfl hf1,
      advance_at_end _ ⟨h1, f1, d1⟩ pre' d' rfl e1 e2 a1, hgm]
    simp only [ne_eq, not_true_eq_false, if_false, cursor_after_get_more, if_neg hf2]
    rfl
  have hbson2 : mongo_cursor_bson
      { cursor_after_get_more
          { cursor_after_query c h1 f1 d1 (true :: true :: ws) (reply_reads h2 f2 d2 ++ rs)
            with current := some (pre'.length : Int) }
          f1.cursorID h2 f2 d2 ws rs with
        current := some ((([] : List Nat).length : Nat) : Int) } = some d2 :=
    mongo_cursor_bson_at _ ⟨h2, f2, d2⟩ [] d2 [] rfl rfl (by simp) hd2
  -- third call: the server cursor is gone
  have hthird : mongo_cursor_next
      { cursor_after_get_more
          { cursor_after_query c h1 f1 d1 (true :: true :: ws) (reply_reads h2 f2 d2 ++ rs)
            with current := some (pre'.length : Int) }
          f1.cursorID h2 f2 d2 ws rs with
        current := some ((([] : List Nat).length : Nat) : Int) } =
      (MONGO_ERROR,
        { cursor_after_get_more
            { cursor_after_query c h1 f1 d1 (true :: true :: ws) (reply_reads h2 f2 d2 ++ rs)
              with current := some (pre'.length : Int) }
            f1.cursorID h2 f2 d2 ws rs with
          current := some ((([] : List Nat).length : Nat) : Int)
          err := MONGO_CURSOR_EXHAUSTED }) := by
    rw [mongo_cursor_next_sent _ ⟨h2, f2, d2⟩ (flags_sent c.flags) rfl hf2,
      advance_at_end _ ⟨h2, f2, d2⟩ [] d2 rfl (by simp) hd2 b1,
      get_more_exhausted _ ⟨h2, f2, d2⟩ rfl hc2]
    rw [if_pos MONGO_ERROR_ne_OK]
  have hrun : cursor_run 2 c =
      ([(MONGO_OK, some d1), (MONGO_OK, some d2)],
        { cursor_after_get_more
            { cursor_after_query c h1 f1 d1 (true :: true :: ws) (reply_reads h2 f2 d2 ++ rs)
              with current := some (pre'.length : Int) }
            f1.cursorID h2 f2 d2 ws rs with
          current := some ((([] : List Nat).length : Nat) : Int) }) := by
    have hstep : cursor_run 2 c =
        (((mongo_cursor_next c).1, mongo_cursor_bson (mongo_cursor_next c).2)
          :: (cursor_run 1 (mongo_cursor_next c).2).1, (cursor_run 1 (mongo_cursor_next c).2).2) :=
      rfl
    have h1run : cursor_run 1 c =
        (((mongo_cursor_next c).1, mongo_cursor_bson (mongo_cursor_next c).2) :: [],
          (mongo_cursor_next c).2) := rfl
    rw [h1run] at e3
    have hAC : (mongo_cursor_next c).1 = MONGO_OK ∧
        mongo_cursor_bson (mongo_cursor_next c).2 = some d1 := by
      have := congrArg (fun p => p.1) e3
      simpa using this
    have hA := hAC.1
    have hB : (mongo_cursor_next c).2 =
        { cursor_after_query c h1 f1 d1 (true :: true :: ws) (reply_reads h2 f2 d2 ++ rs) with
          current := some (pre'.length : Int) } := congrArg (fun p => p.2) e3
    have hC := hAC.2
    rw [hstep, hA, hC, hB]
    simp only [cursor_run, hsecond, hbson2]
  rw [hrun, hthird]
  refine ⟨rfl, rfl, rfl, ⟨header_wire (get_more_header
    { cursor_after_query c h1 f1 d1 (true :: true :: ws) (reply_reads h2 f2 d2 ++ rs) with
      current := some (pre'.length : Int) }), ?_, get_more_header_opcode _⟩,
    query_header_opcode c⟩
  simp only [cursor_after_get_more, cursor_after_query, get_more_exchange_trace,
    get_more_limit, hlimit, List.append_assoc]
  rfl


set_option maxRecDepth 100000 in
/-- C9 (as the claim states it) fails: the server answers the query with the
single well-formed document `{ "$err" : "x" }` and the non-zero cursor id 5,
and is ready to answer a get-more with one document and cursor id 0; yet the
first call of `mongo_cursor_next` on the unlimited cursor returns
`MONGO_ERROR`, with cursor error `MONGO_CURSOR_QUERY_FAIL`. -/
theorem cursor_continuation_counterexample :
    bson_well_formed doc_err ∧ bson_well_formed doc_a1 ∧
    bson_find doc_err "$err".toList = some 4 ∧
    (mongo_cursor_init (mongo_zeroed (sock_two_replies [doc_err] 5 [doc_a1] 0))
      "db.c".toList).limit = 0 ∧
    (mongo_cursor_next (mongo_cursor_init
      (mongo_zeroed (sock_two_replies [doc_err] 5 [doc_a1] 0)) "db.c".toList)).1
        = MONGO_ERROR ∧
    (mongo_cursor_next (mongo_cursor_init
      (mongo_zeroed (sock_two_replies [doc_err] 5 [doc_a1] 0)) "db.c".toList)).2.err
        = MONGO_CURSOR_QUERY_FAIL :=
  ⟨⟨by decide, by decide⟩, ⟨by decide, by decide⟩, by decide, rfl, by decide, by decide⟩

/-- Witness of the amended C9: the server answers the query with `{a: 1}` and
cursor id 5, and the get-more with `{b: 2}` and cursor id 0. -/
theorem cursor_continuation_witness :
    bson_find doc_a1 "$err".toList = none ∧
    (cursor_run 2 (mongo_cursor_init (mongo_zeroed (sock_two_replies [doc_a1] 5 [doc_b2] 0))
      "db.c".toList)).1 = [(MONGO_OK, some doc_a1), (MONGO_OK, some doc_b2)] ∧
    (mongo_cursor_next (cursor_run 2 (mongo_cursor_init
      (mongo_zeroed (sock_two_replies [doc_a1] 5 [doc_b2] 0)) "db.c".toList)).2).2.err
        = MONGO_CURSOR_EXHAUSTED :=
  have t := cursor_continuation
    (mongo_cursor_init (mongo_zeroed (sock_two_replies [doc_a1] 5 [doc_b2] 0)) "db.c".toList)
    doc_a1 doc_b2 ⟨48, 1, 0, 1⟩ ⟨48, 2, 0, 1⟩ ⟨0, 5, 0, 1⟩ ⟨0, 0, 0, 1⟩ [] []
    (by decide) rfl
    ⟨fun q hq => (by cases hq), fun f hf => (by cases hf), by decide, by decide, by decide⟩
    (by decide) rfl ⟨by decide, by decide⟩ ⟨by decide, by decide⟩ (by decide)
    rfl (by decide)
    ⟨by decide, by decide, ⟨by decide, by decide⟩, ⟨by decide, by decide⟩,
      ⟨by decide, by decide⟩, ⟨by decide, by decide⟩, ⟨by decide, by decide⟩,
      ⟨by decide, by decide⟩, ⟨by decide, by decide⟩⟩
    rfl (by decide)
    ⟨by decide, by decide, ⟨by decide, by decide⟩, ⟨by decide, by decide⟩,
      ⟨by decide, by decide⟩, ⟨by decide, by decide⟩, ⟨by decide, by decide⟩,
      ⟨by decide, by decide⟩, ⟨by decide, by decide⟩⟩
    rfl rfl
  ⟨by decide, t.1, t.2.2.1⟩

set_option maxRecDepth 100000 in
/-- C10 (the code at the failing input): the server answers the query with 0
documents and cursor id 7, and the get-more with 0 documents and cursor id 7.
The first call of `mongo_cursor_next` performs the query and then the get-more
(ten transport calls, the held reply being the get-more's), and returns
`MONGO_ERROR` with the cursor error left at its previous value, which is
`MONGO_CURSOR_EXHAUSTED` and not `MONGO_CURSOR_PENDING`.  On the sibling path,
where the held reply had a document, the same get-more reply does set
`MONGO_CURSOR_PENDING`. -/
theorem cursor_pending_not_set_on_empty_reply :
    (mongo_cursor_next (mongo_cursor_init
      (mongo_zeroed (sock_two_replies [] 7 [] 7)) "db.c".toList)).1 = MONGO_ERROR ∧
    (mongo_cursor_next (mongo_cursor_init
      (mongo_zeroed (sock_two_replies [] 7 [] 7)) "db.c".toList)).2.reply
        = some ⟨⟨36, 2, 0, 1⟩, ⟨0, 7, 0, 0⟩, []⟩ ∧
    (mongo_cursor_next (mongo_cursor_init
      (mongo_zeroed (sock_two_replies [] 7 [] 7)) "db.c".toList)).2.conn.sock.trace.length
        = 10 ∧
    (mongo_cursor_next (mongo_cursor_init
      (mongo_zeroed (sock_two_replies [] 7 [] 7)) "db.c".toList)).2.err
        = (mongo_cursor_init (mongo_zeroed (sock_two_replies [] 7 [] 7)) "db.c".toList).err ∧
    (mongo_cursor_next (mongo_cursor_init
      (mongo_zeroed (sock_two_replies [] 7 [] 7)) "db.c".toList)).2.err
        = MONGO_CURSOR_EXHAUSTED ∧
    MONGO_CURSOR_EXHAUSTED ≠ MONGO_CURSOR_PENDING ∧
    (cursor_run 2 (mongo_cursor_init
      (mongo_zeroed (sock_two_replies [doc_a1] 7 [] 7)) "db.c".toList)).1
        = [(MONGO_OK, some doc_a1), (MONGO_ERROR, none)] ∧
    (cursor_run 2 (mongo_cursor_init
      (mongo_zeroed (sock_two_replies [doc_a1] 7 [] 7)) "db.c".toList)).2.err
        = MONGO_CURSOR_PENDING := by
  decide

theorem mongo_cursor_next_empty_dead (c : mongo_cursor) (R : mongo_reply)
    (hflags : c.flags &&& MONGO_CURSOR_QUERY_SENT ≠ 0) (hR : c.reply = some R)
    (hnum : R.fields.num = 0) (hid : R.fields.cursorID = 0) :
    mongo_cursor_next c = (MONGO_ERROR, c) := by
  unfold mongo_cursor_next
  simp only [if_neg hflags, ne_eq, not_true_eq_false, if_false, hR, hnum, hid, if_true]

set_option maxRecDepth 100000 in
/-- C11 (the code at the failing input): the server answers the query with
`{a: 1}` and cursor id 7, the first get-more with no document and cursor id 7
(which sets `MONGO_CURSOR_PENDING`), and the second get-more with no document
and cursor id 0.  After three calls the cursor holds a reply with zero
documents and cursor id 0; the fourth call of `mongo_cursor_next` sends nothing
and returns `MONGO_ERROR`, and the cursor error is still `MONGO_CURSOR_PENDING`,
not `MONGO_CURSOR_EXHAUSTED`. -/
theorem cursor_exhausted_not_set_on_dead_reply :
    (cursor_run 3 (mongo_cursor_init
      (mongo_zeroed (sock_replies [([doc_a1], 7), ([], 7), ([], 0)])) "db.c".toList)).1
      = [(MONGO_OK, some doc_a1), (MONGO_ERROR, none), (MONGO_ERROR, none)] ∧
    cursor_tail_dead.reply = some ⟨⟨36, 1, 0, 1⟩, ⟨0, 0, 0, 0⟩, []⟩ ∧
    (mongo_cursor_next cursor_tail_dead).1 = MONGO_ERROR ∧
    (mongo_cursor_next cursor_tail_dead).2.conn.sock.trace = cursor_tail_dead.conn.sock.trace ∧
    (mongo_cursor_next cursor_tail_dead).2.err = MONGO_CURSOR_PENDING ∧
    MONGO_CURSOR_PENDING ≠ MONGO_CURSOR_EXHAUSTED := by
  decide

theorem mongo_env_write_socket_res (conn : mongo) (bytes : List Nat) :
    (mongo_env_write_socket conn bytes).1 =
      if conn.sock.writes.headD false = true then MONGO_OK else MONGO_ERROR := by
  unfold mongo_env_write_socket
  dsimp only
  by_cases h : conn.sock.writes.headD false = true
  · rw [if_pos h, if_pos h]
  · rw [if_neg h, if_neg h]

theorem mongo_env_write_socket_writes (conn : mongo) (bytes : List Nat) :
    (mongo_env_write_socket conn bytes).2.sock.writes = conn.sock.writes.tail := by
  unfold mongo_env_write_socket
  dsimp only
  split <;> rfl

theorem mongo_message_send_trace (conn : mongo) (mm : mongo_message) :
    (mongo_message_send conn mm).2.sock.trace =
      conn.sock.trace ++
        (sock_event.wrote (header_wire mm.head) (conn.sock.writes.headD false) ::
          if conn.sock.writes.headD false = true then
            [sock_event.wrote
              (mm.data.take
                ((mm.head.len - (sizeof_mongo_header : Int)) % 18446744073709551616).toNat)
              (conn.sock.writes.tail.headD false)]
          else []) := by
  unfold mongo_message_send
  dsimp only
  rw [mongo_env_write_socket_res]
  by_cases hw : conn.sock.writes.headD false = true
  · rw [if_pos hw, if_neg (by simp), if_pos hw]
    have ht : ∀ b, (mongo_env_write_socket (mongo_env_write_socket conn (header_wire mm.head)).2
        b).2.sock.trace = conn.sock.trace ++ [sock_event.wrote (header_wire mm.head) true,
          sock_event.wrote b (conn.sock.writes.tail.headD false)] := by
      intro b
      rw [mongo_env_write_socket_trace, mongo_env_write_socket_trace,
        mongo_env_write_socket_writes, hw, List.append_assoc]
      rfl
    rw [hw]
    split <;> exact ht _
  · rw [if_neg hw, if_pos MONGO_ERROR_ne_OK, if_neg hw, mongo_env_write_socket_trace]

theorem mongo_message_send_result (conn : mongo) (mm : mongo_message) :
    (mongo_message_send conn mm).1 =
      if conn.sock.writes.headD false = true ∧ conn.sock.writes.tail.headD false = true
      then MONGO_OK else MONGO_ERROR := by
  unfold mongo_message_send
  dsimp only
  rw [mongo_env_write_socket_res]
  by_cases hw : conn.sock.writes.headD false = true
  · rw [if_pos hw, if_neg (by simp), mongo_env_write_socket_res, mongo_env_write_socket_writes]
    by_cases hw2 : conn.sock.writes.tail.headD false = true
    · rw [if_pos hw2, if_neg (by simp), if_pos ⟨hw, hw2⟩]
    · rw [if_neg hw2, if_pos MONGO_ERROR_ne_OK, if_neg (fun h => hw2 h.2)]
  · rw [if_neg hw, if_pos MONGO_ERROR_ne_OK, if_neg (fun h => hw h.1)]

theorem mongo_read_response_trace (conn : mongo) :
    ∃ evs, (mongo_read_response conn).2.2.sock.trace = conn.sock.trace ++ evs := by
  unfold mongo_read_response
  dsimp only
  split
  · exact ⟨_, by rw [mongo_env_read_socket_trace, mongo_env_read_socket_trace, List.append_assoc]⟩
  · split <;>
      exact ⟨_, by rw [mongo_env_read_socket_trace, mongo_env_read_socket_trace,
        mongo_env_read_socket_trace, List.append_assoc, List.append_assoc]⟩

theorem mongo_cursor_message_create_none (c : mongo_cursor) (len : Nat) (id rt op : Int)
    (h : len ≥ INT32_MAX) :
    mongo_cursor_message_create c len id rt op =
      (none, { c with err := MONGO_CURSOR_OVERFLOW }) := by
  unfold mongo_cursor_message_create mongo_message_create
  rw [if_pos h]

theorem get_more_overflow (c : mongo_cursor) (R : mongo_reply)
    (hlim : ¬ (c.limit > 0 ∧ c.seen ≥ c.limit)) (hR : c.reply = some R)
    (hcid : R.fields.cursorID ≠ 0) (hns : ¬ (c.ns.length + 33 < 2147483647)) :
    mongo_cursor_get_more c = (MONGO_ERROR, { c with err := MONGO_CURSOR_OVERFLOW }) := by
  unfold mongo_cursor_get_more
  rw [if_neg hlim]
  simp only [hR, if_neg hcid]
  rw [mongo_cursor_message_create_none c _ 0 0 MONGO_OP_GET_MORE (by unfold INT32_MAX; omega)]
  dsimp only
  rw [hR]

theorem get_more_sends (c : mongo_cursor) (R : mongo_reply)
    (hlim : ¬ (c.limit > 0 ∧ c.seen ≥ c.limit)) (hR : c.reply = some R)
    (hcid : R.fields.cursorID ≠ 0) (hns : c.ns.length + 33 < 2147483647) :
    ∃ rest, (mongo_cursor_get_more c).2.conn.sock.trace =
      c.conn.sock.trace ++
        sock_event.wrote (header_wire (get_more_header c)) (c.conn.sock.writes.headD false)
          :: rest ∧
      (c.conn.sock.writes.headD false = true →
        ∃ rest2, rest =
          sock_event.wrote (get_more_body c (get_more_limit c) R.fields.cursorID)
            (c.conn.sock.writes.tail.headD false) :: rest2) := by
  unfold mongo_cursor_get_more
  rw [if_neg hlim]
  simp only [hR, if_neg hcid]
  unfold mongo_cursor_message_create
  rw [mongo_message_create_some _ _ 0 0 MONGO_OP_GET_MORE (by omega)]
  simp only [if_true]
  have hgb : ∀ l, get_more_body
      { c with conn := { c.conn with rand := c.conn.rand.tail } } l R.fields.cursorID
      = get_more_body c l R.fields.cursorID := fun _ => rfl
  simp only [hgb, message_fill, get_more_body_length]
  have htake : ∀ l, List.take
      ((((16 + 4 + (c.ns.length + 1) + 4 + 8 : Nat) : Int) - (sizeof_mongo_header : Int))
        % 18446744073709551616).toNat
      (get_more_body c l R.fields.cursorID ++
        List.drop (4 + (c.ns.length + 1) + 4 + 8)
          (List.replicate (16 + 4 + (c.ns.length + 1) + 4 + 8 - 16) 0))
      = get_more_body c l R.fields.cursorID := by
    intro l
    have e : ((((16 + 4 + (c.ns.length + 1) + 4 + 8 : Nat) : Int) - (sizeof_mongo_header : Int))
        % 18446744073709551616).toNat = 4 + (c.ns.length + 1) + 4 + 8 := by
      unfold sizeof_mongo_header
      omega
    rw [e, List.take_append_of_le_length (by rw [get_more_body_length]),
      List.take_of_length_le (by rw [get_more_body_length])]

  have hs := mongo_message_send_trace { c.conn with rand := c.conn.rand.tail }
      { head := { len := ((16 + 4 + (c.ns.length + 1) + 4 + 8 : Nat) : Int),
                  id := c.conn.rand.headD 0, responseTo := 0, op := MONGO_OP_GET_MORE },
        data := get_more_body c (if c.limit > 0 then int32_wrap (c.limit - c.seen) else 0) R.fields.cursorID ++
          List.drop (4 + (c.ns.length + 1) + 4 + 8)
            (List.replicate (16 + 4 + (c.ns.length + 1) + 4 + 8 - 16) 0) }
  dsimp only at hs
  rw [htake] at hs
  generalize mongo_message_send { c.conn with rand := c.conn.rand.tail }
      { head := { len := ((16 + 4 + (c.ns.length + 1) + 4 + 8 : Nat) : Int),
                  id := c.conn.rand.headD 0, responseTo := 0, op := MONGO_OP_GET_MORE },
        data := get_more_body c (if c.limit > 0 then int32_wrap (c.limit - c.seen) else 0) R.fields.cursorID ++
          List.drop (4 + (c.ns.length + 1) + 4 + 8)
            (List.replicate (16 + 4 + (c.ns.length + 1) + 4 + 8 - 16) 0) } = S at hs ⊢
  obtain ⟨evs, hevs⟩ := mongo_read_response_trace S.2
  have key : ∀ evs2, ∃ rest,
      S.2.sock.trace ++ evs2 = c.conn.sock.trace ++
        sock_event.wrote (header_wire (get_more_header c)) (c.conn.sock.writes.headD false)
          :: rest ∧
      (c.conn.sock.writes.headD false = true →
        ∃ rest2, rest =
          sock_event.wrote (get_more_body c (get_more_limit c) R.fields.cursorID)
            (c.conn.sock.writes.tail.headD false) :: rest2) := by
    intro evs2
    rw [hs]
    by_cases hw : c.conn.sock.writes.headD false = true
    · rw [if_pos hw]
      exact ⟨_, by rw [List.append_assoc]; rfl, fun _ => ⟨evs2, rfl⟩⟩
    · rw [if_neg hw]
      exact ⟨_, by rw [List.append_assoc]; rfl, fun h => absurd h hw⟩
  split
  · have k := key []
    rw [List.append_nil] at k
    exact k
  · split
    · have k := key evs
      rw [← hevs] at k
      exact k
    · have k := key evs
      rw [← hevs] at k
      split <;> exact k

/-- C12 (counterexample): a cursor with no limit that holds a reply with cursor
id 7 is in none of the three refusal states, yet with a namespace of 2147483614
characters (message length 2147483647) `mongo_cursor_get_more` returns
`MONGO_ERROR` with cursor error `MONGO_CURSOR_OVERFLOW` and sends nothing. -/
theorem mongo_cursor_get_more_overflow_counterexample :
    ¬ ((cursor_live (List.replicate 2147483614 'a')).limit > 0 ∧
        (cursor_live (List.replicate 2147483614 'a')).seen
          ≥ (cursor_live (List.replicate 2147483614 'a')).limit) ∧
    (cursor_live (List.replicate 2147483614 'a')).reply
      = some ⟨⟨36, 1, 0, 1⟩, ⟨0, 7, 0, 0⟩, []⟩ ∧
    mongo_cursor_get_more (cursor_live (List.replicate 2147483614 'a')) =
      (MONGO_ERROR,
        { cursor_live (List.replicate 2147483614 'a') with err := MONGO_CURSOR_OVERFLOW }) ∧
    MONGO_CURSOR_OVERFLOW ≠ MONGO_CURSOR_EXHAUSTED ∧
    MONGO_CURSOR_OVERFLOW ≠ MONGO_CURSOR_INVALID :=
  ⟨fun h => absurd h.1 (by decide), rfl,
    get_more_overflow (cursor_live (List.replicate 2147483614 'a'))
      ⟨⟨36, 1, 0, 1⟩, ⟨0, 7, 0, 0⟩, []⟩ (fun h => absurd h.1 (by decide)) rfl (by decide)
      (by
        have h : (cursor_live (List.replicate 2147483614 'a')).ns.length = 2147483614 :=
          List.length_replicate _ _
        rw [h]
        omega),
    by decide, by decide⟩

/-- C12 (amended): `mongo_cursor_get_more` checks its refusal cases in this
order, and in each of them returns `MONGO_ERROR` with a cursor that differs
from the one given only in its error (so nothing is sent and reply and seen
count are unchanged): limit > 0 and seen >= limit gives
`MONGO_CURSOR_EXHAUSTED`; no reply held gives `MONGO_CURSOR_INVALID`; a held
reply with cursor id 0 gives `MONGO_CURSOR_EXHAUSTED`.  In every other state
whose message length 16 + 4 + (strlen(ns) + 1) + 4 + 8 is below `INT32_MAX` the
next transport call is the write of the get-more header (length, opcode 2005)
and, when that write succeeds, the following one is the write of the body:
int32 0, the namespace, the number to return and the held cursor id.  In the
remaining states it refuses with `MONGO_CURSOR_OVERFLOW`. -/
theorem mongo_cursor_get_more_cases (c : mongo_cursor) :
    (c.limit > 0 ∧ c.seen ≥ c.limit →
      mongo_cursor_get_more c = (MONGO_ERROR, { c with err := MONGO_CURSOR_EXHAUSTED })) ∧
    (¬ (c.limit > 0 ∧ c.seen ≥ c.limit) → c.reply = none →
      mongo_cursor_get_more c = (MONGO_ERROR, { c with err := MONGO_CURSOR_INVALID })) ∧
    (∀ R, ¬ (c.limit > 0 ∧ c.seen ≥ c.limit) → c.reply = some R → R.fields.cursorID = 0 →
      mongo_cursor_get_more c = (MONGO_ERROR, { c with err := MONGO_CURSOR_EXHAUSTED })) ∧
    (∀ R, ¬ (c.limit > 0 ∧ c.seen ≥ c.limit) → c.reply = some R → R.fields.cursorID ≠ 0 →
      c.ns.length + 33 < 2147483647 →
      ∃ rest, (mongo_cursor_get_more c).2.conn.sock.trace =
        c.conn.sock.trace ++
          sock_event.wrote (header_wire (get_more_header c)) (c.conn.sock.writes.headD false)
            :: rest ∧
        (c.conn.sock.writes.headD false = true →
          ∃ rest2, rest =
            sock_event.wrote (get_more_body c (get_more_limit c) R.fields.cursorID)
              (c.conn.sock.writes.tail.headD false) :: rest2)) ∧
    (∀ R, ¬ (c.limit > 0 ∧ c.seen ≥ c.limit) → c.reply = some R → R.fields.cursorID ≠ 0 →
      ¬ (c.ns.length + 33 < 2147483647) →
      mongo_cursor_get_more c = (MONGO_ERROR, { c with err := MONGO_CURSOR_OVERFLOW })) := by
  refine ⟨?_, ?_, ?_, ?_, ?_⟩
  · intro h
    unfold mongo_cursor_get_more
    rw [if_pos h]
  · intro h hr
    unfold mongo_cursor_get_more
    rw [if_neg h]
    simp only [hr]
  · intro R h hr hid
    unfold mongo_cursor_get_more
    rw [if_neg h]
    simp only [hr, hid, if_true]
  · intro R h hr hid hns
    exact get_more_sends c R h hr hid hns
  · intro R h hr hid hns
    exact get_more_overflow c R h hr hid hns

/-- Witness of the amended C12: the cursor on namespace `db.c` that holds a
reply with cursor id 7 sends the get-more header first. -/
theorem mongo_cursor_get_more_cases_witness :
    ∃ rest, (mongo_cursor_get_more (cursor_live "db.c".toList)).2.conn.sock.trace =
      (cursor_live "db.c".toList).conn.sock.trace ++
        sock_event.wrote (header_wire (get_more_header (cursor_live "db.c".toList)))
          ((cursor_live "db.c".toList).conn.sock.writes.headD false) :: rest ∧
      ((cursor_live "db.c".toList).conn.sock.writes.headD false = true →
        ∃ rest2, rest =
          sock_event.wrote (get_more_body (cursor_live "db.c".toList)
            (get_more_limit (cursor_live "db.c".toList)) 7)
            ((cursor_live "db.c".toList).conn.sock.writes.tail.headD false) :: rest2) :=
  (mongo_cursor_get_more_cases (cursor_live "db.c".toList)).2.2.2.1
    ⟨⟨36, 1, 0, 1⟩, ⟨0, 7, 0, 0⟩, []⟩ (fun h => absurd h.1 (by decide)) rfl (by decide)
    (by decide)

theorem kill_cursors_body_length (id : Int) : (kill_cursors_body id).length = 16 := rfl

theorem mongo_cursor_destroy_live_idle (c : mongo_cursor)
    (h : c.reply = none ∨ ∃ R, c.reply = some R ∧ R.fields.cursorID = 0) :
    mongo_cursor_destroy_live c = mongo_cursor_release c c.conn MONGO_OK := by
  unfold mongo_cursor_destroy_live
  rcases h with h | ⟨R, hR, hid⟩
  · simp only [h]
  · simp only [hR, hid, ne_eq, not_true_eq_false, if_false]

theorem mongo_cursor_destroy_live_kill (c : mongo_cursor) (R : mongo_reply)
    (hR : c.reply = some R) (hid : R.fields.cursorID ≠ 0) :
    mongo_cursor_destroy_live c =
      mongo_cursor_release { c with conn := { c.conn with rand := c.conn.rand.tail } }
        (mongo_message_send { c.conn with rand := c.conn.rand.tail }
          ⟨⟨32, c.conn.rand.headD 0, 0, MONGO_OP_KILL_CURSORS⟩,
            kill_cursors_body R.fields.cursorID⟩).2
        (mongo_message_send { c.conn with rand := c.conn.rand.tail }
          ⟨⟨32, c.conn.rand.headD 0, 0, MONGO_OP_KILL_CURSORS⟩,
            kill_cursors_body R.fields.cursorID⟩).1 := by
  unfold mongo_cursor_destroy_live
  simp only [hR, if_pos hid]
  unfold mongo_cursor_message_create
  rw [mongo_message_create_some _ _ 0 0 MONGO_OP_KILL_CURSORS (by decide)]
  simp only [if_true, message_fill, kill_cursors_body_length]
  rfl

/-- C14: `mongo_cursor_destroy` of the null cursor returns `MONGO_OK`.  For a
cursor that holds no reply, or a reply with cursor id 0, it returns `MONGO_OK`,
the connection (and so the transport trace) is untouched, and reply and
namespace are released.  For a cursor that holds a reply with a non-zero cursor
id it sends one message whose header is length 32, a request id from `rand()`,
response-to 0 and opcode 2007, and whose 16 body bytes are int32 0, int32 1 and
the 64-bit cursor id, little-endian; the transport sees the write of the
header and, if that succeeds, the write of the body, and nothing else; the
function's result is the result of that send; reply and namespace are released
whatever the send returned. -/
theorem mongo_cursor_destroy_kill_cursors (c : mongo_cursor) :
    mongo_cursor_destroy none = (MONGO_OK, none) ∧
    ((c.reply = none ∨ ∃ R, c.reply = some R ∧ R.fields.cursorID = 0) →
      (mongo_cursor_destroy (some c)).1 = MONGO_OK ∧
      ∃ r, (mongo_cursor_destroy (some c)).2 = some r ∧
        r.conn = c.conn ∧ r.reply = none ∧ r.ns = none) ∧
    (∀ R, c.reply = some R → R.fields.cursorID ≠ 0 →
      ∃ mm r,
        mm.head = ⟨32, c.conn.rand.headD 0, 0, MONGO_OP_KILL_CURSORS⟩ ∧
        mm.data = le32_bytes 0 ++ le32_bytes 1 ++ le64_bytes R.fields.cursorID ∧
        16 + mm.data.length = 32 ∧
        (mongo_cursor_destroy (some c)).1 =
          (mongo_message_send { c.conn with rand := c.conn.rand.tail } mm).1 ∧
        (mongo_cursor_destroy (some c)).2 = some r ∧
        r.conn = (mongo_message_send { c.conn with rand := c.conn.rand.tail } mm).2 ∧
        r.conn.sock.trace = c.conn.sock.trace ++
          (sock_event.wrote (header_wire mm.head) (c.conn.sock.writes.headD false) ::
            if c.conn.sock.writes.headD false = true then
              [sock_event.wrote mm.data (c.conn.sock.writes.tail.headD false)]
            else []) ∧
        r.reply = none ∧ r.ns = none) := by
  refine ⟨rfl, ?_, ?_⟩
  · intro h
    unfold mongo_cursor_destroy
    simp only [mongo_cursor_destroy_live_idle c h, mongo_cursor_release]
    exact ⟨trivial, _, rfl, rfl, rfl, rfl⟩
  · intro R hR hid
    refine ⟨⟨⟨32, c.conn.rand.headD 0, 0, MONGO_OP_KILL_CURSORS⟩,
      kill_cursors_body R.fields.cursorID⟩, _, rfl, rfl, rfl, ?_, rfl, ?_, ?_, ?_, ?_⟩
    · unfold mongo_cursor_destroy
      simp only [mongo_cursor_destroy_live_kill c R hR hid, mongo_cursor_release]
    · simp only [mongo_cursor_destroy_live_kill c R hR hid, mongo_cursor_release]
    · simp only [mongo_cursor_destroy_live_kill c R hR hid, mongo_cursor_release]
      rw [mongo_message_send_trace]
      rfl
    · simp only [mongo_cursor_destroy_live_kill c R hR hid, mongo_cursor_release]
    · simp only [mongo_cursor_destroy_live_kill c R hR hid, mongo_cursor_release]

/-- Witness of C14: the cursor on `db.c` that holds a reply with cursor id 7, on
a connection whose writes succeed. -/
theorem mongo_cursor_destroy_kill_cursors_witness :
    ∃ mm r,
      mm.head = ⟨32, 0, 0, MONGO_OP_KILL_CURSORS⟩ ∧
      mm.data = le32_bytes 0 ++ le32_bytes 1 ++ le64_bytes 7 ∧
      16 + mm.data.length = 32 ∧
      (mongo_cursor_destroy (some (cursor_live "db.c".toList))).1 =
        (mongo_message_send { (cursor_live "db.c".toList).conn with
          rand := (cursor_live "db.c".toList).conn.rand.tail } mm).1 ∧
      (mongo_cursor_destroy (some (cursor_live "db.c".toList))).2 = some r ∧
      r.conn = (mongo_message_send { (cursor_live "db.c".toList).conn with
          rand := (cursor_live "db.c".toList).conn.rand.tail } mm).2 ∧
      r.conn.sock.trace = [] ++
        (sock_event.wrote (header_wire mm.head) true ::
          if true = true then [sock_event.wrote mm.data true] else []) ∧
      r.reply = none ∧ r.ns = none :=
  (mongo_cursor_destroy_kill_cursors (cursor_live "db.c".toList)).2.2
    ⟨⟨36, 1, 0, 1⟩, ⟨0, 7, 0, 0⟩, []⟩ rfl (by decide)

theorem __mongo_set_error_err (conn : mongo) (err : Int) (str : Option (List Char))
    (errcode : Int) : (__mongo_set_error conn err str errcode).err = err := by
  unfold __mongo_set_error
  cases str <;> rfl

theorem mongo_choose_write_concern_of_selected (conn : mongo)
    (custom : Option mongo_write_concern) (c : mongo_write_concern)
    (hsel : custom = some c ∨ (custom = none ∧ conn.write_concern = some c)) :
    mongo_choose_write_concern conn custom none =
      if c.w < 1 then (MONGO_OK, none, conn)
      else if c.cmd = none then
        (MONGO_ERROR, some c,
          __mongo_set_error conn MONGO_WRITE_CONCERN_INVALID
            (some "Must call mongo_write_concern_finish() before using *write_concern.".toList) 0)
      else (MONGO_OK, some c, conn) := by
  unfold mongo_choose_write_concern
  rcases hsel with h | ⟨h1, h2⟩
  · simp only [h]
    by_cases hw : c.w < 1
    · simp only [if_pos hw]
    · simp only [if_neg hw]
  · simp only [h1, h2]
    by_cases hw : c.w < 1
    · simp only [if_pos hw]
    · simp only [if_neg hw]

/-- C15: `mongo_choose_write_concern`, entered with no concern selected, works
on the explicit concern when one is supplied and on the connection default
otherwise.  If that concern has w < 1 the outcome is "no concern", result
`MONGO_OK`, connection untouched; if it has w >= 1 and a compiled command the
outcome is that concern with `MONGO_OK`; with neither an explicit concern nor a
default the outcome is "no concern" with `MONGO_OK`.  In particular an explicit
concern with w = 0 gives "no concern" on a connection whose default is `WC1`
(w = 1). -/
theorem mongo_choose_write_concern_selects (conn : mongo)
    (custom : Option mongo_write_concern) :
    (∀ c, custom = some c → c.w < 1 →
      mongo_choose_write_concern conn custom none = (MONGO_OK, none, conn)) ∧
    (∀ c, custom = some c → 1 ≤ c.w → c.cmd ≠ none →
      mongo_choose_write_concern conn custom none = (MONGO_OK, some c, conn)) ∧
    (∀ d, custom = none → conn.write_concern = some d → d.w < 1 →
      mongo_choose_write_concern conn custom none = (MONGO_OK, none, conn)) ∧
    (∀ d, custom = none → conn.write_concern = some d → 1 ≤ d.w → d.cmd ≠ none →
      mongo_choose_write_concern conn custom none = (MONGO_OK, some d, conn)) ∧
    (custom = none → conn.write_concern = none →
      mongo_choose_write_concern conn custom none = (MONGO_OK, none, conn)) ∧
    (∀ c, c.w = 0 →
      WC1.w = 1 ∧
      mongo_choose_write_concern (mongo_set_write_concern conn (some WC1)) (some c) none
        = (MONGO_OK, none, mongo_set_write_concern conn (some WC1))) := by
  refine ⟨?_, ?_, ?_, ?_, ?_, ?_⟩
  · intro c hc hw
    rw [mongo_choose_write_concern_of_selected conn custom c (Or.inl hc), if_pos hw]
  · intro c hc hw hcmd
    rw [mongo_choose_write_concern_of_selected conn custom c (Or.inl hc),
      if_neg (by omega), if_neg hcmd]
  · intro d hc hd hw
    rw [mongo_choose_write_concern_of_selected conn custom d (Or.inr ⟨hc, hd⟩), if_pos hw]
  · intro d hc hd hw hcmd
    rw [mongo_choose_write_concern_of_selected conn custom d (Or.inr ⟨hc, hd⟩),
      if_neg (by omega), if_neg hcmd]
  · intro hc hd
    unfold mongo_choose_write_concern
    simp only [hc, hd]
  · intro c hw
    refine ⟨rfl, ?_⟩
    rw [mongo_choose_write_concern_of_selected _ (some c) c (Or.inl rfl),
      if_pos (by omega)]

/-- Witness of C15: on an initialised connection (default `WC1`) the explicit
concern fresh from `mongo_write_concern_init` (w = 0) gives "no concern". -/
theorem mongo_choose_write_concern_selects_witness :
    mongo_write_concern_init.w < 1 ∧
    mongo_choose_write_concern (mongo_init conn0) (some mongo_write_concern_init) none
      = (MONGO_OK, none, mongo_init conn0) :=
  ⟨by decide,
    (mongo_choose_write_concern_selects (mongo_init conn0) (some mongo_write_concern_init)).1
      mongo_write_concern_init rfl (by decide)⟩

/-- C16 (counterexample): the explicit concern fresh from
`mongo_write_concern_init` has w = 0 and no compiled command, and
`mongo_choose_write_concern` returns `MONGO_OK` for it, leaving the connection
(and its error) as it was. -/
theorem mongo_choose_write_concern_unfinished_counterexample :
    mongo_write_concern_init.cmd = none ∧
    mongo_choose_write_concern conn0 (some mongo_write_concern_init) none
      = (MONGO_OK, none, conn0) ∧
    MONGO_OK ≠ MONGO_ERROR ∧ conn0.err ≠ MONGO_WRITE_CONCERN_INVALID := by
  refine ⟨rfl, ?_, by decide, by decide⟩
  rw [mongo_choose_write_concern_of_selected conn0 (some mongo_write_concern_init)
    mongo_write_concern_init (Or.inl rfl), if_pos (by decide)]

/-- C16 (amended): for every chosen write concern (the explicit one if
supplied, else the connection default) with w >= 1 whose command has not been
compiled (`cmd` is null), `mongo_choose_write_concern` returns `MONGO_ERROR`
and sets the connection error to `MONGO_WRITE_CONCERN_INVALID`. -/
theorem mongo_choose_write_concern_unfinished (conn : mongo)
    (custom : Option mongo_write_concern) (c : mongo_write_concern)
    (hsel : custom = some c ∨ (custom = none ∧ conn.write_concern = some c))
    (hw : 1 ≤ c.w) (hcmd : c.cmd = none) :
    (mongo_choose_write_concern conn custom none).1 = MONGO_ERROR ∧
    (mongo_choose_write_concern conn custom none).2.2.err = MONGO_WRITE_CONCERN_INVALID := by
  rw [mongo_choose_write_concern_of_selected conn custom c hsel, if_neg (by omega), if_pos hcmd]
  exact ⟨rfl, __mongo_set_error_err _ _ _ _⟩

/-- Witness of the amended C16: the explicit concern with w = 1 set and
`mongo_write_concern_finish` not called. -/
theorem mongo_choose_write_concern_unfinished_witness :
    (mongo_choose_write_concern conn0
      (some (mongo_write_concern_set_w mongo_write_concern_init 1)) none).1 = MONGO_ERROR ∧
    (mongo_choose_write_concern conn0
      (some (mongo_write_concern_set_w mongo_write_concern_init 1)) none).2.2.err
        = MONGO_WRITE_CONCERN_INVALID :=
  mongo_choose_write_concern_unfinished conn0
    (some (mongo_write_concern_set_w mongo_write_concern_init 1))
    (mongo_write_concern_set_w mongo_write_concern_init 1) (Or.inl rfl) (by decide) rfl

theorem bson_init_builder (b : bson) : bson_init b = bson_builder [] := rfl

theorem bson_append_int_builder (xs : List Nat) (name : List Char) (v : Int) :
    bson_append_int (bson_builder xs) name v = bson_builder (xs ++ bson_int_element name v) := by
  unfold bson_append_int bson_builder bson_int_element
  simp only [List.append_assoc]

theorem bson_append_string_builder (xs : List Nat) (name value : List Char) :
    bson_append_string (bson_builder xs) name value
      = bson_builder (xs ++ bson_string_element name value) := by
  unfold bson_append_string bson_builder bson_string_element
  simp only [List.append_assoc]

theorem bson_append_int_builder_if (p : Prop) [Decidable p] (xs : List Nat) (name : List Char)
    (v : Int) :
    (if p then bson_append_int (bson_builder xs) name v else bson_builder xs)
      = bson_builder (xs ++ (if p then [bson_int_element name v] else []).flatten) := by
  by_cases h : p
  · rw [if_pos h, if_pos h, bson_append_int_builder]
    simp only [List.flatten_cons, List.flatten_nil, List.append_nil]
  · rw [if_neg h, if_neg h]
    simp only [List.flatten_nil, List.append_nil]

theorem bson_finish_builder (xs : List (List Nat)) :
    bson_finish (bson_builder xs.flatten)
      = { data := bson_document xs, finished := true, err := 0 } := by
  unfold bson_finish bson_builder bson_document
  simp only [List.length_append, List.length_cons, List.length_nil, List.drop_append_of_le_length,
    bson.mk.injEq, and_true]
  have h : (0 + 1 + 1 + 1 + 1 + xs.flatten.length + 1 : Nat) = 4 + xs.flatten.length + 1 := by
    omega
  rw [h]
  rfl

theorem mongo_write_concern_finish_eq (wc : mongo_write_concern) :
    mongo_write_concern_finish wc =
      (MONGO_OK,
        { wc with cmd := some { data := bson_document (write_concern_fields wc)
                                finished := true, err := 0 } }) := by
  have hnil : bson_builder [] = bson_builder ([] ++ []) := rfl
  cases hm : wc.mode with
  | some mode =>
    by_cases h2 : wc.wtimeout ≠ 0 <;> by_cases h3 : wc.j ≠ 0 <;> by_cases h4 : wc.fsync ≠ 0 <;>
    · rw [← bson_finish_builder]
      simp only [mongo_write_concern_finish, write_concern_fields, hm, if_pos h2, if_neg h2,
        if_pos h3, if_neg h3, if_pos h4, if_neg h4, bson_init_builder]
      rw [hnil]
      simp only [bson_append_int_builder, bson_append_string_builder, List.flatten_cons,
        List.flatten_nil, List.append_nil, List.nil_append, List.append_assoc, List.flatten_append]
  | none =>
    by_cases h1 : wc.w > 1
    · have h0 : wc.w ≠ 0 ∧ wc.w > 1 := ⟨by omega, h1⟩
      by_cases h2 : wc.wtimeout ≠ 0 <;> by_cases h3 : wc.j ≠ 0 <;> by_cases h4 : wc.fsync ≠ 0 <;>
      · rw [← bson_finish_builder]
        simp only [mongo_write_concern_finish, write_concern_fields, hm, if_pos h2, if_neg h2,
          if_pos h3, if_neg h3, if_pos h4, if_neg h4, if_pos h1, if_pos h0, bson_init_builder]
        rw [hnil]
        simp only [bson_append_int_builder, bson_append_string_builder, List.flatten_cons,
          List.flatten_nil, List.append_nil, List.nil_append, List.append_assoc,
          List.flatten_append]
    · have h0 : ¬ (wc.w ≠ 0 ∧ wc.w > 1) := fun h => h1 h.2
      by_cases h2 : wc.wtimeout ≠ 0 <;> by_cases h3 : wc.j ≠ 0 <;> by_cases h4 : wc.fsync ≠ 0 <;>
      · rw [← bson_finish_builder]
        simp only [mongo_write_concern_finish, write_concern_fields, hm, if_pos h2, if_neg h2,
          if_pos h3, if_neg h3, if_pos h4, if_neg h4, if_neg h1, if_neg h0, bson_init_builder]
        rw [hnil]
        simp only [bson_append_int_builder, bson_append_string_builder, List.flatten_cons,
          List.flatten_nil, List.append_nil, List.nil_append, List.append_assoc,
          List.flatten_append]

set_option maxRecDepth 100000 in
/-- C17 (counterexample): a write concern with no mode and the numeric w set to
1 (non-zero) compiles to the 23-byte document `{getlasterror: 1}`, the bytes
of the static `WC1_data`, in which no `w` field is found. -/
theorem mongo_write_concern_finish_w_counterexample :
    (mongo_write_concern_set_w mongo_write_concern_init 1).mode = none ∧
    (mongo_write_concern_set_w mongo_write_concern_init 1).w ≠ 0 ∧
    (mongo_write_concern_finish (mongo_write_concern_set_w mongo_write_concern_init 1)).2.cmd
      = some { data := WC1_data.take 23, finished := true, err := 0 } ∧
    WC1_data.take 23 = bson_document [bson_int_element "getlasterror".toList 1] ∧
    bson_find (WC1_data.take 23) "w".toList = none ∧
    bson_find (WC1_data.take 23) "getlasterror".toList = some 4 := by
  decide

/-- C17 (amended): `mongo_write_concern_finish` returns `MONGO_OK` and leaves as
compiled command the finished document whose fields are, in this order:
`getlasterror` = 1; then `w`, equal to the mode string when a mode is set and
otherwise equal to the integer w, present exactly when a mode is set or the
numeric w is greater than 1; then `wtimeout`, `j` and `fsync`, each present
with its value exactly when that value is non-zero. -/
theorem mongo_write_concern_finish_fields (wc : mongo_write_concern) :
    (mongo_write_concern_finish wc).1 = MONGO_OK ∧
    (mongo_write_concern_finish wc).2.cmd =
      some { data := bson_document (write_concern_fields wc), finished := true, err := 0 } ∧
    write_concern_fields wc =
      [bson_int_element "getlasterror".toList 1]
        ++ (match wc.mode with
            | some mode => [bson_string_element "w".toList mode]
            | none => if wc.w > 1 then [bson_int_element "w".toList wc.w] else [])
        ++ (if wc.wtimeout ≠ 0 then [bson_int_element "wtimeout".toList wc.wtimeout] else [])
        ++ (if wc.j ≠ 0 then [bson_int_element "j".toList wc.j] else [])
        ++ (if wc.fsync ≠ 0 then [bson_int_element "fsync".toList wc.fsync] else []) := by
  rw [mongo_write_concern_finish_eq]
  exact ⟨rfl, rfl, rfl⟩

theorem mongo_env_write_socket_reads (conn : mongo) (bytes : List Nat) :
    (mongo_env_write_socket conn bytes).2.sock.reads = conn.sock.reads := by
  unfold mongo_env_write_socket
  dsimp only
  split <;> rfl

theorem mongo_message_send_reads (conn : mongo) (mm : mongo_message) :
    (mongo_message_send conn mm).2.sock.reads = conn.sock.reads := by
  unfold mongo_message_send
  dsimp only
  split
  · exact mongo_env_write_socket_reads _ _
  · split <;>
      (dsimp only
       rw [mongo_env_write_socket_reads, mongo_env_write_socket_reads])

theorem mongo_message_send_writes_only (conn : mongo) (mm : mongo_message) :
    ∃ evs, (mongo_message_send conn mm).2.sock.trace = conn.sock.trace ++ evs ∧
      ∀ e ∈ evs, ∃ bytes ok, e = sock_event.wrote bytes ok := by
  refine ⟨_, mongo_message_send_trace conn mm, ?_⟩
  intro e he
  rw [List.mem_cons] at he
  rcases he with rfl | he
  · exact ⟨_, _, rfl⟩
  · split at he
    · rw [List.mem_singleton] at he
      exact ⟨_, _, he⟩
    · cases he

theorem mongo_validate_ns_ok_conn (conn : mongo) (ns : List Char)
    (h : (mongo_validate_ns conn ns).1 = MONGO_OK) : (mongo_validate_ns conn ns).2 = conn := by
  unfold mongo_validate_ns at h ⊢
  dsimp only at h ⊢
  repeat' split at h
  all_goals first
    | exact absurd h MONGO_ERROR_ne_OK
    | skip
  all_goals simp only [*, if_false, if_true]

theorem mongo_bson_valid_ok_conn (conn : mongo) (b : bson) (write : Bool)
    (h : (mongo_bson_valid conn b write).1 = MONGO_OK) :
    (mongo_bson_valid conn b write).2 = { conn with err := MONGO_CONN_SUCCESS } := by
  unfold mongo_bson_valid at h ⊢
  repeat' split at h
  all_goals first
    | exact absurd h MONGO_ERROR_ne_OK
    | skip
  all_goals simp only [*, if_false, if_true, not_true_eq_false, not_false_eq_true]

theorem insert_body_length (ns : List Char) (b : bson) :
    (insert_body ns b).length =
      4 + (ns.length + 1) + (bson_size b.data % 18446744073709551616).toNat := by
  unfold insert_body cstring_bytes
  simp only [List.length_append, le32_bytes_length, List.length_map, List.length_singleton,
    fit_length]

theorem mongo_choose_write_concern_none (conn : mongo) (custom : Option mongo_write_concern)
    (hsel : (∃ c, custom = some c ∧ c.w < 1) ∨
      (custom = none ∧ conn.write_concern = none) ∨
      (custom = none ∧ ∃ d, conn.write_concern = some d ∧ d.w < 1)) :
    mongo_choose_write_concern conn custom none = (MONGO_OK, none, conn) := by
  rcases hsel with ⟨c, hc, hw⟩ | ⟨hc, hd⟩ | ⟨hc, d, hd, hw⟩
  · rw [mongo_choose_write_concern_of_selected conn custom c (Or.inl hc), if_pos hw]
  · unfold mongo_choose_write_concern
    simp only [hc, hd]
  · rw [mongo_choose_write_concern_of_selected conn custom d (Or.inr ⟨hc, hd⟩), if_pos hw]

theorem mongo_insert_unacknowledged (conn : mongo) (ns : List Char) (b : bson)
    (custom : Option mongo_write_concern)
    (hns : (mongo_validate_ns conn ns).1 = MONGO_OK)
    (hb : (mongo_bson_valid conn b true).1 = MONGO_OK)
    (hsel : (∃ c, custom = some c ∧ c.w < 1) ∨
      (custom = none ∧ conn.write_concern = none) ∨
      (custom = none ∧ ∃ d, conn.write_concern = some d ∧ d.w < 1))
    (hsize : 0 ≤ bson_size b.data)
    (hlen : 16 + 4 + (ns.length : Int) + 1 + bson_size b.data < 2147483647) :
    mongo_insert conn ns b custom =
      mongo_message_send { conn with err := MONGO_CONN_SUCCESS, rand := conn.rand.tail }
        ⟨⟨16 + 4 + (ns.length : Int) + 1 + bson_size b.data, conn.rand.headD 0, 0,
            MONGO_OP_INSERT⟩,
          insert_body ns b⟩ := by
  obtain ⟨n, hn⟩ : ∃ n : Nat, (n : Int) = 16 + 4 + (ns.length : Int) + 1 + bson_size b.data :=
    ⟨(16 + 4 + (ns.length : Int) + 1 + bson_size b.data).toNat, by omega⟩
  have hwl : (insert_body ns b).length = n - 16 := by
    rw [insert_body_length]
    omega
  have hmod : ((n : Int) % 18446744073709551616).toNat = n := by omega
  unfold mongo_insert
  simp only [← hn]
  rw [mongo_validate_ns_ok_conn conn ns hns]
  simp only [hns, ne_eq, not_true_eq_false, if_false]
  rw [mongo_bson_valid_ok_conn conn b true hb]
  simp only [hb, ne_eq, not_true_eq_false, if_false]
  rw [mongo_choose_write_concern_none { conn with err := MONGO_CONN_SUCCESS } custom hsel]
  simp only [if_neg MONGO_ERROR_ne_OK.symm, hmod]
  rw [mongo_message_create_some _ n 0 0 MONGO_OP_INSERT (by omega)]
  simp only [if_true, message_fill, hwl, mongo_message_send_and_check_write_concern]
  rw [List.drop_of_length_le (by rw [List.length_replicate]), List.append_nil]

/-- C19: with no write concern chosen, `mongo_message_send_and_check_write_concern`
is the message send and nothing else: its result and connection are those of
`mongo_message_send`, the transport sees only the writes of that send and no
read, and the scripted reads are untouched.  `mongo_insert` on a valid
namespace and document, when no concern is chosen (an explicit concern with
w < 1, or no explicit concern and either no default or a default with w < 1),
is the send of the insert message (length, request id from `rand()`,
response-to 0, opcode 2002; body int32 0, the namespace, the document), so its
result is the result of that send.  With a concern chosen and a send that
returns `MONGO_ERROR`, the function returns `MONGO_ERROR` with the connection
as the send left it, so that no getlasterror query is issued. -/
theorem write_without_acknowledgement (conn : mongo) (ns : List Char) (mm : mongo_message)
    (b : bson) (custom : Option mongo_write_concern) (wc : mongo_write_concern) :
    mongo_message_send_and_check_write_concern conn ns mm none = mongo_message_send conn mm ∧
    (mongo_message_send_and_check_write_concern conn ns mm none).2.sock.reads
      = conn.sock.reads ∧
    (∃ evs, (mongo_message_send_and_check_write_concern conn ns mm none).2.sock.trace
        = conn.sock.trace ++ evs ∧
      ∀ e ∈ evs, ∃ bytes ok, e = sock_event.wrote bytes ok) ∧
    ((mongo_validate_ns conn ns).1 = MONGO_OK →
      (mongo_bson_valid conn b true).1 = MONGO_OK →
      ((∃ c, custom = some c ∧ c.w < 1) ∨
        (custom = none ∧ conn.write_concern = none) ∨
        (custom = none ∧ ∃ d, conn.write_concern = some d ∧ d.w < 1)) →
      0 ≤ bson_size b.data →
      16 + 4 + (ns.length : Int) + 1 + bson_size b.data < 2147483647 →
      mongo_insert conn ns b custom =
        mongo_message_send { conn with err := MONGO_CONN_SUCCESS, rand := conn.rand.tail }
          ⟨⟨16 + 4 + (ns.length : Int) + 1 + bson_size b.data, conn.rand.headD 0, 0,
              MONGO_OP_INSERT⟩,
            insert_body ns b⟩ ∧
      (mongo_insert conn ns b custom).2.sock.reads = conn.sock.reads ∧
      ∃ evs, (mongo_insert conn ns b custom).2.sock.trace = conn.sock.trace ++ evs ∧
        ∀ e ∈ evs, ∃ bytes ok, e = sock_event.wrote bytes ok) ∧
    ((mongo_message_send conn mm).1 = MONGO_ERROR →
      mongo_message_send_and_check_write_concern conn ns mm (some wc)
        = (MONGO_ERROR, (mongo_message_send conn mm).2) ∧
      (mongo_message_send_and_check_write_concern conn ns mm (some wc)).2.sock.reads
        = conn.sock.reads ∧
      ∃ evs, (mongo_message_send_and_check_write_concern conn ns mm (some wc)).2.sock.trace
          = conn.sock.trace ++ evs ∧
        ∀ e ∈ evs, ∃ bytes ok, e = sock_event.wrote bytes ok) := by
  have hnone : mongo_message_send_and_check_write_concern conn ns mm none
      = mongo_message_send conn mm := rfl
  refine ⟨hnone, ?_, ?_, ?_, ?_⟩
  · rw [hnone]
    exact mongo_message_send_reads conn mm
  · rw [hnone]
    exact mongo_message_send_writes_only conn mm
  · intro hns hb hsel hsize hlen
    have e := mongo_insert_unacknowledged conn ns b custom hns hb hsel hsize hlen
    refine ⟨e, ?_, ?_⟩
    · rw [e, mongo_message_send_reads]
    · rw [e]
      exact mongo_message_send_writes_only _ _
  · intro hfail
    have e : mongo_message_send_and_check_write_concern conn ns mm (some wc)
        = (MONGO_ERROR, (mongo_message_send conn mm).2) := by
      unfold mongo_message_send_and_check_write_concern
      simp only [hfail, if_true]
    refine ⟨e, ?_, ?_⟩
    · rw [e]
      exact mongo_message_send_reads conn mm
    · rw [e]
      exact mongo_message_send_writes_only conn mm

set_option maxRecDepth 100000 in
/-- Witness of C19: `mongo_insert` of `{a: 1}` into `db.c` with the explicit
concern fresh from `mongo_write_concern_init` (w = 0), on an initialised
connection whose writes succeed. -/
theorem write_without_acknowledgement_witness :
    mongo_insert (mongo_init (mongo_zeroed ⟨[], [true, true], []⟩)) "db.c".toList
        ⟨doc_a1, true, 0⟩ (some mongo_write_concern_init) =
      mongo_message_send
        { mongo_init (mongo_zeroed ⟨[], [true, true], []⟩) with
          err := MONGO_CONN_SUCCESS
          rand := (mongo_init (mongo_zeroed ⟨[], [true, true], []⟩)).rand.tail }
        ⟨⟨16 + 4 + (("db.c".toList.length : Nat) : Int) + 1 + bson_size doc_a1,
            (mongo_init (mongo_zeroed ⟨[], [true, true], []⟩)).rand.headD 0, 0,
            MONGO_OP_INSERT⟩,
          insert_body "db.c".toList ⟨doc_a1, true, 0⟩⟩ ∧
    (mongo_insert (mongo_init (mongo_zeroed ⟨[], [true, true], []⟩)) "db.c".toList
        ⟨doc_a1, true, 0⟩ (some mongo_write_concern_init)).1 = MONGO_OK :=
  ⟨((write_without_acknowledgement (mongo_init (mongo_zeroed ⟨[], [true, true], []⟩))
      "db.c".toList ⟨⟨0, 0, 0, 0⟩, []⟩ ⟨doc_a1, true, 0⟩ (some mongo_write_concern_init)
      mongo_write_concern_init).2.2.2.1
      (by decide) (by decide) (Or.inl ⟨mongo_write_concern_init, rfl, by decide⟩)
      (by decide) (by decide)).1,
    by decide⟩

theorem mongo_cursor_bson_valid_cases (c : mongo_cursor) (b : bson) :
    mongo_cursor_bson_valid c b = (MONGO_OK, c) ∨
    ((mongo_cursor_bson_valid c b).1 = MONGO_ERROR ∧
      (mongo_cursor_bson_valid c b).2.conn.err ≠ MONGO_WRITE_ERROR) := by
  unfold mongo_cursor_bson_valid
  split
  · exact Or.inr ⟨rfl, (by decide : MONGO_BSON_NOT_FINISHED ≠ MONGO_WRITE_ERROR)⟩
  · split
    · exact Or.inr ⟨rfl, (by decide : MONGO_BSON_INVALID ≠ MONGO_WRITE_ERROR)⟩
    · exact Or.inl rfl

theorem mongo_check_last_error_eq (conn : mongo) (ns : List Char) (wc : mongo_write_concern) :
    mongo_check_last_error conn ns wc =
      if (getlasterror_round_trip conn ns wc).1 ≠ MONGO_OK then
        (MONGO_ERROR, (getlasterror_round_trip conn ns wc).2.2)
      else
        match (if bson_find_type (getlasterror_response conn ns wc) "$err".toList = 2 then
            bson_find (getlasterror_response conn ns wc) "$err".toList
          else if bson_find_type (getlasterror_response conn ns wc) "err".toList = 2 then
            bson_find (getlasterror_response conn ns wc) "err".toList
          else none) with
        | some cur =>
          (MONGO_ERROR,
            mongo_set_last_error
              (__mongo_set_error (getlasterror_round_trip conn ns wc).2.2 MONGO_WRITE_ERROR
                (some "See conn->lasterrstr for details.".toList) 0)
              cur (getlasterror_response conn ns wc))
        | none => (MONGO_OK, (getlasterror_round_trip conn ns wc).2.2) := rfl

/-- Witness of the amended C17: the concern with w = 2 and wtimeout = 100
compiles to `{getlasterror: 1, w: 2, wtimeout: 100}`. -/
theorem mongo_write_concern_finish_fields_witness :
    (mongo_write_concern_finish
      (mongo_write_concern_set_wtimeout
        (mongo_write_concern_set_w mongo_write_concern_init 2) 100)).2.cmd =
      some { data := bson_document
               (write_concern_fields
                 (mongo_write_concern_set_wtimeout
                   (mongo_write_concern_set_w mongo_write_concern_init 2) 100))
             finished := true, err := 0 } ∧
    write_concern_fields
        (mongo_write_concern_set_wtimeout
          (mongo_write_concern_set_w mongo_write_concern_init 2) 100) =
      [bson_int_element "getlasterror".toList 1, bson_int_element "w".toList 2,
       bson_int_element "wtimeout".toList 100] :=
  ⟨(mongo_write_concern_finish_fields
      (mongo_write_concern_set_wtimeout
        (mongo_write_concern_set_w mongo_write_concern_init 2) 100)).2.1,
    by decide⟩

theorem session_errors_mem :
    MONGO_CONN_SUCCESS ∈ session_errors ∧ MONGO_IO_ERROR ∈ session_errors ∧
    MONGO_COMMAND_FAILED ∈ session_errors ∧ MONGO_BSON_INVALID ∈ session_errors ∧
    MONGO_BSON_NOT_FINISHED ∈ session_errors ∧ MONGO_BSON_TOO_LARGE ∈ session_errors := by
  decide

theorem session_frame_refl (a : mongo) : session_frame a a :=
  ⟨⟨[], (List.append_nil _).symm, fun _ h => (by cases h)⟩, rfl, rfl, rfl, rfl, rfl, rfl,
    Or.inl rfl⟩

theorem session_frame_trans {a b c : mongo} (h1 : session_frame a b) (h2 : session_frame b c) :
    session_frame a c := by
  obtain ⟨⟨e1, t1, i1⟩, m1, w1, p1, r1, c1, n1, x1⟩ := h1
  obtain ⟨⟨e2, t2, i2⟩, m2, w2, p2, r2, c2, n2, x2⟩ := h2
  refine ⟨⟨e1 ++ e2, by rw [t2, t1, List.append_assoc], ?_⟩, m2.trans m1, w2.trans w1,
    p2.trans p1, r2.trans r1, c2.trans c1, n2.trans n1, ?_⟩
  · intro e he
    rcases List.mem_append.mp he with h | h
    · exact i1 e h
    · exact i2 e h
  · rcases x2 with x2 | x2
    · rw [x2]
      exact x1
    · exact Or.inr x2

theorem session_frame_fields (a b : mongo) (ht : b.sock.trace = a.sock.trace)
    (h1 : b.max_bson_size = a.max_bson_size) (h2 : b.write_concern = a.write_concern)
    (h3 : b.primary = a.primary) (h4 : b.replica_set = a.replica_set)
    (h5 : b.connected = a.connected) (h6 : b.net = a.net)
    (he : b.err = a.err ∨ b.err ∈ session_errors) : session_frame a b :=
  ⟨⟨[], by rw [ht, List.append_nil], fun _ h => (by cases h)⟩, h1, h2, h3, h4, h5, h6, he⟩

theorem mongo_env_write_socket_session (conn : mongo) (bytes : List Nat) :
    session_frame conn (mongo_env_write_socket conn bytes).2 := by
  unfold mongo_env_write_socket
  dsimp only
  split
  · refine ⟨⟨[_], rfl, ?_⟩, rfl, rfl, rfl, rfl, rfl, rfl, Or.inl rfl⟩
    intro e he
    rw [List.mem_singleton] at he
    rw [he]
    rfl
  · refine ⟨⟨[_], rfl, ?_⟩, rfl, rfl, rfl, rfl, rfl, rfl, Or.inr session_errors_mem.2.1⟩
    intro e he
    rw [List.mem_singleton] at he
    rw [he]
    rfl

theorem mongo_env_read_socket_session (conn : mongo) (len : Nat) :
    session_frame conn (mongo_env_read_socket conn len).2.2 := by
  unfold mongo_env_read_socket
  dsimp only
  split
  · refine ⟨⟨[_], rfl, ?_⟩, rfl, rfl, rfl, rfl, rfl, rfl, Or.inl rfl⟩
    intro e he
    rw [List.mem_singleton] at he
    rw [he]
    rfl
  · refine ⟨⟨[_], rfl, ?_⟩, rfl, rfl, rfl, rfl, rfl, rfl, Or.inr session_errors_mem.2.1⟩
    intro e he
    rw [List.mem_singleton] at he
    rw [he]
    rfl

theorem mongo_message_send_session (conn : mongo) (mm : mongo_message) :
    session_frame conn (mongo_message_send conn mm).2 := by
  unfold mongo_message_send
  dsimp only
  split
  · exact mongo_env_write_socket_session _ _
  · split <;>
      exact session_frame_trans (mongo_env_write_socket_session _ _)
        (mongo_env_write_socket_session _ _)

theorem mongo_read_response_session (conn : mongo) :
    session_frame conn (mongo_read_response conn).2.2 := by
  unfold mongo_read_response
  dsimp only
  split
  · exact session_frame_trans (mongo_env_read_socket_session _ _)
      (mongo_env_read_socket_session _ _)
  · split <;>
      exact session_frame_trans
        (session_frame_trans (mongo_env_read_socket_session _ _)
          (mongo_env_read_socket_session _ _))
        (mongo_env_read_socket_session _ _)

theorem mongo_cursor_message_create_session (c : mongo_cursor) (len : Nat) (id rt op : Int) :
    session_frame c.conn (mongo_cursor_message_create c len id rt op).2.conn := by
  unfold mongo_cursor_message_create
  split
  · exact session_frame_refl _
  · dsimp only
    split
    · exact session_frame_fields _ _ rfl rfl rfl rfl rfl rfl rfl (Or.inl rfl)
    · exact session_frame_refl _

theorem mongo_cursor_get_more_session (c : mongo_cursor) :
    session_frame c.conn (mongo_cursor_get_more c).2.conn := by
  have hc := mongo_cursor_message_create_session c (16 + 4 + (c.ns.length + 1) + 4 + 8) 0 0
    MONGO_OP_GET_MORE
  unfold mongo_cursor_get_more
  by_cases hlim : c.limit > 0 ∧ c.seen ≥ c.limit
  · rw [if_pos hlim]
    exact session_frame_refl _
  · rw [if_neg hlim]
    cases hR : c.reply with
    | none => exact session_frame_refl _
    | some R =>
      by_cases hid : R.fields.cursorID = 0
      · simp only [hid, if_true]
        exact session_frame_refl _
      · simp only [if_neg hid]
        generalize (if c.limit > 0 then int32_wrap (c.limit - c.seen) else 0) = lim
        generalize mongo_cursor_message_create c (16 + 4 + (c.ns.length + 1) + 4 + 8) 0 0
          MONGO_OP_GET_MORE = rm at hc
        obtain ⟨m, cc⟩ := rm
        cases m with
        | none => exact hc
        | some mm =>
          simp only
          have hs := session_frame_trans hc (mongo_message_send_session cc.conn
            (message_fill mm (get_more_body cc lim R.fields.cursorID)))
          have hr := session_frame_trans hs (mongo_read_response_session _)
          split
          · exact hs
          · split
            · exact hr
            · split <;> exact hr

theorem mongo_cursor_next_advance_session (c : mongo_cursor) (R : mongo_reply) :
    session_frame c.conn (mongo_cursor_next_advance c R).2.conn := by
  have hg := mongo_cursor_get_more_session c
  unfold mongo_cursor_next_advance
  dsimp only
  repeat' split
  all_goals first
    | exact session_frame_refl _
    | exact hg

theorem mongo_cursor_destroy_live_session (c : mongo_cursor) :
    session_frame c.conn (mongo_cursor_destroy_live c).2.conn := by
  have hc := mongo_cursor_message_create_session c (16 + 4 + 4 + 8) 0 0 MONGO_OP_KILL_CURSORS
  have hs := fun mm => session_frame_trans hc
    (mongo_message_send_session
      (mongo_cursor_message_create c (16 + 4 + 4 + 8) 0 0 MONGO_OP_KILL_CURSORS).2.conn mm)
  unfold mongo_cursor_destroy_live mongo_cursor_release
  dsimp only
  repeat' split
  all_goals first
    | exact session_frame_refl _
    | exact hc
    | exact hs _

theorem mongo_set_last_error_session (conn : mongo) (it : Int) (obj : List Nat) :
    session_frame conn (mongo_set_last_error conn it obj) := by
  unfold mongo_set_last_error
  dsimp only
  split <;> exact session_frame_fields _ _ rfl rfl rfl rfl rfl rfl rfl (Or.inl rfl)

theorem mongo_clear_errors_session (conn : mongo) :
    session_frame conn (mongo_clear_errors conn) :=
  session_frame_fields _ _ rfl rfl rfl rfl rfl rfl rfl (Or.inr session_errors_mem.1)

theorem op_query_exchange_session (c : mongo_cursor) :
    session_frame c.conn (mongo_cursor_op_query_exchange c).2.conn := by
  unfold mongo_cursor_op_query_exchange
  dsimp only
  generalize ((16 + 4 + (c.ns.length : Int) + 1 + 4 + 4 + bson_size (c.query.getD bson_empty).data
    + bson_size (c.fields.getD bson_empty).data) % 18446744073709551616).toNat = n
  have hc := mongo_cursor_message_create_session c n 0 0 MONGO_OP_QUERY
  generalize mongo_cursor_message_create c n 0 0 MONGO_OP_QUERY = rm at hc
  obtain ⟨m, cc⟩ := rm
  cases m with
  | none => exact hc
  | some mm =>
    simp only
    have hs := session_frame_trans hc (mongo_message_send_session cc.conn
      (message_fill mm (query_body cc (c.query.getD bson_empty) (c.fields.getD bson_empty))))
    have hr := session_frame_trans hs (mongo_read_response_session _)
    split
    · exact hc
    · split
      · exact hs
      · split
        · exact hr
        · split
          · exact hr
          · split
            · exact session_frame_trans hr (mongo_set_last_error_session _ _ _)
            · exact hr

theorem mongo_cursor_bson_valid_session (c : mongo_cursor) (b : bson) :
    session_frame c.conn (mongo_cursor_bson_valid c b).2.conn := by
  unfold mongo_cursor_bson_valid
  split
  · exact session_frame_fields _ _ rfl rfl rfl rfl rfl rfl rfl
      (Or.inr session_errors_mem.2.2.2.2.1)
  · split
    · exact session_frame_fields _ _ rfl rfl rfl rfl rfl rfl rfl
        (Or.inr session_errors_mem.2.2.2.1)
    · exact session_frame_refl _

theorem mongo_cursor_op_query_session (c : mongo_cursor) :
    session_frame c.conn (mongo_cursor_op_query c).2.conn := by
  have hbase := mongo_clear_errors_session c.conn
  have hex : ∀ x : mongo_cursor, x.conn = mongo_clear_errors c.conn →
      session_frame c.conn (mongo_cursor_op_query_exchange x).2.conn := by
    intro x hx
    have h := op_query_exchange_session x
    rw [hx] at h
    exact session_frame_trans hbase h
  have hval : ∀ (x : mongo_cursor) (b : bson), x.conn = mongo_clear_errors c.conn →
      session_frame c.conn (mongo_cursor_bson_valid x b).2.conn := by
    intro x b hx
    have h := mongo_cursor_bson_valid_session x b
    rw [hx] at h
    exact session_frame_trans hbase h
  unfold mongo_cursor_op_query
  dsimp only
  cases hq : c.query with
  | none =>
    simp only [ne_eq, not_true_eq_false, if_false]
    cases hf : c.fields with
    | none =>
      simp only [ne_eq, not_true_eq_false, if_false]
      exact hex _ rfl
    | some fd =>
      simp only
      rcases mongo_cursor_bson_valid_cases
        { c with conn := mongo_clear_errors c.conn, query := some bson_empty, fields := some fd }
        fd with h | ⟨h1, _⟩
      · rw [h]
        simp only [ne_eq, not_true_eq_false, if_false]
        exact hex _ rfl
      · rw [if_pos (by rw [h1]; exact MONGO_ERROR_ne_OK)]
        exact hval _ _ rfl
  | some qd =>
    simp only
    rcases mongo_cursor_bson_valid_cases
      { c with conn := mongo_clear_errors c.conn, query := some qd } qd with h | ⟨h1, _⟩
    · rw [h]
      simp only [ne_eq, not_true_eq_false, if_false]
      cases hf : c.fields with
      | none =>
        simp only [ne_eq, not_true_eq_false, if_false]
        exact hex _ rfl
      | some fd =>
        simp only
        rcases mongo_cursor_bson_valid_cases
          { c with conn := mongo_clear_errors c.conn, query := some qd, fields := some fd } fd
          with h | ⟨h1, _⟩
        · rw [h]
          simp only [ne_eq, not_true_eq_false, if_false]
          exact hex _ rfl
        · rw [if_pos (by rw [h1]; exact MONGO_ERROR_ne_OK)]
          exact hval _ _ rfl
    · rw [if_pos (by rw [h1]; exact MONGO_ERROR_ne_OK)]
      exact hval _ _ rfl

theorem mongo_cursor_next_session (c : mongo_cursor) :
    session_frame c.conn (mongo_cursor_next c).2.conn := by
  have hq : session_frame c.conn
      (if c.flags &&& MONGO_CURSOR_QUERY_SENT = 0 then mongo_cursor_op_query c
        else (MONGO_OK, c)).2.conn := by
    split
    · exact mongo_cursor_op_query_session c
    · exact session_frame_refl _
  unfold mongo_cursor_next
  dsimp only
  generalize (if c.flags &&& MONGO_CURSOR_QUERY_SENT = 0 then mongo_cursor_op_query c
    else (MONGO_OK, c)) = rq at hq
  obtain ⟨res, cq⟩ := rq
  have hg := session_frame_trans hq (mongo_cursor_get_more_session cq)
  split
  · exact hq
  · cases hR : cq.reply with
    | none => exact hq
    | some R =>
      simp only
      split
      · split
        · split
          · exact hg
          · split
            · exact hg
            · split
              · exact hg
              · rename_i out _ _
                exact session_frame_trans hg
                  (mongo_cursor_next_advance_session (mongo_cursor_get_more cq).2 out)
        · exact hq
      · exact session_frame_trans hq (mongo_cursor_next_advance_session cq R)

theorem mongo_find_one_session (conn : mongo) (ns : List Char) (query fields : Option bson) :
    session_frame conn (mongo_find_one conn ns query fields).2.2 := by
  unfold mongo_find_one
  dsimp only
  have hn := mongo_cursor_next_session
    (mongo_cursor_set_limit (mongo_cursor_set_fields (mongo_cursor_set_query
      (mongo_cursor_init conn ns) query) fields) 1)
  have hc : (mongo_cursor_set_limit (mongo_cursor_set_fields (mongo_cursor_set_query
      (mongo_cursor_init conn ns) query) fields) 1).conn = conn := rfl
  rw [hc] at hn
  generalize mongo_cursor_next
    (mongo_cursor_set_limit (mongo_cursor_set_fields (mongo_cursor_set_query
      (mongo_cursor_init conn ns) query) fields) 1) = r at hn
  have hd := session_frame_trans hn (mongo_cursor_destroy_live_session r.2)
  split <;> exact hd

theorem mongo_bson_valid_session (conn : mongo) (b : bson) (write : Bool) :
    session_frame conn (mongo_bson_valid conn b write).2 := by
  unfold mongo_bson_valid
  repeat' split
  all_goals first
    | exact session_frame_fields _ _ rfl rfl rfl rfl rfl rfl rfl
        (Or.inr session_errors_mem.1)
    | exact session_frame_fields _ _ rfl rfl rfl rfl rfl rfl rfl
        (Or.inr session_errors_mem.2.2.2.1)
    | exact session_frame_fields _ _ rfl rfl rfl rfl rfl rfl rfl
        (Or.inr session_errors_mem.2.2.2.2.1)
    | exact session_frame_fields _ _ rfl rfl rfl rfl rfl rfl rfl
        (Or.inr session_errors_mem.2.2.2.2.2)

theorem mongo_run_command_session (conn : mongo) (db : List Char) (command : bson)
    (out : Option bson) :
    session_frame conn (mongo_run_command conn db command out).2.2 := by
  have hv := mongo_bson_valid_session conn command false
  unfold mongo_run_command
  dsimp only
  generalize mongo_bson_valid conn command false = rv at hv
  split
  · exact hv
  · have hf := session_frame_trans hv
      (mongo_find_one_session rv.2 (db ++ ".$cmd".toList) (some command) (some bson_empty))
    generalize mongo_find_one rv.2 (db ++ ".$cmd".toList) (some command) (some bson_empty)
      = r at hf
    split
    · exact hf
    · have hm : session_frame conn
          (match bson_find (bson_data r.2.1) "errmsg".toList with
            | some cur =>
              { r.2.2 with
                lasterrstr :=
                  poke (strncpy r.2.2.lasterrstr
                    (cstring_at (bson_iterator_string (bson_data r.2.1) cur))
                    MONGO_ERR_LEN) (MONGO_ERR_LEN - 1) (Char.ofNat 0) }
            | none => r.2.2) := by
        split
        · exact session_frame_trans hf
            (session_frame_fields _ _ rfl rfl rfl rfl rfl rfl rfl (Or.inl rfl))
        · exact hf
      split
      · exact session_frame_trans hm
          (session_frame_fields _ _ rfl rfl rfl rfl rfl rfl rfl
            (Or.inr session_errors_mem.2.2.1))
      · exact hm

theorem mongo_simple_int_command_session (conn : mongo) (db cmdstr : List Char) (arg : Int) :
    session_frame conn (mongo_simple_int_command conn db cmdstr arg).2.2 :=
  mongo_run_command_session conn db _ none

theorem sends_first_extend {s : mongo_sock} {t : List sock_event} {hdr body : List Nat}
    (h : sends_first s t hdr body) (evs : List sock_event) :
    sends_first s (t ++ evs) hdr body := by
  obtain ⟨rest, h1, h2⟩ := h
  refine ⟨rest ++ evs, by rw [h1, List.append_assoc]; rfl, ?_⟩
  intro hw
  obtain ⟨rest2, h3⟩ := h2 hw
  exact ⟨rest2 ++ evs, by rw [h3]; rfl⟩

theorem sends_first_send (conn : mongo) (mm : mongo_message) :
    sends_first conn.sock (mongo_message_send conn mm).2.sock.trace (header_wire mm.head)
      (mm.data.take ((mm.head.len - (sizeof_mongo_header : Int)) % 18446744073709551616).toNat) := by
  refine ⟨_, mongo_message_send_trace conn mm, ?_⟩
  intro hw
  rw [if_pos hw]
  exact ⟨[], rfl⟩

theorem mongo_bson_valid_ok (conn : mongo) (b : bson) (write : Bool)
    (h : (mongo_bson_valid conn b write).1 = MONGO_OK) :
    b.finished = true ∧ bson_size b.data ≤ conn.max_bson_size ∧ b.err &&& BSON_NOT_UTF8 = 0 ∧
    (write = true → b.err &&& BSON_FIELD_HAS_DOT = 0 ∧ b.err &&& BSON_FIELD_INIT_DOLLAR = 0) := by
  unfold mongo_bson_valid at h
  by_cases h1 : ¬ b.finished = true
  · rw [if_pos h1] at h
    exact absurd h MONGO_ERROR_ne_OK
  · rw [if_neg h1] at h
    by_cases h2 : bson_size b.data > conn.max_bson_size
    · rw [if_pos h2] at h
      exact absurd h MONGO_ERROR_ne_OK
    · rw [if_neg h2] at h
      by_cases h3 : b.err &&& BSON_NOT_UTF8 ≠ 0
      · rw [if_pos h3] at h
        exact absurd h MONGO_ERROR_ne_OK
      · rw [if_neg h3] at h
        by_cases h4 : write = true ∧
            (b.err &&& BSON_FIELD_HAS_DOT ≠ 0 ∨ b.err &&& BSON_FIELD_INIT_DOLLAR ≠ 0)
        · rw [if_pos h4] at h
          exact absurd h MONGO_ERROR_ne_OK
        · refine ⟨not_not.mp h1, not_lt.mp h2, not_not.mp h3, ?_⟩
          intro hw
          constructor
          · by_contra hd
            exact h4 ⟨hw, Or.inl hd⟩
          · by_contra hd
            exact h4 ⟨hw, Or.inr hd⟩

set_option maxRecDepth 100000 in
/-- C22 (the code at the failing inputs): on a connection whose writes fail the
getlasterror command cannot be sent (`mongo_simple_int_command` returns
`MONGO_ERROR`, connection error `MONGO_IO_ERROR`), and against a server that
answers `{ok: 0, errmsg: "no"}` the command fails with
`MONGO_COMMAND_FAILED`; in both cases `mongo_cmd_get_last_error` and
`mongo_cmd_get_prev_error` return `MONGO_OK`.  The sibling
`mongo_check_last_error`, which runs the same command after a write, returns
`MONGO_ERROR` on the connection whose writes fail. -/
theorem mongo_cmd_get_error_drops_command_failure :
    (mongo_simple_int_command (mongo_clear_errors conn0) "db".toList "getlasterror".toList
      1).1 = MONGO_ERROR ∧
    (mongo_cmd_get_last_error conn0 "db".toList).1 = MONGO_OK ∧
    (mongo_cmd_get_last_error conn0 "db".toList).2.2.err = MONGO_IO_ERROR ∧
    (mongo_cmd_get_prev_error conn0 "db".toList).1 = MONGO_OK ∧
    (mongo_simple_int_command (mongo_clear_errors (mongo_zeroed (sock_one_reply [doc_not_ok] 0)))
      "db".toList "getlasterror".toList 1).1 = MONGO_ERROR ∧
    (mongo_cmd_get_last_error (mongo_zeroed (sock_one_reply [doc_not_ok] 0)) "db".toList).1
      = MONGO_OK ∧
    (mongo_cmd_get_last_error (mongo_zeroed (sock_one_reply [doc_not_ok] 0))
      "db".toList).2.2.err = MONGO_COMMAND_FAILED ∧
    (mongo_cmd_get_prev_error (mongo_zeroed (sock_one_reply [doc_not_ok] 0)) "db".toList).1
      = MONGO_OK ∧
    (mongo_check_last_error conn0 "db.c".toList WC1).1 = MONGO_ERROR ∧
    MONGO_OK ≠ MONGO_ERROR := by
  decide

theorem __mongo_set_error_sock (conn : mongo) (err : Int) (str : Option (List Char))
    (errcode : Int) : (__mongo_set_error conn err str errcode).sock = conn.sock := by
  unfold __mongo_set_error
  cases str <;> rfl

theorem mongo_choose_write_concern_cases (conn : mongo) (custom : Option mongo_write_concern) :
    (∃ chosen, mongo_choose_write_concern conn custom none = (MONGO_OK, chosen, conn)) ∨
    ((mongo_choose_write_concern conn custom none).1 = MONGO_ERROR ∧
      (mongo_choose_write_concern conn custom none).2.2.err = MONGO_WRITE_CONCERN_INVALID ∧
      (mongo_choose_write_concern conn custom none).2.2.sock = conn.sock) := by
  unfold mongo_choose_write_concern
  dsimp only
  split
  · split
    · exact Or.inr ⟨rfl, __mongo_set_error_err _ _ _ _, __mongo_set_error_sock _ _ _ _⟩
    · exact Or.inl ⟨_, rfl⟩
  · exact Or.inl ⟨_, rfl⟩

theorem mongo_insert_sends (conn : mongo) (ns : List Char) (b : bson)
    (custom : Option mongo_write_concern)
    (hns : (mongo_validate_ns conn ns).1 = MONGO_OK)
    (hb : (mongo_bson_valid conn b true).1 = MONGO_OK)
    (hc : (mongo_choose_write_concern { conn with err := MONGO_CONN_SUCCESS } custom none).1
      ≠ MONGO_ERROR)
    (hsize : 0 ≤ bson_size b.data)
    (hlen : 16 + 4 + (ns.length : Int) + 1 + bson_size b.data < 2147483647) :
    mongo_insert conn ns b custom =
      mongo_message_send_and_check_write_concern
        { conn with err := MONGO_CONN_SUCCESS, rand := conn.rand.tail } ns
        ⟨insert_header conn ns b, insert_body ns b⟩
        (mongo_choose_write_concern { conn with err := MONGO_CONN_SUCCESS } custom none).2.1 := by
  obtain ⟨n, hn⟩ : ∃ n : Nat, (n : Int) = 16 + 4 + (ns.length : Int) + 1 + bson_size b.data :=
    ⟨(16 + 4 + (ns.length : Int) + 1 + bson_size b.data).toNat, by omega⟩
  have hwl : (insert_body ns b).length = n - 16 := by
    rw [insert_body_length]
    omega
  have hmod : ((n : Int) % 18446744073709551616).toNat = n := by omega
  rcases mongo_choose_write_concern_cases { conn with err := MONGO_CONN_SUCCESS } custom
    with ⟨chosen, hch⟩ | ⟨hbad, _⟩
  · unfold mongo_insert insert_header
    simp only [← hn]
    rw [mongo_validate_ns_ok_conn conn ns hns]
    simp only [hns, ne_eq, not_true_eq_false, if_false]
    rw [mongo_bson_valid_ok_conn conn b true hb]
    simp only [hb, ne_eq, not_true_eq_false, if_false]
    rw [hch]
    simp only [if_neg MONGO_ERROR_ne_OK.symm, hmod]
    rw [mongo_message_create_some _ n 0 0 MONGO_OP_INSERT (by omega)]
    simp only [if_true, message_fill, hwl]
    rw [List.drop_of_length_le (by rw [List.length_replicate]), List.append_nil]
  · exact absurd hbad hc

theorem mongo_insert_too_long (conn : mongo) (ns : List Char) (b : bson)
    (custom : Option mongo_write_concern)
    (hns : (mongo_validate_ns conn ns).1 = MONGO_OK)
    (hb : (mongo_bson_valid conn b true).1 = MONGO_OK)
    (hc : (mongo_choose_write_concern { conn with err := MONGO_CONN_SUCCESS } custom none).1
      ≠ MONGO_ERROR)
    (hsize : 0 ≤ bson_size b.data)
    (hlen : ¬ (16 + 4 + (ns.length : Int) + 1 + bson_size b.data < 2147483647)) :
    mongo_insert conn ns b custom = (MONGO_ERROR, { conn with err := MONGO_BSON_TOO_LARGE }) := by
  obtain ⟨n, hn⟩ : ∃ n : Nat, (n : Int) = 16 + 4 + (ns.length : Int) + 1 + bson_size b.data :=
    ⟨(16 + 4 + (ns.length : Int) + 1 + bson_size b.data).toNat, by omega⟩
  have hbound : bson_size b.data < 2147483648 := by
    unfold bson_size le32_int int32_of_unsigned
    split <;> omega
  obtain ⟨_, _, _, _, _, _, h128, _⟩ := mongo_validate_ns_checks_of_ok conn ns hns
  have hmod : ((n : Int) % 18446744073709551616).toNat = n := by omega
  rcases mongo_choose_write_concern_cases { conn with err := MONGO_CONN_SUCCESS } custom
    with ⟨chosen, hch⟩ | ⟨hbad, _⟩
  · unfold mongo_insert
    simp only [← hn]
    rw [mongo_validate_ns_ok_conn conn ns hns]
    simp only [hns, ne_eq, not_true_eq_false, if_false]
    rw [mongo_bson_valid_ok_conn conn b true hb]
    simp only [hb, ne_eq, not_true_eq_false, if_false]
    rw [hch]
    simp only [if_neg MONGO_ERROR_ne_OK.symm, hmod]
    unfold mongo_message_create
    rw [if_pos (by unfold INT32_MAX; omega)]
  · exact absurd hbad hc

theorem mongo_set_last_error_sock (conn : mongo) (it : Int) (obj : List Nat) :
    (mongo_set_last_error conn it obj).sock = conn.sock := by
  unfold mongo_set_last_error
  dsimp only
  split <;> rfl

theorem mongo_check_last_error_trace (conn : mongo) (ns : List Char)
    (wc : mongo_write_concern) :
    ∃ evs, (mongo_check_last_error conn ns wc).2.sock.trace = conn.sock.trace ++ evs := by
  obtain ⟨⟨evs, ht, _⟩, _⟩ := mongo_find_one_session conn (mongo_ns_to_cmd_db ns) wc.cmd
    (some bson_empty)
  have ht2 : (getlasterror_round_trip conn ns wc).2.2.sock.trace = conn.sock.trace ++ evs := ht
  refine ⟨evs, ?_⟩
  rw [mongo_check_last_error_eq]
  split
  · exact ht2
  · split
    · dsimp only
      rw [mongo_set_last_error_sock, __mongo_set_error_sock]
      exact ht2
    · exact ht2

theorem send_and_check_sends (conn : mongo) (ns : List Char) (mm : mongo_message)
    (wc : Option mongo_write_concern) :
    sends_first conn.sock
      (mongo_message_send_and_check_write_concern conn ns mm wc).2.sock.trace
      (header_wire mm.head)
      (mm.data.take ((mm.head.len - (sizeof_mongo_header : Int)) % 18446744073709551616).toNat) := by
  have hs := sends_first_send conn mm
  unfold mongo_message_send_and_check_write_concern
  cases wc with
  | none => exact hs
  | some w =>
    dsimp only
    split
    · exact hs
    · obtain ⟨evs, ht⟩ := mongo_check_last_error_trace (mongo_message_send conn mm).2 ns w
      rw [ht]
      exact sends_first_extend hs evs

theorem insert_message_take (conn : mongo) (ns : List Char) (b : bson)
    (hsize : 0 ≤ bson_size b.data)
    (hlen : 16 + 4 + (ns.length : Int) + 1 + bson_size b.data < 2147483647) :
    (insert_body ns b).take (((insert_header conn ns b).len - (sizeof_mongo_header : Int))
      % 18446744073709551616).toNat = insert_body ns b := by
  apply List.take_of_length_le
  rw [insert_body_length]
  unfold insert_header sizeof_mongo_header
  dsimp only
  omega

/-- C23 (counterexample): on a connection whose maximum document size is
2147483647, the namespace `a.b` is valid, the document is finished, its
declared size 2147483623 is within the maximum, it carries no flag and no
write concern is chosen; yet `mongo_insert` returns `MONGO_ERROR` with
`MONGO_BSON_TOO_LARGE` and writes nothing, because the message length
16 + 4 + 3 + 1 + 2147483623 is not below `INT32_MAX`. -/
theorem mongo_insert_message_length_counterexample :
    (mongo_validate_ns conn_max_int "a.b".toList).1 = MONGO_OK ∧
    doc_huge.finished = true ∧
    bson_size doc_huge.data ≤ conn_max_int.max_bson_size ∧
    doc_huge.err = 0 ∧
    (mongo_choose_write_concern conn_max_int none none).2.1 = none ∧
    mongo_insert conn_max_int "a.b".toList doc_huge none
      = (MONGO_ERROR, { conn_max_int with err := MONGO_BSON_TOO_LARGE }) ∧
    (mongo_insert conn_max_int "a.b".toList doc_huge none).2.sock.trace = [] := by
  decide

/-- C23 (amended): `mongo_insert` makes its checks in this order and the first
that fails decides the outcome, each time `MONGO_ERROR` with the socket (its
scripts and its trace) untouched: an invalid namespace gives
`MONGO_NS_INVALID`; an unfinished document `MONGO_BSON_NOT_FINISHED`; a size
above `max_bson_size` `MONGO_BSON_TOO_LARGE`; the not-UTF-8, dotted-field or
leading-`$` flag `MONGO_BSON_INVALID`; a chosen write concern (w >= 1) without
compiled command `MONGO_WRITE_CONCERN_INVALID`; a message length
16 + 4 + strlen(ns) + 1 + size that is not below `INT32_MAX`
`MONGO_BSON_TOO_LARGE`.  When none of these holds the function is the
write-concern send of one insert message on the connection whose error has
been reset to `MONGO_CONN_SUCCESS`: the first transport call is the write of
the insert header (opcode 2002) and, when that succeeds, the next one is the
write of the body (int32 0, the namespace, the document). -/
theorem mongo_insert_validation (conn : mongo) (ns : List Char) (b : bson)
    (custom : Option mongo_write_concern) :
    ((mongo_validate_ns conn ns).1 ≠ MONGO_OK →
      (mongo_insert conn ns b custom).1 = MONGO_ERROR ∧
      (mongo_insert conn ns b custom).2.err = MONGO_NS_INVALID ∧
      (mongo_insert conn ns b custom).2.sock = conn.sock) ∧
    ((mongo_validate_ns conn ns).1 = MONGO_OK →
      (b.finished = false →
        mongo_insert conn ns b custom
          = (MONGO_ERROR, { conn with err := MONGO_BSON_NOT_FINISHED })) ∧
      (b.finished = true → bson_size b.data > conn.max_bson_size →
        mongo_insert conn ns b custom
          = (MONGO_ERROR, { conn with err := MONGO_BSON_TOO_LARGE })) ∧
      (b.finished = true → bson_size b.data ≤ conn.max_bson_size →
        (b.err &&& BSON_NOT_UTF8 ≠ 0 ∨ b.err &&& BSON_FIELD_HAS_DOT ≠ 0 ∨
          b.err &&& BSON_FIELD_INIT_DOLLAR ≠ 0) →
        mongo_insert conn ns b custom
          = (MONGO_ERROR, { conn with err := MONGO_BSON_INVALID })) ∧
      ((mongo_bson_valid conn b true).1 = MONGO_OK →
        (∀ c, (custom = some c ∨ (custom = none ∧ conn.write_concern = some c)) →
          1 ≤ c.w → c.cmd = none →
          (mongo_insert conn ns b custom).1 = MONGO_ERROR ∧
          (mongo_insert conn ns b custom).2.err = MONGO_WRITE_CONCERN_INVALID ∧
          (mongo_insert conn ns b custom).2.sock = conn.sock) ∧
        ((mongo_choose_write_concern { conn with err := MONGO_CONN_SUCCESS } custom none).1
            ≠ MONGO_ERROR →
          0 ≤ bson_size b.data →
          (¬ (16 + 4 + (ns.length : Int) + 1 + bson_size b.data < 2147483647) →
            mongo_insert conn ns b custom
              = (MONGO_ERROR, { conn with err := MONGO_BSON_TOO_LARGE })) ∧
          (16 + 4 + (ns.length : Int) + 1 + bson_size b.data < 2147483647 →
            mongo_insert conn ns b custom =
              mongo_message_send_and_check_write_concern
                { conn with err := MONGO_CONN_SUCCESS, rand := conn.rand.tail } ns
                ⟨insert_header conn ns b, insert_body ns b⟩
                (mongo_choose_write_concern { conn with err := MONGO_CONN_SUCCESS }
                  custom none).2.1 ∧
            sends_first conn.sock (mongo_insert conn ns b custom).2.sock.trace
              (header_wire (insert_header conn ns b)) (insert_body ns b))))) := by
  constructor
  · intro hns
    have e : mongo_insert conn ns b custom = (MONGO_ERROR, (mongo_validate_ns conn ns).2) := by
      unfold mongo_insert
      dsimp only
      rw [if_pos hns]
    rw [e]
    refine ⟨rfl, (mongo_validate_ns_error conn ns hns).2, ?_⟩
    rcases mongo_validate_ns_cases conn ns with h1 | ⟨msg, h1⟩
    · rw [h1]
    · rw [h1]
      exact __mongo_set_error_sock _ _ _ _
  · intro hns
    have hv := mongo_validate_ns_ok_conn conn ns hns
    have hbad : (mongo_bson_valid conn b true).1 ≠ MONGO_OK →
        mongo_insert conn ns b custom = (MONGO_ERROR, (mongo_bson_valid conn b true).2) := by
      intro hb
      unfold mongo_insert
      dsimp only
      rw [if_neg (not_not.mpr hns), hv, if_pos hb]
    refine ⟨?_, ?_, ?_, ?_⟩
    · intro hfin
      have hb : mongo_bson_valid conn b true
          = (MONGO_ERROR, { conn with err := MONGO_BSON_NOT_FINISHED }) := by
        unfold mongo_bson_valid
        rw [if_pos (by rw [hfin]; decide)]
      rw [hbad (by rw [hb]; exact MONGO_ERROR_ne_OK), hb]
    · intro hfin hsz
      have hb : mongo_bson_valid conn b true
          = (MONGO_ERROR, { conn with err := MONGO_BSON_TOO_LARGE }) := by
        unfold mongo_bson_valid
        rw [if_neg (by rw [hfin]; decide), if_pos hsz]
      rw [hbad (by rw [hb]; exact MONGO_ERROR_ne_OK), hb]
    · intro hfin hsz hflag
      have hb : mongo_bson_valid conn b true
          = (MONGO_ERROR, { conn with err := MONGO_BSON_INVALID }) := by
        unfold mongo_bson_valid
        rw [if_neg (by rw [hfin]; decide), if_neg (not_lt.mpr hsz)]
        by_cases hu : b.err &&& BSON_NOT_UTF8 ≠ 0
        · rw [if_pos hu]
        · rw [if_neg hu, if_pos ⟨rfl, hflag.resolve_left hu⟩]
      rw [hbad (by rw [hb]; exact MONGO_ERROR_ne_OK), hb]
    · intro hb
      have hbc := mongo_bson_valid_ok_conn conn b true hb
      constructor
      · intro c hsel hw hcmd
        have hch := mongo_choose_write_concern_of_selected { conn with err := MONGO_CONN_SUCCESS }
          custom c hsel
        rw [if_neg (by omega), if_pos hcmd] at hch
        have e : mongo_insert conn ns b custom =
            (MONGO_ERROR,
              __mongo_set_error { conn with err := MONGO_CONN_SUCCESS }
                MONGO_WRITE_CONCERN_INVALID
                (some "Must call mongo_write_concern_finish() before using *write_concern.".toList)
                0) := by
          unfold mongo_insert
          dsimp only
          rw [if_neg (not_not.mpr hns), hv, if_neg (not_not.mpr hb), hbc, hch]
          simp only [if_true]
        rw [e]
        exact ⟨rfl, __mongo_set_error_err _ _ _ _, __mongo_set_error_sock _ _ _ _⟩
      · intro hc hsize
        constructor
        · intro hlen
          exact mongo_insert_too_long conn ns b custom hns hb hc hsize hlen
        · intro hlen
          have e := mongo_insert_sends conn ns b custom hns hb hc hsize hlen
          refine ⟨e, ?_⟩
          rw [e]
          have hs := send_and_check_sends
            { conn with err := MONGO_CONN_SUCCESS, rand := conn.rand.tail } ns
            ⟨insert_header conn ns b, insert_body ns b⟩
            (mongo_choose_write_concern { conn with err := MONGO_CONN_SUCCESS }
              custom none).2.1
          dsimp only at hs
          rw [insert_message_take conn ns b hsize hlen] at hs
          exact hs

theorem mongo_insert_validation_witness :
    mongo_insert conn_max_int "a.b".toList ⟨doc_a1, true, 0⟩ none =
      mongo_message_send_and_check_write_concern
        { conn_max_int with err := MONGO_CONN_SUCCESS, rand := conn_max_int.rand.tail }
        "a.b".toList
        ⟨insert_header conn_max_int "a.b".toList ⟨doc_a1, true, 0⟩,
          insert_body "a.b".toList ⟨doc_a1, true, 0⟩⟩
        (mongo_choose_write_concern { conn_max_int with err := MONGO_CONN_SUCCESS }
          none none).2.1 ∧
    sends_first conn_max_int.sock
      (mongo_insert conn_max_int "a.b".toList ⟨doc_a1, true, 0⟩ none).2.sock.trace
      (header_wire (insert_header conn_max_int "a.b".toList ⟨doc_a1, true, 0⟩))
      (insert_body "a.b".toList ⟨doc_a1, true, 0⟩) :=
  ((((mongo_insert_validation conn_max_int "a.b".toList ⟨doc_a1, true, 0⟩ none).2
    (by decide)).2.2.2 (by decide)).2 (by decide) (by decide)).2 (by decide)

set_option maxRecDepth 100000 in
/-- C24 (the code at the failing inputs): the namespace `a.` is rejected by
`mongo_validate_ns` and `mongo_insert` and `mongo_insert_batch` return
`MONGO_ERROR` on it without a write, yet `mongo_update` and `mongo_remove`
called with the same namespace return `MONGO_OK` after writing the header and
the body of their message; and `mongo_update` called with an unfinished
selector on the valid namespace `a.b` also returns `MONGO_OK` after writing
the update message that carries the selector's bytes. -/
theorem mongo_update_remove_skip_validation :
    (mongo_validate_ns conn_max_int "a.".toList).1 = MONGO_ERROR ∧
    (mongo_insert conn_max_int "a.".toList ⟨doc_a1, true, 0⟩ none).1 = MONGO_ERROR ∧
    (mongo_insert conn_max_int "a.".toList ⟨doc_a1, true, 0⟩ none).2.sock.trace = [] ∧
    (mongo_insert_batch conn_max_int "a.".toList [⟨doc_a1, true, 0⟩] none 0).1 = MONGO_ERROR ∧
    (mongo_insert_batch conn_max_int "a.".toList [⟨doc_a1, true, 0⟩] none 0).2.sock.trace = [] ∧
    (mongo_update conn_max_int "a.".toList ⟨doc_a1, true, 0⟩ ⟨doc_b2, true, 0⟩ 0 none).1
      = MONGO_OK ∧
    (mongo_update conn_max_int "a.".toList ⟨doc_a1, true, 0⟩ ⟨doc_b2, true, 0⟩ 0
        none).2.sock.trace
      = [sock_event.wrote (header_wire ⟨51, 0, 0, MONGO_OP_UPDATE⟩) true,
         sock_event.wrote (update_body "a.".toList ⟨doc_a1, true, 0⟩ ⟨doc_b2, true, 0⟩ 0) true] ∧
    (mongo_remove conn_max_int "a.".toList ⟨doc_a1, true, 0⟩ none).1 = MONGO_OK ∧
    (mongo_remove conn_max_int "a.".toList ⟨doc_a1, true, 0⟩ none).2.sock.trace
      = [sock_event.wrote (header_wire ⟨39, 0, 0, MONGO_OP_DELETE⟩) true,
         sock_event.wrote (remove_body "a.".toList ⟨doc_a1, true, 0⟩) true] ∧
    (mongo_bson_valid conn_max_int ⟨doc_a1, false, 0⟩ false).1 = MONGO_ERROR ∧
    (mongo_update conn_max_int "a.b".toList ⟨doc_a1, false, 0⟩ ⟨doc_b2, true, 0⟩ 0 none).1
      = MONGO_OK ∧
    (mongo_update conn_max_int "a.b".toList ⟨doc_a1, false, 0⟩ ⟨doc_b2, true, 0⟩ 0
        none).2.sock.trace
      = [sock_event.wrote (header_wire ⟨52, 0, 0, MONGO_OP_UPDATE⟩) true,
         sock_event.wrote (update_body "a.b".toList ⟨doc_a1, false, 0⟩ ⟨doc_b2, true, 0⟩ 0)
           true] ∧
    MONGO_OK ≠ MONGO_ERROR := by
  decide

theorem mongo_bson_valid_err_irrelevant (conn : mongo) (e : Int) (b : bson) (write : Bool) :
    (mongo_bson_valid { conn with err := e } b write).1 = (mongo_bson_valid conn b write).1 := by
  simp only [mongo_bson_valid]

theorem insert_batch_validated_err (conn : mongo) (bsons : List bson) (e : Int) :
    ({ insert_batch_validated conn bsons with err := e } : mongo) = { conn with err := e } := by
  cases bsons <;> rfl

theorem insert_batch_validated_fields (conn : mongo) (bsons : List bson) :
    (insert_batch_validated conn bsons).sock = conn.sock ∧
    (insert_batch_validated conn bsons).rand = conn.rand ∧
    (insert_batch_validated conn bsons).max_bson_size = conn.max_bson_size ∧
    (insert_batch_validated conn bsons).write_concern = conn.write_concern := by
  cases bsons <;> exact ⟨rfl, rfl, rfl, rfl⟩

theorem batch_size_cons (b : bson) (rest : List bson) :
    batch_size (b :: rest) = bson_size b.data + batch_size rest := by
  unfold batch_size
  rw [List.map_cons, List.sum_cons]

theorem batch_size_bounds (bsons : List bson) (m : Int)
    (hsize : ∀ b ∈ bsons, 0 ≤ bson_size b.data ∧ bson_size b.data ≤ m) :
    0 ≤ batch_size bsons ∧ batch_size bsons ≤ (bsons.length : Int) * m := by
  induction bsons with
  | nil => exact ⟨le_refl _, by simp [batch_size]⟩
  | cons b rest ih =>
    have h1 := hsize b (List.mem_cons_self _ _)
    have h2 := ih (fun x hx => hsize x (List.mem_cons_of_mem _ hx))
    rw [batch_size_cons, List.length_cons]
    push_cast
    constructor
    · omega
    · have : ((rest.length : Int) + 1) * m = (rest.length : Int) * m + m := by ring
      rw [this]
      omega

theorem batch_size_nonneg (bsons : List bson) (hsize : ∀ b ∈ bsons, 0 ≤ bson_size b.data) :
    0 ≤ batch_size bsons := by
  induction bsons with
  | nil => exact le_refl _
  | cons b rest ih =>
    rw [batch_size_cons]
    have h1 := hsize b (List.mem_cons_self _ _)
    have h2 := ih (fun x hx => hsize x (List.mem_cons_of_mem _ hx))
    omega

theorem insert_batch_validate_ok (bsons : List bson) :
    ∀ (conn : mongo) (size : Nat), size < 18446744073709551616 →
      (∀ b ∈ bsons, (mongo_bson_valid conn b true).1 = MONGO_OK) →
      (∀ b ∈ bsons, 0 ≤ bson_size b.data) →
      insert_batch_validate bsons conn size
        = (MONGO_OK, insert_batch_validated conn bsons,
            (size + (batch_size bsons).toNat) % 18446744073709551616) := by
  induction bsons with
  | nil =>
    intro conn size hlt _ _
    unfold insert_batch_validate insert_batch_validated batch_size
    simp only [List.map_nil, List.sum_nil, Int.toNat_zero, add_zero]
    congr 2
    omega
  | cons b rest ih =>
    intro conn size hlt hv hs
    have hb := hv b (List.mem_cons_self _ _)
    have hsb := hs b (List.mem_cons_self _ _)
    have hrest : ∀ x ∈ rest, (mongo_bson_valid { conn with err := MONGO_CONN_SUCCESS } x true).1
        = MONGO_OK := by
      intro x hx
      rw [mongo_bson_valid_err_irrelevant]
      exact hv x (List.mem_cons_of_mem _ hx)
    have hsr : ∀ x ∈ rest, 0 ≤ bson_size x.data := fun x hx => hs x (List.mem_cons_of_mem _ hx)
    have h0 := batch_size_nonneg rest hsr
    unfold insert_batch_validate
    dsimp only
    rw [if_neg (not_not.mpr hb), mongo_bson_valid_ok_conn conn b true hb,
      ih _ _ (Nat.mod_lt _ (by decide)) hrest hsr]
    rw [batch_size_cons]
    congr 2
    · cases rest <;> rfl
    · unfold size_t_of_int
      omega

theorem insert_batch_body_length (ns : List Char) (bsons : List bson) (flags : Int)
    (hsize : ∀ b ∈ bsons, 0 ≤ bson_size b.data ∧ bson_size b.data < 18446744073709551616) :
    (insert_batch_body ns bsons flags).length
      = 4 + (ns.length + 1) + (batch_size bsons).toNat := by
  have key : ∀ l : List bson,
      (∀ b ∈ l, 0 ≤ bson_size b.data ∧ bson_size b.data < 18446744073709551616) →
      ((l.map (fun b => fit (size_t_of_int (bson_size b.data)) b.data)).flatten).length
        = (batch_size l).toNat := by
    intro l
    induction l with
    | nil => intro _; rfl
    | cons b rest ih =>
      intro h
      have h1 := h b (List.mem_cons_self _ _)
      have h2 := ih (fun x hx => h x (List.mem_cons_of_mem _ hx))
      have h3 := batch_size_nonneg rest (fun x hx => (h x (List.mem_cons_of_mem _ hx)).1)
      rw [List.map_cons, List.flatten_cons, List.length_append, fit_length, h2, batch_size_cons]
      unfold size_t_of_int
      omega
  unfold insert_batch_body
  rw [List.length_append, List.length_append, key bsons hsize]
  have h1 : ∀ v : Int, (le32_bytes v).length = 4 := fun v => rfl
  have h2 : (cstring_bytes ns).length = ns.length + 1 := by
    unfold cstring_bytes
    simp
  rw [h1, h2]

theorem mongo_insert_batch_checked (conn : mongo) (ns : List Char) (bsons : List bson)
    (custom : Option mongo_write_concern) (flags : Int)
    (hns : (mongo_validate_ns conn ns).1 = MONGO_OK)
    (hvalid : ∀ b ∈ bsons, (mongo_bson_valid conn b true).1 = MONGO_OK)
    (hsize : ∀ b ∈ bsons, 0 ≤ bson_size b.data)
    (hmax : 0 ≤ conn.max_bson_size ∧ conn.max_bson_size ≤ 2147483647)
    (hcount : bsons.length ≤ 2147483647) :
    0 ≤ batch_size bsons ∧ batch_size bsons ≤ 2147483647 * 2147483647 ∧
    (∀ b ∈ bsons, 0 ≤ bson_size b.data ∧ bson_size b.data < 18446744073709551616) ∧
    mongo_insert_batch conn ns bsons custom flags =
      if batch_size bsons > conn.max_bson_size then
        (MONGO_ERROR, { conn with err := MONGO_BSON_TOO_LARGE })
      else if (mongo_choose_write_concern (insert_batch_validated conn bsons) custom none).1
          = MONGO_ERROR then
        (MONGO_ERROR,
          (mongo_choose_write_concern (insert_batch_validated conn bsons) custom none).2.2)
      else
        match mongo_message_create (conn.rand.headD 0)
            (16 + 4 + ns.length + 1 + (batch_size bsons).toNat) 0 0 MONGO_OP_INSERT with
        | none => (MONGO_ERROR, { conn with err := MONGO_BSON_TOO_LARGE })
        | some mm =>
          mongo_message_send_and_check_write_concern
            { insert_batch_validated conn bsons with rand := conn.rand.tail } ns
            (message_fill mm (insert_batch_body ns bsons flags))
            (mongo_choose_write_concern (insert_batch_validated conn bsons) custom none).2.1 := by
  have hb : ∀ b ∈ bsons, 0 ≤ bson_size b.data ∧ bson_size b.data ≤ conn.max_bson_size :=
    fun b hb => ⟨hsize b hb, (mongo_bson_valid_ok conn b true (hvalid b hb)).2.1⟩
  obtain ⟨h0, h1⟩ := batch_size_bounds bsons conn.max_bson_size hb
  have h2 : (bsons.length : Int) * conn.max_bson_size ≤ 2147483647 * 2147483647 :=
    mul_le_mul (by omega) hmax.2 hmax.1 (by omega)
  have h3 : batch_size bsons ≤ 2147483647 * 2147483647 := le_trans h1 h2
  refine ⟨h0, h3, fun b hx => ⟨(hb b hx).1, by have := (hb b hx).2; omega⟩, ?_⟩
  obtain ⟨_, _, _, _, _, _, h128, _⟩ := mongo_validate_ns_checks_of_ok conn ns hns
  obtain ⟨f1, f2, f3, f4⟩ := insert_batch_validated_fields conn bsons
  unfold mongo_insert_batch
  dsimp only
  rw [if_neg (not_not.mpr hns), mongo_validate_ns_ok_conn conn ns hns,
    insert_batch_validate_ok bsons conn _ (by omega) hvalid hsize]
  dsimp only
  rw [if_neg (not_not.mpr rfl)]
  have e1 : (16 + 4 + ns.length + 1 + (batch_size bsons).toNat) % 18446744073709551616
      = 16 + 4 + ns.length + 1 + (batch_size bsons).toNat := by omega
  rw [e1]
  have e2 : (16 + 4 + ns.length + 1 + (batch_size bsons).toNat + 18446744073709551616
      - (16 + 4 + ns.length + 1)) % 18446744073709551616 = (batch_size bsons).toNat := by omega
  rw [e2]
  have e3 : size_t_of_int (insert_batch_validated conn bsons).max_bson_size
      = conn.max_bson_size.toNat := by
    rw [f3]
    unfold size_t_of_int
    omega
  rw [e3]
  by_cases hgt : batch_size bsons > conn.max_bson_size
  · rw [if_pos hgt, if_pos (by omega)]
    cases bsons <;> rfl
  · rw [if_neg hgt, if_neg (by omega)]
    rcases mongo_choose_write_concern_cases (insert_batch_validated conn bsons) custom
      with ⟨chosen, hch⟩ | ⟨hbad, _⟩
    · rw [hch]
      simp only [if_neg MONGO_ERROR_ne_OK.symm, f2]
      cases bsons <;> rfl
    · rw [if_pos hbad, if_pos hbad]

/-- C25: for a namespace that `mongo_validate_ns` accepts and documents that
each pass `mongo_bson_valid` (with non-negative declared sizes, at most
`INT_MAX` documents and a `max_bson_size` in the non-negative `int` range),
`mongo_insert_batch` returns `MONGO_ERROR` with `MONGO_BSON_TOO_LARGE` on the
otherwise unchanged connection, so without any transport call, whenever the
sum of the sizes exceeds `max_bson_size`.  When the sum is within the limit the
size check passes: the outcome is that of the write-concern choice, and when a
concern is chosen without error and the message length is below `INT32_MAX`
the function is the write-concern send of one insert message holding all the
documents, whose header and body are the first transport writes. -/
theorem mongo_insert_batch_size_check (conn : mongo) (ns : List Char) (bsons : List bson)
    (custom : Option mongo_write_concern) (flags : Int)
    (hns : (mongo_validate_ns conn ns).1 = MONGO_OK)
    (hvalid : ∀ b ∈ bsons, (mongo_bson_valid conn b true).1 = MONGO_OK)
    (hsize : ∀ b ∈ bsons, 0 ≤ bson_size b.data)
    (hmax : 0 ≤ conn.max_bson_size ∧ conn.max_bson_size ≤ 2147483647)
    (hcount : bsons.length ≤ 2147483647) :
    (batch_size bsons > conn.max_bson_size →
      mongo_insert_batch conn ns bsons custom flags
        = (MONGO_ERROR, { conn with err := MONGO_BSON_TOO_LARGE })) ∧
    (batch_size bsons ≤ conn.max_bson_size →
      ((mongo_choose_write_concern (insert_batch_validated conn bsons) custom none).1
          = MONGO_ERROR →
        (mongo_insert_batch conn ns bsons custom flags).1 = MONGO_ERROR ∧
        (mongo_insert_batch conn ns bsons custom flags).2.err = MONGO_WRITE_CONCERN_INVALID ∧
        (mongo_insert_batch conn ns bsons custom flags).2.sock = conn.sock) ∧
      ((mongo_choose_write_concern (insert_batch_validated conn bsons) custom none).1
          ≠ MONGO_ERROR →
        16 + 4 + (ns.length : Int) + 1 + batch_size bsons < 2147483647 →
        mongo_insert_batch conn ns bsons custom flags =
          mongo_message_send_and_check_write_concern
            { insert_batch_validated conn bsons with rand := conn.rand.tail } ns
            ⟨insert_batch_header conn ns bsons, insert_batch_body ns bsons flags⟩
            (mongo_choose_write_concern (insert_batch_validated conn bsons) custom none).2.1 ∧
        sends_first conn.sock (mongo_insert_batch conn ns bsons custom flags).2.sock.trace
          (header_wire (insert_batch_header conn ns bsons))
          (insert_batch_body ns bsons flags))) := by
  obtain ⟨h0, _, hb, e⟩ :=
    mongo_insert_batch_checked conn ns bsons custom flags hns hvalid hsize hmax hcount
  obtain ⟨f1, _, _, _⟩ := insert_batch_validated_fields conn bsons
  constructor
  · intro hgt
    rw [e, if_pos hgt]
  · intro hle
    rw [if_neg (not_lt.mpr hle)] at e
    constructor
    · intro hbad
      rw [if_pos hbad] at e
      rw [e]
      rcases mongo_choose_write_concern_cases (insert_batch_validated conn bsons) custom
        with ⟨chosen, hch⟩ | ⟨_, h2, h3⟩
      · rw [hch] at hbad
        exact absurd hbad.symm MONGO_ERROR_ne_OK
      · exact ⟨rfl, h2, h3.trans f1⟩
    · intro hc hlen
      rw [if_neg hc,
        mongo_message_create_some _ _ 0 0 MONGO_OP_INSERT (by omega)] at e
      have hwl : (insert_batch_body ns bsons flags).length
          = 16 + 4 + ns.length + 1 + (batch_size bsons).toNat - 16 := by
        rw [insert_batch_body_length ns bsons flags hb]
        omega
      have hhead : ((16 + 4 + ns.length + 1 + (batch_size bsons).toNat : Nat) : Int)
          = 16 + 4 + (ns.length : Int) + 1 + batch_size bsons := by omega
      have e2 : mongo_insert_batch conn ns bsons custom flags =
          mongo_message_send_and_check_write_concern
            { insert_batch_validated conn bsons with rand := conn.rand.tail } ns
            ⟨insert_batch_header conn ns bsons, insert_batch_body ns bsons flags⟩
            (mongo_choose_write_concern (insert_batch_validated conn bsons) custom none).2.1 := by
        rw [e]
        simp only [if_true, message_fill, hwl, hhead, insert_batch_header]
        rw [List.drop_of_length_le (by rw [List.length_replicate]), List.append_nil]
      refine ⟨e2, ?_⟩
      rw [e2]
      have hs := send_and_check_sends
        { insert_batch_validated conn bsons with rand := conn.rand.tail } ns
        ⟨insert_batch_header conn ns bsons, insert_batch_body ns bsons flags⟩
        (mongo_choose_write_concern (insert_batch_validated conn bsons) custom none).2.1
      dsimp only at hs
      rw [f1, List.take_of_length_le (by
        rw [insert_batch_body_length ns bsons flags hb]
        unfold insert_batch_header sizeof_mongo_header
        dsimp only
        omega)] at hs
      dsimp only
      rw [f1]
      exact hs

theorem mongo_insert_batch_size_check_witness :
    mongo_insert_batch conn_max_20 "a.b".toList [⟨doc_a1, true, 0⟩, ⟨doc_b2, true, 0⟩] none 0
      = (MONGO_ERROR, { conn_max_20 with err := MONGO_BSON_TOO_LARGE }) :=
  (mongo_insert_batch_size_check conn_max_20 "a.b".toList
    [⟨doc_a1, true, 0⟩, ⟨doc_b2, true, 0⟩] none 0 (by decide) (by decide) (by decide)
    (by decide) (by decide)).1 (by decide)

theorem mongo_env_socket_connect_fields (conn : mongo) (host : List Char) (port : Int) :
    (mongo_env_socket_connect conn host port).2.max_bson_size = conn.max_bson_size ∧
    (mongo_env_socket_connect conn host port).2.replica_set = conn.replica_set ∧
    (mongo_env_socket_connect conn host port).2.primary = conn.primary ∧
    (mongo_env_socket_connect conn host port).2.write_concern = conn.write_concern ∧
    (mongo_env_socket_connect conn host port).2.net = (net_take conn.net host port).2 ∧
    (mongo_env_socket_connect conn host port).2.sock.trace = conn.sock.trace ++
      [sock_event.connect host port
        (decide ((mongo_env_socket_connect conn host port).1 = MONGO_OK))] ∧
    ((mongo_env_socket_connect conn host port).1 = MONGO_OK →
      (mongo_env_socket_connect conn host port).2.connected = true ∧
      (mongo_env_socket_connect conn host port).2.err = conn.err) ∧
    ((mongo_env_socket_connect conn host port).1 ≠ MONGO_OK →
      (mongo_env_socket_connect conn host port).1 = MONGO_ERROR ∧
      (mongo_env_socket_connect conn host port).2.connected = false ∧
      (mongo_env_socket_connect conn host port).2.err = MONGO_CONN_FAIL) := by
  unfold mongo_env_socket_connect
  split
  · exact ⟨rfl, rfl, rfl, rfl, rfl, rfl, fun _ => ⟨rfl, rfl⟩, fun h => absurd rfl h⟩
  · exact ⟨rfl, rfl, rfl, rfl, rfl, rfl, fun h => absurd h MONGO_ERROR_ne_OK,
      fun _ => ⟨rfl, rfl, rfl⟩⟩

theorem mongo_check_is_master_cases (conn : mongo) :
    ((mongo_simple_int_command conn "admin".toList "ismaster".toList 1).1 ≠ MONGO_OK →
      mongo_check_is_master conn = (MONGO_ERROR,
        (mongo_simple_int_command conn "admin".toList "ismaster".toList 1).2.2)) ∧
    ((mongo_simple_int_command conn "admin".toList "ismaster".toList 1).1 = MONGO_OK →
      (bson_find_bool
          (bson_data (mongo_simple_int_command conn "admin".toList "ismaster".toList 1).2.1)
          "ismaster".toList = true →
        mongo_check_is_master conn = (MONGO_OK,
          { (mongo_simple_int_command conn "admin".toList "ismaster".toList 1).2.2 with
            max_bson_size := probe_max_bson_size
              (bson_data
                (mongo_simple_int_command conn "admin".toList "ismaster".toList 1).2.1) })) ∧
      (bson_find_bool
          (bson_data (mongo_simple_int_command conn "admin".toList "ismaster".toList 1).2.1)
          "ismaster".toList = false →
        mongo_check_is_master conn = (MONGO_ERROR,
          { (mongo_simple_int_command conn "admin".toList "ismaster".toList 1).2.2 with
            max_bson_size := probe_max_bson_size
              (bson_data
                (mongo_simple_int_command conn "admin".toList "ismaster".toList 1).2.1)
            err := MONGO_CONN_NOT_MASTER }))) := by
  unfold mongo_check_is_master
  dsimp only
  refine ⟨fun h => by rw [if_neg h], fun h => ⟨fun hm => ?_, fun hm => ?_⟩⟩
  · rw [if_pos h, hm]
    rfl
  · rw [if_pos h, hm]
    rfl

/-- C30: `mongo_client` returns `MONGO_OK` exactly when the transport connect
succeeds and the is-primary probe command succeeds with a truthy `ismaster`;
a successful probe that does not report a primary gives `MONGO_ERROR` with
`MONGO_CONN_NOT_MASTER`.  After a successful probe command `max_bson_size` is
the value read from the response: the integer of `maxBsonObjectSize` when the
field is found, `MONGO_DEFAULT_MAX_BSON_SIZE` (4 MiB) otherwise.  When the
probe command fails, and when the connect fails, the result is `MONGO_ERROR`
and `max_bson_size` is the default that `mongo_init` installed. -/
theorem mongo_client_cases (conn : mongo) (host : List Char) (port : Int) :
    ((mongo_client conn host port).1 = MONGO_OK ↔
      ((client_connect conn host port).1 = MONGO_OK ∧
        (client_probe conn host port).1 = MONGO_OK ∧
        bson_find_bool (bson_data (client_probe conn host port).2.1) "ismaster".toList = true)) ∧
    ((client_connect conn host port).1 = MONGO_OK →
      (client_probe conn host port).1 = MONGO_OK →
      bson_find_bool (bson_data (client_probe conn host port).2.1) "ismaster".toList = false →
      (mongo_client conn host port).1 = MONGO_ERROR ∧
      (mongo_client conn host port).2.err = MONGO_CONN_NOT_MASTER) ∧
    ((client_connect conn host port).1 = MONGO_OK →
      (client_probe conn host port).1 = MONGO_OK →
      (mongo_client conn host port).2.max_bson_size
        = probe_max_bson_size (bson_data (client_probe conn host port).2.1)) ∧
    (∀ out cur, bson_find out "maxBsonObjectSize".toList = some cur →
      probe_max_bson_size out = bson_iterator_int out cur) ∧
    (∀ out, bson_find out "maxBsonObjectSize".toList = none →
      probe_max_bson_size out = MONGO_DEFAULT_MAX_BSON_SIZE) ∧
    MONGO_DEFAULT_MAX_BSON_SIZE = 4194304 ∧
    ((client_connect conn host port).1 = MONGO_OK →
      (client_probe conn host port).1 ≠ MONGO_OK →
      (mongo_client conn host port).1 = MONGO_ERROR ∧
      (mongo_client conn host port).2.max_bson_size = MONGO_DEFAULT_MAX_BSON_SIZE) ∧
    ((client_connect conn host port).1 ≠ MONGO_OK →
      (mongo_client conn host port).1 = MONGO_ERROR ∧
      (mongo_client conn host port).2.err = MONGO_CONN_FAIL ∧
      (mongo_client conn host port).2.max_bson_size = MONGO_DEFAULT_MAX_BSON_SIZE) := by
  obtain ⟨hcm, _, _, _, _, _, _, hcf⟩ := mongo_env_socket_connect_fields
    { mongo_init conn with primary := some { host := host, port := port } } host port
  have hmax : (client_connect conn host port).2.max_bson_size = MONGO_DEFAULT_MAX_BSON_SIZE :=
    hcm
  obtain ⟨hfail, hok⟩ := mongo_check_is_master_cases (client_connect conn host port).2
  have hsess := mongo_simple_int_command_session (client_connect conn host port).2
    "admin".toList "ismaster".toList 1
  have e0 : mongo_client conn host port =
      if (client_connect conn host port).1 ≠ MONGO_OK then
        (MONGO_ERROR, (client_connect conn host port).2)
      else if (mongo_check_is_master (client_connect conn host port).2).1 ≠ MONGO_OK then
        (MONGO_ERROR, (mongo_check_is_master (client_connect conn host port).2).2)
      else (MONGO_OK, (mongo_check_is_master (client_connect conn host port).2).2) := rfl
  have hP : (client_connect conn host port).1 = MONGO_OK →
      (client_probe conn host port).1 = MONGO_OK →
      bson_find_bool (bson_data (client_probe conn host port).2.1) "ismaster".toList = true →
      mongo_client conn host port = (MONGO_OK,
        { (client_probe conn host port).2.2 with
          max_bson_size := probe_max_bson_size (bson_data (client_probe conn host port).2.1) }) := by
    intro hc hp hm
    rw [e0, if_neg (not_not.mpr hc), (hok hp).1 hm]
    rfl
  have hN : (client_connect conn host port).1 = MONGO_OK →
      (client_probe conn host port).1 = MONGO_OK →
      bson_find_bool (bson_data (client_probe conn host port).2.1) "ismaster".toList = false →
      mongo_client conn host port = (MONGO_ERROR,
        { (client_probe conn host port).2.2 with
          max_bson_size := probe_max_bson_size (bson_data (client_probe conn host port).2.1)
          err := MONGO_CONN_NOT_MASTER }) := by
    intro hc hp hm
    rw [e0, if_neg (not_not.mpr hc), (hok hp).2 hm]
    rfl
  have hF : (client_connect conn host port).1 = MONGO_OK →
      (client_probe conn host port).1 ≠ MONGO_OK →
      mongo_client conn host port = (MONGO_ERROR, (client_probe conn host port).2.2) := by
    intro hc hp
    rw [e0, if_neg (not_not.mpr hc), hfail hp]
    rfl
  have hC : (client_connect conn host port).1 ≠ MONGO_OK →
      mongo_client conn host port = (MONGO_ERROR, (client_connect conn host port).2) := by
    intro hc
    rw [e0, if_pos hc]
  refine ⟨⟨?_, ?_⟩, ?_, ?_, ?_, ?_, rfl, ?_, ?_⟩
  · intro h
    by_cases hc : (client_connect conn host port).1 = MONGO_OK
    · by_cases hp : (client_probe conn host port).1 = MONGO_OK
      · cases hm : bson_find_bool (bson_data (client_probe conn host port).2.1)
          "ismaster".toList
        · rw [hN hc hp hm] at h
          exact absurd h MONGO_ERROR_ne_OK
        · exact ⟨hc, hp, rfl⟩
      · rw [hF hc hp] at h
        exact absurd h MONGO_ERROR_ne_OK
    · rw [hC hc] at h
      exact absurd h MONGO_ERROR_ne_OK
  · rintro ⟨hc, hp, hm⟩
    rw [hP hc hp hm]
  · intro hc hp hm
    rw [hN hc hp hm]
    exact ⟨rfl, rfl⟩
  · intro hc hp
    cases hm : bson_find_bool (bson_data (client_probe conn host port).2.1) "ismaster".toList
    · rw [hN hc hp hm]
    · rw [hP hc hp hm]
  · intro out cur h
    unfold probe_max_bson_size
    rw [h]
  · intro out h
    unfold probe_max_bson_size
    rw [h]
  · intro hc hp
    rw [hF hc hp]
    exact ⟨rfl, hsess.2.1.trans hmax⟩
  · intro hc
    rw [hC hc]
    exact ⟨rfl, (hcf hc).2.2, hmax⟩

set_option maxRecDepth 100000 in
theorem mongo_client_cases_witness :
    (mongo_client conn_one_master "h".toList 27017).1 = MONGO_OK ∧
    (mongo_client conn_one_master "h".toList 27017).2.max_bson_size = 16777216 :=
  ⟨(mongo_client_cases conn_one_master "h".toList 27017).1.mpr
      ⟨by decide, by decide, by decide⟩,
    ((mongo_client_cases conn_one_master "h".toList 27017).2.2.1 (by decide) (by decide)).trans
      (by decide)⟩

theorem connects_of_append (a b : List sock_event) :
    connects_of (a ++ b) = connects_of a ++ connects_of b := by
  induction a with
  | nil => rfl
  | cons e rest ih =>
    cases e
    · exact ih
    · exact ih
    · exact congrArg (List.cons _) ih
    · exact ih

theorem connects_of_io (evs : List sock_event) (h : ∀ e ∈ evs, sock_event_is_io e = true) :
    connects_of evs = [] := by
  induction evs with
  | nil => rfl
  | cons e rest ih =>
    have h1 := h e (List.mem_cons_self _ _)
    have h2 := ih (fun x hx => h x (List.mem_cons_of_mem _ hx))
    cases e
    · exact h2
    · exact h2
    · exact absurd h1 Bool.false_ne_true
    · exact absurd h1 Bool.false_ne_true

theorem connect_trace (conn : mongo) (node : mongo_host_port) :
    ∃ evs, (mongo_env_socket_connect conn node.host node.port).2.sock.trace
      = conn.sock.trace ++ evs ∧ connects_of evs = [node] := by
  obtain ⟨_, _, _, _, _, ht, _, _⟩ := mongo_env_socket_connect_fields conn node.host node.port
  exact ⟨_, ht, rfl⟩

theorem replica_set_hosts_append_nil (o : Option mongo_replica_set) :
    o.map (fun rs => { rs with hosts := rs.hosts ++ [] }) = o := by
  cases o with
  | none => rfl
  | some rs => simp only [Option.map_some', List.append_nil]

theorem session_errors_not_bad_set_name (e : Int) (h : e ∈ session_errors) :
    e ≠ MONGO_CONN_BAD_SET_NAME := by
  intro hx
  rw [hx] at h
  exact absurd h (by decide)

theorem mongo_replica_set_check_seed_fields (c : mongo) :
    (mongo_replica_set_check_seed c).replica_set = c.replica_set.map
      (fun rs => { rs with hosts := rs.hosts ++
        (if (mongo_simple_int_command c "admin".toList "ismaster".toList 1).1 = MONGO_OK then
          seed_hosts
            (bson_data (mongo_simple_int_command c "admin".toList "ismaster".toList 1).2.1)
        else []) }) ∧
    (∃ evs, (mongo_replica_set_check_seed c).sock.trace = c.sock.trace ++ evs ∧
      connects_of evs = []) ∧
    ((mongo_replica_set_check_seed c).err = c.err ∨
      (mongo_replica_set_check_seed c).err ∈ session_errors) ∧
    (mongo_replica_set_check_seed c).max_bson_size = c.max_bson_size := by
  obtain ⟨⟨evs, ht, hio⟩, hmax, _, _, hrs, _, _, herr⟩ :=
    mongo_simple_int_command_session c "admin".toList "ismaster".toList 1
  unfold mongo_replica_set_check_seed
  dsimp only
  by_cases h : (mongo_simple_int_command c "admin".toList "ismaster".toList 1).1 = MONGO_OK
  · simp only [if_pos h]
    refine ⟨by rw [hrs], ⟨evs ++ [sock_event.close], ?_, ?_⟩, herr, hmax⟩
    · show (mongo_simple_int_command c "admin".toList "ismaster".toList 1).2.2.sock.trace
        ++ [sock_event.close] = _
      rw [ht, List.append_assoc]
    · rw [connects_of_append, connects_of_io evs hio]
      rfl
  · simp only [if_neg h]
    refine ⟨by rw [hrs, replica_set_hosts_append_nil], ⟨evs ++ [sock_event.close], ?_, ?_⟩,
      herr, hmax⟩
    · show (mongo_simple_int_command c "admin".toList "ismaster".toList 1).2.2.sock.trace
        ++ [sock_event.close] = _
      rw [ht, List.append_assoc]
    · rw [connects_of_append, connects_of_io evs hio]
      rfl

theorem seed_skip_fields (conn : mongo) (node : mongo_host_port) :
    (seed_skip conn node).replica_set = conn.replica_set.map
      (fun rs => { rs with hosts := rs.hosts ++ seed_yields conn node }) ∧
    (∃ evs, (seed_skip conn node).sock.trace = conn.sock.trace ++ evs ∧
      connects_of evs = [node]) ∧
    (conn.err ≠ MONGO_CONN_BAD_SET_NAME →
      (seed_skip conn node).err ≠ MONGO_CONN_BAD_SET_NAME) ∧
    (seed_skip conn node).max_bson_size = conn.max_bson_size := by
  obtain ⟨hcm, hcr, _, _, _, _, hcok, hcf⟩ :=
    mongo_env_socket_connect_fields conn node.host node.port
  obtain ⟨e1, ht1, hc1⟩ := connect_trace conn node
  unfold seed_skip seed_yields node_answers node_probe
  dsimp only
  by_cases hc : (mongo_env_socket_connect conn node.host node.port).1 = MONGO_OK
  · obtain ⟨hrs, ⟨e2, ht2, hc2⟩, herr, hmax⟩ := mongo_replica_set_check_seed_fields
      (mongo_env_socket_connect conn node.host node.port).2
    simp only [hc, if_true, decide_True, Bool.true_and, decide_eq_true_eq]
    refine ⟨by rw [hrs, hcr], ⟨e1 ++ e2, by rw [ht2, ht1, List.append_assoc],
      by rw [connects_of_append, hc1, hc2]; rfl⟩, ?_, hmax.trans hcm⟩
    intro hne
    rcases herr with h | h
    · rw [h, (hcok hc).2]
      exact hne
    · exact session_errors_not_bad_set_name _ h
  · simp only [hc, decide_False, Bool.false_and, Bool.false_eq_true, if_false]
    refine ⟨by rw [hcr, replica_set_hosts_append_nil], ⟨e1, ht1, hc1⟩, ?_, hcm⟩
    intro _
    rw [(hcf hc).2.2]
    decide

theorem replica_set_scan_seeds_step (conn : mongo) (node : mongo_host_port)
    (rest : List mongo_host_port) :
    replica_set_scan_seeds (node :: rest) conn =
      if (mongo_env_socket_connect conn node.host node.port).1 = MONGO_OK ∧
          (conn_replica_set (seed_skip conn node)).hosts ≠ [] then seed_skip conn node
      else replica_set_scan_seeds rest (seed_skip conn node) := by
  rw [replica_set_scan_seeds]
  unfold seed_skip
  dsimp only
  by_cases hc : (mongo_env_socket_connect conn node.host node.port).1 = MONGO_OK
  · simp only [hc, if_true, true_and]
  · simp only [hc, false_and, if_false]

theorem replica_set_scan_seeds_frame (seeds : List mongo_host_port) :
    ∀ conn : mongo,
      (∃ hs, (replica_set_scan_seeds seeds conn).replica_set = conn.replica_set.map
        (fun rs => { rs with hosts := rs.hosts ++ hs })) ∧
      (conn.err ≠ MONGO_CONN_BAD_SET_NAME →
        (replica_set_scan_seeds seeds conn).err ≠ MONGO_CONN_BAD_SET_NAME) ∧
      (replica_set_scan_seeds seeds conn).max_bson_size = conn.max_bson_size := by
  induction seeds with
  | nil =>
    intro conn
    exact ⟨⟨[], (replica_set_hosts_append_nil _).symm⟩, fun h => h, rfl⟩
  | cons node rest ih =>
    intro conn
    obtain ⟨h1, _, h2, h3⟩ := seed_skip_fields conn node
    rw [replica_set_scan_seeds_step]
    split
    · exact ⟨⟨_, h1⟩, h2, h3⟩
    · obtain ⟨⟨hs, h4⟩, h5, h6⟩ := ih (seed_skip conn node)
      refine ⟨⟨seed_yields conn node ++ hs, ?_⟩, fun h => h5 (h2 h), h6.trans h3⟩
      rw [h4, h1]
      cases conn.replica_set with
      | none => rfl
      | some rs => simp only [Option.map_some', List.append_assoc]

theorem replica_set_client_start_fields (conn : mongo) :
    (replica_set_client_start conn).replica_set = conn.replica_set ∧
    (replica_set_client_start conn).sock.trace = conn.sock.trace ∧
    (replica_set_client_start conn).err = conn.err :=
  ⟨rfl, rfl, rfl⟩

theorem ns_db_length_eq (ns : List Char) :
    ns_db_length ns = (ns_db_segment ns).length := by
  unfold ns_db_segment
  induction ns with
  | nil => rfl
  | cons c rest ih =>
    unfold ns_db_length
    by_cases h : c = '.'
    · rw [if_pos h, List.takeWhile_cons_of_neg (by simp [h])]
      rfl
    · rw [if_neg h, List.takeWhile_cons_of_pos (by simpa using h), ih]
      rfl

theorem ns_db_segment_length (ns : List Char) :
    (ns_db_segment ns).length = List.indexOf '.' ns := by
  unfold ns_db_segment
  induction ns with
  | nil => rfl
  | cons c rest ih =>
    by_cases h : c = '.'
    · rw [List.takeWhile_cons_of_neg (by simp [h]), h, List.indexOf_cons_self]
      rfl
    · rw [List.takeWhile_cons_of_pos (by simpa using h), List.length_cons, ih,
        List.indexOf_cons_ne _ h]

theorem ns_take_db_length (ns : List Char) :
    ns.take (ns_db_length ns) = ns_db_segment ns := by
  unfold ns_db_segment
  induction ns with
  | nil => rfl
  | cons c rest ih =>
    unfold ns_db_length
    by_cases h : c = '.'
    · rw [if_pos h, List.takeWhile_cons_of_neg (by simp [h])]
      rfl
    · rw [if_neg h, List.takeWhile_cons_of_pos (by simpa using h), List.take_succ_cons, ih]

/-- C36: for a namespace that holds a `'.'`, the loop of `mongo_ns_to_cmd_db`
stops on the first `'.'`, at an index inside the string, and the function
returns the characters before that `'.'` followed by `.$cmd`; the result has
(index of the first `'.'`) + 5 characters, and with its terminating NUL it
fills the (index) + 6 bytes allocated.  This string is the namespace of the
getlasterror round trip of `mongo_check_last_error`, whose failure is the
failure of the check. -/
theorem mongo_ns_to_cmd_db_database (ns : List Char) (h : '.' ∈ ns) :
    ns_db_length ns = List.indexOf '.' ns ∧
    ns_db_length ns < ns.length ∧
    ns.getD (ns_db_length ns) 'x' = '.' ∧
    mongo_ns_to_cmd_db ns = ns_db_segment ns ++ ".$cmd".toList ∧
    (mongo_ns_to_cmd_db ns).length = List.indexOf '.' ns + 5 ∧
    (cstring_bytes (mongo_ns_to_cmd_db ns)).length = List.indexOf '.' ns + 6 ∧
    (cstring_bytes (mongo_ns_to_cmd_db ns)).getLast? = some 0 ∧
    (∀ (conn : mongo) (wc : mongo_write_concern),
      getlasterror_round_trip conn ns wc
        = mongo_find_one conn (ns_db_segment ns ++ ".$cmd".toList) wc.cmd (some bson_empty) ∧
      ((getlasterror_round_trip conn ns wc).1 ≠ MONGO_OK →
        mongo_check_last_error conn ns wc
          = (MONGO_ERROR, (getlasterror_round_trip conn ns wc).2.2))) := by
  have hlen := (ns_db_length_eq ns).trans (ns_db_segment_length ns)
  have hlt : List.indexOf '.' ns < ns.length := List.indexOf_lt_length.mpr h
  have hcmd : mongo_ns_to_cmd_db ns = ns_db_segment ns ++ ".$cmd".toList := by
    unfold mongo_ns_to_cmd_db
    rw [ns_take_db_length]
  refine ⟨hlen, by rw [hlen]; exact hlt, ?_, hcmd, ?_, ?_, ?_, ?_⟩
  · rw [hlen, List.getD_eq_getElem _ _ hlt]
    exact List.indexOf_get hlt
  · rw [hcmd, List.length_append, ns_db_segment_length]
    rfl
  · unfold cstring_bytes
    rw [List.length_append, List.length_map, hcmd, List.length_append, ns_db_segment_length]
    rfl
  · unfold cstring_bytes
    rw [List.getLast?_append]
    rfl
  · intro conn wc
    refine ⟨?_, ?_⟩
    · unfold getlasterror_round_trip
      rw [hcmd]
    · intro hfail
      rw [mongo_check_last_error_eq, if_pos hfail]

theorem mongo_ns_to_cmd_db_database_witness :
    mongo_ns_to_cmd_db "db.coll.sub".toList = "db.$cmd".toList ∧
    (mongo_ns_to_cmd_db "db.coll.sub".toList).length = List.indexOf '.' "db.coll.sub".toList + 5 :=
  ⟨(mongo_ns_to_cmd_db_database "db.coll.sub".toList (by decide)).2.2.2.1.trans (by decide),
    (mongo_ns_to_cmd_db_database "db.coll.sub".toList (by decide)).2.2.2.2.1⟩

set_option maxRecDepth 100000 in
/-- C37 (the code at the failing inputs): on a connection whose error text
buffer has `MONGO_ERR_LEN` = 128 characters, `__mongo_set_error` with a message
of 127 characters stores its final NUL at index 128, one past the buffer; with
a message of 200 characters the 128 characters of the buffer hold no NUL and
the NUL is again stored at index 128.  A message of 3 characters stays inside
the buffer. -/
theorem __mongo_set_error_writes_past_buffer :
    conn0.errstr.length = MONGO_ERR_LEN ∧
    (__mongo_set_error conn0 MONGO_NS_INVALID (some (List.replicate 127 'x')) 0).errstr.length
      = MONGO_ERR_LEN + 1 ∧
    (__mongo_set_error conn0 MONGO_NS_INVALID (some (List.replicate 127 'x')) 0).errstr.drop
      MONGO_ERR_LEN = [Char.ofNat 0] ∧
    (__mongo_set_error conn0 MONGO_NS_INVALID (some (List.replicate 200 'x')) 0).errstr.length
      = MONGO_ERR_LEN + 1 ∧
    (__mongo_set_error conn0 MONGO_NS_INVALID (some (List.replicate 200 'x')) 0).errstr.take
      MONGO_ERR_LEN = List.replicate 128 'x' ∧
    Char.ofNat 0 ∉
      (__mongo_set_error conn0 MONGO_NS_INVALID (some (List.replicate 200 'x')) 0).errstr.take
        MONGO_ERR_LEN ∧
    (__mongo_set_error conn0 MONGO_NS_INVALID (some "abc".toList) 0).errstr.length
      = MONGO_ERR_LEN ∧
    (mongo_clear_errors
      (__mongo_set_error conn0 MONGO_NS_INVALID (some (List.replicate 127 'x')) 0)).errstr.take
        MONGO_ERR_LEN = List.replicate MONGO_ERR_LEN (Char.ofNat 0) := by
  decide

theorem write_concern_fields_mode (wc : mongo_write_concern) (mode : List Char)
    (hmode : wc.mode = some mode) :
    ∃ rest, write_concern_fields wc =
      bson_int_element "getlasterror".toList 1 :: bson_string_element "w".toList mode :: rest := by
  unfold write_concern_fields
  rw [hmode]
  exact ⟨_, rfl⟩

/-- C38: for a write concern with a mode string set, `mongo_write_concern_finish`
returns `MONGO_OK` and compiles a command whose first elements are
`getlasterror` = 1 and the string `w` = mode.  While the numeric `w` is below 1
(0 as `mongo_write_concern_init` leaves it), `mongo_choose_write_concern` on
that finished concern, given explicitly or installed as the default, yields
`MONGO_OK` with no concern, and a `mongo_insert` that uses it is the bare send
of the insert message: no read is made on the transport.  When `w` is at least
1 the finished concern is the one chosen. -/
theorem write_concern_mode_needs_w (conn : mongo) (ns : List Char) (b : bson)
    (wc : mongo_write_concern) (mode : List Char) (hmode : wc.mode = some mode) :
    (mongo_write_concern_finish wc).1 = MONGO_OK ∧
    (∃ rest, (mongo_write_concern_finish wc).2.cmd =
      some { data := bson_document (bson_int_element "getlasterror".toList 1 ::
               bson_string_element "w".toList mode :: rest)
             finished := true, err := 0 }) ∧
    (mongo_write_concern_finish wc).2.w = wc.w ∧
    (mongo_write_concern_set_mode mongo_write_concern_init (some mode)).w = 0 ∧
    (wc.w < 1 →
      mongo_choose_write_concern conn (some (mongo_write_concern_finish wc).2) none
        = (MONGO_OK, none, conn)) ∧
    (wc.w < 1 → conn.write_concern = some (mongo_write_concern_finish wc).2 →
      mongo_choose_write_concern conn none none = (MONGO_OK, none, conn)) ∧
    (wc.w < 1 → (mongo_validate_ns conn ns).1 = MONGO_OK →
      (mongo_bson_valid conn b true).1 = MONGO_OK → 0 ≤ bson_size b.data →
      16 + 4 + (ns.length : Int) + 1 + bson_size b.data < 2147483647 →
      mongo_insert conn ns b (some (mongo_write_concern_finish wc).2) =
        mongo_message_send { conn with err := MONGO_CONN_SUCCESS, rand := conn.rand.tail }
          ⟨⟨16 + 4 + (ns.length : Int) + 1 + bson_size b.data, conn.rand.headD 0, 0,
              MONGO_OP_INSERT⟩,
            insert_body ns b⟩ ∧
      (mongo_insert conn ns b (some (mongo_write_concern_finish wc).2)).2.sock.reads
        = conn.sock.reads ∧
      ∃ evs, (mongo_insert conn ns b (some (mongo_write_concern_finish wc).2)).2.sock.trace
          = conn.sock.trace ++ evs ∧
        ∀ e ∈ evs, ∃ bytes ok, e = sock_event.wrote bytes ok) ∧
    (1 ≤ wc.w →
      mongo_choose_write_concern conn (some (mongo_write_concern_finish wc).2) none
        = (MONGO_OK, some (mongo_write_concern_finish wc).2, conn)) := by
  obtain ⟨rest, hrest⟩ := write_concern_fields_mode wc mode hmode
  have hfin := mongo_write_concern_finish_eq wc
  have hw : (mongo_write_concern_finish wc).2.w = wc.w := by rw [hfin]
  refine ⟨by rw [hfin], ⟨rest, by rw [hfin, hrest]⟩, hw, rfl, ?_, ?_, ?_, ?_⟩
  · intro hlt
    exact mongo_choose_write_concern_none conn _ (Or.inl ⟨_, rfl, by rw [hw]; exact hlt⟩)
  · intro hlt hdef
    exact mongo_choose_write_concern_none conn none
      (Or.inr (Or.inr ⟨rfl, _, hdef, by rw [hw]; exact hlt⟩))
  · intro hlt hns hb hsize hlen
    have e := mongo_insert_unacknowledged conn ns b (some (mongo_write_concern_finish wc).2)
      hns hb (Or.inl ⟨_, rfl, by rw [hw]; exact hlt⟩) hsize hlen
    refine ⟨e, ?_, ?_⟩
    · rw [e, mongo_message_send_reads]
    · rw [e]
      exact mongo_message_send_writes_only _ _
  · intro hge
    rw [mongo_choose_write_concern_of_selected conn _ (mongo_write_concern_finish wc).2
      (Or.inl rfl), if_neg (by rw [hw]; omega), if_neg (by rw [hfin]; simp)]

theorem write_concern_mode_needs_w_witness :
    mongo_choose_write_concern conn0
      (some (mongo_write_concern_finish
        (mongo_write_concern_set_mode mongo_write_concern_init (some "majority".toList))).2)
      none = (MONGO_OK, none, conn0) :=
  (write_concern_mode_needs_w conn0 "a.b".toList bson_empty
    (mongo_write_concern_set_mode mongo_write_concern_init (some "majority".toList))
    "majority".toList rfl).2.2.2.2.1 (by decide)

/-- C39: `WC1_data` declares the length 23 and its first 23 bytes are the
document `{ getlasterror : 1 }` (one 32-bit integer element), byte for byte the
command that `mongo_write_concern_finish` compiles for a concern with w = 1 and
nothing else set; `WC1_cmd` holds these bytes and is finished; and after
`mongo_init` the default write concern of the connection is `WC1`, with w = 1
and `WC1_cmd` as compiled command. -/
theorem WC1_agrees_with_finish (conn : mongo) :
    bson_size WC1_data = 23 ∧
    WC1_data.take 23 = bson_document [bson_int_element "getlasterror".toList 1] ∧
    (mongo_write_concern_finish
      (mongo_write_concern_set_w mongo_write_concern_init 1)).2.cmd
      = some { data := WC1_data.take 23, finished := true, err := 0 } ∧
    (mongo_write_concern_finish
      (mongo_write_concern_set_w mongo_write_concern_init 1)).1 = MONGO_OK ∧
    WC1_cmd.data = WC1_data ∧ WC1_cmd.finished = true ∧ WC1_cmd.err = 0 ∧
    fit (bson_size WC1_cmd.data % 18446744073709551616).toNat WC1_cmd.data = WC1_data.take 23 ∧
    (mongo_init conn).write_concern = some WC1 ∧
    WC1.w = 1 ∧ WC1.cmd = some WC1_cmd ∧
    WC1.mode = none ∧ WC1.wtimeout = 0 ∧ WC1.j = 0 ∧ WC1.fsync = 0 :=
  ⟨by decide, by decide, by decide, by decide, rfl, rfl, rfl, by decide, rfl, rfl, rfl, rfl, rfl,
    rfl, rfl⟩

set_option maxRecDepth 100000 in
/-- C32 (the code at the failing input): for the collection `c`, size 100 and
max 5 the command that `mongo_create_capped_collection` runs carries
`create` = `c`, `capped` = true and `size` = 100, and its `max` field holds
100, the size, not 5; with max 0 the command has no `max` field. -/
theorem mongo_create_capped_collection_max_is_size :
    (∀ conn, mongo_create_capped_collection conn "db".toList "c".toList 100 5 none
      = mongo_run_command conn "db".toList (capped_collection_command "c".toList 100 5) none) ∧
    (bson_find (capped_collection_command "c".toList 100 5).data "create".toList).map
      (fun cur => cstring_at
        (bson_iterator_string (capped_collection_command "c".toList 100 5).data cur))
      = some "c".toList ∧
    bson_find_bool (capped_collection_command "c".toList 100 5).data "capped".toList = true ∧
    (bson_find (capped_collection_command "c".toList 100 5).data "size".toList).map
      (bson_iterator_int (capped_collection_command "c".toList 100 5).data) = some 100 ∧
    (bson_find (capped_collection_command "c".toList 100 5).data "max".toList).map
      (bson_iterator_int (capped_collection_command "c".toList 100 5).data) = some 100 ∧
    (bson_find (capped_collection_command "c".toList 100 5).data "max".toList).map
      (bson_iterator_int (capped_collection_command "c".toList 100 5).data) ≠ some 5 ∧
    bson_find (capped_collection_command "c".toList 100 0).data "max".toList = none :=
  ⟨fun _ => rfl, by decide, by decide, by decide, by decide, by decide, by decide⟩

theorem parse_host_split_no_colon (s : List Char) :
    ∀ len split : Nat, ':' ∉ s → parse_host_split s len split = split := by
  induction s with
  | nil => intro _ _ _; rfl
  | cons c rest ih =>
    intro len split h
    rw [parse_host_split, if_neg (fun hc => h (by rw [hc]; exact List.mem_cons_self _ _))]
    exact ih _ _ (fun hx => h (List.mem_cons_of_mem _ hx))

theorem parse_host_split_last_colon (pre post : List Char) (hpost : ':' ∉ post) :
    ∀ len split : Nat, parse_host_split (pre ++ ':' :: post) len split = len + pre.length := by
  induction pre with
  | nil =>
    intro len split
    rw [List.nil_append, parse_host_split, if_pos rfl, parse_host_split_no_colon post _ _ hpost]
    rfl
  | cons c rest ih =>
    intro len split
    rw [List.cons_append, parse_host_split, ih, List.length_cons]
    omega

theorem mongo_parse_host_no_colon (s : List Char) (h : ':' ∉ s) :
    mongo_parse_host s = { host := s, port := MONGO_DEFAULT_PORT } := by
  unfold mongo_parse_host
  simp only [parse_host_split_no_colon s 0 0 h, ne_eq, not_true_eq_false, if_false,
    List.take_length]

theorem mongo_parse_host_colon (pre post : List Char) (hpre : pre ≠ []) (hpost : ':' ∉ post) :
    mongo_parse_host (pre ++ ':' :: post) = { host := pre, port := atoi post } := by
  have hl : pre.length ≠ 0 := fun h => hpre (List.length_eq_zero.mp h)
  unfold mongo_parse_host
  simp only [parse_host_split_last_colon pre post hpost 0 0, Nat.zero_add, ne_eq, hl,
    not_false_eq_true, if_true, List.take_left', List.drop_succ_cons,
    List.drop_left' (rfl : pre.length = pre.length)]
  congr 2
  rw [show pre ++ ':' :: post = pre ++ ([':'] ++ post) from rfl, ← List.append_assoc]
  rw [List.drop_left' (by simp)]

theorem digit_char_toNat (d : Nat) (h : d < 10) : (digit_char d).toNat = 48 + d := by
  interval_cases d <;> rfl

theorem atoi_digits_digit (d : Nat) (h : d < 10) (rest : List Char) (acc : Int) :
    atoi_digits (digit_char d :: rest) acc = atoi_digits rest (acc * 10 + (d : Int)) := by
  rw [atoi_digits, digit_char_toNat d h, if_pos (by omega)]
  congr 2
  omega

theorem decimal_digits_value (fuel : Nat) :
    ∀ (n : Nat) (acc : List Char), n < fuel →
      atoi_digits (decimal_digits fuel n acc) 0 = atoi_digits acc (n : Int) ∧
      (∃ d rest, d < 10 ∧ decimal_digits fuel n acc = digit_char d :: rest) ∧
      (':' ∉ acc → ':' ∉ decimal_digits fuel n acc) := by
  induction fuel with
  | zero => intro n acc h; omega
  | succ fuel ih =>
    intro n acc hn
    rw [decimal_digits]
    by_cases h10 : n < 10
    · rw [if_pos h10]
      refine ⟨?_, ⟨n, acc, h10, rfl⟩, ?_⟩
      · rw [atoi_digits_digit n h10]
        congr 1
        omega
      · intro hacc hmem
        rcases List.mem_cons.mp hmem with hx | hx
        · have := digit_char_toNat n h10
          rw [← hx] at this
          have h58 : (':' : Char).toNat = 58 := rfl
          omega
        · exact hacc hx
    · rw [if_neg h10]
      obtain ⟨h1, h2, h3⟩ := ih (n / 10) (digit_char (n % 10) :: acc) (by omega)
      refine ⟨?_, h2, ?_⟩
      · rw [h1, atoi_digits_digit (n % 10) (by omega)]
        congr 1
        omega
      · intro hacc
        apply h3
        intro hmem
        rcases List.mem_cons.mp hmem with hx | hx
        · have := digit_char_toNat (n % 10) (by omega)
          rw [← hx] at this
          have h58 : (':' : Char).toNat = 58 := rfl
          omega
        · exact hacc hx

theorem int32_wrap_of_range (v : Int) (h0 : -2147483648 ≤ v) (h1 : v ≤ 2147483647) :
    int32_wrap v = v := by
  unfold int32_wrap int32_of_unsigned
  have hm : (v % 4294967296).toNat % 4294967296 = (v % 4294967296).toNat := by
    apply Nat.mod_eq_of_lt
    omega
  rw [hm]
  split <;> omega

theorem strtol_clamp_of_range (v : Int) (h0 : -9223372036854775808 ≤ v)
    (h1 : v ≤ 9223372036854775807) : strtol_clamp v = v := by
  unfold strtol_clamp
  rw [if_neg (by omega), if_neg (by omega)]

theorem atoi_of_digit_head (d : Nat) (h : d < 10) (rest : List Char) :
    atoi (digit_char d :: rest)
      = int32_wrap (strtol_clamp (atoi_digits (digit_char d :: rest) 0)) := by
  have ht := digit_char_toNat d h
  have hsp : digit_char d ≠ ' ' := by
    intro hx
    rw [hx] at ht
    have : (' ' : Char).toNat = 32 := rfl
    omega
  have hmi : digit_char d ≠ '-' := by
    intro hx
    rw [hx] at ht
    have : ('-' : Char).toNat = 45 := rfl
    omega
  have hpl : digit_char d ≠ '+' := by
    intro hx
    rw [hx] at ht
    have : ('+' : Char).toNat = 43 := rfl
    omega
  unfold atoi
  rw [List.dropWhile_cons_of_neg (by
    simp only [decide_eq_true_eq, not_or, not_and, not_le]
    exact ⟨hsp, fun _ => by omega⟩)]
  simp only [if_neg hmi, if_neg hpl]

theorem atoi_sprintf_d_wrap (n : Nat) :
    atoi (sprintf_d (n : Int)) = int32_wrap (strtol_clamp (n : Int)) := by
  unfold sprintf_d
  rw [if_neg (by omega), Int.toNat_ofNat]
  obtain ⟨h1, ⟨d, rest, hd, he⟩, _⟩ := decimal_digits_value (n + 1) n [] (by omega)
  rw [he, atoi_of_digit_head d hd rest, ← he, h1]
  rfl

theorem atoi_sprintf_d (n : Nat) (h : n ≤ 2147483647) : atoi (sprintf_d (n : Int)) = (n : Int) := by
  rw [atoi_sprintf_d_wrap, strtol_clamp_of_range _ (by omega) (by omega),
    int32_wrap_of_range _ (by omega) (by omega)]

theorem sprintf_d_no_colon (n : Nat) : ':' ∉ sprintf_d (n : Int) := by
  unfold sprintf_d
  rw [if_neg (by omega), Int.toNat_ofNat]
  exact (decimal_digits_value (n + 1) n [] (by omega)).2.2 (List.not_mem_nil _)

theorem mongo_parse_host_bounded_no_colon (size : Nat) (s : List Char) (h : ':' ∉ s) :
    mongo_parse_host_bounded size s
      = if s.length + 1 ≤ size then some { host := s, port := MONGO_DEFAULT_PORT } else none := by
  unfold mongo_parse_host_bounded
  simp only [parse_host_split_no_colon s 0 0 h, ne_eq, not_true_eq_false, if_false,
    mongo_parse_host_no_colon s h]

theorem mongo_parse_host_bounded_colon (size : Nat) (pre post : List Char) (hpre : pre ≠ [])
    (hpost : ':' ∉ post) :
    mongo_parse_host_bounded size (pre ++ ':' :: post)
      = if pre.length + 1 ≤ size then some { host := pre, port := atoi post } else none := by
  have hl : pre.length ≠ 0 := fun h => hpre (List.length_eq_zero.mp h)
  unfold mongo_parse_host_bounded
  simp only [parse_host_split_last_colon pre post hpost 0 0, Nat.zero_add, ne_eq, hl,
    not_false_eq_true, if_true, mongo_parse_host_colon pre post hpre hpost]

set_option maxRecDepth 100000 in
/-- C40 (counterexample): in `h:99999999999` the last `':'` is at index 1 and
the decimal number that follows it is 99999999999, but line 611 stores `atoi`
of that text in the `int` field `port`, which holds 1215752191, the low 32 bits
of the number. -/
theorem mongo_parse_host_port_overflow :
    parse_host_split "h:99999999999".toList 0 0 = 1 ∧
    atoi_digits "99999999999".toList 0 = 99999999999 ∧
    mongo_parse_host "h:99999999999".toList = ⟨"h".toList, 1215752191⟩ ∧
    (mongo_parse_host "h:99999999999".toList).port ≠ 99999999999 ∧
    mongo_parse_host_bounded 255 "h:99999999999".toList = some ⟨"h".toList, 1215752191⟩ := by
  decide

/-- C40 (amended): `mongo_parse_host` splits a host string at its last `':'`,
provided the host part and its terminator fit the array `host` of the record
(`size` bytes).  A string without `':'` gives the whole string as host and
`MONGO_DEFAULT_PORT`.  A string `pre ++ ":" ++ post` with `pre` not empty and
no `':'` in `post` (the last `':'` is at index `pre.length` > 0) gives the host
`pre` and the port `atoi( post )`; a host part that does not fit is copied past
the end of the array.  `atoi` of the decimal text of a non-negative number n is
the `int` with the low 32 bits of min(n, `LONG_MAX`), which is n exactly when
n ≤ `INT_MAX`.  So parsing the text `host:port` that `_get_host_port` makes
returns the same record for every non-empty host that fits the array and every
port from 0 to `INT_MAX`. -/
theorem mongo_parse_host_splits :
    (∀ (size : Nat) (s : List Char), ':' ∉ s →
      mongo_parse_host_bounded size s
        = if s.length + 1 ≤ size then some { host := s, port := MONGO_DEFAULT_PORT }
          else none) ∧
    (∀ (size : Nat) (pre post : List Char), pre ≠ [] → ':' ∉ post →
      mongo_parse_host_bounded size (pre ++ ':' :: post)
        = if pre.length + 1 ≤ size then some { host := pre, port := atoi post } else none) ∧
    (∀ n : Nat, atoi (sprintf_d (n : Int)) = int32_wrap (strtol_clamp (n : Int))) ∧
    (∀ n : Nat, n ≤ 2147483647 → atoi (sprintf_d (n : Int)) = (n : Int)) ∧
    (∀ (size : Nat) (hp : mongo_host_port), hp.host ≠ [] → hp.host.length + 1 ≤ size →
      0 ≤ hp.port → hp.port ≤ 2147483647 →
      mongo_parse_host_bounded size (_get_host_port hp) = some hp) := by
  refine ⟨mongo_parse_host_bounded_no_colon, mongo_parse_host_bounded_colon,
    atoi_sprintf_d_wrap, atoi_sprintf_d, ?_⟩
  intro size hp hhost hfit hport hmax
  obtain ⟨n, hn⟩ : ∃ n : Nat, hp.port = (n : Int) := ⟨hp.port.toNat, by omega⟩
  unfold _get_host_port
  rw [show hp.host ++ ":".toList ++ sprintf_d hp.port = hp.host ++ ':' :: sprintf_d hp.port by
    rw [List.append_assoc]; rfl]
  rw [hn, mongo_parse_host_bounded_colon size hp.host _ hhost (sprintf_d_no_colon n),
    if_pos hfit, atoi_sprintf_d n (by omega), ← hn]

set_option maxRecDepth 100000 in
/-- Witness of the amended C40, with an array of 255 bytes: `localhost`,
`::1:27018`, the largest port, and the round trip of `db1.example:27019`. -/
theorem mongo_parse_host_splits_witness :
    mongo_parse_host_bounded 255 "localhost".toList = some ⟨"localhost".toList, 27017⟩ ∧
    mongo_parse_host_bounded 255 ("::1".toList ++ ':' :: "27018".toList)
      = some ⟨"::1".toList, 27018⟩ ∧
    mongo_parse_host_bounded 4 "localhost".toList = none ∧
    atoi (sprintf_d ((2147483647 : Nat) : Int)) = 2147483647 ∧
    _get_host_port ⟨"db1.example".toList, 27019⟩ = "db1.example:27019".toList ∧
    mongo_parse_host_bounded 255 (_get_host_port ⟨"db1.example".toList, 27019⟩)
      = some ⟨"db1.example".toList, 27019⟩ :=
  ⟨(mongo_parse_host_splits.1 255 "localhost".toList (by decide)).trans (by decide),
    (mongo_parse_host_splits.2.1 255 "::1".toList "27018".toList (by decide) (by decide)).trans
      (by decide),
    (mongo_parse_host_splits.1 4 "localhost".toList (by decide)).trans (by decide),
    mongo_parse_host_splits.2.2.2.1 2147483647 (by decide),
    by decide,
    mongo_parse_host_splits.2.2.2.2 255 ⟨"db1.example".toList, 27019⟩ (by decide) (by decide)
      (by decide) (by decide)⟩

theorem bson_size_lt (data : List Nat) : bson_size data < 2147483648 := by
  have h := le32_unsigned_lt data
  unfold bson_size le32_int int32_of_unsigned
  split <;> omega

theorem mongo_insert_batch_sends (conn : mongo) (ns : List Char) (bsons : List bson)
    (custom : Option mongo_write_concern) (flags : Int)
    (hns : (mongo_validate_ns conn ns).1 = MONGO_OK)
    (hvalid : ∀ b ∈ bsons, (mongo_bson_valid conn b true).1 = MONGO_OK)
    (hsize : ∀ b ∈ bsons, 0 ≤ bson_size b.data)
    (hmax : 0 ≤ conn.max_bson_size ∧ conn.max_bson_size ≤ 2147483647)
    (hcount : bsons.length ≤ 2147483647)
    (hfit : batch_size bsons ≤ conn.max_bson_size)
    (hc : (mongo_choose_write_concern (insert_batch_validated conn bsons) custom none).1
      ≠ MONGO_ERROR)
    (hlen : 16 + 4 + (ns.length : Int) + 1 + batch_size bsons < 2147483647) :
    mongo_insert_batch conn ns bsons custom flags =
      mongo_message_send_and_check_write_concern
        { insert_batch_validated conn bsons with rand := conn.rand.tail } ns
        ⟨insert_batch_header conn ns bsons, insert_batch_body ns bsons flags⟩
        (mongo_choose_write_concern (insert_batch_validated conn bsons) custom none).2.1 ∧
    ((16 + (insert_batch_body ns bsons flags).length : Nat) : Int)
      = (insert_batch_header conn ns bsons).len ∧
    sends_first conn.sock (mongo_insert_batch conn ns bsons custom flags).2.sock.trace
      (header_wire (insert_batch_header conn ns bsons))
      (insert_batch_body ns bsons flags) := by
  obtain ⟨h0, _, hb, e⟩ :=
    mongo_insert_batch_checked conn ns bsons custom flags hns hvalid hsize hmax hcount
  obtain ⟨f1, _, _, _⟩ := insert_batch_validated_fields conn bsons
  rw [if_neg (not_lt.mpr hfit), if_neg hc,
    mongo_message_create_some _ _ 0 0 MONGO_OP_INSERT (by omega)] at e
  have hwl : (insert_batch_body ns bsons flags).length
      = 16 + 4 + ns.length + 1 + (batch_size bsons).toNat - 16 := by
    rw [insert_batch_body_length ns bsons flags hb]
    omega
  have hhead : ((16 + 4 + ns.length + 1 + (batch_size bsons).toNat : Nat) : Int)
      = 16 + 4 + (ns.length : Int) + 1 + batch_size bsons := by omega
  have e2 : mongo_insert_batch conn ns bsons custom flags =
      mongo_message_send_and_check_write_concern
        { insert_batch_validated conn bsons with rand := conn.rand.tail } ns
        ⟨insert_batch_header conn ns bsons, insert_batch_body ns bsons flags⟩
        (mongo_choose_write_concern (insert_batch_validated conn bsons) custom none).2.1 := by
    rw [e]
    simp only [if_true, message_fill, hwl, hhead, insert_batch_header]
    rw [List.drop_of_length_le (by rw [List.length_replicate]), List.append_nil]
  refine ⟨e2, ?_, ?_⟩
  · rw [insert_batch_body_length ns bsons flags hb]
    unfold insert_batch_header
    dsimp only
    omega
  · rw [e2]
    have hs := send_and_check_sends
      { insert_batch_validated conn bsons with rand := conn.rand.tail } ns
      ⟨insert_batch_header conn ns bsons, insert_batch_body ns bsons flags⟩
      (mongo_choose_write_concern (insert_batch_validated conn bsons) custom none).2.1
    dsimp only at hs
    rw [f1, List.take_of_length_le (by
      rw [insert_batch_body_length ns bsons flags hb]
      unfold insert_batch_header sizeof_mongo_header
      dsimp only
      omega)] at hs
    dsimp only
    rw [f1]
    exact hs

theorem mongo_md5_finish_length (md5 : List Nat → List Nat) (st : List Nat) :
    (mongo_md5_finish md5 st).length = 16 ∧ ∀ b ∈ mongo_md5_finish md5 st, b < 256 := by
  unfold mongo_md5_finish
  refine ⟨by rw [List.length_map, fit_length], ?_⟩
  intro b hb
  obtain ⟨x, _, hx⟩ := List.mem_map.mp hb
  rw [← hx]
  omega

set_option maxRecDepth 100000 in
theorem hex_nibbles (b : Nat) (h : b < 256) :
    (b &&& 240) >>> 4 = b / 16 % 16 ∧ b &&& 15 = b % 16 := by
  have key : ∀ x < 256, (x &&& 240) >>> 4 = x / 16 % 16 ∧ x &&& 15 = x % 16 := by decide
  exact key b h

theorem range_map_getD (d : List Nat) (f : Nat → List Char) :
    (List.range d.length).map (fun i => f (d.getD i 0)) = d.map f := by
  apply List.ext_getElem
  · simp
  · intro i h1 h2
    simp only [List.getElem_map, List.getElem_range]
    rw [List.getD_eq_getElem _ _ (by simpa using h1)]

theorem digest2hex_eq (d : List Nat) (hl : d.length = 16) (hb : ∀ b ∈ d, b < 256) :
    digest2hex d = hex_lower d ++ [Char.ofNat 0] := by
  unfold digest2hex hex_lower
  have h := range_map_getD d (fun b =>
    [hex_chars.getD ((b &&& 240) >>> 4) '0', hex_chars.getD (b &&& 15) '0'])
  rw [hl] at h
  rw [h]
  congr 2
  apply List.map_congr_left
  intro b hmem
  obtain ⟨h1, h2⟩ := hex_nibbles b (hb b hmem)
  rw [h1, h2]

theorem hex_lower_length (d : List Nat) : (hex_lower d).length = 2 * d.length := by
  unfold hex_lower
  induction d with
  | nil => rfl
  | cons b rest ih =>
    rw [List.map_cons, List.flatten_cons, List.length_append, ih, List.length_cons]
    simp only [List.length_cons, List.length_nil]
    omega

set_option maxRecDepth 100000 in
theorem hex_chars_not_nul (i : Nat) (h : i < 16) : hex_chars.getD i '0' ≠ Char.ofNat 0 := by
  have key : ∀ x < 16, hex_chars.getD x '0' ≠ Char.ofNat 0 := by decide
  exact key i h

theorem hex_lower_not_nul (d : List Nat) : ∀ c ∈ hex_lower d, c ≠ Char.ofNat 0 := by
  unfold hex_lower
  intro c hc
  obtain ⟨l, hl, hcl⟩ := List.mem_flatten.mp hc
  obtain ⟨b, _, hb⟩ := List.mem_map.mp hl
  rw [← hb] at hcl
  rcases List.mem_cons.mp hcl with h | h
  · rw [h]
    exact hex_chars_not_nul _ (Nat.mod_lt _ (by decide))
  · rw [List.mem_singleton.mp h]
    exact hex_chars_not_nul _ (Nat.mod_lt _ (by decide))

theorem mongo_pass_digest_ok (md5 : List Nat → List Nat) (conn : mongo) (user pass : List Char)
    (buf : List Char) (hu : user.length < INT32_MAX) (hp : pass.length < INT32_MAX) :
    mongo_pass_digest md5 conn user pass buf
      = (MONGO_OK, hex_lower (password_digest md5 user pass) ++ [Char.ofNat 0], conn) := by
  obtain ⟨hl, hb⟩ := mongo_md5_finish_length md5
    (string_bytes user ++ string_bytes ":mongo:".toList ++ string_bytes pass)
  unfold mongo_pass_digest
  rw [if_neg (by omega)]
  dsimp only
  unfold mongo_md5_append mongo_md5_init
  have e1 : fit user.length (user.map Char.toNat) = user.map Char.toNat :=
    fit_eq _ _ (List.length_map _ _)
  have e2 : fit (Int.toNat 7) (":mongo:".toList.map Char.toNat)
      = ":mongo:".toList.map Char.toNat := by decide
  have e3 : fit pass.length (pass.map Char.toNat) = pass.map Char.toNat :=
    fit_eq _ _ (List.length_map _ _)
  rw [Int.toNat_ofNat, Int.toNat_ofNat, e1, e2, e3, List.nil_append]
  exact congrArg (fun x => (MONGO_OK, x, conn)) (digest2hex_eq _ hl hb)

theorem fit_take (n : Nat) (buf : List Nat) (h : n ≤ buf.length) : fit n buf = buf.take n := by
  unfold fit
  rw [Nat.sub_eq_zero_of_le h, List.replicate_zero, List.append_nil]

theorem authenticate_command_eq (user nonce key : List Char) :
    authenticate_command user nonce key =
      { data := bson_document
          [bson_int_element "authenticate".toList 1, bson_string_element "user".toList user,
           bson_string_element "nonce".toList nonce, bson_string_element "key".toList key]
        finished := true, err := 0 } := by
  rw [← bson_finish_builder]
  unfold authenticate_command
  have hnil : bson_builder [] = bson_builder ([] ++ []) := rfl
  simp only [bson_init_builder]
  rw [hnil]
  simp only [bson_append_int_builder, bson_append_string_builder, List.flatten_cons,
    List.flatten_nil, List.append_nil, List.nil_append, List.append_assoc]

theorem mongo_cmd_authenticate_sends (md5 : List Nat → List Nat) (conn : mongo)
    (db user pass : List Char)
    (hok : (mongo_simple_int_command conn db "getnonce".toList 1).1 = MONGO_OK)
    (hu : user.length < INT32_MAX) (hp : pass.length < INT32_MAX)
    (hn : (getnonce_nonce conn db).length < INT32_MAX) :
    mongo_cmd_authenticate md5 conn db user pass =
      ((mongo_run_command (mongo_simple_int_command conn db "getnonce".toList 1).2.2 db
          (authenticate_command user (getnonce_nonce conn db)
            (authenticate_key md5 (getnonce_nonce conn db) user pass)) none).1,
        (mongo_run_command (mongo_simple_int_command conn db "getnonce".toList 1).2.2 db
          (authenticate_command user (getnonce_nonce conn db)
            (authenticate_key md5 (getnonce_nonce conn db) user pass)) none).2.2) := by
  have hlen := hex_lower_length (password_digest md5 user pass)
  have hpl := (mongo_md5_finish_length md5
    (string_bytes user ++ string_bytes ":mongo:".toList ++ string_bytes pass)).1
  have hpl2 : (password_digest md5 user pass).length = 16 := hpl
  obtain ⟨hl, hb⟩ := mongo_md5_finish_length md5
    (string_bytes (getnonce_nonce conn db) ++ string_bytes user
      ++ string_bytes (hex_lower (password_digest md5 user pass)))
  have e1 : fit (getnonce_nonce conn db).length ((getnonce_nonce conn db).map Char.toNat)
      = string_bytes (getnonce_nonce conn db) := fit_eq _ _ (List.length_map _ _)
  have e2 : fit user.length (user.map Char.toNat) = string_bytes user :=
    fit_eq _ _ (List.length_map _ _)
  have e3 : fit (Int.toNat 32)
      ((hex_lower (password_digest md5 user pass) ++ [Char.ofNat 0]).map Char.toNat)
      = string_bytes (hex_lower (password_digest md5 user pass)) := by
    have h32 : Int.toNat 32 = 32 := rfl
    rw [h32, fit_take _ _ (by rw [List.length_map, List.length_append, hlen, hpl2]; decide),
      List.map_append, List.take_left' (by rw [List.length_map, hlen, hpl2])]
    rfl
  have hkey : cstr (digest2hex (mongo_md5_finish md5
      (string_bytes (getnonce_nonce conn db) ++ string_bytes user
        ++ string_bytes (hex_lower (password_digest md5 user pass)))))
      = authenticate_key md5 (getnonce_nonce conn db) user pass := by
    rw [digest2hex_eq _ hl hb]
    exact cstr_append_nul _ [] (hex_lower_not_nul _)
  unfold mongo_cmd_authenticate
  dsimp only
  rw [if_pos hok, mongo_pass_digest_ok md5 _ user pass _ hu hp]
  dsimp only
  rw [if_neg (not_not.mpr rfl)]
  have hn2 : ¬ ((cstring_at (bson_iterator_string
      (bson_data (mongo_simple_int_command conn db "getnonce".toList 1).2.1)
      (bson_find_position
        (bson_data (mongo_simple_int_command conn db "getnonce".toList 1).2.1)
        "nonce".toList))).length ≥ INT32_MAX ∨ user.length ≥ INT32_MAX) := by
    have : (getnonce_nonce conn db).length < INT32_MAX := hn
    unfold getnonce_nonce at this
    omega
  rw [if_neg hn2]
  unfold mongo_md5_append mongo_md5_init
  rw [Int.toNat_ofNat, Int.toNat_ofNat, List.nil_append]
  have e1b : fit (cstring_at (bson_iterator_string
      (bson_data (mongo_simple_int_command conn db "getnonce".toList 1).2.1)
      (bson_find_position
        (bson_data (mongo_simple_int_command conn db "getnonce".toList 1).2.1)
        "nonce".toList))).length
      ((cstring_at (bson_iterator_string
      (bson_data (mongo_simple_int_command conn db "getnonce".toList 1).2.1)
      (bson_find_position
        (bson_data (mongo_simple_int_command conn db "getnonce".toList 1).2.1)
        "nonce".toList))).map Char.toNat) = string_bytes (getnonce_nonce conn db) := e1
  rw [e1b, e2, e3, hkey]
  rfl

/-- C31: with `digest` the 16 bytes that `mongo_md5_finish` gives for a message
(whatever the primitive `md5` computes) and `hex_lower` the lowercase
hexadecimal text, two characters per byte and so 32 characters:
`mongo_pass_digest` on a user name and a password shorter than `INT32_MAX`
returns `MONGO_OK`, leaves the connection as it is and writes the
NUL-terminated text hex(digest(user ++ ":mongo:" ++ pass)); longer strings are
refused with `MONGO_BSON_TOO_LARGE`.  When the getnonce command fails,
`mongo_cmd_authenticate` returns `MONGO_ERROR` with the connection as that
command left it, nothing more being sent.  When it succeeds (and the strings
are shorter than `INT32_MAX`), the function is `mongo_run_command` of the
document `{ authenticate : 1, user, nonce, key }` on the same database, with
`nonce` the string of the response's `nonce` field and
key = hex(digest(nonce ++ user ++ hex(digest(user ++ ":mongo:" ++ pass)))). -/
theorem mongo_cmd_authenticate_digests (md5 : List Nat → List Nat) (conn : mongo)
    (db user pass buf : List Char) :
    (password_digest md5 user pass).length = 16 ∧
    (hex_lower (password_digest md5 user pass)).length = 32 ∧
    (authenticate_key md5 (getnonce_nonce conn db) user pass).length = 32 ∧
    (user.length < INT32_MAX → pass.length < INT32_MAX →
      (mongo_pass_digest md5 conn user pass buf).1 = MONGO_OK ∧
      cstr (mongo_pass_digest md5 conn user pass buf).2.1
        = hex_lower (mongo_md5_finish md5
            (string_bytes user ++ string_bytes ":mongo:".toList ++ string_bytes pass)) ∧
      (mongo_pass_digest md5 conn user pass buf).2.2 = conn) ∧
    ((user.length ≥ INT32_MAX ∨ pass.length ≥ INT32_MAX) →
      (mongo_pass_digest md5 conn user pass buf).1 = MONGO_ERROR ∧
      (mongo_pass_digest md5 conn user pass buf).2.2.err = MONGO_BSON_TOO_LARGE) ∧
    ((mongo_simple_int_command conn db "getnonce".toList 1).1 ≠ MONGO_OK →
      mongo_cmd_authenticate md5 conn db user pass
        = (MONGO_ERROR, (mongo_simple_int_command conn db "getnonce".toList 1).2.2)) ∧
    ((mongo_simple_int_command conn db "getnonce".toList 1).1 = MONGO_OK →
      user.length < INT32_MAX → pass.length < INT32_MAX →
      (getnonce_nonce conn db).length < INT32_MAX →
      mongo_cmd_authenticate md5 conn db user pass =
        ((mongo_run_command (mongo_simple_int_command conn db "getnonce".toList 1).2.2 db
            (authenticate_command user (getnonce_nonce conn db)
              (authenticate_key md5 (getnonce_nonce conn db) user pass)) none).1,
          (mongo_run_command (mongo_simple_int_command conn db "getnonce".toList 1).2.2 db
            (authenticate_command user (getnonce_nonce conn db)
              (authenticate_key md5 (getnonce_nonce conn db) user pass)) none).2.2) ∧
      authenticate_command user (getnonce_nonce conn db)
          (authenticate_key md5 (getnonce_nonce conn db) user pass) =
        { data := bson_document
            [bson_int_element "authenticate".toList 1,
             bson_string_element "user".toList user,
             bson_string_element "nonce".toList (getnonce_nonce conn db),
             bson_string_element "key".toList
               (hex_lower (mongo_md5_finish md5
                 (string_bytes (getnonce_nonce conn db) ++ string_bytes user
                   ++ string_bytes (hex_lower (mongo_md5_finish md5
                     (string_bytes user ++ string_bytes ":mongo:".toList
                       ++ string_bytes pass))))))]
          finished := true, err := 0 }) := by
  have hpl : (password_digest md5 user pass).length = 16 :=
    (mongo_md5_finish_length md5 _).1
  refine ⟨hpl, by rw [hex_lower_length, hpl], ?_, ?_, ?_, ?_, ?_⟩
  · unfold authenticate_key
    rw [hex_lower_length, (mongo_md5_finish_length md5 _).1]
  · intro hu hp
    rw [mongo_pass_digest_ok md5 conn user pass buf hu hp]
    exact ⟨rfl, cstr_append_nul _ [] (hex_lower_not_nul _), rfl⟩
  · intro h
    unfold mongo_pass_digest
    rw [if_pos h]
    exact ⟨rfl, rfl⟩
  · intro hfail
    unfold mongo_cmd_authenticate
    dsimp only
    rw [if_neg hfail]
  · intro hok hu hp hn
    exact ⟨mongo_cmd_authenticate_sends md5 conn db user pass hok hu hp hn,
      authenticate_command_eq _ _ _⟩

set_option maxRecDepth 100000 in
theorem mongo_cmd_authenticate_digests_witness :
    getnonce_nonce (mongo_zeroed (sock_one_reply [doc_nonce] 0)) "db".toList = "abc".toList ∧
    mongo_cmd_authenticate md5_example (mongo_zeroed (sock_one_reply [doc_nonce] 0))
        "db".toList "u".toList "p".toList =
      ((mongo_run_command
          (mongo_simple_int_command (mongo_zeroed (sock_one_reply [doc_nonce] 0)) "db".toList
            "getnonce".toList 1).2.2 "db".toList
          (authenticate_command "u".toList
            (getnonce_nonce (mongo_zeroed (sock_one_reply [doc_nonce] 0)) "db".toList)
            (authenticate_key md5_example
              (getnonce_nonce (mongo_zeroed (sock_one_reply [doc_nonce] 0)) "db".toList)
              "u".toList "p".toList)) none).1,
        (mongo_run_command
          (mongo_simple_int_command (mongo_zeroed (sock_one_reply [doc_nonce] 0)) "db".toList
            "getnonce".toList 1).2.2 "db".toList
          (authenticate_command "u".toList
            (getnonce_nonce (mongo_zeroed (sock_one_reply [doc_nonce] 0)) "db".toList)
            (authenticate_key md5_example
              (getnonce_nonce (mongo_zeroed (sock_one_reply [doc_nonce] 0)) "db".toList)
              "u".toList "p".toList)) none).2.2) :=
  ⟨by decide,
    ((mongo_cmd_authenticate_digests md5_example (mongo_zeroed (sock_one_reply [doc_nonce] 0))
      "db".toList "u".toList "p".toList []).2.2.2.2.2.2 (by decide) (by decide) (by decide)
      (by decide)).1⟩

/-- C18: `mongo_write_concern_finish` returns `MONGO_OK` on a first and on a
second call in a row.  The first call leaves a compiled command, the finished
document of the fields of the settings, and the second call leaves a command
equal to it: the write concern after the second call is exactly the one after
the first.  The compiled command depends on the settings only, not on the
command compiled before: a call after a change of w, mode, wtimeout, j or
fsync replaces the command by the finished document of the fields of the new
settings, which is what a concern with the new settings and no command compiled
before gets.  The call leaves w, mode, wtimeout, j and fsync as they were. -/
theorem mongo_write_concern_finish_idempotent (wc : mongo_write_concern) :
    (mongo_write_concern_finish wc).1 = MONGO_OK ∧
    (mongo_write_concern_finish (mongo_write_concern_finish wc).2).1 = MONGO_OK ∧
    (mongo_write_concern_finish wc).2.cmd
      = some { data := bson_document (write_concern_fields wc), finished := true, err := 0 } ∧
    (mongo_write_concern_finish (mongo_write_concern_finish wc).2).2.cmd
      = some { data := bson_document (write_concern_fields wc), finished := true, err := 0 } ∧
    (mongo_write_concern_finish (mongo_write_concern_finish wc).2).2
      = (mongo_write_concern_finish wc).2 ∧
    (∀ old, mongo_write_concern_finish { wc with cmd := old } = mongo_write_concern_finish wc) ∧
    (∀ w, (mongo_write_concern_finish
        (mongo_write_concern_set_w (mongo_write_concern_finish wc).2 w)).2
      = { mongo_write_concern_set_w wc w with
          cmd := some { data := bson_document
                          (write_concern_fields (mongo_write_concern_set_w wc w))
                        finished := true, err := 0 } }) ∧
    (∀ m, (mongo_write_concern_finish
        (mongo_write_concern_set_mode (mongo_write_concern_finish wc).2 m)).2
      = { mongo_write_concern_set_mode wc m with
          cmd := some { data := bson_document
                          (write_concern_fields (mongo_write_concern_set_mode wc m))
                        finished := true, err := 0 } }) ∧
    (∀ t, (mongo_write_concern_finish
        (mongo_write_concern_set_wtimeout (mongo_write_concern_finish wc).2 t)).2
      = { mongo_write_concern_set_wtimeout wc t with
          cmd := some { data := bson_document
                          (write_concern_fields (mongo_write_concern_set_wtimeout wc t))
                        finished := true, err := 0 } }) ∧
    (∀ j, (mongo_write_concern_finish
        (mongo_write_concern_set_j (mongo_write_concern_finish wc).2 j)).2
      = { mongo_write_concern_set_j wc j with
          cmd := some { data := bson_document
                          (write_concern_fields (mongo_write_concern_set_j wc j))
                        finished := true, err := 0 } }) ∧
    (∀ s, (mongo_write_concern_finish
        (mongo_write_concern_set_fsync (mongo_write_concern_finish wc).2 s)).2
      = { mongo_write_concern_set_fsync wc s with
          cmd := some { data := bson_document
                          (write_concern_fields (mongo_write_concern_set_fsync wc s))
                        finished := true, err := 0 } }) ∧
    (∀ w, (mongo_write_concern_finish
        (mongo_write_concern_set_w (mongo_write_concern_finish wc).2 w)).2
      = (mongo_write_concern_finish (mongo_write_concern_set_w wc w)).2) ∧
    (∀ m, (mongo_write_concern_finish
        (mongo_write_concern_set_mode (mongo_write_concern_finish wc).2 m)).2
      = (mongo_write_concern_finish (mongo_write_concern_set_mode wc m)).2) ∧
    (∀ t, (mongo_write_concern_finish
        (mongo_write_concern_set_wtimeout (mongo_write_concern_finish wc).2 t)).2
      = (mongo_write_concern_finish (mongo_write_concern_set_wtimeout wc t)).2) ∧
    (∀ j, (mongo_write_concern_finish
        (mongo_write_concern_set_j (mongo_write_concern_finish wc).2 j)).2
      = (mongo_write_concern_finish (mongo_write_concern_set_j wc j)).2) ∧
    (∀ s, (mongo_write_concern_finish
        (mongo_write_concern_set_fsync (mongo_write_concern_finish wc).2 s)).2
      = (mongo_write_concern_finish (mongo_write_concern_set_fsync wc s)).2) ∧
    (mongo_write_concern_finish wc).2.w = wc.w ∧
    (mongo_write_concern_finish wc).2.mode = wc.mode ∧
    (mongo_write_concern_finish wc).2.wtimeout = wc.wtimeout ∧
    (mongo_write_concern_finish wc).2.j = wc.j ∧
    (mongo_write_concern_finish wc).2.fsync = wc.fsync := by
  refine ⟨?_, ?_, ?_, ?_, ?_, ?_, ?_, ?_, ?_, ?_, ?_, ?_, ?_, ?_, ?_, ?_, ?_, ?_, ?_, ?_, ?_⟩ <;>
    intros <;> simp only [mongo_write_concern_finish_eq] <;> rfl

set_option maxRecDepth 100000 in
/-- Witness of C18: the concern with w = 2 is finished twice and, after w is set
to 3, a third time.  The first two calls leave the 30 bytes of
`{getlasterror: 1, w: 2}`, the third replaces them by those of
`{getlasterror: 1, w: 3}`. -/
theorem mongo_write_concern_finish_idempotent_witness :
    (mongo_write_concern_finish (mongo_write_concern_set_w mongo_write_concern_init 2)).2.cmd
      = some { data := [30, 0, 0, 0, 16, 103, 101, 116, 108, 97, 115, 116, 101, 114, 114, 111,
                        114, 0, 1, 0, 0, 0, 16, 119, 0, 2, 0, 0, 0, 0]
               finished := true, err := 0 } ∧
    (mongo_write_concern_finish
      (mongo_write_concern_finish (mongo_write_concern_set_w mongo_write_concern_init 2)).2).2.cmd
      = some { data := [30, 0, 0, 0, 16, 103, 101, 116, 108, 97, 115, 116, 101, 114, 114, 111,
                        114, 0, 1, 0, 0, 0, 16, 119, 0, 2, 0, 0, 0, 0]
               finished := true, err := 0 } ∧
    (mongo_write_concern_finish
      (mongo_write_concern_finish (mongo_write_concern_set_w mongo_write_concern_init 2)).2).2
      = (mongo_write_concern_finish (mongo_write_concern_set_w mongo_write_concern_init 2)).2 ∧
    (mongo_write_concern_finish (mongo_write_concern_set_w
      (mongo_write_concern_finish (mongo_write_concern_set_w mongo_write_concern_init 2)).2
      3)).2
      = { w := 3, wtimeout := 0, j := 0, fsync := 0, mode := none
          cmd := some { data := [30, 0, 0, 0, 16, 103, 101, 116, 108, 97, 115, 116, 101, 114,
                                 114, 111, 114, 0, 1, 0, 0, 0, 16, 119, 0, 3, 0, 0, 0, 0]
                        finished := true, err := 0 } } :=
  ⟨(mongo_write_concern_finish_idempotent
      (mongo_write_concern_set_w mongo_write_concern_init 2)).2.2.1.trans (by decide),
    (mongo_write_concern_finish_idempotent
      (mongo_write_concern_set_w mongo_write_concern_init 2)).2.2.2.1.trans (by decide),
    (mongo_write_concern_finish_idempotent
      (mongo_write_concern_set_w mongo_write_concern_init 2)).2.2.2.2.1,
    ((mongo_write_concern_finish_idempotent
      (mongo_write_concern_set_w mongo_write_concern_init 2)).2.2.2.2.2.2.1 3).trans
      (by decide)⟩

theorem fit_declared (data : List Nat) (h0 : 0 ≤ bson_size data)
    (h1 : bson_size data ≤ (data.length : Int)) :
    fit (bson_size data % 18446744073709551616).toNat data
      = data.take (bson_size data).toNat := by
  have hlt := bson_size_lt data
  have e : (bson_size data % 18446744073709551616).toNat = (bson_size data).toNat := by
    omega
  rw [e, fit_take _ _ (by omega)]

theorem insert_batch_documents_declared (bsons : List bson)
    (hbuf : ∀ b ∈ bsons, 0 ≤ bson_size b.data ∧ bson_size b.data ≤ (b.data.length : Int)) :
    (bsons.map (fun b => fit (size_t_of_int (bson_size b.data)) b.data)).flatten
      = (bsons.map (fun b => b.data.take (bson_size b.data).toNat)).flatten := by
  induction bsons with
  | nil => rfl
  | cons b rest ih =>
    have h1 := ih (fun x hx => hbuf x (List.mem_cons_of_mem _ hx))
    have hb := hbuf b (List.mem_cons_self _ _)
    rw [List.map_cons, List.map_cons, List.flatten_cons, List.flatten_cons, h1]
    unfold size_t_of_int
    rw [fit_declared b.data hb.1 hb.2]

/-- C33: for a call of `mongo_insert_batch` that passes every check (valid
namespace; documents that pass `mongo_bson_valid` and whose buffers hold at
least the bytes they declare; sum of sizes within `max_bson_size`; a write
concern chosen without error; message length below `INT32_MAX`), the function
is the write-concern send of one message whose header has the insert opcode and
the length 16 + 4 + strlen(ns) + 1 + the sum of the documents' sizes, and whose
body is the little-endian int32 1 when bit 0 of `flags`
(`MONGO_CONTINUE_ON_ERROR`) is set and 0 otherwise, the namespace with its
NUL, and of each document in input order the bytes it declares, the first
`bson_size` bytes of its buffer, and no byte that its buffer holds beyond
them.  The body holds exactly the declared length minus the 16 header bytes,
and the header and this body are the first transport writes. -/
theorem mongo_insert_batch_message (conn : mongo) (ns : List Char) (bsons : List bson)
    (custom : Option mongo_write_concern) (flags : Int)
    (hns : (mongo_validate_ns conn ns).1 = MONGO_OK)
    (hvalid : ∀ b ∈ bsons, (mongo_bson_valid conn b true).1 = MONGO_OK)
    (hbuf : ∀ b ∈ bsons, 0 ≤ bson_size b.data ∧ bson_size b.data ≤ (b.data.length : Int))
    (hmax : 0 ≤ conn.max_bson_size ∧ conn.max_bson_size ≤ 2147483647)
    (hcount : bsons.length ≤ 2147483647)
    (hfit : batch_size bsons ≤ conn.max_bson_size)
    (hc : (mongo_choose_write_concern (insert_batch_validated conn bsons) custom none).1
      ≠ MONGO_ERROR)
    (hlen : 16 + 4 + (ns.length : Int) + 1 + batch_size bsons < 2147483647) :
    mongo_insert_batch conn ns bsons custom flags =
      mongo_message_send_and_check_write_concern
        { insert_batch_validated conn bsons with rand := conn.rand.tail } ns
        ⟨insert_batch_header conn ns bsons, insert_batch_body ns bsons flags⟩
        (mongo_choose_write_concern (insert_batch_validated conn bsons) custom none).2.1 ∧
    (insert_batch_header conn ns bsons).op = MONGO_OP_INSERT ∧
    (insert_batch_header conn ns bsons).len = 16 + 4 + (ns.length : Int) + 1
      + (bsons.map (fun b => bson_size b.data)).sum ∧
    insert_batch_body ns bsons flags =
      le32_bytes (if flags % 2 = 1 then 1 else 0) ++ (ns.map Char.toNat ++ [0])
        ++ (bsons.map (fun b => b.data.take (bson_size b.data).toNat)).flatten ∧
    MONGO_CONTINUE_ON_ERROR = 1 ∧
    ((16 + (insert_batch_body ns bsons flags).length : Nat) : Int)
      = (insert_batch_header conn ns bsons).len ∧
    sends_first conn.sock (mongo_insert_batch conn ns bsons custom flags).2.sock.trace
      (header_wire (insert_batch_header conn ns bsons))
      (le32_bytes (if flags % 2 = 1 then 1 else 0) ++ (ns.map Char.toNat ++ [0])
        ++ (bsons.map (fun b => b.data.take (bson_size b.data).toNat)).flatten) := by
  obtain ⟨h1, h2, h3⟩ := mongo_insert_batch_sends conn ns bsons custom flags hns hvalid
    (fun b hb => (hbuf b hb).1) hmax hcount hfit hc hlen
  have hbody : insert_batch_body ns bsons flags =
      le32_bytes (if flags % 2 = 1 then 1 else 0) ++ (ns.map Char.toNat ++ [0])
        ++ (bsons.map (fun b => b.data.take (bson_size b.data).toNat)).flatten := by
    unfold insert_batch_body cstring_bytes
    rw [insert_batch_documents_declared bsons hbuf]
  refine ⟨h1, rfl, rfl, hbody, rfl, h2, ?_⟩
  rw [← hbody]
  exact h3

set_option maxRecDepth 100000 in
/-- Witness of C33: a batch of `{a: 1}` in a buffer of 16 bytes (12 declared)
and the static `WC1_cmd` (32 bytes held, 23 declared), sent to `a.b` with the
continue-on-error flag: the message declares 16 + 4 + 4 + 12 + 23 = 59 bytes
and holds the 12 and the 23 declared bytes only. -/
theorem mongo_insert_batch_message_witness :
    doc_a1_slack.data.length = 16 ∧ WC1_cmd.data.length = 32 ∧
    (mongo_insert_batch conn_max_int "a.b".toList [doc_a1_slack, WC1_cmd] none
      1).2.sock.trace =
      [sock_event.wrote (header_wire ⟨59, 0, 0, MONGO_OP_INSERT⟩) true,
       sock_event.wrote ([1, 0, 0, 0] ++ [97, 46, 98, 0] ++ doc_a1 ++ WC1_data.take 23) true] ∧
    insert_batch_body "a.b".toList [doc_a1_slack, WC1_cmd] 1 =
      le32_bytes (if (1 : Int) % 2 = 1 then 1 else 0) ++ ("a.b".toList.map Char.toNat ++ [0])
        ++ ([doc_a1_slack, WC1_cmd].map
            (fun b : bson => b.data.take (bson_size b.data).toNat)).flatten ∧
    ((16 + (insert_batch_body "a.b".toList [doc_a1_slack, WC1_cmd] 1).length : Nat) : Int)
      = (insert_batch_header conn_max_int "a.b".toList [doc_a1_slack, WC1_cmd]).len :=
  have t := mongo_insert_batch_message conn_max_int "a.b".toList [doc_a1_slack, WC1_cmd] none 1
    (by decide) (by decide) (by decide) (by decide) (by decide) (by decide) (by decide)
    (by decide)
  ⟨by decide, by decide, by decide, t.2.2.2.1, t.2.2.2.2.2.1⟩

set_option maxRecDepth 100000 in
/-- C29 (the code at the failing input): the only seed `s:1` connects and
answers the probe with the set name `other` while the expected name is `rs`;
its host list holds the member `h:1`.  `mongo_replica_set_check_seed` takes the
host list and never looks at `setName`: the connection error after the seed
scan is not `MONGO_CONN_BAD_SET_NAME`.  When `h:1` does not connect,
`mongo_replica_set_client` returns `MONGO_ERROR` with `MONGO_CONN_NO_PRIMARY`,
not `MONGO_CONN_BAD_SET_NAME`; when `h:1` answers as the primary of `rs`, it
returns `MONGO_OK`.  The sibling `mongo_replica_set_check_host` (lines 681-688)
does compare the name: a member that answers with the set name `other` ends
discovery with `MONGO_CONN_BAD_SET_NAME`.  On no connection does the seed scan
store `MONGO_CONN_BAD_SET_NAME`. -/
theorem mongo_replica_set_check_seed_ignores_set_name :
    (node_answers (replica_set_client_start conn_seed_other_name) ⟨"s".toList, 1⟩ = true ∧
      probe_set_name (bson_data (node_probe (replica_set_client_start conn_seed_other_name)
        ⟨"s".toList, 1⟩).2.1) = some "other".toList ∧
      (conn_replica_set conn_seed_other_name).name = "rs".toList ∧
      (conn_replica_set (replica_set_after_seeds conn_seed_other_name)).hosts
        = [⟨"h".toList, 1⟩] ∧
      (replica_set_after_seeds conn_seed_other_name).err ≠ MONGO_CONN_BAD_SET_NAME ∧
      (mongo_replica_set_client conn_seed_other_name).1 = MONGO_ERROR ∧
      (mongo_replica_set_client conn_seed_other_name).2.err = MONGO_CONN_NO_PRIMARY ∧
      (mongo_replica_set_client conn_seed_other_name).2.err ≠ MONGO_CONN_BAD_SET_NAME ∧
      (mongo_replica_set_client conn_seed_other_name_primary).1 = MONGO_OK ∧
      (mongo_replica_set_client conn_seed_other_name_primary).2.primary
        = some ⟨"h".toList, 1⟩) ∧
    (member_reports_bad_name (members_skip [⟨"a".toList, 1⟩]
        (replica_set_after_seeds conn_bad_member)) ⟨"b".toList, 2⟩ = true ∧
      (mongo_replica_set_client conn_bad_member).1 = MONGO_ERROR ∧
      (mongo_replica_set_client conn_bad_member).2.err = MONGO_CONN_BAD_SET_NAME) ∧
    (∀ conn : mongo, conn.err = MONGO_CONN_BAD_SET_NAME ∨
      (replica_set_after_seeds conn).err ≠ MONGO_CONN_BAD_SET_NAME) := by
  refine ⟨by decide, by decide, ?_⟩
  intro conn
  by_cases herr : conn.err = MONGO_CONN_BAD_SET_NAME
  · exact Or.inl herr
  · obtain ⟨_, hscan, _⟩ := replica_set_scan_seeds_frame
      (conn_replica_set (replica_set_client_start conn)).seeds (replica_set_client_start conn)
    exact Or.inr (hscan herr)

end Mongo
